import Mathlib

/-!
# TFTP file transfer utility: packet codec

A shallow embedding of the packet codec of `src/main.c` (`receive_tftp_pkt`,
`send_first_request`, `cl_send_ack`, `svr_send_ack`, `cl_send_error_pkt`,
`svr_send_error_pkt`) and of the DATA senders of the session state machines.

Conventions of the embedding

* A byte is a `Nat` (below 256 for every value the program stores); a C array is
  a `List Nat` of the declared capacity; machine integers are `Nat`/`Int` with an
  explicit `% 2 ^ w` where the C type truncates.
* An array store `a[i] = v` is `List.set`: a store at an index outside the array
  leaves the array unchanged.  Where such a store lands is a matter of memory
  layout, which the embedding does not model; every store of the decoder is
  recorded, with its index, in the write trace of the run, so that the bounds of
  the indices are statable.
* A C string is the list of its bytes before the terminating NUL.
* Ports are host-order numbers: `htons`/`ntohs` on a port are the identity of
  the model.  `ntohs(*p)` on two packet bytes is the big-endian value
  `256 * hi + lo`.
-/

namespace TFTP

/-! ## Constants (`src/main.c` lines 33-41, 59-66) -/

def PROT_MAX_DATA : Nat := 512
def MAX_TX_BUFF : Nat := 600
def MAX_RX_BUFF : Nat := 2048
def MAX_MODE_BUFF : Nat := 12

def ACK_TIMEOUT_SECS : Nat := 3
def PROGRESS_TMR_SEC : Nat := 3

def TFTP_RRQ : Nat := 1
def TFTP_WRQ : Nat := 2
def TFTP_DATA : Nat := 3
def TFTP_ACK : Nat := 4
def TFTP_ERROR : Nat := 5

/-- The value of `READ_OPT_CODE_1`, first enumerator of `prot_st_t`. -/
def READ_OPT_CODE_1 : Nat := 0

/-! ## Memory primitives -/

/-- The byte `buf[n]`; a read outside the backing array yields 0 in the model. -/
def rd (buf : List Nat) (n : Nat) : Nat := buf.getD n 0

/-- The C string stored in a byte array: the bytes before the first NUL. -/
def cstr (buf : List Nat) : List Nat := buf.takeWhile (fun c => c != 0)

/-- The function `strlen` on the bytes of a string argument. -/
def strlen (s : List Nat) : Nat := (cstr s).length

/-- The function `memcpy(&dst[off], src, |src|)`, byte by byte. -/
def memcpy (dst : List Nat) (off : Nat) : List Nat → List Nat
  | [] => dst
  | b :: bs => memcpy (dst.set off b) (off + 1) bs

/-- The value `ntohs(*p)` for `p = (uint16_t*)&pktBuf[n]`. -/
def ntohs_at (pktBuf : List Nat) (n : Nat) : Nat := 256 * rd pktBuf n + rd pktBuf (n + 1)

/-! ## The receive structure (`prot_frame_info_t`, lines 69-85) -/

structure prot_frame_info_t where
  state : Nat
  optcode : Nat
  blocknum : Nat
  errCode : Nat
  rxLen : Nat
  dataBuf : List Nat
  filename : List Nat
  mode : List Nat
  errMessage : List Nat
  isLastDataBlock : Int
  deriving Repr, DecidableEq

/-- A receive structure whose arrays have their declared capacities. -/
def prot_frame_info_t.WellSized (pf : prot_frame_info_t) : Prop :=
  pf.dataBuf.length = PROT_MAX_DATA ∧ pf.filename.length = PROT_MAX_DATA ∧
  pf.mode.length = MAX_MODE_BUFF ∧ pf.errMessage.length = PROT_MAX_DATA

/-- The receive structure after `memset(&ctx, 0, sizeof(ctx))`. -/
def prot_frame_info_t.zero : prot_frame_info_t :=
  { state := 0, optcode := 0, blocknum := 0, errCode := 0, rxLen := 0,
    dataBuf := List.replicate PROT_MAX_DATA 0,
    filename := List.replicate PROT_MAX_DATA 0,
    mode := List.replicate MAX_MODE_BUFF 0,
    errMessage := List.replicate PROT_MAX_DATA 0,
    isLastDataBlock := 0 }

/-- Function `init_receive_pkt` (lines 424-428). -/
def init_receive_pkt (pf : prot_frame_info_t) : prot_frame_info_t :=
  { pf with state := READ_OPT_CODE_1, rxLen := 0 }

/-- The array members of `prot_frame_info_t`. -/
inductive RxField where
  | dataBuf
  | filename
  | mode
  | errMessage
  deriving Repr, DecidableEq

/-- The declared capacity of an array member. -/
def RxField.cap : RxField → Nat
  | .dataBuf => PROT_MAX_DATA
  | .filename => PROT_MAX_DATA
  | .mode => MAX_MODE_BUFF
  | .errMessage => PROT_MAX_DATA

/-- A run of the decoder: the receive structure, the indices of `pktBuf` read so
far and the array stores done so far (member and index), most recent first. -/
structure RxRun where
  pf : prot_frame_info_t
  reads : List Nat
  writes : List (RxField × Nat)
  deriving Repr, DecidableEq

/-- Record a read of `pktBuf[n]`. -/
def RxRun.load (r : RxRun) (n : Nat) : RxRun := { r with reads := n :: r.reads }

/-- The content of an array member. -/
def prot_frame_info_t.field (pf : prot_frame_info_t) : RxField → List Nat
  | .dataBuf => pf.dataBuf
  | .filename => pf.filename
  | .mode => pf.mode
  | .errMessage => pf.errMessage

/-- The receive structure with the content of one array member replaced. -/
def prot_frame_info_t.withField (pf : prot_frame_info_t) : RxField → List Nat → prot_frame_info_t
  | .dataBuf, l => { pf with dataBuf := l }
  | .filename, l => { pf with filename := l }
  | .mode, l => { pf with mode := l }
  | .errMessage, l => { pf with errMessage := l }

/-- The store `pf->f[i] = v`, recorded in `writes`.  The content of the member
changes for an index below its capacity.  A store at or past the capacity lands,
in C, in the members that follow the array (lines 79-84) and, past `rxInfo`, in
the session members behind it (lines 107-116); the model records it in `writes`
and leaves the content of every member as it was, so the run agrees with the
code on the runs all of whose stores are inside the receive structure. -/
def RxRun.store (r : RxRun) (f : RxField) (i v : Nat) : RxRun :=
  { pf := r.pf.withField f ((r.pf.field f).set i v),
    reads := r.reads,
    writes := (f, i) :: r.writes }

/-! ## `receive_tftp_pkt` (lines 435-518) -/

/-- The loop `for (i = 0; i < dataLen; i++) pf->dataBuf[i] = pktBuf[n++];`
(lines 465-468), from the loop state `(i, n)`.  The first argument bounds the
number of iterations; `dataLen - i` is enough. -/
def dataLoop (pktBuf : List Nat) (dataLen : Nat) : Nat → Nat → Nat → RxRun → Nat × Nat × RxRun
  | 0, i, n, r => (i, n, r)
  | fuel + 1, i, n, r =>
    if i < dataLen then
      dataLoop pktBuf dataLen fuel (i + 1) (n + 1) ((r.load n).store .dataBuf i (rd pktBuf n))
    else (i, n, r)

/-- The loops `while ((n != 0x00) && (i < cap)) pf->f[i++] = pktBuf[n++];`
(lines 481-484, 489-492, 504-507), from the loop state `(n, i)`.  The guard
tests the index `n`, as the source does.  The first argument bounds the number
of iterations; `cap - i` is enough. -/
def strLoop (pktBuf : List Nat) (f : RxField) (cap : Nat) : Nat → Nat → Nat → RxRun → Nat × Nat × RxRun
  | 0, n, i, r => (n, i, r)
  | fuel + 1, n, i, r =>
    if n ≠ 0 ∧ i < cap then
      strLoop pktBuf f cap fuel (n + 1) (i + 1) ((r.load n).store f i (rd pktBuf n))
    else (n, i, r)

/-- The `TFTP_DATA` case (lines 452-469), entered with `n = 2`. -/
def rxData (pktBuf : List Nat) (pktBufLen : Nat) (r : RxRun) : RxRun :=
  let n := 2
  let r := ((r.load n).load (n + 1))
  let r := { r with pf := { r.pf with blocknum := ntohs_at pktBuf n } }
  let n := n + 2
  let dataLen := pktBufLen - 4
  let r := { r with pf := { r.pf with isLastDataBlock := if dataLen < PROT_MAX_DATA then 1 else 0 } }
  (dataLoop pktBuf dataLen dataLen 0 n r).2.2

/-- The `TFTP_ACK` case (lines 471-475), entered with `n = 2`. -/
def rxAck (pktBuf : List Nat) (r : RxRun) : RxRun :=
  let n := 2
  let r := ((r.load n).load (n + 1))
  { r with pf := { r.pf with blocknum := ntohs_at pktBuf n } }

/-- The `TFTP_RRQ`/`TFTP_WRQ` case (lines 477-495), entered with `n = 2`. -/
def rxRequest (pktBuf : List Nat) (r : RxRun) : RxRun :=
  let n := 2
  let i := 0
  let loop := strLoop pktBuf .filename PROT_MAX_DATA (PROT_MAX_DATA - i) n i r
  let n := loop.1
  let i := loop.2.1
  let r := loop.2.2
  let r := r.store .filename i 0
  let i := i + 1
  let n := n + 1
  let loop := strLoop pktBuf .mode MAX_MODE_BUFF (MAX_MODE_BUFF - i) n i r
  let i := loop.2.1
  let r := loop.2.2
  r.store .mode i 0

/-- The `TFTP_ERROR` case (lines 497-510), entered with `n = 2`. -/
def rxError (pktBuf : List Nat) (r : RxRun) : RxRun :=
  let n := 2
  let r := ((r.load n).load (n + 1))
  let r := { r with pf := { r.pf with errCode := ntohs_at pktBuf n } }
  let n := n + 2
  let i := 0
  let loop := strLoop pktBuf .errMessage PROT_MAX_DATA (PROT_MAX_DATA - i) n i r
  let i := loop.2.1
  let r := loop.2.2
  r.store .errMessage i 0

/-- Function `receive_tftp_pkt`: `pktBuf` is the backing array (the receive
buffer of the event loop), `pktBufLen` the length of the datagram in it.  The
result is the return value (1 success, 0 malformed packet) and the run. -/
def receive_tftp_pkt (pf : prot_frame_info_t) (pktBuf : List Nat) (pktBufLen : Nat) : Nat × RxRun :=
  let r : RxRun := { pf := pf, reads := [], writes := [] }
  if pktBufLen < 4 then (0, r)
  else
    let r := r.load 0
    if rd pktBuf 0 ≠ 0 then (0, r)
    else
      let r := r.load 1
      let r := { r with pf := { r.pf with optcode := rd pktBuf 1 } }
      if r.pf.optcode = TFTP_DATA then
        let r := rxData pktBuf pktBufLen r
        (1, { r with pf := { r.pf with rxLen := pktBufLen % 65536 } })
      else if r.pf.optcode = TFTP_ACK then
        let r := rxAck pktBuf r
        (1, { r with pf := { r.pf with rxLen := pktBufLen % 65536 } })
      else if r.pf.optcode = TFTP_RRQ ∨ r.pf.optcode = TFTP_WRQ then
        let r := rxRequest pktBuf r
        (1, { r with pf := { r.pf with rxLen := pktBufLen % 65536 } })
      else if r.pf.optcode = TFTP_ERROR then
        let r := rxError pktBuf r
        (1, { r with pf := { r.pf with rxLen := pktBufLen % 65536 } })
      else (0, r)

/-! ## Collaborators: timer (`src/tmr.c`), files, transport -/

/-- The text of a C string literal as bytes. -/
def ascii (s : String) : List Nat := s.toList.map Char.toNat

structure tick_timer_t where
  tStart : Nat
  tTimeout : Nat
  tDiff : Nat
  running : Nat
  deriving Repr, DecidableEq

/-- Function `get_tick_count` (`src/tmr.c` lines 18-32) on a monotonic clock
reading in milliseconds: the cast to `uint32_t`. -/
def get_tick_count (clockMs : Nat) : Nat := clockMs % 2 ^ 32

/-- Function `UtilTickTimerStart` (`src/tmr.c` lines 34-41); `tick` is the value
`get_tick_count()` returns. -/
def UtilTickTimerStart (tick : Nat) (_t : tick_timer_t) (timeout_secs : Nat) : tick_timer_t :=
  { tStart := tick, tTimeout := (timeout_secs * 1000) % 2 ^ 32, tDiff := 0, running := 1 }

/-- Function `UtilTickTimerStartMs` (`src/tmr.c` lines 44-51). -/
def UtilTickTimerStartMs (tick : Nat) (_t : tick_timer_t) (timeout_ms : Nat) : tick_timer_t :=
  { tStart := tick, tTimeout := timeout_ms, tDiff := 0, running := 1 }

/-- Function `UtilTickTimerRun` (`src/tmr.c` lines 55-75): the return value and
the timer; `now - t->tStart` is a `uint32_t` subtraction. -/
def UtilTickTimerRun (tick : Nat) (t : tick_timer_t) : Nat × tick_timer_t :=
  if t.running = 0 then (0, t)
  else
    let now := tick
    let diff := (now + (2 ^ 32 - t.tStart % 2 ^ 32)) % 2 ^ 32
    let t := { t with tDiff := diff }
    if diff ≥ t.tTimeout then (1, { t with running := 0 })
    else (0, t)

/-- Function `UtilStopTimer` (`src/tmr.c` lines 77-80). -/
def UtilStopTimer (t : tick_timer_t) : tick_timer_t := { t with running := 0 }

/-- An open stream: the bytes of the file and the position of the stream.  A
stream opened for writing holds the bytes written so far. -/
structure FILE where
  content : List Nat
  pos : Nat
  deriving Repr, DecidableEq

/-- The call `fread(dst, 1, count, pFile)`: the bytes read and the stream after
it.  The handlers call it on an open stream; on `NULL` the model reads nothing. -/
def fread (pFile : Option FILE) (count : Nat) : List Nat × Option FILE :=
  match pFile with
  | none => ([], none)
  | some f =>
    let bytes := (f.content.drop f.pos).take count
    (bytes, some { f with pos := f.pos + bytes.length })

/-- A datagram handed to `sendto`: the socket descriptor, the destination
address and port, and the bytes `txBuf[0..len)`. -/
structure Datagram where
  sock : Int
  ip : List Nat
  port : Nat
  bytes : List Nat
  deriving Repr, DecidableEq

/-- What the environment answers during one call of a function of the program:
the tick counter, the return value of `sendto`, the outcome of `fopen`, and the
number of bytes a call of `fwrite` can store. -/
structure Env where
  tick : Nat
  sendRc : Int
  fopenRead : List Nat → Option (List Nat)
  fopenWrite : List Nat → Bool
  fwriteLimit : Nat

/-- The process-wide variables of `src/main.c` (lines 184-189) that the
protocol engine reads or writes. -/
structure Globals where
  gDone : Int
  gFsmDebugOn : Int
  gDebugDropPacket : Int
  gDebugDropAllPks : Int
  gMaxNumRetransTries : Int
  gSrvPort : Nat
  deriving Repr, DecidableEq

def INVALID_SOCKET : Int := -1

/-! ## Sessions (lines 88-149) -/

def CL_ST_GETFILE_RXDATA : Nat := 0
def CL_ST_PUTFILE_TXDATA : Nat := 1

def SVR_ST_WAIT_FIST_REQUEST : Nat := 0
def SVR_ST_GETFILE_TXDATA : Nat := 1
def SVR_ST_PUTFILE_RXDATA : Nat := 2

def EV_CL_TIMEOUT : Nat := 0
def EV_CL_PDU_RX : Nat := 1
def EV_SVR_TIMEOUT : Nat := 0
def EV_SVR_PDU_RX : Nat := 1

/-- The structure `client_session_t`, with two ghost members: `sent`, the
datagrams handed to `sendto` (most recent first), and `closed`, the streams
closed with `fclose` (most recent first). -/
structure client_session_t where
  clientSock : Int
  remoteIpStr : List Nat
  remotePort : Nat
  svrPort : Nat
  state : Nat
  isFirstDataBlock : Int
  tmr1 : tick_timer_t
  tmr2 : tick_timer_t
  num_retrans_tries : Int
  blockNum : Nat
  nextExpectedBlockNum : Nat
  rxInfo : prot_frame_info_t
  pFile : Option FILE
  filename : List Nat
  lastTxPort : Nat
  txBuf : List Nat
  txLen : Nat
  sent : List Datagram
  closed : List FILE
  deriving Repr, DecidableEq

/-- The structure `server_session_t`, with the ghost members `sent` and
`closed` as in `client_session_t`. -/
structure server_session_t where
  serverSock : Int
  client_Port : Nat
  client_ip : List Nat
  tmr1 : tick_timer_t
  tmr2 : tick_timer_t
  num_retrans_tries : Int
  state : Nat
  blockNum : Nat
  nextExpectedBlockNum : Nat
  rxInfo : prot_frame_info_t
  pFile : Option FILE
  filename : List Nat
  lastTxPort : Nat
  txBuf : List Nat
  txLen : Nat
  sent : List Datagram
  closed : List FILE
  deriving Repr, DecidableEq

/-- Function `client_change_state` (lines 314-329). -/
def client_change_state (ctx : client_session_t) (newState : Nat) : client_session_t :=
  { ctx with state := newState }

/-- Function `server_change_state` (lines 334-349). -/
def server_change_state (ctx : server_session_t) (newState : Nat) : server_session_t :=
  { ctx with state := newState }

/-- Function `cl_send_packet_buffer` (lines 355-387). -/
def cl_send_packet_buffer (env : Env) (ctx : client_session_t) (isReTransmit : Int) :
    Nat × client_session_t :=
  let port := if isReTransmit ≠ 0 then ctx.lastTxPort else ctx.svrPort
  let ctx := { ctx with lastTxPort := port }
  let ctx := { ctx with sent := ⟨ctx.clientSock, ctx.remoteIpStr, port, ctx.txBuf.take ctx.txLen⟩ :: ctx.sent }
  if env.sendRc < 0 then (0, ctx) else (1, ctx)

/-- Function `svr_send_packet_buffer` (lines 393-419). -/
def svr_send_packet_buffer (env : Env) (ctx : server_session_t) (isReTransmit : Int) :
    Nat × server_session_t :=
  let port := if isReTransmit ≠ 0 then ctx.lastTxPort else ctx.client_Port
  let ctx := { ctx with lastTxPort := port }
  let ctx := { ctx with sent := ⟨ctx.serverSock, ctx.client_ip, port, ctx.txBuf.take ctx.txLen⟩ :: ctx.sent }
  if env.sendRc < 0 then (0, ctx) else (1, ctx)

/-- Function `close_socket` (lines 602-615). -/
def close_socket (sock : Int) : Int :=
  if sock = INVALID_SOCKET then sock else INVALID_SOCKET

/-- Function `cl_close_file_and_sock` (lines 619-629). -/
def cl_close_file_and_sock (ctx : client_session_t) : client_session_t :=
  let ctx := { ctx with clientSock := close_socket ctx.clientSock }
  match ctx.pFile with
  | some f => { ctx with pFile := none, closed := f :: ctx.closed }
  | none => ctx

/-- Function `svr_close_file_and_sock` (lines 633-642). -/
def svr_close_file_and_sock (ctx : server_session_t) : server_session_t :=
  let ctx := { ctx with serverSock := close_socket ctx.serverSock }
  match ctx.pFile with
  | some f => { ctx with pFile := none, closed := f :: ctx.closed }
  | none => ctx

/-! ## Encoders -/

/-- Function `send_first_request` (lines 524-590). -/
def send_first_request (env : Env) (g : Globals) (ctx : client_session_t)
    (operationStr filename : List Nat) : Nat × client_session_t :=
  let n := 0
  if strlen filename > PROT_MAX_DATA then (0, ctx)
  else
    let ctx :=
      if cstr operationStr = ascii "getfile" then
        let ctx := { ctx with txBuf := (ctx.txBuf.set n 0x00).set (n + 1) TFTP_RRQ }
        let ctx := { ctx with nextExpectedBlockNum := 1 }
        client_change_state ctx CL_ST_GETFILE_RXDATA
      else
        let ctx := { ctx with txBuf := (ctx.txBuf.set n 0x00).set (n + 1) TFTP_WRQ }
        let ctx := { ctx with nextExpectedBlockNum := 0 }
        client_change_state ctx CL_ST_PUTFILE_TXDATA
    let n := n + 2
    let ctx := { ctx with tmr1 := UtilTickTimerStart env.tick ctx.tmr1 ACK_TIMEOUT_SECS }
    let ctx :=
      if g.gFsmDebugOn = 0 then
        { ctx with tmr2 := UtilTickTimerStart env.tick ctx.tmr2 PROGRESS_TMR_SEC }
      else ctx
    let filenameLen := strlen filename
    let ctx := { ctx with txBuf := memcpy ctx.txBuf n (cstr filename ++ [0]) }
    let n := n + (filenameLen + 1)
    let ctx := { ctx with txBuf := memcpy ctx.txBuf n (cstr (ascii "octet") ++ [0]) }
    let n := n + (strlen (ascii "octet") + 1)
    let ctx := { ctx with txLen := n % 65536 }
    let ctx := { ctx with lastTxPort := ctx.remotePort }
    let ctx := { ctx with sent := ⟨ctx.clientSock, ctx.remoteIpStr, ctx.remotePort, ctx.txBuf.take n⟩ :: ctx.sent }
    if env.sendRc = -1 then (0, ctx) else (1, ctx)

/-- Function `cl_send_ack` (lines 647-682). -/
def cl_send_ack (env : Env) (ctx : client_session_t) : Nat × client_session_t :=
  let n := 0
  let ctx := { ctx with txBuf := ctx.txBuf.set n 0x00 }
  let ctx := { ctx with txBuf := ctx.txBuf.set (n + 1) TFTP_ACK }
  let ctx := { ctx with txBuf := ctx.txBuf.set (n + 2) ((ctx.blockNum >>> 8) &&& 0xFF) }
  let ctx := { ctx with txBuf := ctx.txBuf.set (n + 3) (ctx.blockNum &&& 0xFF) }
  let n := n + 4
  let ctx := { ctx with txLen := n }
  let ctx := { ctx with lastTxPort := ctx.svrPort }
  let ctx := { ctx with sent := ⟨ctx.clientSock, ctx.remoteIpStr, ctx.svrPort, ctx.txBuf.take n⟩ :: ctx.sent }
  if env.sendRc = -1 then (0, ctx) else (1, ctx)

/-- Function `svr_send_ack` (lines 687-722). -/
def svr_send_ack (env : Env) (ctx : server_session_t) : Nat × server_session_t :=
  let n := 0
  let ctx := { ctx with txBuf := ctx.txBuf.set n 0x00 }
  let ctx := { ctx with txBuf := ctx.txBuf.set (n + 1) TFTP_ACK }
  let ctx := { ctx with txBuf := ctx.txBuf.set (n + 2) ((ctx.blockNum >>> 8) &&& 0xFF) }
  let ctx := { ctx with txBuf := ctx.txBuf.set (n + 3) (ctx.blockNum &&& 0xFF) }
  let n := n + 4
  let ctx := { ctx with txLen := n }
  let ctx := { ctx with lastTxPort := ctx.client_Port }
  let ctx := { ctx with sent := ⟨ctx.serverSock, ctx.client_ip, ctx.client_Port, ctx.txBuf.take n⟩ :: ctx.sent }
  if env.sendRc = -1 then (0, ctx) else (1, ctx)

/-- Function `cl_send_error_pkt` (lines 729-770).  The `memcpy` destination is
`&ctx->txBuf[n++]`, that is index 4, and `n` is not used afterwards; the
terminator is stored at the index `ctx->txLen` holds before its increment. -/
def cl_send_error_pkt (env : Env) (ctx : client_session_t) (errCode : Nat) (errMsg : List Nat) :
    Nat × client_session_t :=
  let n := 0
  if strlen errMsg > PROT_MAX_DATA then (0, ctx)
  else
    let ctx := { ctx with txBuf := ctx.txBuf.set n 0x00 }
    let ctx := { ctx with txBuf := ctx.txBuf.set (n + 1) TFTP_ERROR }
    let ctx := { ctx with txBuf := ctx.txBuf.set (n + 2) (((errCode >>> 8) &&& 0xff) % 256) }
    let ctx := { ctx with txBuf := ctx.txBuf.set (n + 3) ((errCode &&& 0xff) % 256) }
    let n := n + 4
    let ctx := { ctx with txBuf := memcpy ctx.txBuf n (cstr errMsg) }
    let ctx := { ctx with txLen := (5 + strlen errMsg) % 65536 }
    let ctx := { ctx with txBuf := ctx.txBuf.set ctx.txLen 0x00, txLen := (ctx.txLen + 1) % 65536 }
    let ctx := { ctx with sent := ⟨ctx.clientSock, ctx.remoteIpStr, ctx.svrPort, ctx.txBuf.take ctx.txLen⟩ :: ctx.sent }
    if env.sendRc = -1 then (0, ctx) else (1, ctx)

/-- Function `svr_send_error_pkt` (lines 777-818); see `cl_send_error_pkt`. -/
def svr_send_error_pkt (env : Env) (ctx : server_session_t) (errCode : Nat) (errMsg : List Nat) :
    Nat × server_session_t :=
  let n := 0
  if strlen errMsg > PROT_MAX_DATA then (0, ctx)
  else
    let ctx := { ctx with txBuf := ctx.txBuf.set n 0x00 }
    let ctx := { ctx with txBuf := ctx.txBuf.set (n + 1) TFTP_ERROR }
    let ctx := { ctx with txBuf := ctx.txBuf.set (n + 2) (((errCode >>> 8) &&& 0xff) % 256) }
    let ctx := { ctx with txBuf := ctx.txBuf.set (n + 3) ((errCode &&& 0xff) % 256) }
    let n := n + 4
    let ctx := { ctx with txBuf := memcpy ctx.txBuf n (cstr errMsg) }
    let ctx := { ctx with txLen := (5 + strlen errMsg) % 65536 }
    let ctx := { ctx with txBuf := ctx.txBuf.set ctx.txLen 0x00, txLen := (ctx.txLen + 1) % 65536 }
    let ctx := { ctx with sent := ⟨ctx.serverSock, ctx.client_ip, ctx.client_Port, ctx.txBuf.take ctx.txLen⟩ :: ctx.sent }
    if env.sendRc = -1 then (0, ctx) else (1, ctx)

/-! ## The DATA senders of the state machines

The handlers return their C return value (where they have one), the session
and the process-wide variables.  Console output and the `static` byte counters,
which only feed it, are not modelled. -/

/-- The progress report shared by the handlers:
`if ((!gFsmDebugOn) && (UtilTickTimerRun(&ctx->tmr2))) UtilTickTimerStart(&ctx->tmr2, PROGRESS_TMR_SEC);` -/
def progressTimer (env : Env) (g : Globals) (tmr2 : tick_timer_t) : tick_timer_t :=
  if g.gFsmDebugOn = 0 then
    let (expired, tmr2) := UtilTickTimerRun env.tick tmr2
    if expired ≠ 0 then UtilTickTimerStart env.tick tmr2 PROGRESS_TMR_SEC else tmr2
  else tmr2

/-- Function `cl_putfile_txData` (lines 823-939). -/
def cl_putfile_txData (env : Env) (g : Globals) (ctx : client_session_t) (ev : Nat) :
    Nat × client_session_t × Globals :=
  let bytesToRead := PROT_MAX_DATA
  if ev = EV_CL_TIMEOUT then
    let ctx := { ctx with num_retrans_tries := ctx.num_retrans_tries + 1 }
    if ctx.num_retrans_tries = g.gMaxNumRetransTries then
      let ctx := { ctx with num_retrans_tries := 0 }
      let ctx := (cl_send_error_pkt env ctx 0
        (ascii "timeout waiting for ack, closing connection\n")).2
      let ctx := cl_close_file_and_sock ctx
      (0, ctx, { g with gDone := 1 })
    else
      let ctx := (cl_send_packet_buffer env ctx 1).2
      let ctx := { ctx with tmr1 := UtilTickTimerStart env.tick ctx.tmr1 ACK_TIMEOUT_SECS }
      (1, ctx, g)
  else if ev = EV_CL_PDU_RX then
    if ctx.rxInfo.optcode = TFTP_ACK then
      if ctx.rxInfo.blocknum ≠ ctx.nextExpectedBlockNum then (1, ctx, g)
      else
        let ctx := { ctx with nextExpectedBlockNum := (ctx.nextExpectedBlockNum + 1) % 65536 }
        let ctx := { ctx with blockNum := (ctx.blockNum + 1) % 65536 }
        let ctx := { ctx with num_retrans_tries := 0 }
        let (bytes, pFile) := fread ctx.pFile bytesToRead
        let ctx := { ctx with txBuf := memcpy ctx.txBuf 4 bytes, pFile := pFile }
        let bytesRead := bytes.length
        if bytesRead = 0 ∧ ctx.isFirstDataBlock = 0 ∧ (ctx.txLen : Int) - 4 < PROT_MAX_DATA then
          (0, ctx, g)
        else
          let n := 0
          let ctx := { ctx with txBuf := ctx.txBuf.set n 0x00 }
          let ctx := { ctx with txBuf := ctx.txBuf.set (n + 1) TFTP_DATA }
          let ctx := { ctx with txBuf := ctx.txBuf.set (n + 2) (((ctx.blockNum >>> 8) &&& 0xff) % 256) }
          let ctx := { ctx with txBuf := ctx.txBuf.set (n + 3) ((ctx.blockNum &&& 0xff) % 256) }
          let ctx := { ctx with txLen := (4 + bytesRead) % 65536 }
          let (rc, ctx) := cl_send_packet_buffer env ctx 0
          if rc = 0 then
            let ctx := (cl_send_error_pkt env ctx 0
              (ascii "error sending data packet, closing connection")).2
            let ctx := cl_close_file_and_sock ctx
            (0, ctx, g)
          else
            let ctx := { ctx with tmr2 := progressTimer env g ctx.tmr2 }
            let ctx := { ctx with tmr1 := UtilTickTimerStart env.tick ctx.tmr1 ACK_TIMEOUT_SECS }
            let ctx := { ctx with isFirstDataBlock := 0 }
            (1, ctx, g)
    else if ctx.rxInfo.optcode = TFTP_ERROR then
      (0, cl_close_file_and_sock ctx, g)
    else
      let ctx := (cl_send_error_pkt env ctx 0 (ascii "error unexpected optcode recieved")).2
      (0, cl_close_file_and_sock ctx, g)
  else (1, ctx, g)

/-- The statement `if (ctx->pFile != NULL) { fclose(ctx->pFile); ctx->pFile = NULL; }`
of the server handlers. -/
def svr_close_file (ctx : server_session_t) : server_session_t :=
  match ctx.pFile with
  | some f => { ctx with pFile := none, closed := f :: ctx.closed }
  | none => ctx

/-- Function `svr_wait_first_request` (lines 1104-1215).  `ctx->filename` is
the string held by `rxInfo.filename` at the time of the request. -/
def svr_wait_first_request (env : Env) (g : Globals) (ctx : server_session_t) (ev : Nat) :
    server_session_t :=
  let bytesToRead := PROT_MAX_DATA
  if ev = EV_SVR_PDU_RX then
    if ctx.rxInfo.optcode = TFTP_WRQ then
      let ctx := { ctx with
        pFile := if env.fopenWrite (cstr ctx.rxInfo.filename) then some ⟨[], 0⟩ else none }
      if ctx.pFile = none then
        (svr_send_error_pkt env ctx 1 (ascii "file not found")).2
      else
        let ctx := { ctx with filename := cstr ctx.rxInfo.filename }
        let ctx := { ctx with blockNum := 0 }
        let ctx := { ctx with nextExpectedBlockNum := 1 }
        let ctx := (svr_send_ack env ctx).2
        let ctx := { ctx with tmr1 := UtilTickTimerStart env.tick ctx.tmr1 ACK_TIMEOUT_SECS }
        let ctx :=
          if g.gFsmDebugOn = 0 then
            { ctx with tmr2 := UtilTickTimerStart env.tick ctx.tmr2 PROGRESS_TMR_SEC }
          else ctx
        server_change_state ctx SVR_ST_PUTFILE_RXDATA
    else if ctx.rxInfo.optcode = TFTP_RRQ then
      let ctx := { ctx with
        pFile := (env.fopenRead (cstr ctx.rxInfo.filename)).map (fun content => ⟨content, 0⟩) }
      if ctx.pFile = none then
        (svr_send_error_pkt env ctx 1 (ascii "file not found")).2
      else
        let ctx := { ctx with filename := cstr ctx.rxInfo.filename }
        let ctx := { ctx with blockNum := 1 }
        let ctx := { ctx with nextExpectedBlockNum := 1 }
        let n := 0
        let ctx := { ctx with txBuf := ctx.txBuf.set n 0x00 }
        let ctx := { ctx with txBuf := ctx.txBuf.set (n + 1) TFTP_DATA }
        let ctx := { ctx with txBuf := ctx.txBuf.set (n + 2) (((ctx.blockNum >>> 8) &&& 0xff) % 256) }
        let ctx := { ctx with txBuf := ctx.txBuf.set (n + 3) ((ctx.blockNum &&& 0xff) % 256) }
        let n := n + 4
        let (bytes, pFile) := fread ctx.pFile bytesToRead
        let ctx := { ctx with txBuf := memcpy ctx.txBuf n bytes, pFile := pFile }
        let bytesRead := bytes.length
        let n := n + bytesRead
        let ctx := { ctx with txLen := n % 65536 }
        let (rc, ctx) := svr_send_packet_buffer env ctx 0
        if rc = 0 then
          let ctx := (svr_send_error_pkt env ctx 0 (ascii "error sending data packet")).2
          server_change_state ctx SVR_ST_WAIT_FIST_REQUEST
        else
          let ctx := { ctx with tmr1 := UtilTickTimerStart env.tick ctx.tmr1 ACK_TIMEOUT_SECS }
          let ctx :=
            if g.gFsmDebugOn = 0 then
              { ctx with tmr2 := UtilTickTimerStart env.tick ctx.tmr2 PROGRESS_TMR_SEC }
            else ctx
          server_change_state ctx SVR_ST_GETFILE_TXDATA
    else
      let ctx := (svr_send_error_pkt env ctx 0 (ascii "error sending data packet")).2
      server_change_state ctx SVR_ST_WAIT_FIST_REQUEST
  else server_change_state ctx SVR_ST_WAIT_FIST_REQUEST

/-- Function `svr_getfile_txData` (lines 1220-1347). -/
def svr_getfile_txData (env : Env) (g : Globals) (ctx : server_session_t) (ev : Nat) :
    server_session_t :=
  let bytesToRead := PROT_MAX_DATA
  if ev = EV_SVR_TIMEOUT then
    let ctx := { ctx with num_retrans_tries := ctx.num_retrans_tries + 1 }
    if ctx.num_retrans_tries = g.gMaxNumRetransTries then
      let ctx := { ctx with num_retrans_tries := 0 }
      let ctx := (svr_send_error_pkt env ctx 0
        (ascii "timeout waiting for ACK, closing connection\n")).2
      let ctx := svr_close_file ctx
      server_change_state ctx SVR_ST_WAIT_FIST_REQUEST
    else
      let ctx := (svr_send_packet_buffer env ctx 1).2
      { ctx with tmr1 := UtilTickTimerStart env.tick ctx.tmr1 ACK_TIMEOUT_SECS }
  else if ev = EV_SVR_PDU_RX then
    if ctx.rxInfo.optcode = TFTP_ACK then
      if ctx.rxInfo.blocknum ≠ ctx.nextExpectedBlockNum then ctx
      else
        let ctx := { ctx with nextExpectedBlockNum := (ctx.nextExpectedBlockNum + 1) % 65536 }
        let ctx := { ctx with blockNum := (ctx.blockNum + 1) % 65536 }
        let ctx := { ctx with num_retrans_tries := 0 }
        let (bytes, pFile) := fread ctx.pFile bytesToRead
        let ctx := { ctx with txBuf := memcpy ctx.txBuf 4 bytes, pFile := pFile }
        let bytesRead := bytes.length
        if bytesRead = 0 ∧ (ctx.txLen : Int) - 4 < PROT_MAX_DATA then
          let ctx := svr_close_file ctx
          server_change_state ctx SVR_ST_WAIT_FIST_REQUEST
        else
          let n := 0
          let ctx := { ctx with txBuf := ctx.txBuf.set n 0x00 }
          let ctx := { ctx with txBuf := ctx.txBuf.set (n + 1) TFTP_DATA }
          let ctx := { ctx with txBuf := ctx.txBuf.set (n + 2) (((ctx.blockNum >>> 8) &&& 0xff) % 256) }
          let ctx := { ctx with txBuf := ctx.txBuf.set (n + 3) ((ctx.blockNum &&& 0xff) % 256) }
          let ctx := { ctx with txLen := (4 + bytesRead) % 65536 }
          let (rc, ctx) := svr_send_packet_buffer env ctx 0
          if rc = 0 then
            let ctx := (svr_send_error_pkt env ctx 0
              (ascii "error sending data packet, closing connection")).2
            server_change_state ctx SVR_ST_WAIT_FIST_REQUEST
          else
            let ctx := { ctx with tmr2 := progressTimer env g ctx.tmr2 }
            { ctx with tmr1 := UtilTickTimerStart env.tick ctx.tmr1 ACK_TIMEOUT_SECS }
    else if ctx.rxInfo.optcode = TFTP_ERROR then
      server_change_state ctx SVR_ST_WAIT_FIST_REQUEST
    else
      let ctx := (svr_send_error_pkt env ctx 0 (ascii "error, unexpected optcode")).2
      server_change_state ctx SVR_ST_WAIT_FIST_REQUEST
  else ctx

/-! ## The DATA receivers of the state machines -/

/-- The conversion of an `int` to `size_t` (64 bits). -/
def size_t_of (i : Int) : Nat := (i % 2 ^ 64).toNat

/-- The call `fwrite(src, 1, count, pFile)`: the return value and the stream
after it.  The stream accepts at most `env.fwriteLimit` bytes; the bytes come from
the array `src` (bytes past its end are outside the model).  The handlers call it
on an open stream; on `NULL` the model writes nothing. -/
def fwrite (env : Env) (src : List Nat) (count : Nat) (pFile : Option FILE) : Nat × Option FILE :=
  match pFile with
  | none => (0, none)
  | some f =>
    let written := min count env.fwriteLimit
    (written, some { content := f.content ++ (src.take count).take written, pos := f.pos + written })

/-- Lines 1001-1041 of `cl_getfile_rxData`: the accepted DATA block is written
and acknowledged. -/
def cl_getfile_write (env : Env) (g : Globals) (ctx : client_session_t) :
    Nat × client_session_t × Globals :=
  let ctx := { ctx with num_retrans_tries := 0 }
  let count := size_t_of ((ctx.rxInfo.rxLen : Int) - 4)
  let w := fwrite env ctx.rxInfo.dataBuf count ctx.pFile
  let bytesWritten := w.1
  let ctx := { ctx with pFile := w.2 }
  if bytesWritten ≠ count then
    let ctx := (cl_send_error_pkt env ctx 0 (ascii "error writing file data, closing connection")).2
    let ctx := cl_close_file_and_sock ctx
    (0, ctx, g)
  else if ctx.rxInfo.isLastDataBlock ≠ 0 then
    let ctx := { ctx with blockNum := (ctx.blockNum + 1) % 65536 }
    let ctx := (cl_send_ack env ctx).2
    let ctx := cl_close_file_and_sock ctx
    (0, ctx, g)
  else
    let ctx := { ctx with tmr2 := progressTimer env g ctx.tmr2 }
    let ctx := { ctx with blockNum := (ctx.blockNum + 1) % 65536 }
    let ctx := (cl_send_ack env ctx).2
    let ctx := { ctx with tmr1 := UtilTickTimerStart env.tick ctx.tmr1 ACK_TIMEOUT_SECS }
    (1, ctx, g)

/-- Function `cl_getfile_rxData` (lines 944-1067). -/
def cl_getfile_rxData (env : Env) (g : Globals) (ctx : client_session_t) (ev : Nat) :
    Nat × client_session_t × Globals :=
  if ev = EV_CL_TIMEOUT then
    let ctx := { ctx with num_retrans_tries := ctx.num_retrans_tries + 1 }
    if ctx.num_retrans_tries = g.gMaxNumRetransTries then
      let ctx := { ctx with num_retrans_tries := 0 }
      let ctx := (cl_send_error_pkt env ctx 0
        (ascii "timeout waiting for data, closing connection")).2
      let ctx := cl_close_file_and_sock ctx
      (0, ctx, { g with gDone := 1 })
    else
      let ctx := (cl_send_packet_buffer env ctx 1).2
      let ctx := { ctx with tmr1 := UtilTickTimerStart env.tick ctx.tmr1 ACK_TIMEOUT_SECS }
      (1, ctx, g)
  else if ev = EV_CL_PDU_RX then
    if ctx.rxInfo.optcode = TFTP_DATA then
      if ctx.rxInfo.blocknum ≠ ctx.nextExpectedBlockNum then (1, ctx, g)
      else
        let ctx := { ctx with nextExpectedBlockNum := (ctx.nextExpectedBlockNum + 1) % 65536 }
        if ctx.isFirstDataBlock ≠ 0 then
          let ctx := { ctx with
            pFile := if env.fopenWrite (cstr ctx.filename) then some ⟨[], 0⟩ else none }
          if ctx.pFile = none then
            let ctx := (cl_send_error_pkt env ctx 1
              (ascii "error, failed to open file for writing")).2
            (0, ctx, g)
          else
            let ctx := { ctx with isFirstDataBlock := 0 }
            cl_getfile_write env g ctx
        else cl_getfile_write env g ctx
    else if ctx.rxInfo.optcode = TFTP_ERROR then
      (0, cl_close_file_and_sock ctx, g)
    else
      let ctx := (cl_send_error_pkt env ctx 0 (ascii "error unexpected optcode recieved")).2
      (0, cl_close_file_and_sock ctx, g)
  else (1, ctx, g)

/-- Function `cl_fsm_event` (lines 1072-1099). -/
def cl_fsm_event (env : Env) (g : Globals) (ctx : client_session_t) (ev : Nat) :
    Nat × client_session_t × Globals :=
  if ctx.state = CL_ST_GETFILE_RXDATA then
    let r := cl_getfile_rxData env g ctx ev
    if r.1 = 0 then (0, r.2) else (1, r.2)
  else if ctx.state = CL_ST_PUTFILE_TXDATA then
    let r := cl_putfile_txData env g ctx ev
    if r.1 = 0 then (0, r.2) else (1, r.2)
  else (1, ctx, g)

/-- Function `svr_putfile_rxData` (lines 1352-1464). -/
def svr_putfile_rxData (env : Env) (g : Globals) (ctx : server_session_t) (ev : Nat) :
    server_session_t :=
  if ev = EV_SVR_TIMEOUT then
    let ctx := { ctx with num_retrans_tries := ctx.num_retrans_tries + 1 }
    if ctx.num_retrans_tries = g.gMaxNumRetransTries then
      let ctx := (svr_send_error_pkt env ctx 0
        (ascii "timeout waiting for ACK, closing connection\n")).2
      let ctx := { ctx with num_retrans_tries := 0 }
      let ctx := svr_close_file ctx
      server_change_state ctx SVR_ST_WAIT_FIST_REQUEST
    else
      let ctx := (svr_send_packet_buffer env ctx 1).2
      { ctx with tmr1 := UtilTickTimerStart env.tick ctx.tmr1 ACK_TIMEOUT_SECS }
  else if ev = EV_SVR_PDU_RX then
    if ctx.rxInfo.optcode = TFTP_DATA then
      if ctx.rxInfo.blocknum ≠ ctx.nextExpectedBlockNum then ctx
      else
        let ctx := { ctx with nextExpectedBlockNum := (ctx.nextExpectedBlockNum + 1) % 65536 }
        let ctx := { ctx with num_retrans_tries := 0 }
        let count := size_t_of ((ctx.rxInfo.rxLen : Int) - 4)
        let w := fwrite env ctx.rxInfo.dataBuf count ctx.pFile
        let bytesWritten := w.1
        let ctx := { ctx with pFile := w.2 }
        if bytesWritten ≠ count then
          let ctx := (svr_send_error_pkt env ctx 0
            (ascii "error writing file data, closing connection")).2
          server_change_state ctx SVR_ST_WAIT_FIST_REQUEST
        else if ctx.rxInfo.isLastDataBlock ≠ 0 then
          let ctx := { ctx with blockNum := (ctx.blockNum + 1) % 65536 }
          let ctx := (svr_send_ack env ctx).2
          let ctx := svr_close_file ctx
          server_change_state ctx SVR_ST_WAIT_FIST_REQUEST
        else
          let ctx := { ctx with tmr2 := progressTimer env g ctx.tmr2 }
          let ctx := { ctx with blockNum := (ctx.blockNum + 1) % 65536 }
          let ctx := (svr_send_ack env ctx).2
          { ctx with tmr1 := UtilTickTimerStart env.tick ctx.tmr1 ACK_TIMEOUT_SECS }
    else if ctx.rxInfo.optcode = TFTP_ERROR then
      server_change_state ctx SVR_ST_WAIT_FIST_REQUEST
    else
      let ctx := (svr_send_error_pkt env ctx 0 (ascii "error, unexpected optcode")).2
      server_change_state ctx SVR_ST_WAIT_FIST_REQUEST
  else ctx

/-- Function `svr_fsm_event` (lines 1469-1496). -/
def svr_fsm_event (env : Env) (g : Globals) (ctx : server_session_t) (ev : Nat) :
    server_session_t :=
  if ctx.state = SVR_ST_GETFILE_TXDATA then svr_getfile_txData env g ctx ev
  else if ctx.state = SVR_ST_PUTFILE_RXDATA then svr_putfile_rxData env g ctx ev
  else if ctx.state = SVR_ST_WAIT_FIST_REQUEST then svr_wait_first_request env g ctx ev
  else ctx

/-! ## Sockets and the event loops (`file_client`, `file_server`) -/

/-- A socket as the operating system holds it: its descriptor and the local port
`bind` gave it. -/
structure OsSocket where
  fd : Int
  localPort : Nat
  deriving Repr, DecidableEq

/-- Function `create_svr_sock` (lines 1679-1729) when `socket`, `setsockopt`
and `bind` succeed: the new descriptor `fd` is bound to the port `gSrvPort`. -/
def create_svr_sock (g : Globals) (fd : Int) : OsSocket :=
  { fd := fd, localPort := g.gSrvPort }

/-- Function `create_outgoing_con_sock` (lines 1500-1538) when `socket` and
`bind` succeed: the new descriptor `fd` is bound to port 0, for which the
operating system picks the port `ephemeral`. -/
def create_outgoing_con_sock (fd : Int) (ephemeral : Nat) : OsSocket :=
  { fd := fd, localPort := ephemeral }

/-- The local port a datagram leaves from: the port of the socket, among the
sockets of the process, whose descriptor `sendto` was given. -/
def Datagram.srcPort (socks : List OsSocket) (d : Datagram) : Option Nat :=
  (socks.find? (fun s => s.fd = d.sock)).map (fun s => s.localPort)

/-- What `recvfrom` delivers when the socket is readable: the receive buffer
after the call, the return value and the source address. -/
structure Recv where
  rxbuf : List Nat
  rc : Int
  fromIp : List Nat
  fromPort : Nat
  deriving Repr, DecidableEq

/-- The state of the loop of `file_client`: the session, the process-wide
variables, the locals `packetCount` and `connectionTmr`, and whether the loop was
left by `break`. -/
structure ClientLoop where
  ctx : client_session_t
  g : Globals
  packetCount : Int
  connectionTmr : tick_timer_t
  left : Bool
  deriving Repr, DecidableEq

/-- Lines 1637-1645 (and 1650-1658) of `file_client`: decode the datagram and
dispatch it to the state machine. -/
def cl_dispatch (env : Env) (r : Recv) (s : ClientLoop) : ClientLoop :=
  let d := receive_tftp_pkt s.ctx.rxInfo r.rxbuf r.rc.toNat
  let s := { s with ctx := { s.ctx with rxInfo := d.2.pf } }
  if d.1 ≠ 0 then
    let e := cl_fsm_event env s.g s.ctx EV_CL_PDU_RX
    let s := { s with ctx := e.2.1, g := e.2.2 }
    if e.1 = 0 then { s with left := true } else s
  else s

/-- Lines 1607-1667 of `file_client`: what the loop does with a readable socket. -/
def cl_on_readable (env : Env) (r : Recv) (s : ClientLoop) : ClientLoop :=
  if r.rc > 0 then
    let s := { s with packetCount := s.packetCount + 1 }
    let s := { s with ctx := { s.ctx with svrPort := r.fromPort } }
    let s := { s with ctx := { s.ctx with rxInfo := init_receive_pkt s.ctx.rxInfo } }
    if s.g.gDebugDropPacket ≠ 0 ∧ s.packetCount % 5 = 0 then s
    else if s.g.gDebugDropAllPks ≠ 0 ∧ s.packetCount < 10 then cl_dispatch env r s
    else if s.g.gDebugDropAllPks = 0 then cl_dispatch env r s
    else s
  else
    let t := UtilTickTimerRun env.tick s.connectionTmr
    let s := { s with connectionTmr := t.2 }
    if t.1 ≠ 0 then { s with g := { s.g with gDone := 1 } } else s

/-- Lines 1669-1670 of `file_client`: the ack timer is tested and a time-out is
dispatched. -/
def cl_on_timer (env : Env) (s : ClientLoop) : ClientLoop :=
  let t := UtilTickTimerRun env.tick s.ctx.tmr1
  let s := { s with ctx := { s.ctx with tmr1 := t.2 } }
  if t.1 ≠ 0 then
    let e := cl_fsm_event env s.g s.ctx EV_CL_TIMEOUT
    { s with ctx := e.2.1, g := e.2.2 }
  else s

/-- One iteration of the loop of `file_client` (lines 1597-1671): `inp` is the
datagram when `select` reports the socket readable.  A `break` skips the timer
test. -/
def file_client_iter (env : Env) (inp : Option Recv) (s : ClientLoop) : ClientLoop :=
  let s :=
    match inp with
    | some r => cl_on_readable env r s
    | none => s
  if s.left then s else cl_on_timer env s

/-- The loop of `file_client`: iterations run while `gDone` is 0 and the loop was
not left; each takes the environment and the input of that iteration. -/
def file_client_loop : List (Env × Option Recv) → ClientLoop → ClientLoop
  | [], s => s
  | (env, inp) :: rest, s =>
    if s.g.gDone ≠ 0 ∨ s.left then s
    else file_client_loop rest (file_client_iter env inp s)

/-- Lines 1559-1595 of `file_client`, with the socket created: the session is
set up, the source file is opened for `putfile`, the request is sent and the
connection timer started.  `none` when the source file does not open: the
function then returns before the loop (line 1590); the ERROR packet it hands to
`sendto` on that path (line 1589, by `cl_send_error_pkt`, for the port
`svrPort` = 0) is not part of the result. -/
def file_client_start (env : Env) (g : Globals) (sock : Int) (remote_ip filename operation : List Nat) :
    Option ClientLoop :=
  let ctx : client_session_t :=
    { clientSock := sock, remoteIpStr := remote_ip, remotePort := g.gSrvPort, svrPort := 0,
      state := 0, isFirstDataBlock := 1, tmr1 := ⟨0, 0, 0, 0⟩, tmr2 := ⟨0, 0, 0, 0⟩,
      num_retrans_tries := 0, blockNum := 0, nextExpectedBlockNum := 0,
      rxInfo := prot_frame_info_t.zero, pFile := none, filename := filename, lastTxPort := 0,
      txBuf := List.replicate MAX_TX_BUFF 0, txLen := 0, sent := [], closed := [] }
  let ctx :=
    if cstr operation = ascii "putfile" then
      { ctx with pFile := (env.fopenRead (cstr ctx.filename)).map (fun content => ⟨content, 0⟩) }
    else ctx
  if cstr operation = ascii "putfile" ∧ ctx.pFile = none then none
  else
    let ctx := (send_first_request env g ctx operation filename).2
    some { ctx := ctx, g := g, packetCount := 0,
           connectionTmr := UtilTickTimerStart env.tick ⟨0, 0, 0, 0⟩ 5, left := false }

/-- The state of the loop of `file_server`: the session and the process-wide
variables. -/
structure ServerLoop where
  ctx : server_session_t
  g : Globals
  deriving Repr, DecidableEq

/-- Lines 1765-1797 of `file_server`: what the loop does with a readable socket. -/
def svr_on_readable (env : Env) (r : Recv) (s : ServerLoop) : ServerLoop :=
  let s := { s with ctx := { s.ctx with client_Port := r.fromPort } }
  let s := { s with ctx := { s.ctx with client_ip := r.fromIp } }
  let s := { s with ctx := { s.ctx with rxInfo := init_receive_pkt s.ctx.rxInfo } }
  if r.rc > 0 then
    let d := receive_tftp_pkt s.ctx.rxInfo r.rxbuf r.rc.toNat
    let s := { s with ctx := { s.ctx with rxInfo := d.2.pf } }
    if d.1 ≠ 0 then { s with ctx := svr_fsm_event env s.g s.ctx EV_SVR_PDU_RX }
    else s
  else s

/-- Lines 1799-1800 of `file_server`: the ack timer is tested and a time-out is
dispatched. -/
def svr_on_timer (env : Env) (s : ServerLoop) : ServerLoop :=
  let t := UtilTickTimerRun env.tick s.ctx.tmr1
  let s := { s with ctx := { s.ctx with tmr1 := t.2 } }
  if t.1 ≠ 0 then { s with ctx := svr_fsm_event env s.g s.ctx EV_SVR_TIMEOUT }
  else s

/-- One iteration of the loop of `file_server` (lines 1757-1802). -/
def file_server_iter (env : Env) (inp : Option Recv) (s : ServerLoop) : ServerLoop :=
  let s :=
    match inp with
    | some r => svr_on_readable env r s
    | none => s
  svr_on_timer env s

/-- The loop of `file_server`: iterations run while `gDone` is 0. -/
def file_server_loop : List (Env × Option Recv) → ServerLoop → ServerLoop
  | [], s => s
  | (env, inp) :: rest, s =>
    if s.g.gDone ≠ 0 then s
    else file_server_loop rest (file_server_iter env inp s)

/-- Lines 1744-1755 of `file_server`: the session is zeroed, the listening
socket created by `create_svr_sock` stored, and the state set to
`SVR_ST_WAIT_FIST_REQUEST`. -/
def file_server_start (g : Globals) (fd : Int) : ServerLoop :=
  let ctx : server_session_t :=
    { serverSock := (create_svr_sock g fd).fd, client_Port := 0, client_ip := [],
      tmr1 := ⟨0, 0, 0, 0⟩, tmr2 := ⟨0, 0, 0, 0⟩, num_retrans_tries := 0, state := 0,
      blockNum := 0, nextExpectedBlockNum := 0, rxInfo := prot_frame_info_t.zero, pFile := none,
      filename := [], lastTxPort := 0, txBuf := List.replicate MAX_TX_BUFF 0, txLen := 0,
      sent := [], closed := [] }
  { ctx := server_change_state ctx SVR_ST_WAIT_FIST_REQUEST, g := g }

/-! ## Definitions used to state the results -/

/-- The slice `pktBuf[n .. n+m)` as the decoder reads it. -/
def slice (pktBuf : List Nat) (n m : Nat) : List Nat := (List.range' n m).map (rd pktBuf)

/-- The run after a copy loop of `m` iterations from the loop state `(n, i)` into
the array member `f`. -/
def copied (pktBuf : List Nat) (f : RxField) (n i m : Nat) (r : RxRun) : RxRun :=
  { pf := r.pf.withField f (memcpy (r.pf.field f) i (slice pktBuf n m)),
    reads := (List.range' n m).reverse ++ r.reads,
    writes := ((List.range' i m).map (fun j => (f, j))).reverse ++ r.writes }

/-- The bytes of the datagram most recently handed to `sendto`. -/
def lastSent (sent : List Datagram) : List Nat :=
  match sent with
  | [] => []
  | d :: _ => d.bytes

/-! ## Initial states and sample environments -/

/-- The process-wide variables at program start (lines 184-189). -/
def Globals.init : Globals :=
  { gDone := 0, gFsmDebugOn := 0, gDebugDropPacket := 0, gDebugDropAllPks := 0,
    gMaxNumRetransTries := 3, gSrvPort := 69 }

/-- A timer after `memset(.., 0, ..)`. -/
def tick_timer_t.zero : tick_timer_t := ⟨0, 0, 0, 0⟩

/-- The client session built by `file_client` before the first request
(lines 1559-1568): zeroed, then `filename`, `remoteIpStr`, `remotePort` and
`isFirstDataBlock` set, and the socket `sock` created. -/
def client_session_init (g : Globals) (sock : Int) (remote_ip filename : List Nat) :
    client_session_t :=
  { clientSock := sock, remoteIpStr := remote_ip, remotePort := g.gSrvPort, svrPort := 0,
    state := 0, isFirstDataBlock := 1, tmr1 := tick_timer_t.zero, tmr2 := tick_timer_t.zero,
    num_retrans_tries := 0, blockNum := 0, nextExpectedBlockNum := 0,
    rxInfo := prot_frame_info_t.zero, pFile := none, filename := filename, lastTxPort := 0,
    txBuf := List.replicate MAX_TX_BUFF 0, txLen := 0, sent := [], closed := [] }

/-- The server session built by `file_server` before its loop (lines 1744-1753):
zeroed, the socket `sock` created, state `SVR_ST_WAIT_FIST_REQUEST`. -/
def server_session_init (sock : Int) : server_session_t :=
  { serverSock := sock, client_Port := 0, client_ip := [], tmr1 := tick_timer_t.zero,
    tmr2 := tick_timer_t.zero, num_retrans_tries := 0, state := SVR_ST_WAIT_FIST_REQUEST,
    blockNum := 0, nextExpectedBlockNum := 0, rxInfo := prot_frame_info_t.zero, pFile := none,
    filename := [], lastTxPort := 0, txBuf := List.replicate MAX_TX_BUFF 0, txLen := 0,
    sent := [], closed := [] }

/-- An environment in which `sendto` succeeds, every file opens for reading with
the three bytes `ABC` as content, every file opens for writing and `fwrite`
stores all it is given, at tick 1000. -/
def Env.sample : Env :=
  { tick := 1000, sendRc := 1, fopenRead := fun _ => some [65, 66, 67],
    fopenWrite := fun _ => true, fwriteLimit := 65536 }

/-- The datagram `pkt` in a receive buffer of `MAX_RX_BUFF` bytes that holds zeros
after it. -/
def inRxBuf (pkt : List Nat) : List Nat := pkt ++ List.replicate (MAX_RX_BUFF - pkt.length) 0

/-- A client session in an upload of the three bytes `ABC`, after the request,
when the ACK of block 0 has been decoded. -/
def sampleUpload : client_session_t :=
  { client_session_init Globals.init 3 (ascii "10.0.0.1") (ascii "b.bin") with
    state := CL_ST_PUTFILE_TXDATA, svrPort := 5000, pFile := some ⟨[65, 66, 67], 0⟩,
    rxInfo := { prot_frame_info_t.zero with optcode := 4, blocknum := 0, rxLen := 4 },
    txLen := 14 }

/-- A server session in a download of a file of 515 bytes, after block 1, when
the ACK of block 1 has been decoded. -/
def sampleDownload : server_session_t :=
  { server_session_init 3 with
    state := SVR_ST_GETFILE_TXDATA, client_Port := 5000, blockNum := 1, nextExpectedBlockNum := 1,
    pFile := some ⟨List.replicate 515 65, 512⟩, txLen := 516,
    rxInfo := { prot_frame_info_t.zero with optcode := 4, blocknum := 1, rxLen := 4 } }

/-- A server session waiting for a request, when an RRQ for the file `a` has been
decoded. -/
def sampleRequest : server_session_t :=
  { server_session_init 3 with
    client_Port := 5000,
    rxInfo := { prot_frame_info_t.zero with
                optcode := 1, rxLen := 10, filename := [97, 0] ++ List.replicate 510 0 } }

/-- The decoder applied, with a zeroed receive structure, to the datagram `pkt`
held in a zero-padded receive buffer: what the event loops do with the first
datagram they receive. -/
def decodeInRxBuf (pkt : List Nat) : Nat × RxRun :=
  receive_tftp_pkt prot_frame_info_t.zero (inRxBuf pkt) pkt.length

/-- Sessions that are about to build an ACK for block 258. -/
def sampleAckClient : client_session_t :=
  { client_session_init Globals.init 3 [] [] with blockNum := 258 }

def sampleAckServer : server_session_t :=
  { server_session_init 3 with blockNum := 258 }

/-- The request datagrams `send_first_request` builds for `getfile a` and for
`putfile a` from the initial client session. -/
def rrqDatagram : List Nat :=
  lastSent (send_first_request Env.sample Globals.init
    (client_session_init Globals.init 3 (ascii "10.0.0.1") (ascii "a"))
    (ascii "getfile") (ascii "a")).2.sent

def wrqDatagram : List Nat :=
  lastSent (send_first_request Env.sample Globals.init
    (client_session_init Globals.init 3 (ascii "10.0.0.1") (ascii "a"))
    (ascii "putfile") (ascii "a")).2.sent

/-- The message of the time-out abort of `cl_putfile_txData` (line 843) and of the
server handlers (lines 1238, 1366, which spell `ACK` in capitals). -/
def timeoutMsg : List Nat := ascii "timeout waiting for ack, closing connection\n"

/-- The client session of `putfile b.bin` for a file of 512 bytes `A`, run from
the initial session: the request is sent, the ACK of block 0 arrives from port
5000 and is decoded, and `cl_putfile_txData` sends DATA block 1. -/
def uploadAwaitingAck : client_session_t :=
  let c0 := { client_session_init Globals.init 3 (ascii "10.0.0.1") (ascii "b.bin") with
    pFile := some ⟨List.replicate 512 0x41, 0⟩ }
  let c1 := (send_first_request Env.sample Globals.init c0 (ascii "putfile") (ascii "b.bin")).2
  let c2 := { c1 with
    svrPort := 5000,
    rxInfo := (receive_tftp_pkt (init_receive_pkt c1.rxInfo) (inRxBuf [0, 4, 0, 0]) 4).2.pf }
  (cl_putfile_txData Env.sample Globals.init c2 EV_CL_PDU_RX).2.1

/-- The session `uploadAwaitingAck` after three time-outs with the default
`gMaxNumRetransTries = 3`: two retransmissions, then the abort. -/
def uploadAborted : client_session_t :=
  let t1 := (cl_putfile_txData Env.sample Globals.init uploadAwaitingAck EV_CL_TIMEOUT).2.1
  let t2 := (cl_putfile_txData Env.sample Globals.init t1 EV_CL_TIMEOUT).2.1
  (cl_putfile_txData Env.sample Globals.init t2 EV_CL_TIMEOUT).2.1

/-- A server session whose transmit buffer holds the DATA block that
`uploadAwaitingAck` holds. -/
def downloadAwaitingAck : server_session_t :=
  { server_session_init 3 with
    state := SVR_ST_GETFILE_TXDATA, client_Port := 5000, blockNum := 1, nextExpectedBlockNum := 1,
    txBuf := uploadAwaitingAck.txBuf, txLen := 516 }

/-! ## Closed forms of the encoders, used to state what the handlers do -/

/-- The transmit buffer after `cl_send_ack` / `svr_send_ack` for block `b`. -/
def ackTxBuf (txBuf : List Nat) (b : Nat) : List Nat :=
  (((txBuf.set 0 0).set 1 TFTP_ACK).set 2 ((b >>> 8) &&& 0xFF)).set 3 (b &&& 0xFF)

/-- The transmit buffer after `cl_send_error_pkt` / `svr_send_error_pkt`. -/
def errTxBuf (txBuf : List Nat) (errCode : Nat) (errMsg : List Nat) : List Nat :=
  (memcpy ((((txBuf.set 0 0).set 1 TFTP_ERROR).set 2 (((errCode >>> 8) &&& 0xff) % 256)).set 3
    ((errCode &&& 0xff) % 256)) 4 (cstr errMsg)).set ((5 + strlen errMsg) % 65536) 0

/-- The value of `txLen` after `cl_send_error_pkt` / `svr_send_error_pkt`. -/
def errTxLen (errMsg : List Nat) : Nat := ((5 + strlen errMsg) % 65536 + 1) % 65536

/-- The most recent datagram handed to `sendto` is `txBuf[0 .. txLen)`, addressed
to `lastTxPort`. -/
def LastSendHeld (sent : List Datagram) (txBuf : List Nat) (txLen lastTxPort : Nat) : Prop :=
  sent.head?.map (fun d => (d.bytes, d.port)) = some (txBuf.take txLen, lastTxPort)

instance (sent : List Datagram) (txBuf : List Nat) (txLen lastTxPort : Nat) :
    Decidable (LastSendHeld sent txBuf txLen lastTxPort) := by
  unfold LastSendHeld
  infer_instance

/-- The log of closed streams after `if (pFile != NULL) fclose(pFile)`. -/
def closeLog (pFile : Option FILE) (closed : List FILE) : List FILE :=
  match pFile with
  | some f => f :: closed
  | none => closed

/-! ## Sample sessions that hold a block other than the expected one -/

/-- A client in a download that expects block 6 and has decoded DATA block 5. -/
def staleDataClient : client_session_t :=
  { client_session_init Globals.init 3 (ascii "10.0.0.1") (ascii "a") with
    state := CL_ST_GETFILE_RXDATA, svrPort := 5000, blockNum := 5, nextExpectedBlockNum := 6,
    isFirstDataBlock := 0, pFile := some ⟨List.replicate 2560 65, 2560⟩,
    rxInfo := { prot_frame_info_t.zero with optcode := 3, blocknum := 5, rxLen := 516 } }

/-- A client in an upload that expects the ACK of block 6 and has decoded the ACK
of block 5. -/
def staleAckClient : client_session_t :=
  { client_session_init Globals.init 3 (ascii "10.0.0.1") (ascii "a") with
    state := CL_ST_PUTFILE_TXDATA, svrPort := 5000, blockNum := 6, nextExpectedBlockNum := 6,
    isFirstDataBlock := 0, pFile := some ⟨List.replicate 4000 65, 3072⟩, txLen := 516,
    rxInfo := { prot_frame_info_t.zero with optcode := 4, blocknum := 5, rxLen := 4 } }

/-- A server in an upload that expects block 6 and has decoded DATA block 5. -/
def staleDataServer : server_session_t :=
  { server_session_init 3 with
    state := SVR_ST_PUTFILE_RXDATA, client_Port := 5000, blockNum := 5, nextExpectedBlockNum := 6,
    pFile := some ⟨List.replicate 2560 65, 2560⟩,
    rxInfo := { prot_frame_info_t.zero with optcode := 3, blocknum := 5, rxLen := 516 } }

/-- A server in a download that expects the ACK of block 6 and has decoded the
ACK of block 5. -/
def staleAckServer : server_session_t :=
  { server_session_init 3 with
    state := SVR_ST_GETFILE_TXDATA, client_Port := 5000, blockNum := 6, nextExpectedBlockNum := 6,
    pFile := some ⟨List.replicate 4000 65, 3072⟩, txLen := 516,
    rxInfo := { prot_frame_info_t.zero with optcode := 4, blocknum := 5, rxLen := 4 } }

/-! ## Runs of consecutive time-outs -/

/-- Consecutive `EV_CL_TIMEOUT` events given to `cl_fsm_event`, one for each
environment of the list: the return values (first event first), the session and
the process-wide variables after them. -/
def cl_timeouts : List Env → Globals → client_session_t → List Nat × client_session_t × Globals
  | [], g, ctx => ([], ctx, g)
  | env :: envs, g, ctx =>
    ((cl_fsm_event env g ctx EV_CL_TIMEOUT).1 ::
        (cl_timeouts envs (cl_fsm_event env g ctx EV_CL_TIMEOUT).2.2
          (cl_fsm_event env g ctx EV_CL_TIMEOUT).2.1).1,
      (cl_timeouts envs (cl_fsm_event env g ctx EV_CL_TIMEOUT).2.2
        (cl_fsm_event env g ctx EV_CL_TIMEOUT).2.1).2)

/-- Consecutive `EV_SVR_TIMEOUT` events given to `svr_fsm_event` as
`file_server` does (line 1800), one for each environment of the list. -/
def svr_timeouts : List Env → ServerLoop → ServerLoop
  | [], s => s
  | env :: envs, s => svr_timeouts envs { s with ctx := svr_fsm_event env s.g s.ctx EV_SVR_TIMEOUT }

/-- The ack timer after the retransmissions made in the environments `envs`. -/
def retriedTimer (envs : List Env) (tmr1 : tick_timer_t) : tick_timer_t :=
  match envs.getLast? with
  | none => tmr1
  | some env => UtilTickTimerStart env.tick tmr1 ACK_TIMEOUT_SECS

/-- The client session after one retransmission for each environment of `envs`:
the retry counter has advanced by their number, the ack timer was restarted, and
each retransmission handed `txBuf[0 .. txLen)` to `sendto` for the port
`lastTxPort`. -/
def cl_retried (envs : List Env) (ctx : client_session_t) : client_session_t :=
  { ctx with
    num_retrans_tries := ctx.num_retrans_tries + envs.length,
    tmr1 := retriedTimer envs ctx.tmr1,
    sent := List.replicate envs.length
      ⟨ctx.clientSock, ctx.remoteIpStr, ctx.lastTxPort, ctx.txBuf.take ctx.txLen⟩ ++ ctx.sent }

/-- The server session after one retransmission for each environment of `envs`. -/
def svr_retried (envs : List Env) (ctx : server_session_t) : server_session_t :=
  { ctx with
    num_retrans_tries := ctx.num_retrans_tries + envs.length,
    tmr1 := retriedTimer envs ctx.tmr1,
    sent := List.replicate envs.length
      ⟨ctx.serverSock, ctx.client_ip, ctx.lastTxPort, ctx.txBuf.take ctx.txLen⟩ ++ ctx.sent }

/-- The client session after the abort with the message `msg`: one ERROR
datagram was handed to `sendto` for the port `svrPort`, the stream and the socket
are closed, the retry counter is 0. -/
def cl_aborted (msg : List Nat) (ctx : client_session_t) : client_session_t :=
  { ctx with
    num_retrans_tries := 0,
    clientSock := close_socket ctx.clientSock, pFile := none,
    closed := closeLog ctx.pFile ctx.closed,
    txBuf := errTxBuf ctx.txBuf 0 msg,
    txLen := errTxLen msg,
    sent := ⟨ctx.clientSock, ctx.remoteIpStr, ctx.svrPort,
      (errTxBuf ctx.txBuf 0 msg).take (errTxLen msg)⟩ :: ctx.sent }

/-- The server session after the abort with the message `msg`: one ERROR
datagram was handed to `sendto` for the port `client_Port`, the stream is closed,
the retry counter is 0 and the state is `SVR_ST_WAIT_FIST_REQUEST`. -/
def svr_aborted (msg : List Nat) (ctx : server_session_t) : server_session_t :=
  { ctx with
    num_retrans_tries := 0, state := SVR_ST_WAIT_FIST_REQUEST, pFile := none,
    closed := closeLog ctx.pFile ctx.closed,
    txBuf := errTxBuf ctx.txBuf 0 msg,
    txLen := errTxLen msg,
    sent := ⟨ctx.serverSock, ctx.client_ip, ctx.client_Port,
      (errTxBuf ctx.txBuf 0 msg).take (errTxLen msg)⟩ :: ctx.sent }

/-! ## Sample sessions that wait for the answer to what they sent last -/

/-- The client session of `getfile a` after the request was sent. -/
def getfileStarted : client_session_t :=
  (send_first_request Env.sample Globals.init
    (client_session_init Globals.init 3 (ascii "10.0.0.1") (ascii "a"))
    (ascii "getfile") (ascii "a")).2

/-- The server session after it accepted the RRQ of `sampleRequest` and sent
DATA block 1. -/
def downloadStarted : server_session_t :=
  svr_wait_first_request Env.sample Globals.init sampleRequest EV_SVR_PDU_RX

/-- The server session after it accepted a WRQ for the file `a` from port 5000
and sent the ACK of block 0. -/
def uploadAccepted : server_session_t :=
  svr_wait_first_request Env.sample Globals.init
    { sampleRequest with rxInfo := { sampleRequest.rxInfo with optcode := 2 } } EV_SVR_PDU_RX

/-- The client session of `putfile a` after the request was sent. -/
def putfileStarted : client_session_t :=
  (send_first_request Env.sample Globals.init
    { client_session_init Globals.init 3 (ascii "10.0.0.1") (ascii "a") with
      pFile := some ⟨[65, 66, 67], 0⟩ }
    (ascii "putfile") (ascii "a")).2

/-! ## What a step adds to the list of datagrams sent -/

/-- The list `new` is the list `old` with datagrams put in front of it (sent after
it), each of which satisfies `Q`. -/
def Extends (Q : Datagram → Prop) (old : List Datagram) : List Datagram → Prop
  | [] => old = []
  | d :: new => d :: new = old ∨ (Q d ∧ Extends Q old new)

/-- What every call of a client handler keeps: `svrPort` is not written,
`lastTxPort` stays or becomes `svrPort`, and each datagram handed to `sendto` goes
to `svrPort` or to `lastTxPort`. -/
def ClFrame (ctx out : client_session_t) : Prop :=
  out.svrPort = ctx.svrPort ∧
  (out.lastTxPort = ctx.lastTxPort ∨ out.lastTxPort = ctx.svrPort) ∧
  Extends (fun d => d.port = ctx.svrPort ∨ d.port = ctx.lastTxPort) ctx.sent out.sent

/-- What every call of a server handler keeps: `client_Port` and `serverSock`
are not written, `lastTxPort` stays or becomes `client_Port`, and each datagram
is handed to `sendto` on `serverSock` for `client_Port` or for `lastTxPort`. -/
def SvrFrame (ctx out : server_session_t) : Prop :=
  out.client_Port = ctx.client_Port ∧ out.serverSock = ctx.serverSock ∧
  (out.lastTxPort = ctx.lastTxPort ∨ out.lastTxPort = ctx.client_Port) ∧
  Extends (fun d => d.sock = ctx.serverSock ∧ (d.port = ctx.client_Port ∨ d.port = ctx.lastTxPort))
    ctx.sent out.sent

/-- The client session sends nothing to the port `P` from the moment its list of
datagrams was `sent0`: neither `svrPort` nor `lastTxPort` is `P`, and every
datagram sent since then went to another port. -/
def ClAvoids (P : Nat) (sent0 : List Datagram) (ctx : client_session_t) : Prop :=
  ctx.svrPort ≠ P ∧ ctx.lastTxPort ≠ P ∧ Extends (fun d => d.port ≠ P) sent0 ctx.sent

/-- The server session has sent only to the port `T` from the moment its list of
datagrams was `sent0`, and `lastTxPort` is `T`. -/
def SvrOnlyTo (T : Nat) (sent0 : List Datagram) (ctx : server_session_t) : Prop :=
  ctx.lastTxPort = T ∧ Extends (fun d => d.port = T) sent0 ctx.sent

/-- The server session has handed every datagram since `sent0` to `sendto` on
the socket `fd`, which is still its socket. -/
def SvrOnSock (fd : Int) (sent0 : List Datagram) (ctx : server_session_t) : Prop :=
  ctx.serverSock = fd ∧ Extends (fun d => d.sock = fd) sent0 ctx.sent

/-! ## Sample datagrams and runs of the event loops -/

/-- What `recvfrom` delivers for the datagram `pkt` sent from the port `port` of
the host `10.0.0.1`. -/
def recvOf (pkt : List Nat) (port : Nat) : Recv :=
  { rxbuf := inRxBuf pkt, rc := pkt.length, fromIp := ascii "10.0.0.1", fromPort := port }

/-- The DATA datagram of block `b` with the payload `payload`. -/
def dataPkt (b : Nat) (payload : List Nat) : List Nat := [0, 3, b / 256, b % 256] ++ payload

/-- The ACK datagram of block `b`. -/
def ackPkt (b : Nat) : List Nat := [0, 4, b / 256, b % 256]

/-- The environment `Env.sample` at the tick `t`. -/
def envAt (t : Nat) : Env := { Env.sample with tick := t }

/-- The loop state of `file_client` for `getfile a` when the loop is entered. -/
def getfileLoop : ClientLoop :=
  { ctx := getfileStarted, g := Globals.init, packetCount := 0,
    connectionTmr := UtilTickTimerStart Env.sample.tick tick_timer_t.zero 5, left := false }

/-- The ports of the datagrams a client loop state has sent, most recent first. -/
def ClientLoop.ports (s : ClientLoop) : List Nat := s.ctx.sent.map (fun d => d.port)

/-- The ports of the datagrams a server loop state has sent, most recent first. -/
def ServerLoop.ports (s : ServerLoop) : List Nat := s.ctx.sent.map (fun d => d.port)

/-- The download `getfileLoop` after DATA block 1 (512 bytes) arrived from port
5000 and was acknowledged. -/
def getfileAfterBlock1 : ClientLoop :=
  file_client_loop [(Env.sample, some (recvOf (dataPkt 1 (List.replicate 512 65)) 5000))] getfileLoop

/-- The server loop after a WRQ for the file `a` arrived from port 5000 and was
accepted. -/
def serverAfterWrq : ServerLoop :=
  file_server_loop [(Env.sample, some (recvOf wrqDatagram 5000))] (file_server_start Globals.init 3)

/-- A file name of 513 bytes, one more than `send_first_request` accepts. -/
def longName : List Nat := List.replicate 513 97

/-- The loop state of `file_client` for `getfile` with the file name `longName`
when the loop is entered: `send_first_request` has returned 0 before it touched
the session. -/
def longNameLoop : ClientLoop :=
  { ctx := client_session_init Globals.init 3 (ascii "10.0.0.1") longName, g := Globals.init,
    packetCount := 0,
    connectionTmr := UtilTickTimerStart Env.sample.tick tick_timer_t.zero 5, left := false }

/-- The bytes of the datagrams a client loop state has sent, most recent first. -/
def ClientLoop.packets (s : ClientLoop) : List (List Nat) := s.ctx.sent.map (fun d => d.bytes)

/-- The bytes of the datagrams a server loop state has sent, most recent first. -/
def ServerLoop.packets (s : ServerLoop) : List (List Nat) := s.ctx.sent.map (fun d => d.bytes)

/-! ## What the decoder leaves in `rxInfo` -/

/-- The receive structure after `init_receive_pkt` and the decoding of the DATA
packet of block `b` with the payload `payload` (at most 512 bytes). -/
def dataRx (pf : prot_frame_info_t) (b : Nat) (payload : List Nat) : prot_frame_info_t :=
  { pf with
    state := READ_OPT_CODE_1, optcode := 3, blocknum := b,
    isLastDataBlock := if payload.length < PROT_MAX_DATA then 1 else 0,
    dataBuf := payload ++ pf.dataBuf.drop payload.length,
    rxLen := 4 + payload.length }

/-- The receive structure after `init_receive_pkt` and the decoding of the ACK
packet of block `b`. -/
def ackRx (pf : prot_frame_info_t) (b : Nat) : prot_frame_info_t :=
  { pf with state := READ_OPT_CODE_1, optcode := 4, blocknum := b, rxLen := 4 }

/-- The server loop `serverAfterWrq` after DATA block 1 with the three bytes
`1 2 3`, the final block of the upload, arrived from port 5000. -/
def serverAfterUpload : ServerLoop :=
  file_server_loop [(Env.sample, some (recvOf (dataPkt 1 [1, 2, 3]) 5000))] serverAfterWrq

/-- A client loop whose download expects block 6, with 2560 bytes written. -/
def clientExpecting6 : ClientLoop :=
  { ctx := staleDataClient, g := Globals.init, packetCount := 5,
    connectionTmr := tick_timer_t.zero, left := false }

/-- A server loop whose upload expects block 6, with 2560 bytes written. -/
def serverExpecting6 : ServerLoop := { ctx := staleDataServer, g := Globals.init }

/-! ## Closed forms of the DATA senders -/

/-- The transmit buffer after `fread` stored `bytes` at index 4 and the DATA
header of block `b` was written (`cl_putfile_txData`, `svr_getfile_txData`). -/
def dataTxBuf (txBuf : List Nat) (b : Nat) (bytes : List Nat) : List Nat :=
  ((((memcpy txBuf 4 bytes).set 0 0x00).set 1 TFTP_DATA).set 2
    (((b >>> 8) &&& 0xff) % 256)).set 3 ((b &&& 0xff) % 256)

/-- The transmit buffer after the DATA header of block `b` was written and
`fread` stored `bytes` at index 4 (`svr_wait_first_request`). -/
def firstDataTxBuf (txBuf : List Nat) (b : Nat) (bytes : List Nat) : List Nat :=
  memcpy ((((txBuf.set 0 0x00).set 1 TFTP_DATA).set 2 (((b >>> 8) &&& 0xff) % 256)).set 3
    ((b &&& 0xff) % 256)) 4 bytes

/-- The payload of the DATA block with index `i` (block `i + 1`) of a file. -/
def blockOf (content : List Nat) (i : Nat) : List Nat :=
  (content.drop (PROT_MAX_DATA * i)).take PROT_MAX_DATA

/-- The DATA packets of the first `n` blocks of a file, the most recent first;
the block numbers are 16-bit values. -/
def dataPkts (content : List Nat) (n : Nat) : List (List Nat) :=
  (List.range n).reverse.map (fun i => dataPkt ((i + 1) % 65536) (blockOf content i))

/-- The request packet `send_first_request` builds: opcode, file name, `octet`. -/
def requestPkt (op : Nat) (filename : List Nat) : List Nat :=
  [0, op] ++ cstr filename ++ [0] ++ ascii "octet" ++ [0]

/-- The transmit buffer after `send_first_request` wrote the request with the
opcode `op` for the file name `f`. -/
def reqTxBuf (txBuf : List Nat) (op : Nat) (f : List Nat) : List Nat :=
  memcpy (memcpy ((txBuf.set 0 0x00).set 1 op) 2 (f ++ [0])) (2 + (f.length + 1))
    ([111, 99, 116, 101, 116] ++ [0])

/-! ## Runs of received datagrams -/

/-- The datagrams `r 0, r 1, ..` received one after the other by `file_client`
(lines 1607-1667) while no time-out occurs: the state after the first `n` of
them; `envOf i` is the environment of reception `i`, and nothing is received
once the loop has ended. -/
def cl_receive (envOf : Nat → Env) (r : Nat → Recv) : Nat → ClientLoop → ClientLoop
  | 0, s => s
  | n + 1, s =>
    if (cl_receive envOf r n s).g.gDone ≠ 0 ∨ (cl_receive envOf r n s).left = true then
      cl_receive envOf r n s
    else cl_on_readable (envOf n) (r n) (cl_receive envOf r n s)

/-- The state of an upload of `content` after `n` DATA blocks were sent: block
`n` awaits its ACK (for `n = 0` the request does). -/
def UploadInv (content f : List Nat) (g : Globals) (n : Nat) (s : ClientLoop) : Prop :=
  s.left = false ∧ s.g = g ∧ s.ctx.state = CL_ST_PUTFILE_TXDATA ∧
  s.ctx.nextExpectedBlockNum = n % 65536 ∧ s.ctx.blockNum = n % 65536 ∧
  s.ctx.pFile = some ⟨content, min (PROT_MAX_DATA * n) content.length⟩ ∧
  s.ctx.txBuf.length = MAX_TX_BUFF ∧
  (n = 0 → s.ctx.isFirstDataBlock ≠ 0) ∧
  (n ≠ 0 → s.ctx.isFirstDataBlock = 0 ∧ s.ctx.txLen = 4 + (blockOf content (n - 1)).length) ∧
  s.ctx.sent.map (fun d => d.bytes) = dataPkts content n ++ [requestPkt 2 f]

/-! ## Sample uploads -/

/-- A source file of 512 bytes and the environment in which every file opens for
reading with that content. -/
def oneBlockFile : List Nat := List.replicate 512 65

def oneBlockEnv : Env := { Env.sample with fopenRead := fun _ => some oneBlockFile }

/-- A source file of 65535 blocks of 512 bytes and the environment in which every
file opens for reading with that content. -/
def wrapFile : List Nat := List.replicate (65535 * 512) 65

def wrapEnv : Env := { Env.sample with fopenRead := fun _ => some wrapFile }

/-- The ACK of block `i` (as a 16-bit number) arriving from port 5000. -/
def ackFrom5000 (i : Nat) : Recv := recvOf (ackPkt (i % 65536)) 5000

/-! ## A download over a channel without loss -/

/-- The receive structure after `init_receive_pkt` and the decoding of the request
packet with the opcode `op` for the file name `f`, held in a receive buffer. -/
def requestRx (pf : prot_frame_info_t) (op : Nat) (f : List Nat) : prot_frame_info_t :=
  { pf with state := READ_OPT_CODE_1, optcode := op,
            filename := ((inRxBuf (requestPkt op f)).drop 2).take PROT_MAX_DATA,
            rxLen := f.length + 9 }

/-- A source file of 1000 bytes and the environment of a server in which every
file opens for reading with that content. -/
def kiloFile : List Nat := List.replicate 1000 65

def kiloEnv : Env := { Env.sample with fopenRead := fun _ => some kiloFile }

/-- The reply of a freshly started server on descriptor 3 to the read request
`rrqDatagram` from port 5000: DATA block 1 with the three bytes of the file. -/
def firstDataReply : Datagram :=
  { sock := 3, ip := ascii "10.0.0.1", port := 5000, bytes := [0, 3, 0, 1, 65, 66, 67] }

/-! ## Sample runs of the server that leave a transfer -/

/-- An ERROR packet with the code 0 and the message `x`. -/
def errorDatagram : List Nat := [0, 5, 0, 0, 120, 0]

/-- An environment in which `sendto` fails and every file opens for reading with
the 1000 bytes of `kiloFile`. -/
def Env.kiloSendFails : Env := { kiloEnv with sendRc := -1 }

/-- An environment in which `fwrite` stores nothing. -/
def Env.diskFull : Env := { Env.sample with fwriteLimit := 0 }

/-- The server after a read request for the file `a` and then, in the
environment `env`, the datagram `pkt`, both from port 5000. -/
def serverAfterRrqThen (env : Env) (pkt : List Nat) : ServerLoop :=
  file_server_loop
    [(kiloEnv, some (recvOf rrqDatagram 5000)), (env, some (recvOf pkt 5000))]
    (file_server_start Globals.init 3)

/-- The server after a write request for the file `a` and then, in the
environment `env`, the datagram `pkt`, both from port 5000. -/
def serverAfterWrqThen (env : Env) (pkt : List Nat) : ServerLoop :=
  file_server_loop
    [(Env.sample, some (recvOf wrqDatagram 5000)), (env, some (recvOf pkt 5000))]
    (file_server_start Globals.init 3)

/-! ## Sample requests and environments -/

/-- A server session waiting for a request, when a WRQ for the file `a` has been
decoded. -/
def sampleWrq : server_session_t :=
  { sampleRequest with rxInfo := { sampleRequest.rxInfo with optcode := 2 } }

/-- A server session waiting for a request, when an ACK of block 1 has been
decoded. -/
def sampleStray : server_session_t :=
  { sampleRequest with rxInfo := { sampleRequest.rxInfo with optcode := 4, blocknum := 1 } }

/-- An environment in which no file opens. -/
def Env.noFiles : Env :=
  { Env.sample with fopenRead := fun _ => none, fopenWrite := fun _ => false }

/-- An environment in which `sendto` fails. -/
def Env.sendFails : Env := { Env.sample with sendRc := -1 }

/-! ## Sample sessions that hold a packet of another kind -/

/-- A client in a download that has decoded an ACK of block 5. -/
def ackInDownload : client_session_t :=
  { staleDataClient with rxInfo := { staleDataClient.rxInfo with optcode := 4, rxLen := 4 } }

/-- A client in an upload that has decoded an ERROR packet. -/
def errorInUpload : client_session_t :=
  { staleAckClient with rxInfo := { staleAckClient.rxInfo with optcode := 5, rxLen := 10 } }

/-! ## Accepted packets -/

/-- The decoded packet is one the client accepts in its transfer state: it
carries the expected block number and is a DATA packet in a download (the file
is open, or this is the first block and the file opens, and `fwrite` stores the
payload) or an ACK in an upload (`sendto` succeeds). -/
def ClAccepts (env : Env) (ctx : client_session_t) : Prop :=
  ctx.rxInfo.blocknum = ctx.nextExpectedBlockNum ∧
  ((ctx.state = CL_ST_GETFILE_RXDATA ∧ ctx.rxInfo.optcode = TFTP_DATA ∧
      ((ctx.isFirstDataBlock = 0 ∧ ctx.pFile ≠ none) ∨
        (ctx.isFirstDataBlock ≠ 0 ∧ env.fopenWrite (cstr ctx.filename) = true)) ∧
      size_t_of ((ctx.rxInfo.rxLen : Int) - 4) ≤ env.fwriteLimit) ∨
    (ctx.state = CL_ST_PUTFILE_TXDATA ∧ ctx.rxInfo.optcode = TFTP_ACK ∧ 0 ≤ env.sendRc))

/-- The decoded packet is one the server accepts in its transfer state: it
carries the expected block number and is a DATA packet in an upload (the file is
open and `fwrite` stores the payload) or an ACK in a download (`sendto`
succeeds). -/
def SvrAccepts (env : Env) (ctx : server_session_t) : Prop :=
  ctx.rxInfo.blocknum = ctx.nextExpectedBlockNum ∧
  ((ctx.state = SVR_ST_PUTFILE_RXDATA ∧ ctx.rxInfo.optcode = TFTP_DATA ∧ ctx.pFile ≠ none ∧
      size_t_of ((ctx.rxInfo.rxLen : Int) - 4) ≤ env.fwriteLimit) ∨
    (ctx.state = SVR_ST_GETFILE_TXDATA ∧ ctx.rxInfo.optcode = TFTP_ACK ∧ 0 ≤ env.sendRc))

/-- A client in a download that expects block 65535 and has decoded DATA block
65535 with 512 payload bytes. -/
def wrapClient : client_session_t :=
  { staleDataClient with
    blockNum := 65534, nextExpectedBlockNum := 65535,
    rxInfo := { staleDataClient.rxInfo with blocknum := 65535 } }

/-- A server in a download that expects the ACK of block 65535 and has decoded
it. -/
def wrapServer : server_session_t :=
  { staleAckServer with
    blockNum := 65535, nextExpectedBlockNum := 65535,
    rxInfo := { staleAckServer.rxInfo with blocknum := 65535 } }

/-- The client session after the event `EV_CL_PDU_RX`. -/
def clAfter (env : Env) (g : Globals) (ctx : client_session_t) : client_session_t :=
  (cl_fsm_event env g ctx EV_CL_PDU_RX).2.1

/-- The client session after the event `EV_CL_PDU_RX` and the decoding of the
next datagram into `rxInfo`, with the result `rx`. -/
def clNext (env : Env) (g : Globals) (ctx : client_session_t) (rx : prot_frame_info_t) :
    client_session_t :=
  { clAfter env g ctx with rxInfo := rx }

/-- The server session after the event `EV_SVR_PDU_RX`. -/
def svrAfter (env : Env) (g : Globals) (ctx : server_session_t) : server_session_t :=
  svr_fsm_event env g ctx EV_SVR_PDU_RX

/-- The server session after the event `EV_SVR_PDU_RX` and the decoding of the
next datagram into `rxInfo`, with the result `rx`. -/
def svrNext (env : Env) (g : Globals) (ctx : server_session_t) (rx : prot_frame_info_t) :
    server_session_t :=
  { svrAfter env g ctx with rxInfo := rx }

/-- The new datagrams of a step are none, or one packet with the opcode `op` and
the block number `b` in its header, sent to `ip`, `port` on `sock`. -/
def SentNumbered (old new : List Datagram) (sock : Int) (ip : List Nat) (port b : Nat) : Prop :=
  new = old ∨
    ∃ op payload, new = ⟨sock, ip, port, [0, op, b / 256, b % 256] ++ payload⟩ :: old

/-! ## Successive readings of a timer -/

/-- The calls `UtilTickTimerRun(&t)` made one after the other while
`get_tick_count` returns the readings `ticks`: the return values in order and the
timer after the last call. -/
def timerRuns : List Nat → tick_timer_t → List Nat × tick_timer_t
  | [], t => ([], t)
  | tick :: rest, t =>
    ((UtilTickTimerRun tick t).1 :: (timerRuns rest (UtilTickTimerRun tick t).2).1,
      (timerRuns rest (UtilTickTimerRun tick t).2).2)

/-! ## Sample iterations with a datagram and an expired timer -/

/-- DATA block 1 with 512 payload bytes, from port 5000. -/
def fullBlock1 : Recv := recvOf (dataPkt 1 (List.replicate 512 65)) 5000

/-- The server loop after a read request for the file `a` (1000 bytes) arrived
from port 5000 at tick 1000 and DATA block 1 was sent. -/
def serverAfterRrq : ServerLoop :=
  file_server_loop [(kiloEnv, some (recvOf rrqDatagram 5000))] (file_server_start Globals.init 3)

/-- The environment of the server of `kiloFile` at tick 5000. -/
def kiloEnvLater : Env := { kiloEnv with tick := 5000 }

/-! ## A sample upload of an empty file -/

/-- The inputs of a server whose first download sees one time-out (at tick 5000)
and is then ended by the datagram `pkt`, and which receives a second read request
at tick 5200. -/
def secondSessionInputs (pkt : List Nat) : List (Env × Option Recv) :=
  [(envAt 1000, some (recvOf rrqDatagram 5000)), (envAt 5000, none),
   (envAt 5100, some (recvOf pkt 5000)), (envAt 5200, some (recvOf rrqDatagram 5000))]

/-- Two iterations without a datagram in which the ack timer started at tick
`t` expires: at `t + 3100` and at `t + 6200`. -/
def twoTimeouts (t : Nat) : List (Env × Option Recv) :=
  [(envAt (t + 3100), none), (envAt (t + 6200), none)]

/-! ## Sample runs of a client that hears nothing from the server -/

/-- Three iterations of the loop of `file_client` without a datagram in which the
ack timer started at tick 1000 expires: at the ticks 4100, 7200 and 10300. -/
def threeTimeouts : List (Env × Option Recv) :=
  [(envAt 4100, none), (envAt 7200, none), (envAt 10300, none)]

/-- The loop state of `file_client` for `putfile a` when the loop is entered. -/
def putfileLoop : ClientLoop :=
  { ctx := putfileStarted, g := Globals.init, packetCount := 0,
    connectionTmr := UtilTickTimerStart Env.sample.tick tick_timer_t.zero 5, left := false }

/-! ## Runs of time-outs and received packets -/

/-- An event of a client session: the ack timer expired (line 1670), or a
datagram from the port `fromPort` was received and decoded into `rx` (lines
1625-1645). -/
inductive ClientEvent where
  | timeout (env : Env)
  | packet (env : Env) (fromPort : Nat) (rx : prot_frame_info_t)

/-- An event of a server session: the ack timer expired (line 1800), or a
datagram from `fromIp`, `fromPort` was received and decoded into `rx` (lines
1779-1795). -/
inductive ServerEvent where
  | timeout (env : Env)
  | packet (env : Env) (fromIp : List Nat) (fromPort : Nat) (rx : prot_frame_info_t)

/-- What `file_client` does at one event: a time-out is given to `cl_fsm_event`
as `EV_CL_TIMEOUT`; a decoded datagram sets `svrPort` and `rxInfo` and is given
to it as `EV_CL_PDU_RX`. -/
def cl_event (e : ClientEvent) (s : client_session_t × Globals) : client_session_t × Globals :=
  match e with
  | ClientEvent.timeout env => (cl_fsm_event env s.2 s.1 EV_CL_TIMEOUT).2
  | ClientEvent.packet env fromPort rx =>
    (cl_fsm_event env s.2 { s.1 with svrPort := fromPort, rxInfo := rx } EV_CL_PDU_RX).2

/-- Events of a client session one after the other, while `gDone` is 0. -/
def cl_events : List ClientEvent → client_session_t × Globals → client_session_t × Globals
  | [], s => s
  | e :: es, s => if s.2.gDone ≠ 0 then s else cl_events es (cl_event e s)

/-- What `file_server` does at one event: a time-out is given to `svr_fsm_event`
as `EV_SVR_TIMEOUT`; a decoded datagram sets `client_Port`, `client_ip` and
`rxInfo` and is given to it as `EV_SVR_PDU_RX`. -/
def svr_event (e : ServerEvent) (s : ServerLoop) : ServerLoop :=
  match e with
  | ServerEvent.timeout env => { s with ctx := svr_fsm_event env s.g s.ctx EV_SVR_TIMEOUT }
  | ServerEvent.packet env fromIp fromPort rx =>
    { s with ctx := (svr_fsm_event env s.g
        { s.ctx with client_Port := fromPort, client_ip := fromIp, rxInfo := rx } EV_SVR_PDU_RX) }

/-- Events of a server session one after the other, while `gDone` is 0. -/
def svr_events : List ServerEvent → ServerLoop → ServerLoop
  | [], s => s
  | e :: es, s => if s.g.gDone ≠ 0 then s else svr_events es (svr_event e s)

/-- The decoded packet `rx` is of the kind the client waits for in its transfer
state (DATA in a download, ACK in an upload) and carries a block number other
than `nextExpectedBlockNum`. -/
def ClMismatched (ctx : client_session_t) (rx : prot_frame_info_t) : Prop :=
  rx.blocknum ≠ ctx.nextExpectedBlockNum ∧
  ((ctx.state = CL_ST_GETFILE_RXDATA ∧ rx.optcode = TFTP_DATA) ∨
    (ctx.state = CL_ST_PUTFILE_TXDATA ∧ rx.optcode = TFTP_ACK))

/-- The decoded packet `rx` is of the kind the server waits for in its transfer
state (DATA in an upload, ACK in a download) and carries a block number other
than `nextExpectedBlockNum`. -/
def SvrMismatched (ctx : server_session_t) (rx : prot_frame_info_t) : Prop :=
  rx.blocknum ≠ ctx.nextExpectedBlockNum ∧
  ((ctx.state = SVR_ST_PUTFILE_RXDATA ∧ rx.optcode = TFTP_DATA) ∨
    (ctx.state = SVR_ST_GETFILE_TXDATA ∧ rx.optcode = TFTP_ACK))

instance (ctx : client_session_t) (rx : prot_frame_info_t) : Decidable (ClMismatched ctx rx) := by
  unfold ClMismatched
  infer_instance

instance (ctx : server_session_t) (rx : prot_frame_info_t) : Decidable (SvrMismatched ctx rx) := by
  unfold SvrMismatched
  infer_instance

/-- The events of a client: one time-out for each environment of `envs1`, then
the packets `ps`, then one time-out for each environment of `envs2`. -/
def clScenario (envs1 : List Env) (ps : List (Env × Nat × prot_frame_info_t)) (envs2 : List Env) :
    List ClientEvent :=
  envs1.map ClientEvent.timeout ++ ps.map (fun p => ClientEvent.packet p.1 p.2.1 p.2.2) ++
    envs2.map ClientEvent.timeout

/-- The events of a server: one time-out for each environment of `envs1`, then
the packets `ps`, then one time-out for each environment of `envs2`. -/
def svrScenario (envs1 : List Env) (ps : List (Env × List Nat × Nat × prot_frame_info_t))
    (envs2 : List Env) : List ServerEvent :=
  envs1.map ServerEvent.timeout ++ ps.map (fun p => ServerEvent.packet p.1 p.2.1 p.2.2.1 p.2.2.2) ++
    envs2.map ServerEvent.timeout

/-- The client session after the packets `ps` were received and ignored: the
source port and the decoded packet of the last one are in `svrPort` and
`rxInfo`. -/
def cl_heard (ps : List (Env × Nat × prot_frame_info_t)) (ctx : client_session_t) :
    client_session_t :=
  match ps.getLast? with
  | none => ctx
  | some p => { ctx with svrPort := p.2.1, rxInfo := p.2.2 }

/-- The server session after the packets `ps` were received and ignored: the
source of the last one is in `client_ip`, `client_Port` and its decoded form in
`rxInfo`. -/
def svr_heard (ps : List (Env × List Nat × Nat × prot_frame_info_t)) (ctx : server_session_t) :
    server_session_t :=
  match ps.getLast? with
  | none => ctx
  | some p => { ctx with client_Port := p.2.2.1, client_ip := p.2.1, rxInfo := p.2.2.2 }

/-- The message of the ERROR packet a client in the state `state` sends when its
retries are exhausted (lines 958, 843). -/
def clAbortMsg (state : Nat) : List Nat :=
  if state = CL_ST_GETFILE_RXDATA then ascii "timeout waiting for data, closing connection"
  else ascii "timeout waiting for ack, closing connection\n"

/-- The datagram carries an ERROR packet: its first two bytes are 0 and 5. -/
def isErrorDatagram (d : Datagram) : Bool := decide (d.bytes.take 2 = [0, TFTP_ERROR])

/-- A client in a download that expects block 6, whose last send was the ACK of
block 5. -/
def waitingDataClient : client_session_t :=
  { staleDataClient with
    txBuf := ackTxBuf staleDataClient.txBuf 5, txLen := 4, lastTxPort := 5000,
    sent := [⟨3, ascii "10.0.0.1", 5000, [0, 4, 0, 5]⟩] }

/-- A server in a download that expects the ACK of block 6, whose last send was
DATA block 6 with three bytes. -/
def waitingAckServer : server_session_t :=
  { staleAckServer with
    txBuf := dataTxBuf staleAckServer.txBuf 6 [1, 2, 3], txLen := 7, lastTxPort := 5000,
    sent := [⟨3, [], 5000, [0, 3, 0, 6, 1, 2, 3]⟩] }

/-! ## The stores of the encoders into `txBuf` -/

/-- The buffer after the stores `buf[i] = v` of the list, first to last; each
entry is the index and the value. -/
def applyStores (buf : List Nat) (stores : List (Nat × Nat)) : List Nat :=
  stores.foldl (fun b p => b.set p.1 p.2) buf

/-- The stores of `memcpy(&buf[off], src, |src|)`: byte `i` of `src` goes to the
index `off + i`. -/
def memcpyStores (off : Nat) : List Nat → List (Nat × Nat)
  | [] => []
  | b :: bs => (off, b) :: memcpyStores (off + 1) bs

/-- The stores into `txBuf` of `send_first_request` (lines 539-566) for the
opcode `op`: the two opcode bytes, the file name with its NUL at index 2, and
`octet` with its NUL behind it. -/
def requestStores (op : Nat) (filename : List Nat) : List (Nat × Nat) :=
  [(0, 0x00), (1, op)] ++ memcpyStores 2 (cstr filename ++ [0]) ++
    memcpyStores (2 + (strlen filename + 1)) (cstr (ascii "octet") ++ [0])

/-- The stores into `txBuf` of `cl_send_error_pkt` / `svr_send_error_pkt` (lines
738-750, 786-798): the header, the message at index 4, and the terminator at the
index `txLen` holds, `5 + strlen(errMsg)` as a `uint16_t`. -/
def errorStores (errCode : Nat) (errMsg : List Nat) : List (Nat × Nat) :=
  [(0, 0x00), (1, TFTP_ERROR), (2, ((errCode >>> 8) &&& 0xff) % 256),
      (3, (errCode &&& 0xff) % 256)] ++
    memcpyStores 4 (cstr errMsg) ++ [((5 + strlen errMsg) % 65536, 0x00)]

/-- The stores into `txBuf` of `cl_send_ack` / `svr_send_ack` (lines 653-658,
693-698) for the block number `b`. -/
def ackStores (b : Nat) : List (Nat × Nat) :=
  [(0, 0x00), (1, TFTP_ACK), (2, (b >>> 8) &&& 0xFF), (3, b &&& 0xFF)]

/-- The stores into `txBuf` of the DATA encoder of `cl_putfile_txData` and
`svr_getfile_txData` (lines 869-888, 1273-1301) for the block number `b`: `fread`
stores the bytes read at index 4, then the header is written. -/
def dataStores (b : Nat) (bytes : List Nat) : List (Nat × Nat) :=
  memcpyStores 4 bytes ++
    [(0, 0x00), (1, TFTP_DATA), (2, ((b >>> 8) &&& 0xff) % 256), (3, (b &&& 0xff) % 256)]

/-- The stores into `txBuf` of the DATA encoder of `svr_wait_first_request`
(lines 1166-1172) for the block number `b`: the header is written, then `fread`
stores the bytes read at index 4. -/
def firstDataStores (b : Nat) (bytes : List Nat) : List (Nat × Nat) :=
  [(0, 0x00), (1, TFTP_DATA), (2, ((b >>> 8) &&& 0xff) % 256), (3, (b &&& 0xff) % 256)] ++
    memcpyStores 4 bytes

/-- Every store of the list is at an index below `MAX_TX_BUFF`, the size of
`txBuf`. -/
def StoresInTxBuf (stores : List (Nat × Nat)) : Prop := ∀ p ∈ stores, p.1 < MAX_TX_BUFF

instance (stores : List (Nat × Nat)) : Decidable (StoresInTxBuf stores) := by
  unfold StoresInTxBuf
  infer_instance

/-- The opcode `send_first_request` writes for the operation string. -/
def requestOpcode (operationStr : List Nat) : Nat :=
  if cstr operationStr = ascii "getfile" then TFTP_RRQ else TFTP_WRQ

/-- A client in an upload that has decoded the ACK it waits for, of block 5; the
file holds 512 bytes more. -/
def ackedClient : client_session_t :=
  { staleAckClient with
    nextExpectedBlockNum := 5, blockNum := 5, pFile := some ⟨List.replicate 4000 65, 3488⟩ }

/-- A server in a download that has decoded the ACK it waits for, of block 5;
the file holds 512 bytes more. -/
def ackedServer : server_session_t :=
  { staleAckServer with
    nextExpectedBlockNum := 5, blockNum := 5, pFile := some ⟨List.replicate 4000 65, 3488⟩ }

/-! ## Where the stores of the decoder land -/

/-- The offset of an array member of `prot_frame_info_t` from `dataBuf[0]`: the
four `uint8_t` arrays follow one another (lines 79-82). -/
def RxField.offset : RxField → Nat
  | .dataBuf => 0
  | .filename => PROT_MAX_DATA
  | .mode => 2 * PROT_MAX_DATA
  | .errMessage => 2 * PROT_MAX_DATA + MAX_MODE_BUFF

/-- The store `pf->f[i] = v` lands inside the receive structure: in one of the
four arrays or in the byte that follows `errMessage`, which the structure holds
because `isLastDataBlock` comes after it (line 84).  A store with a larger
offset lands in the session members behind `rxInfo` (`pFile`, `filename`,
`lastTxPort`, `txBuf`). -/
def StoreInRxInfo (w : RxField × Nat) : Prop :=
  w.1.offset + w.2 ≤ 3 * PROT_MAX_DATA + MAX_MODE_BUFF

instance (w : RxField × Nat) : Decidable (StoreInRxInfo w) := by
  unfold StoreInRxInfo
  infer_instance

/-! ## What a writer of `txBuf` keeps -/

/-- The code that took the transmit buffer from `buf`, `txLen` to `out`,
`outLen` stored nothing at an index of 600 or more: the two lists have the same
length and the same bytes from index `MAX_TX_BUFF` on, and `txLen` is as before
or at most `MAX_TX_BUFF`.  The list `buf` may be longer than the 600 bytes of
the array `txBuf`; its bytes from index 600 on are then the memory behind the
array, so a store past the array changes the list. -/
def TxKept (buf : List Nat) (txLen : Nat) (out : List Nat) (outLen : Nat) : Prop :=
  out.length = buf.length ∧ (∀ i, MAX_TX_BUFF ≤ i → out[i]? = buf[i]?) ∧
    (outLen = txLen ∨ outLen ≤ MAX_TX_BUFF)

/-- A client session whose list `txBuf` holds the 600 bytes of the array and 100
bytes of the memory behind it, all of them 7; it has decoded the ACK it waits
for in an upload. -/
def longBufClient : client_session_t := { ackedClient with txBuf := List.replicate 700 7 }

/-- A server session whose list `txBuf` holds the 600 bytes of the array and 100
bytes of the memory behind it, all of them 7; it has decoded the ACK it waits
for in a download. -/
def longBufServer : server_session_t := { ackedServer with txBuf := List.replicate 700 7 }

/-! The evaluations of the decoder on whole datagrams below run its loops up to
2044 times; the default recursion limit of the elaborator is too low for them. -/
set_option maxRecDepth 100000

/-! ## Lemmas: memory primitives -/

theorem memcpy_length (src : List Nat) : ∀ (dst : List Nat) (off : Nat),
    (memcpy dst off src).length = dst.length := by
  induction src with
  | nil => intro dst off; rfl
  | cons b bs ih => intro dst off; simp [memcpy, ih]

theorem memcpy_cons_succ (src : List Nat) : ∀ (x : Nat) (dst : List Nat) (off : Nat),
    memcpy (x :: dst) (off + 1) src = x :: memcpy dst off src := by
  induction src with
  | nil => intro x dst off; rfl
  | cons b bs ih => intro x dst off; simp [memcpy, ih]

theorem memcpy_zero (src : List Nat) : ∀ (dst : List Nat), src.length ≤ dst.length →
    memcpy dst 0 src = src ++ dst.drop src.length := by
  induction src with
  | nil => intro dst _; rfl
  | cons b bs ih =>
    intro dst h
    cases dst with
    | nil => simp at h
    | cons d ds =>
      simp only [List.length_cons, Nat.add_le_add_iff_right] at h
      simp [memcpy, memcpy_cons_succ, ih ds h]

theorem memcpy_eq (src : List Nat) : ∀ (off : Nat) (dst : List Nat), off + src.length ≤ dst.length →
    memcpy dst off src = dst.take off ++ src ++ dst.drop (off + src.length) := by
  intro off
  induction off with
  | zero => intro dst h; simpa using memcpy_zero src dst (by simpa using h)
  | succ k ih =>
    intro dst h
    cases dst with
    | nil => simp at h
    | cons d ds =>
      have h2 : k + src.length ≤ ds.length := by simp only [List.length_cons] at h; omega
      rw [memcpy_cons_succ, ih ds h2]
      have : k + 1 + src.length = (k + src.length) + 1 := by omega
      simp [this]

theorem memcpy_take (src : List Nat) (off : Nat) (dst : List Nat) (h : off + src.length ≤ dst.length) :
    (memcpy dst off src).take (off + src.length) = dst.take off ++ src := by
  rw [memcpy_eq src off dst h]
  have hl : (dst.take off ++ src).length = off + src.length := by
    simp [List.length_take]; omega
  rw [← hl, List.take_left']
  rfl

/-! ## Lemmas: the receive structure -/

@[simp] theorem field_withField_same (pf : prot_frame_info_t) (f : RxField) (l : List Nat) :
    (pf.withField f l).field f = l := by
  cases f <;> rfl

@[simp] theorem withField_withField (pf : prot_frame_info_t) (f : RxField) (l l2 : List Nat) :
    (pf.withField f l).withField f l2 = pf.withField f l2 := by
  cases f <;> rfl

theorem withField_field (pf : prot_frame_info_t) (f : RxField) : pf.withField f (pf.field f) = pf := by
  cases f <;> rfl

theorem copied_zero (pktBuf : List Nat) (f : RxField) (n i : Nat) (r : RxRun) :
    copied pktBuf f n i 0 r = r := by
  simp [copied, slice, memcpy, withField_field]

theorem copied_succ (pktBuf : List Nat) (f : RxField) (n i m : Nat) (r : RxRun) :
    copied pktBuf f (n + 1) (i + 1) m ((r.load n).store f i (rd pktBuf n)) =
      copied pktBuf f n i (m + 1) r := by
  simp [copied, slice, RxRun.store, RxRun.load, List.range'_succ, memcpy]

theorem strLoop_eq (pktBuf : List Nat) (f : RxField) (cap : Nat) :
    ∀ (m n i : Nat) (r : RxRun), n ≠ 0 → i + m = cap →
      strLoop pktBuf f cap m n i r = (n + m, cap, copied pktBuf f n i m r) := by
  intro m
  induction m with
  | zero => intro n i r _ h; simp [strLoop, copied_zero, ← h]
  | succ k ih =>
    intro n i r hn h
    have hi : i < cap := by omega
    simp only [strLoop, hn, hi, ne_eq, not_false_eq_true, and_self, if_true]
    rw [ih (n + 1) (i + 1) _ (by omega) (by omega), copied_succ]
    congr 1
    omega

theorem strLoop_skip (pktBuf : List Nat) (f : RxField) (cap : Nat) (fuel n i : Nat) (r : RxRun)
    (h : cap ≤ i) : strLoop pktBuf f cap fuel n i r = (n, i, r) := by
  cases fuel with
  | zero => rfl
  | succ k => simp [strLoop, Nat.not_lt.mpr h]

theorem dataLoop_eq (pktBuf : List Nat) (dataLen : Nat) :
    ∀ (m i n : Nat) (r : RxRun), i + m = dataLen →
      dataLoop pktBuf dataLen m i n r = (dataLen, n + m, copied pktBuf .dataBuf n i m r) := by
  intro m
  induction m with
  | zero => intro i n r h; simp [dataLoop, copied_zero, ← h]
  | succ k ih =>
    intro i n r h
    have hi : i < dataLen := by omega
    simp only [dataLoop, hi, if_true]
    rw [ih (i + 1) (n + 1) _ (by omega), copied_succ]
    congr 2
    omega

/-! ## Lemmas: closed forms of `receive_tftp_pkt` -/

theorem receive_short (pf : prot_frame_info_t) (pktBuf : List Nat) (pktBufLen : Nat)
    (h : pktBufLen < 4) : receive_tftp_pkt pf pktBuf pktBufLen = (0, ⟨pf, [], []⟩) := by
  simp [receive_tftp_pkt, h]

theorem receive_first_nonzero (pf : prot_frame_info_t) (pktBuf : List Nat) (pktBufLen : Nat)
    (h : rd pktBuf 0 ≠ 0) : (receive_tftp_pkt pf pktBuf pktBufLen).1 = 0 := by
  unfold receive_tftp_pkt
  by_cases h4 : pktBufLen < 4
  · simp [h4]
  · simp [h4, h]

theorem receive_bad_opcode (pf : prot_frame_info_t) (pktBuf : List Nat) (pktBufLen : Nat)
    (h1 : rd pktBuf 1 ≠ 1) (h2 : rd pktBuf 1 ≠ 2) (h3 : rd pktBuf 1 ≠ 3) (h4 : rd pktBuf 1 ≠ 4)
    (h5 : rd pktBuf 1 ≠ 5) : (receive_tftp_pkt pf pktBuf pktBufLen).1 = 0 := by
  unfold receive_tftp_pkt
  by_cases hl : pktBufLen < 4
  · simp [hl]
  · by_cases h0 : rd pktBuf 0 ≠ 0
    · simp [hl, h0]
    · simp [hl, h0, h1, h2, h3, h4, h5, TFTP_DATA, TFTP_ACK, TFTP_RRQ, TFTP_WRQ, TFTP_ERROR]

theorem receive_data_eq (pf : prot_frame_info_t) (pktBuf : List Nat) (pktBufLen : Nat)
    (hl : 4 ≤ pktBufLen) (h0 : rd pktBuf 0 = 0) (h1 : rd pktBuf 1 = 3) :
    receive_tftp_pkt pf pktBuf pktBufLen =
      (1, { pf := { pf with
                optcode := 3, blocknum := ntohs_at pktBuf 2,
                isLastDataBlock := if pktBufLen - 4 < PROT_MAX_DATA then 1 else 0,
                dataBuf := memcpy pf.dataBuf 0 (slice pktBuf 4 (pktBufLen - 4)),
                rxLen := pktBufLen % 65536 },
            reads := (List.range' 4 (pktBufLen - 4)).reverse ++ [3, 2, 1, 0],
            writes := ((List.range' 0 (pktBufLen - 4)).map (fun j => (RxField.dataBuf, j))).reverse }) := by
  have hl2 : ¬ pktBufLen < 4 := by omega
  simp [receive_tftp_pkt, hl2, h0, h1, TFTP_DATA, rxData, dataLoop_eq pktBuf (pktBufLen - 4) (pktBufLen - 4) 0 _ _ (Nat.zero_add _),
    copied, RxRun.load, prot_frame_info_t.withField, prot_frame_info_t.field]

theorem receive_ack_eq (pf : prot_frame_info_t) (pktBuf : List Nat) (pktBufLen : Nat)
    (hl : 4 ≤ pktBufLen) (h0 : rd pktBuf 0 = 0) (h1 : rd pktBuf 1 = 4) :
    receive_tftp_pkt pf pktBuf pktBufLen =
      (1, { pf := { pf with optcode := 4, blocknum := ntohs_at pktBuf 2, rxLen := pktBufLen % 65536 },
            reads := [3, 2, 1, 0],
            writes := [] }) := by
  have hl2 : ¬ pktBufLen < 4 := by omega
  simp [receive_tftp_pkt, hl2, h0, h1, TFTP_DATA, TFTP_ACK, rxAck, RxRun.load]

theorem receive_request_eq (pf : prot_frame_info_t) (pktBuf : List Nat) (pktBufLen : Nat)
    (hl : 4 ≤ pktBufLen) (h0 : rd pktBuf 0 = 0) (h1 : rd pktBuf 1 = 1 ∨ rd pktBuf 1 = 2) :
    receive_tftp_pkt pf pktBuf pktBufLen =
      (1, { pf := { pf with
                optcode := rd pktBuf 1,
                filename := (memcpy pf.filename 0 (slice pktBuf 2 PROT_MAX_DATA)).set PROT_MAX_DATA 0,
                mode := pf.mode.set (PROT_MAX_DATA + 1) 0,
                rxLen := pktBufLen % 65536 },
            reads := (List.range' 2 PROT_MAX_DATA).reverse ++ [1, 0],
            writes := (RxField.mode, PROT_MAX_DATA + 1) :: (RxField.filename, PROT_MAX_DATA) ::
              ((List.range' 0 PROT_MAX_DATA).map (fun j => (RxField.filename, j))).reverse }) := by
  have hl2 : ¬ pktBufLen < 4 := by omega
  have hop : rd pktBuf 1 ≠ 3 ∧ rd pktBuf 1 ≠ 4 := by omega
  have hs := fun r => strLoop_eq pktBuf .filename PROT_MAX_DATA PROT_MAX_DATA 2 0 r (by decide)
    (Nat.zero_add _)
  have hm : ∀ r, strLoop pktBuf .mode MAX_MODE_BUFF (MAX_MODE_BUFF - (PROT_MAX_DATA + 1))
      (2 + PROT_MAX_DATA + 1) (PROT_MAX_DATA + 1) r = (2 + PROT_MAX_DATA + 1, PROT_MAX_DATA + 1, r) :=
    fun r => strLoop_skip pktBuf .mode MAX_MODE_BUFF _ _ _ r (by decide)
  simp [receive_tftp_pkt, rxRequest, hl2, h0, h1, hop, TFTP_DATA, TFTP_ACK, TFTP_RRQ, TFTP_WRQ, hs, hm,
    copied, RxRun.load, RxRun.store, prot_frame_info_t.withField, prot_frame_info_t.field]

theorem receive_error_eq (pf : prot_frame_info_t) (pktBuf : List Nat) (pktBufLen : Nat)
    (hl : 4 ≤ pktBufLen) (h0 : rd pktBuf 0 = 0) (h1 : rd pktBuf 1 = 5) :
    receive_tftp_pkt pf pktBuf pktBufLen =
      (1, { pf := { pf with
                optcode := 5, errCode := ntohs_at pktBuf 2,
                errMessage := (memcpy pf.errMessage 0 (slice pktBuf 4 PROT_MAX_DATA)).set PROT_MAX_DATA 0,
                rxLen := pktBufLen % 65536 },
            reads := (List.range' 4 PROT_MAX_DATA).reverse ++ [3, 2, 1, 0],
            writes := (RxField.errMessage, PROT_MAX_DATA) ::
              ((List.range' 0 PROT_MAX_DATA).map (fun j => (RxField.errMessage, j))).reverse }) := by
  have hl2 : ¬ pktBufLen < 4 := by omega
  have hs := fun r => strLoop_eq pktBuf .errMessage PROT_MAX_DATA PROT_MAX_DATA 4 0 r (by decide)
    (Nat.zero_add _)
  simp [receive_tftp_pkt, rxError, hl2, h0, h1, TFTP_DATA, TFTP_ACK, TFTP_RRQ, TFTP_WRQ, TFTP_ERROR, hs,
    copied, RxRun.load, RxRun.store, prot_frame_info_t.withField, prot_frame_info_t.field]

/-! ## Lemmas: slices, headers, block-number bytes -/

theorem rd_eq_getElem (l : List Nat) (n : Nat) (h : n < l.length) : rd l n = l[n] := by
  simp [rd, List.getElem?_eq_getElem h]

theorem slice_eq_take_drop (l : List Nat) : ∀ (m n : Nat), n + m ≤ l.length →
    slice l n m = (l.drop n).take m := by
  intro m
  induction m with
  | zero => intro n _; simp [slice]
  | succ k ih =>
    intro n h
    have hn : n < l.length := by omega
    have ih2 := ih (n + 1) (by omega)
    simp only [slice] at ih2 ⊢
    rw [List.range'_succ, List.map_cons, ih2, List.drop_eq_getElem_cons hn, List.take_succ_cons,
      rd_eq_getElem l n hn]

theorem slice_append (a p rest : List Nat) : slice (a ++ p ++ rest) a.length p.length = p := by
  rw [slice_eq_take_drop _ _ _ (by simp)]
  simp [List.append_assoc]

theorem hi_byte (b : Nat) (hb : b < 65536) : (b >>> 8) &&& 0xFF = b / 256 := by
  have h := Nat.and_pow_two_sub_one_eq_mod (b >>> 8) 8
  have h2 : b >>> 8 = b / 256 := by simp [Nat.shiftRight_eq_div_pow]
  simp only [h2] at h ⊢
  have h3 : b / 256 < 256 := by omega
  simpa [Nat.mod_eq_of_lt h3] using h

theorem lo_byte (b : Nat) : b &&& 0xFF = b % 256 := by
  simpa using Nat.and_pow_two_sub_one_eq_mod b 8

theorem set_header (l : List Nat) (h : 4 ≤ l.length) (a b c d : Nat) :
    (((l.set 0 a).set 1 b).set 2 c).set 3 d = a :: b :: c :: d :: l.drop 4 := by
  match l, h with
  | x0 :: x1 :: x2 :: x3 :: rest, _ => simp

theorem cl_send_ack_eq (env : Env) (ctx : client_session_t) (h : ctx.txBuf.length = MAX_TX_BUFF)
    (hb : ctx.blockNum < 65536) :
    (cl_send_ack env ctx).2 = { ctx with
      txBuf := 0 :: 4 :: (ctx.blockNum / 256) :: (ctx.blockNum % 256) :: ctx.txBuf.drop 4,
      txLen := 4, lastTxPort := ctx.svrPort,
      sent := ⟨ctx.clientSock, ctx.remoteIpStr, ctx.svrPort, [0, 4, ctx.blockNum / 256, ctx.blockNum % 256]⟩ :: ctx.sent } := by
  have h4 : 4 ≤ ctx.txBuf.length := by rw [h]; decide
  have hs := set_header ctx.txBuf h4 0 4 (ctx.blockNum / 256) (ctx.blockNum % 256)
  unfold cl_send_ack
  simp only [TFTP_ACK, hi_byte _ hb, lo_byte, Nat.zero_add, hs]
  split <;> simp

theorem svr_send_ack_eq (env : Env) (ctx : server_session_t) (h : ctx.txBuf.length = MAX_TX_BUFF)
    (hb : ctx.blockNum < 65536) :
    (svr_send_ack env ctx).2 = { ctx with
      txBuf := 0 :: 4 :: (ctx.blockNum / 256) :: (ctx.blockNum % 256) :: ctx.txBuf.drop 4,
      txLen := 4, lastTxPort := ctx.client_Port,
      sent := ⟨ctx.serverSock, ctx.client_ip, ctx.client_Port, [0, 4, ctx.blockNum / 256, ctx.blockNum % 256]⟩ :: ctx.sent } := by
  have h4 : 4 ≤ ctx.txBuf.length := by rw [h]; decide
  have hs := set_header ctx.txBuf h4 0 4 (ctx.blockNum / 256) (ctx.blockNum % 256)
  unfold svr_send_ack
  simp only [TFTP_ACK, hi_byte _ hb, lo_byte, Nat.zero_add, hs]
  split <;> simp

/-! ## Lemmas: C strings and the request encoder -/

theorem cstr_eq_self (s : List Nat) (h : ∀ c ∈ s, c ≠ 0) : cstr s = s := by
  unfold cstr
  rw [List.takeWhile_eq_self_iff]
  intro c hc
  simpa using h c hc

theorem strlen_eq_length (s : List Nat) (h : ∀ c ∈ s, c ≠ 0) : strlen s = s.length := by
  simp [strlen, cstr_eq_self s h]

theorem ascii_octet : ascii "octet" = [111, 99, 116, 101, 116] := by decide

theorem set_opcode_take (l : List Nat) (h : 2 ≤ l.length) (a b : Nat) :
    ((l.set 0 a).set 1 b).take 2 = [a, b] := by
  match l, h with
  | x0 :: x1 :: rest, _ => simp

theorem request_bytes (l : List Nat) (h : l.length = MAX_TX_BUFF) (op : Nat) (f : List Nat)
    (hf : f.length ≤ PROT_MAX_DATA) :
    (memcpy (memcpy ((l.set 0 0).set 1 op) 2 (f ++ [0])) (2 + (f.length + 1))
        ([111, 99, 116, 101, 116] ++ [0])).take (2 + (f.length + 1) + (5 + 1)) =
      [0, op] ++ f ++ [0] ++ [111, 99, 116, 101, 116] ++ [0] := by
  have hl : ((l.set 0 0).set 1 op).length = 600 := by simpa using h
  have hf2 : f.length ≤ 512 := hf
  have h1 : (memcpy ((l.set 0 0).set 1 op) 2 (f ++ [0])).take (2 + (f ++ [0]).length) =
      [0, op] ++ (f ++ [0]) := by
    rw [memcpy_take _ _ _ (by rw [hl, List.length_append]; simp; omega),
      set_opcode_take l (by rw [h]; decide)]
  have h2 := memcpy_take ([111, 99, 116, 101, 116] ++ [0]) (2 + (f.length + 1))
    (memcpy ((l.set 0 0).set 1 op) 2 (f ++ [0])) (by rw [memcpy_length, hl]; simp; omega)
  have e1 : (2 + (f.length + 1) + (5 + 1)) = 2 + (f.length + 1) + ([111, 99, 116, 101, 116] ++ [0]).length := by
    simp
  have e2 : 2 + (f.length + 1) = 2 + (f ++ [0]).length := by simp
  rw [e1, h2, e2, h1]
  simp

/-! ## Lemmas: the DATA senders -/

theorem hi_byte_mod (b : Nat) (hb : b < 65536) : ((b >>> 8) &&& 0xff) % 256 = b / 256 := by
  have h := hi_byte b hb
  simp only [Nat.reduceAdd] at h ⊢
  rw [h]
  omega

theorem lo_byte_mod (b : Nat) : (b &&& 0xff) % 256 = b % 256 := by
  have h := lo_byte b
  simp only [Nat.reduceAdd] at h ⊢
  rw [h]
  omega

theorem fread_length_le (pFile : Option FILE) (count : Nat) : (fread pFile count).1.length ≤ count := by
  cases pFile with
  | none => simp [fread]
  | some f => simp [fread, List.length_take]

theorem data_bytes_after (l : List Nat) (h : l.length = MAX_TX_BUFF) (a b c d : Nat) (bytes : List Nat)
    (hb : bytes.length ≤ PROT_MAX_DATA) :
    (((((memcpy l 4 bytes).set 0 a).set 1 b).set 2 c).set 3 d).take (4 + bytes.length) =
      [a, b, c, d] ++ bytes := by
  have h1 : 4 + bytes.length ≤ l.length := by rw [h]; simp only [MAX_TX_BUFF]; have : bytes.length ≤ 512 := hb; omega
  rw [set_header _ (by rw [memcpy_length]; omega), memcpy_eq bytes 4 l h1]
  have h4 : (l.take 4).length = 4 := by simp [List.length_take]; omega
  have : List.drop 4 (List.take 4 l ++ bytes ++ List.drop (4 + bytes.length) l) =
      bytes ++ List.drop (4 + bytes.length) l := by
    rw [List.append_assoc, List.drop_left' h4]
  rw [this]
  have e : 4 + bytes.length = ([a, b, c, d] ++ bytes).length := by simp; omega
  have e2 : a :: b :: c :: d :: (bytes ++ List.drop (4 + bytes.length) l) =
      ([a, b, c, d] ++ bytes) ++ List.drop (4 + bytes.length) l := by simp
  rw [e2, List.take_left' e.symm]

theorem data_bytes_before (l : List Nat) (h : l.length = MAX_TX_BUFF) (a b c d : Nat) (bytes : List Nat)
    (hb : bytes.length ≤ PROT_MAX_DATA) :
    (memcpy ((((l.set 0 a).set 1 b).set 2 c).set 3 d) 4 bytes).take (4 + bytes.length) =
      [a, b, c, d] ++ bytes := by
  have h1 : 4 ≤ l.length := by rw [h]; decide
  have hb2 : bytes.length ≤ 512 := hb
  rw [set_header l h1, memcpy_take bytes 4 _ (by simp [List.length_drop, h, MAX_TX_BUFF]; omega)]
  simp

theorem cl_send_error_pkt_sent (env : Env) (ctx : client_session_t) (c : Nat) (m : List Nat) :
    ∃ pre, (cl_send_error_pkt env ctx c m).2.sent = pre ++ ctx.sent := by
  unfold cl_send_error_pkt
  by_cases h : strlen m > PROT_MAX_DATA
  · exact ⟨[], by simp [h]⟩
  · by_cases hr : env.sendRc = -1
    · exact ⟨_, by simp only [h, hr, if_true, if_false]; exact (List.singleton_append).symm⟩
    · exact ⟨_, by simp only [h, hr, if_true, if_false]; exact (List.singleton_append).symm⟩

theorem svr_send_error_pkt_sent (env : Env) (ctx : server_session_t) (c : Nat) (m : List Nat) :
    ∃ pre, (svr_send_error_pkt env ctx c m).2.sent = pre ++ ctx.sent := by
  unfold svr_send_error_pkt
  by_cases h : strlen m > PROT_MAX_DATA
  · exact ⟨[], by simp [h]⟩
  · by_cases hr : env.sendRc = -1
    · exact ⟨_, by simp only [h, hr, if_true, if_false]; exact (List.singleton_append).symm⟩
    · exact ⟨_, by simp only [h, hr, if_true, if_false]; exact (List.singleton_append).symm⟩

theorem cl_close_file_and_sock_sent (ctx : client_session_t) :
    (cl_close_file_and_sock ctx).sent = ctx.sent := by
  unfold cl_close_file_and_sock
  cases ctx.pFile <;> rfl

theorem cl_close_file_and_sock_blockNum (ctx : client_session_t) :
    (cl_close_file_and_sock ctx).blockNum = ctx.blockNum := by
  unfold cl_close_file_and_sock
  cases ctx.pFile <;> rfl

theorem cl_send_error_pkt_blockNum (env : Env) (ctx : client_session_t) (c : Nat) (m : List Nat) :
    (cl_send_error_pkt env ctx c m).2.blockNum = ctx.blockNum := by
  unfold cl_send_error_pkt
  by_cases h : strlen m > PROT_MAX_DATA
  · simp [h]
  · by_cases hr : env.sendRc = -1 <;> simp [h, hr]

theorem svr_send_error_pkt_blockNum (env : Env) (ctx : server_session_t) (c : Nat) (m : List Nat) :
    (svr_send_error_pkt env ctx c m).2.blockNum = ctx.blockNum := by
  unfold svr_send_error_pkt
  by_cases h : strlen m > PROT_MAX_DATA
  · simp [h]
  · by_cases hr : env.sendRc = -1 <;> simp [h, hr]

theorem cl_putfile_txData_data (env : Env) (g : Globals) (ctx : client_session_t)
    (htx : ctx.txBuf.length = MAX_TX_BUFF)
    (hop : ctx.rxInfo.optcode = TFTP_ACK) (hblk : ctx.rxInfo.blocknum = ctx.nextExpectedBlockNum)
    (hgo : ¬ ((fread ctx.pFile PROT_MAX_DATA).1.length = 0 ∧ ctx.isFirstDataBlock = 0 ∧
      (ctx.txLen : Int) - 4 < PROT_MAX_DATA)) :
    let bytes := (fread ctx.pFile PROT_MAX_DATA).1
    let out := (cl_putfile_txData env g ctx EV_CL_PDU_RX).2.1
    let b := (ctx.blockNum + 1) % 65536
    out.blockNum = b ∧
    (∃ pre, out.sent = pre ++ ⟨ctx.clientSock, ctx.remoteIpStr, ctx.svrPort, [0, 3, b / 256, b % 256] ++ bytes⟩ :: ctx.sent ∧
      (0 ≤ env.sendRc → pre = [] ∧ out.txLen = 4 + bytes.length ∧
        out.txBuf.take out.txLen = [0, 3, b / 256, b % 256] ++ bytes)) := by
  have hlen := fread_length_le ctx.pFile PROT_MAX_DATA
  have hb : (ctx.blockNum + 1) % 65536 < 65536 := Nat.mod_lt _ (by decide)
  have hmod : (4 + (fread ctx.pFile PROT_MAX_DATA).1.length) % 65536 =
      4 + (fread ctx.pFile PROT_MAX_DATA).1.length := by
    have : (fread ctx.pFile PROT_MAX_DATA).1.length ≤ 512 := hlen
    omega
  have hbytes := data_bytes_after ctx.txBuf htx 0 3 (((ctx.blockNum + 1) % 65536) / 256)
    (((ctx.blockNum + 1) % 65536) % 256) (fread ctx.pFile PROT_MAX_DATA).1 hlen
  unfold cl_putfile_txData
  simp only [EV_CL_PDU_RX, EV_CL_TIMEOUT, hop, hblk, TFTP_ACK, TFTP_DATA, hgo, if_false, if_true,
    ne_eq, not_true_eq_false, Nat.zero_add, hi_byte_mod _ hb, lo_byte_mod, hmod,
    cl_send_packet_buffer, Nat.one_ne_zero, Nat.succ_ne_zero, OfNat.ofNat_ne_zero]
  by_cases hr : env.sendRc < 0
  · simp only [hr, if_true]
    refine ⟨?_, ?_⟩
    · rw [cl_close_file_and_sock_blockNum, cl_send_error_pkt_blockNum]
    · obtain ⟨pre, hpre⟩ := cl_send_error_pkt_sent env
        { ctx with
          num_retrans_tries := 0, blockNum := (ctx.blockNum + 1) % 65536,
          nextExpectedBlockNum := (ctx.nextExpectedBlockNum + 1) % 65536,
          pFile := (fread ctx.pFile PROT_MAX_DATA).2, lastTxPort := ctx.svrPort,
          txBuf := ((((memcpy ctx.txBuf 4 (fread ctx.pFile PROT_MAX_DATA).1).set 0 0).set 1 3).set 2
            ((ctx.blockNum + 1) % 65536 / 256)).set 3 ((ctx.blockNum + 1) % 65536 % 256),
          txLen := 4 + (fread ctx.pFile PROT_MAX_DATA).1.length,
          sent := ⟨ctx.clientSock, ctx.remoteIpStr, ctx.svrPort,
            List.take (4 + (fread ctx.pFile PROT_MAX_DATA).1.length)
              (((((memcpy ctx.txBuf 4 (fread ctx.pFile PROT_MAX_DATA).1).set 0 0).set 1 3).set 2
                ((ctx.blockNum + 1) % 65536 / 256)).set 3 ((ctx.blockNum + 1) % 65536 % 256))⟩ ::
            ctx.sent }
        0 (ascii "error sending data packet, closing connection")
      refine ⟨pre, ?_, fun h0 => absurd hr (by omega)⟩
      rw [cl_close_file_and_sock_sent, hpre, hbytes]
  · simp [hr, hbytes]

theorem svr_getfile_txData_data (env : Env) (g : Globals) (ctx : server_session_t)
    (htx : ctx.txBuf.length = MAX_TX_BUFF)
    (hop : ctx.rxInfo.optcode = TFTP_ACK) (hblk : ctx.rxInfo.blocknum = ctx.nextExpectedBlockNum)
    (hgo : ¬ ((fread ctx.pFile PROT_MAX_DATA).1.length = 0 ∧
      (ctx.txLen : Int) - 4 < PROT_MAX_DATA)) :
    let bytes := (fread ctx.pFile PROT_MAX_DATA).1
    let out := svr_getfile_txData env g ctx EV_SVR_PDU_RX
    let b := (ctx.blockNum + 1) % 65536
    out.blockNum = b ∧
    (∃ pre, out.sent = pre ++ ⟨ctx.serverSock, ctx.client_ip, ctx.client_Port, [0, 3, b / 256, b % 256] ++ bytes⟩ :: ctx.sent ∧
      (0 ≤ env.sendRc → pre = [] ∧ out.txLen = 4 + bytes.length ∧
        out.txBuf.take out.txLen = [0, 3, b / 256, b % 256] ++ bytes)) := by
  have hlen := fread_length_le ctx.pFile PROT_MAX_DATA
  have hb : (ctx.blockNum + 1) % 65536 < 65536 := Nat.mod_lt _ (by decide)
  have hmod : (4 + (fread ctx.pFile PROT_MAX_DATA).1.length) % 65536 =
      4 + (fread ctx.pFile PROT_MAX_DATA).1.length := by
    have : (fread ctx.pFile PROT_MAX_DATA).1.length ≤ 512 := hlen
    omega
  have hbytes := data_bytes_after ctx.txBuf htx 0 3 (((ctx.blockNum + 1) % 65536) / 256)
    (((ctx.blockNum + 1) % 65536) % 256) (fread ctx.pFile PROT_MAX_DATA).1 hlen
  unfold svr_getfile_txData
  simp only [EV_SVR_PDU_RX, EV_SVR_TIMEOUT, hop, hblk, TFTP_ACK, TFTP_DATA, hgo, if_false, if_true,
    ne_eq, not_true_eq_false, Nat.zero_add, hi_byte_mod _ hb, lo_byte_mod, hmod,
    svr_send_packet_buffer, Nat.one_ne_zero, Nat.succ_ne_zero, OfNat.ofNat_ne_zero]
  by_cases hr : env.sendRc < 0
  · simp only [hr, if_true, server_change_state]
    refine ⟨?_, ?_⟩
    · rw [svr_send_error_pkt_blockNum]
    · obtain ⟨pre, hpre⟩ := svr_send_error_pkt_sent env
        { ctx with
          num_retrans_tries := 0, blockNum := (ctx.blockNum + 1) % 65536,
          nextExpectedBlockNum := (ctx.nextExpectedBlockNum + 1) % 65536,
          pFile := (fread ctx.pFile PROT_MAX_DATA).2, lastTxPort := ctx.client_Port,
          txBuf := ((((memcpy ctx.txBuf 4 (fread ctx.pFile PROT_MAX_DATA).1).set 0 0).set 1 3).set 2
            ((ctx.blockNum + 1) % 65536 / 256)).set 3 ((ctx.blockNum + 1) % 65536 % 256),
          txLen := 4 + (fread ctx.pFile PROT_MAX_DATA).1.length,
          sent := ⟨ctx.serverSock, ctx.client_ip, ctx.client_Port,
            List.take (4 + (fread ctx.pFile PROT_MAX_DATA).1.length)
              (((((memcpy ctx.txBuf 4 (fread ctx.pFile PROT_MAX_DATA).1).set 0 0).set 1 3).set 2
                ((ctx.blockNum + 1) % 65536 / 256)).set 3 ((ctx.blockNum + 1) % 65536 % 256))⟩ ::
            ctx.sent }
        0 (ascii "error sending data packet, closing connection")
      refine ⟨pre, ?_, fun h0 => absurd hr (by omega)⟩
      rw [hpre, hbytes]
  · simp [hr, hbytes]

theorem svr_wait_first_request_data (env : Env) (g : Globals) (ctx : server_session_t)
    (htx : ctx.txBuf.length = MAX_TX_BUFF) (content : List Nat)
    (hop : ctx.rxInfo.optcode = TFTP_RRQ)
    (hopen : env.fopenRead (cstr ctx.rxInfo.filename) = some content) :
    let bytes := content.take PROT_MAX_DATA
    let out := svr_wait_first_request env g ctx EV_SVR_PDU_RX
    out.blockNum = 1 ∧
    (∃ pre, out.sent = pre ++ ⟨ctx.serverSock, ctx.client_ip, ctx.client_Port, [0, 3, 0, 1] ++ bytes⟩ :: ctx.sent ∧
      (0 ≤ env.sendRc → pre = [] ∧ out.txLen = 4 + bytes.length ∧
        out.txBuf.take out.txLen = [0, 3, 0, 1] ++ bytes)) := by
  have hlen : (content.take PROT_MAX_DATA).length ≤ PROT_MAX_DATA := by simp [List.length_take]
  have hmod : (4 + (content.take PROT_MAX_DATA).length) % 65536 =
      4 + (content.take PROT_MAX_DATA).length := by
    have : (content.take PROT_MAX_DATA).length ≤ 512 := hlen
    omega
  have hbytes := data_bytes_before ctx.txBuf htx 0 3 0 1 (content.take PROT_MAX_DATA) hlen
  have hhi : ((1 >>> 8) &&& 0xff) % 256 = 0 := by decide
  have hlo : (1 &&& 0xff) % 256 = 1 := by decide
  have h12 : ¬ ((1 : Nat) = 2) := by decide
  unfold svr_wait_first_request
  simp only [EV_SVR_PDU_RX, hop, hopen, TFTP_RRQ, TFTP_WRQ, TFTP_DATA, h12, if_false, if_true,
    Option.map_some', fread, List.drop_zero, ne_eq, not_true_eq_false, Nat.zero_add, hhi, hlo, hmod,
    svr_send_packet_buffer, reduceCtorEq]
  by_cases hr : env.sendRc < 0
  · simp only [hr, if_true, server_change_state]
    refine ⟨?_, ?_⟩
    · rw [svr_send_error_pkt_blockNum]
    · obtain ⟨pre, hpre⟩ := svr_send_error_pkt_sent env
        { ctx with
          blockNum := 1, nextExpectedBlockNum := 1, filename := cstr ctx.rxInfo.filename,
          pFile := some ⟨content, (content.take PROT_MAX_DATA).length⟩,
          lastTxPort := ctx.client_Port,
          txBuf := memcpy ((((ctx.txBuf.set 0 0).set 1 3).set 2 0).set 3 1) 4 (content.take PROT_MAX_DATA),
          txLen := 4 + (content.take PROT_MAX_DATA).length,
          sent := ⟨ctx.serverSock, ctx.client_ip, ctx.client_Port,
            List.take (4 + (content.take PROT_MAX_DATA).length)
              (memcpy ((((ctx.txBuf.set 0 0).set 1 3).set 2 0).set 3 1) 4 (content.take PROT_MAX_DATA))⟩ ::
            ctx.sent }
        0 (ascii "error sending data packet")
      refine ⟨pre, ?_, fun h0 => absurd hr (by omega)⟩
      rw [hpre, hbytes]
  · have h10 : ¬ ((1 : Nat) = 0) := by decide
    refine ⟨?_, [], ?_, fun _ => ⟨rfl, ?_, ?_⟩⟩ <;> by_cases hd : g.gFsmDebugOn = 0 <;>
      simp only [hr, hd, h10, if_true, if_false, server_change_state, hbytes, List.nil_append]

/-! ## Lemmas: the decoder on a DATA packet held in a receive buffer -/

theorem zero_wellSized : prot_frame_info_t.zero.WellSized := by
  simp [prot_frame_info_t.WellSized, prot_frame_info_t.zero]

theorem data_roundtrip (pf : prot_frame_info_t) (hpf : pf.WellSized) (b : Nat)
    (p rest : List Nat) (hp : p.length ≤ PROT_MAX_DATA) :
    receive_tftp_pkt pf ([0, 3, b / 256, b % 256] ++ p ++ rest) (4 + p.length) =
      (1, { pf := { pf with
                optcode := 3, blocknum := b,
                isLastDataBlock := if p.length < PROT_MAX_DATA then 1 else 0,
                dataBuf := p ++ pf.dataBuf.drop p.length,
                rxLen := 4 + p.length },
            reads := (List.range' 4 p.length).reverse ++ [3, 2, 1, 0],
            writes := ((List.range' 0 p.length).map (fun j => (RxField.dataBuf, j))).reverse }) := by
  have hd : p.length ≤ pf.dataBuf.length := by rw [hpf.1]; exact hp
  have hsl : slice ([0, 3, b / 256, b % 256] ++ p ++ rest) 4 p.length = p :=
    slice_append [0, 3, b / 256, b % 256] p rest
  have hb : ntohs_at ([0, 3, b / 256, b % 256] ++ p ++ rest) 2 = b := by
    simp [ntohs_at, rd]; omega
  have hlen : (4 + p.length) % 65536 = 4 + p.length := by
    have : p.length ≤ 512 := hp
    omega
  rw [receive_data_eq pf _ (4 + p.length) (by omega) (by simp [rd]) (by simp [rd])]
  simp only [Nat.add_sub_cancel_left, hsl, hb, hlen, memcpy_zero p pf.dataBuf hd]


/-! ## Lemmas: closed forms of the send functions -/

theorem cl_send_ack_form (env : Env) (ctx : client_session_t) :
    (cl_send_ack env ctx).2 = { ctx with
      txBuf := ackTxBuf ctx.txBuf ctx.blockNum, txLen := 4, lastTxPort := ctx.svrPort,
      sent := ⟨ctx.clientSock, ctx.remoteIpStr, ctx.svrPort,
        (ackTxBuf ctx.txBuf ctx.blockNum).take 4⟩ :: ctx.sent } := by
  unfold cl_send_ack ackTxBuf
  by_cases h : env.sendRc = -1 <;> simp [h]

theorem svr_send_ack_form (env : Env) (ctx : server_session_t) :
    (svr_send_ack env ctx).2 = { ctx with
      txBuf := ackTxBuf ctx.txBuf ctx.blockNum, txLen := 4, lastTxPort := ctx.client_Port,
      sent := ⟨ctx.serverSock, ctx.client_ip, ctx.client_Port,
        (ackTxBuf ctx.txBuf ctx.blockNum).take 4⟩ :: ctx.sent } := by
  unfold svr_send_ack ackTxBuf
  by_cases h : env.sendRc = -1 <;> simp [h]

theorem cl_send_error_pkt_form (env : Env) (ctx : client_session_t) (c : Nat) (m : List Nat)
    (hm : strlen m ≤ PROT_MAX_DATA) :
    (cl_send_error_pkt env ctx c m).2 = { ctx with
      txBuf := errTxBuf ctx.txBuf c m, txLen := errTxLen m,
      sent := ⟨ctx.clientSock, ctx.remoteIpStr, ctx.svrPort,
        (errTxBuf ctx.txBuf c m).take (errTxLen m)⟩ :: ctx.sent } := by
  have h : ¬ strlen m > PROT_MAX_DATA := by omega
  unfold cl_send_error_pkt errTxBuf errTxLen
  by_cases hr : env.sendRc = -1 <;> simp [h, hr]

theorem svr_send_error_pkt_form (env : Env) (ctx : server_session_t) (c : Nat) (m : List Nat)
    (hm : strlen m ≤ PROT_MAX_DATA) :
    (svr_send_error_pkt env ctx c m).2 = { ctx with
      txBuf := errTxBuf ctx.txBuf c m, txLen := errTxLen m,
      sent := ⟨ctx.serverSock, ctx.client_ip, ctx.client_Port,
        (errTxBuf ctx.txBuf c m).take (errTxLen m)⟩ :: ctx.sent } := by
  have h : ¬ strlen m > PROT_MAX_DATA := by omega
  unfold svr_send_error_pkt errTxBuf errTxLen
  by_cases hr : env.sendRc = -1 <;> simp [h, hr]

theorem cl_send_packet_buffer_form (env : Env) (ctx : client_session_t) (isReTransmit : Int) :
    (cl_send_packet_buffer env ctx isReTransmit).2 = { ctx with
      lastTxPort := if isReTransmit ≠ 0 then ctx.lastTxPort else ctx.svrPort,
      sent := ⟨ctx.clientSock, ctx.remoteIpStr,
        if isReTransmit ≠ 0 then ctx.lastTxPort else ctx.svrPort,
        ctx.txBuf.take ctx.txLen⟩ :: ctx.sent } := by
  unfold cl_send_packet_buffer
  by_cases h : env.sendRc < 0 <;> simp [h]

theorem svr_send_packet_buffer_form (env : Env) (ctx : server_session_t) (isReTransmit : Int) :
    (svr_send_packet_buffer env ctx isReTransmit).2 = { ctx with
      lastTxPort := if isReTransmit ≠ 0 then ctx.lastTxPort else ctx.client_Port,
      sent := ⟨ctx.serverSock, ctx.client_ip,
        if isReTransmit ≠ 0 then ctx.lastTxPort else ctx.client_Port,
        ctx.txBuf.take ctx.txLen⟩ :: ctx.sent } := by
  unfold svr_send_packet_buffer
  by_cases h : env.sendRc < 0 <;> simp [h]

theorem cl_send_packet_buffer_ret (env : Env) (ctx : client_session_t) (isReTransmit : Int) :
    (cl_send_packet_buffer env ctx isReTransmit).1 = if env.sendRc < 0 then 0 else 1 := by
  unfold cl_send_packet_buffer
  by_cases h : env.sendRc < 0 <;> simp [h]

theorem svr_send_packet_buffer_ret (env : Env) (ctx : server_session_t) (isReTransmit : Int) :
    (svr_send_packet_buffer env ctx isReTransmit).1 = if env.sendRc < 0 then 0 else 1 := by
  unfold svr_send_packet_buffer
  by_cases h : env.sendRc < 0 <;> simp [h]

theorem cl_close_file_and_sock_form (ctx : client_session_t) :
    cl_close_file_and_sock ctx = { ctx with
      clientSock := close_socket ctx.clientSock, pFile := none,
      closed := closeLog ctx.pFile ctx.closed } := by
  unfold cl_close_file_and_sock
  cases ctx with
  | mk a1 a2 a3 a4 a5 a6 a7 a8 a9 a10 a11 a12 pFile a14 a15 a16 a17 a18 a19 =>
    cases pFile <;> simp [closeLog]

theorem svr_close_file_form (ctx : server_session_t) :
    svr_close_file ctx = { ctx with
      pFile := none,
      closed := closeLog ctx.pFile ctx.closed } := by
  unfold svr_close_file
  cases ctx with
  | mk a1 a2 a3 a4 a5 a6 a7 a8 a9 a10 pFile a12 a13 a14 a15 a16 a17 =>
    cases pFile <;> simp [closeLog]

theorem ackTxBuf_length (txBuf : List Nat) (b : Nat) : (ackTxBuf txBuf b).length = txBuf.length := by
  simp [ackTxBuf]

theorem errTxBuf_length (txBuf : List Nat) (c : Nat) (m : List Nat) :
    (errTxBuf txBuf c m).length = txBuf.length := by
  simp [errTxBuf, memcpy_length]

theorem ackTxBuf_take (txBuf : List Nat) (h : txBuf.length = MAX_TX_BUFF) (b : Nat) (hb : b < 65536) :
    (ackTxBuf txBuf b).take 4 = [0, 4, b / 256, b % 256] := by
  have h4 : 4 ≤ txBuf.length := by rw [h]; decide
  have hs := set_header txBuf h4 0 4 (b / 256) (b % 256)
  unfold ackTxBuf
  simp only [TFTP_ACK, hi_byte _ hb, lo_byte, hs]
  rfl

/-! ## Lemmas: time-outs -/

/-- The datagram a retransmission hands to `sendto`. -/
theorem cl_getfile_timeout_retry (env : Env) (g : Globals) (ctx : client_session_t)
    (h : ctx.num_retrans_tries + 1 ≠ g.gMaxNumRetransTries) :
    cl_getfile_rxData env g ctx EV_CL_TIMEOUT =
      (1, { ctx with
            num_retrans_tries := ctx.num_retrans_tries + 1,
            tmr1 := UtilTickTimerStart env.tick ctx.tmr1 ACK_TIMEOUT_SECS,
            sent := ⟨ctx.clientSock, ctx.remoteIpStr, ctx.lastTxPort, ctx.txBuf.take ctx.txLen⟩ ::
              ctx.sent }, g) := by
  unfold cl_getfile_rxData
  simp only [EV_CL_TIMEOUT, if_true, h, if_false, cl_send_packet_buffer_form]
  simp

theorem cl_putfile_timeout_retry (env : Env) (g : Globals) (ctx : client_session_t)
    (h : ctx.num_retrans_tries + 1 ≠ g.gMaxNumRetransTries) :
    cl_putfile_txData env g ctx EV_CL_TIMEOUT =
      (1, { ctx with
            num_retrans_tries := ctx.num_retrans_tries + 1,
            tmr1 := UtilTickTimerStart env.tick ctx.tmr1 ACK_TIMEOUT_SECS,
            sent := ⟨ctx.clientSock, ctx.remoteIpStr, ctx.lastTxPort, ctx.txBuf.take ctx.txLen⟩ ::
              ctx.sent }, g) := by
  unfold cl_putfile_txData
  simp only [EV_CL_TIMEOUT, if_true, h, if_false, cl_send_packet_buffer_form]
  simp

theorem svr_getfile_timeout_retry (env : Env) (g : Globals) (ctx : server_session_t)
    (h : ctx.num_retrans_tries + 1 ≠ g.gMaxNumRetransTries) :
    svr_getfile_txData env g ctx EV_SVR_TIMEOUT =
      { ctx with
        num_retrans_tries := ctx.num_retrans_tries + 1,
        tmr1 := UtilTickTimerStart env.tick ctx.tmr1 ACK_TIMEOUT_SECS,
        sent := ⟨ctx.serverSock, ctx.client_ip, ctx.lastTxPort, ctx.txBuf.take ctx.txLen⟩ ::
          ctx.sent } := by
  unfold svr_getfile_txData
  simp only [EV_SVR_TIMEOUT, if_true, h, if_false, svr_send_packet_buffer_form]
  simp

theorem svr_putfile_timeout_retry (env : Env) (g : Globals) (ctx : server_session_t)
    (h : ctx.num_retrans_tries + 1 ≠ g.gMaxNumRetransTries) :
    svr_putfile_rxData env g ctx EV_SVR_TIMEOUT =
      { ctx with
        num_retrans_tries := ctx.num_retrans_tries + 1,
        tmr1 := UtilTickTimerStart env.tick ctx.tmr1 ACK_TIMEOUT_SECS,
        sent := ⟨ctx.serverSock, ctx.client_ip, ctx.lastTxPort, ctx.txBuf.take ctx.txLen⟩ ::
          ctx.sent } := by
  unfold svr_putfile_rxData
  simp only [EV_SVR_TIMEOUT, if_true, h, if_false, svr_send_packet_buffer_form]
  simp

theorem cl_getfile_timeout_abort (env : Env) (g : Globals) (ctx : client_session_t)
    (h : ctx.num_retrans_tries + 1 = g.gMaxNumRetransTries) :
    cl_getfile_rxData env g ctx EV_CL_TIMEOUT =
      (0, { ctx with
            num_retrans_tries := 0,
            clientSock := close_socket ctx.clientSock, pFile := none,
            closed := closeLog ctx.pFile ctx.closed,
            txBuf := errTxBuf ctx.txBuf 0 (ascii "timeout waiting for data, closing connection"),
            txLen := errTxLen (ascii "timeout waiting for data, closing connection"),
            sent := ⟨ctx.clientSock, ctx.remoteIpStr, ctx.svrPort,
              (errTxBuf ctx.txBuf 0 (ascii "timeout waiting for data, closing connection")).take
                (errTxLen (ascii "timeout waiting for data, closing connection"))⟩ :: ctx.sent },
        { g with gDone := 1 }) := by
  have he := fun c => cl_send_error_pkt_form env c 0 (ascii "timeout waiting for data, closing connection") (by decide)
  unfold cl_getfile_rxData
  generalize ascii "timeout waiting for data, closing connection" = m at he ⊢
  simp only [EV_CL_TIMEOUT, if_true, h, he, cl_close_file_and_sock_form]

theorem cl_putfile_timeout_abort (env : Env) (g : Globals) (ctx : client_session_t)
    (h : ctx.num_retrans_tries + 1 = g.gMaxNumRetransTries) :
    cl_putfile_txData env g ctx EV_CL_TIMEOUT =
      (0, { ctx with
            num_retrans_tries := 0,
            clientSock := close_socket ctx.clientSock, pFile := none,
            closed := closeLog ctx.pFile ctx.closed,
            txBuf := errTxBuf ctx.txBuf 0 (ascii "timeout waiting for ack, closing connection\n"),
            txLen := errTxLen (ascii "timeout waiting for ack, closing connection\n"),
            sent := ⟨ctx.clientSock, ctx.remoteIpStr, ctx.svrPort,
              (errTxBuf ctx.txBuf 0 (ascii "timeout waiting for ack, closing connection\n")).take
                (errTxLen (ascii "timeout waiting for ack, closing connection\n"))⟩ :: ctx.sent },
        { g with gDone := 1 }) := by
  have he := fun c => cl_send_error_pkt_form env c 0 (ascii "timeout waiting for ack, closing connection\n") (by decide)
  unfold cl_putfile_txData
  generalize ascii "timeout waiting for ack, closing connection\n" = m at he ⊢
  simp only [EV_CL_TIMEOUT, if_true, h, he, cl_close_file_and_sock_form]

theorem svr_getfile_timeout_abort (env : Env) (g : Globals) (ctx : server_session_t)
    (h : ctx.num_retrans_tries + 1 = g.gMaxNumRetransTries) :
    svr_getfile_txData env g ctx EV_SVR_TIMEOUT =
      { ctx with
        num_retrans_tries := 0, state := SVR_ST_WAIT_FIST_REQUEST, pFile := none,
        closed := closeLog ctx.pFile ctx.closed,
        txBuf := errTxBuf ctx.txBuf 0 (ascii "timeout waiting for ACK, closing connection\n"),
        txLen := errTxLen (ascii "timeout waiting for ACK, closing connection\n"),
        sent := ⟨ctx.serverSock, ctx.client_ip, ctx.client_Port,
          (errTxBuf ctx.txBuf 0 (ascii "timeout waiting for ACK, closing connection\n")).take
            (errTxLen (ascii "timeout waiting for ACK, closing connection\n"))⟩ :: ctx.sent } := by
  have he := fun c => svr_send_error_pkt_form env c 0 (ascii "timeout waiting for ACK, closing connection\n") (by decide)
  unfold svr_getfile_txData
  generalize ascii "timeout waiting for ACK, closing connection\n" = m at he ⊢
  simp only [EV_SVR_TIMEOUT, if_true, h, he, svr_close_file_form, server_change_state]

theorem svr_putfile_timeout_abort (env : Env) (g : Globals) (ctx : server_session_t)
    (h : ctx.num_retrans_tries + 1 = g.gMaxNumRetransTries) :
    svr_putfile_rxData env g ctx EV_SVR_TIMEOUT =
      { ctx with
        num_retrans_tries := 0, state := SVR_ST_WAIT_FIST_REQUEST, pFile := none,
        closed := closeLog ctx.pFile ctx.closed,
        txBuf := errTxBuf ctx.txBuf 0 (ascii "timeout waiting for ACK, closing connection\n"),
        txLen := errTxLen (ascii "timeout waiting for ACK, closing connection\n"),
        sent := ⟨ctx.serverSock, ctx.client_ip, ctx.client_Port,
          (errTxBuf ctx.txBuf 0 (ascii "timeout waiting for ACK, closing connection\n")).take
            (errTxLen (ascii "timeout waiting for ACK, closing connection\n"))⟩ :: ctx.sent } := by
  have he := fun c => svr_send_error_pkt_form env c 0 (ascii "timeout waiting for ACK, closing connection\n") (by decide)
  unfold svr_putfile_rxData
  generalize ascii "timeout waiting for ACK, closing connection\n" = m at he ⊢
  simp only [EV_SVR_TIMEOUT, if_true, h, he, svr_close_file_form, server_change_state]

/-! ## Lemmas: blocks that are not the expected one -/

theorem cl_getfile_stale (env : Env) (g : Globals) (ctx : client_session_t)
    (hop : ctx.rxInfo.optcode = TFTP_DATA)
    (hb : ctx.rxInfo.blocknum ≠ ctx.nextExpectedBlockNum) :
    cl_getfile_rxData env g ctx EV_CL_PDU_RX = (1, ctx, g) := by
  have h10 : ¬ ((1 : Nat) = 0) := by decide
  unfold cl_getfile_rxData
  simp only [EV_CL_PDU_RX, EV_CL_TIMEOUT, h10, if_false, if_true, hop, hb, ne_eq, not_false_eq_true]

theorem cl_putfile_stale (env : Env) (g : Globals) (ctx : client_session_t)
    (hop : ctx.rxInfo.optcode = TFTP_ACK)
    (hb : ctx.rxInfo.blocknum ≠ ctx.nextExpectedBlockNum) :
    cl_putfile_txData env g ctx EV_CL_PDU_RX = (1, ctx, g) := by
  have h10 : ¬ ((1 : Nat) = 0) := by decide
  unfold cl_putfile_txData
  simp only [EV_CL_PDU_RX, EV_CL_TIMEOUT, h10, if_false, if_true, hop, hb, ne_eq, not_false_eq_true]

theorem svr_putfile_stale (env : Env) (g : Globals) (ctx : server_session_t)
    (hop : ctx.rxInfo.optcode = TFTP_DATA)
    (hb : ctx.rxInfo.blocknum ≠ ctx.nextExpectedBlockNum) :
    svr_putfile_rxData env g ctx EV_SVR_PDU_RX = ctx := by
  have h10 : ¬ ((1 : Nat) = 0) := by decide
  unfold svr_putfile_rxData
  simp only [EV_SVR_PDU_RX, EV_SVR_TIMEOUT, h10, if_false, if_true, hop, hb, ne_eq, not_false_eq_true]

theorem svr_getfile_stale (env : Env) (g : Globals) (ctx : server_session_t)
    (hop : ctx.rxInfo.optcode = TFTP_ACK)
    (hb : ctx.rxInfo.blocknum ≠ ctx.nextExpectedBlockNum) :
    svr_getfile_txData env g ctx EV_SVR_PDU_RX = ctx := by
  have h10 : ¬ ((1 : Nat) = 0) := by decide
  unfold svr_getfile_txData
  simp only [EV_SVR_PDU_RX, EV_SVR_TIMEOUT, h10, if_false, if_true, hop, hb, ne_eq, not_false_eq_true]

theorem cl_fsm_event_getfile (env : Env) (g : Globals) (ctx : client_session_t) (ev : Nat)
    (hs : ctx.state = CL_ST_GETFILE_RXDATA) :
    cl_fsm_event env g ctx ev =
      (if (cl_getfile_rxData env g ctx ev).1 = 0 then 0 else 1, (cl_getfile_rxData env g ctx ev).2) := by
  unfold cl_fsm_event
  simp only [hs, if_true]
  split <;> rfl

theorem cl_fsm_event_putfile (env : Env) (g : Globals) (ctx : client_session_t) (ev : Nat)
    (hs : ctx.state = CL_ST_PUTFILE_TXDATA) :
    cl_fsm_event env g ctx ev =
      (if (cl_putfile_txData env g ctx ev).1 = 0 then 0 else 1, (cl_putfile_txData env g ctx ev).2) := by
  have h : ¬ (CL_ST_PUTFILE_TXDATA = CL_ST_GETFILE_RXDATA) := by decide
  unfold cl_fsm_event
  simp only [hs, h, if_true, if_false]
  split <;> rfl

theorem svr_fsm_event_getfile (env : Env) (g : Globals) (ctx : server_session_t) (ev : Nat)
    (hs : ctx.state = SVR_ST_GETFILE_TXDATA) :
    svr_fsm_event env g ctx ev = svr_getfile_txData env g ctx ev := by
  unfold svr_fsm_event
  simp only [hs, if_true]

theorem svr_fsm_event_putfile (env : Env) (g : Globals) (ctx : server_session_t) (ev : Nat)
    (hs : ctx.state = SVR_ST_PUTFILE_RXDATA) :
    svr_fsm_event env g ctx ev = svr_putfile_rxData env g ctx ev := by
  have h : ¬ (SVR_ST_PUTFILE_RXDATA = SVR_ST_GETFILE_TXDATA) := by decide
  unfold svr_fsm_event
  simp only [hs, h, if_true, if_false]

theorem svr_fsm_event_wait (env : Env) (g : Globals) (ctx : server_session_t) (ev : Nat)
    (hs : ctx.state = SVR_ST_WAIT_FIST_REQUEST) :
    svr_fsm_event env g ctx ev = svr_wait_first_request env g ctx ev := by
  have h : ¬ (SVR_ST_WAIT_FIST_REQUEST = SVR_ST_GETFILE_TXDATA) := by decide
  have h2 : ¬ (SVR_ST_WAIT_FIST_REQUEST = SVR_ST_PUTFILE_RXDATA) := by decide
  unfold svr_fsm_event
  simp only [hs, h, h2, if_true, if_false]

theorem foldl_fixed {α β : Type} (f : α → β → α) (a : α) (h : ∀ b, f a b = a) :
    ∀ l : List β, l.foldl f a = a := by
  intro l
  induction l with
  | nil => rfl
  | cons b l ih => simp only [List.foldl_cons, h, ih]

/-! ## Lemmas: runs of time-outs -/

theorem retriedTimer_cons (env : Env) (envs : List Env) (t : tick_timer_t) :
    retriedTimer envs (UtilTickTimerStart env.tick t ACK_TIMEOUT_SECS) =
      retriedTimer (env :: envs) t := by
  cases envs with
  | nil => rfl
  | cons e es =>
    obtain ⟨x, hx⟩ : ∃ x, (e :: es).getLast? = some x :=
      ⟨_, List.getLast?_eq_getLast _ (List.cons_ne_nil e es)⟩
    unfold retriedTimer
    rw [List.getLast?_cons_cons, hx]
    rfl

theorem replicate_append_cons {α : Type} (n : Nat) (d : α) (l : List α) :
    List.replicate n d ++ d :: l = List.replicate (n + 1) d ++ l := by
  induction n with
  | zero => rfl
  | succ n ih => simp only [List.replicate_succ, List.cons_append, ih]

theorem cl_retried_cons (env : Env) (envs : List Env) (ctx : client_session_t) :
    cl_retried envs { ctx with
        num_retrans_tries := ctx.num_retrans_tries + 1,
        tmr1 := UtilTickTimerStart env.tick ctx.tmr1 ACK_TIMEOUT_SECS,
        sent := ⟨ctx.clientSock, ctx.remoteIpStr, ctx.lastTxPort, ctx.txBuf.take ctx.txLen⟩ ::
          ctx.sent } =
      cl_retried (env :: envs) ctx := by
  unfold cl_retried
  simp only [retriedTimer_cons, replicate_append_cons, List.length_cons, Nat.cast_add, Nat.cast_one]
  congr 1
  omega

theorem svr_retried_cons (env : Env) (envs : List Env) (ctx : server_session_t) :
    svr_retried envs { ctx with
        num_retrans_tries := ctx.num_retrans_tries + 1,
        tmr1 := UtilTickTimerStart env.tick ctx.tmr1 ACK_TIMEOUT_SECS,
        sent := ⟨ctx.serverSock, ctx.client_ip, ctx.lastTxPort, ctx.txBuf.take ctx.txLen⟩ ::
          ctx.sent } =
      svr_retried (env :: envs) ctx := by
  unfold svr_retried
  simp only [retriedTimer_cons, replicate_append_cons, List.length_cons, Nat.cast_add, Nat.cast_one]
  congr 1
  omega

theorem cl_retried_nil (ctx : client_session_t) : cl_retried [] ctx = ctx := by
  simp [cl_retried, retriedTimer]

theorem svr_retried_nil (ctx : server_session_t) : svr_retried [] ctx = ctx := by
  simp [svr_retried, retriedTimer]

theorem cl_getfile_timeouts_retry (g : Globals) : ∀ (envs : List Env) (ctx : client_session_t),
    ctx.state = CL_ST_GETFILE_RXDATA →
    ctx.num_retrans_tries + envs.length < g.gMaxNumRetransTries →
    cl_timeouts envs g ctx = (List.replicate envs.length 1, cl_retried envs ctx, g) := by
  intro envs
  induction envs with
  | nil => intro ctx _ _; simp only [cl_timeouts, cl_retried_nil, List.length_nil, List.replicate_zero]
  | cons env envs ih =>
    intro ctx hs hn
    simp only [List.length_cons, Nat.cast_add, Nat.cast_one] at hn
    have h1 : ctx.num_retrans_tries + 1 ≠ g.gMaxNumRetransTries := by omega
    have hn2 : (ctx.num_retrans_tries + 1) + (envs.length : Int) < g.gMaxNumRetransTries := by omega
    have hih := ih { ctx with
        num_retrans_tries := ctx.num_retrans_tries + 1,
        tmr1 := UtilTickTimerStart env.tick ctx.tmr1 ACK_TIMEOUT_SECS,
        sent := ⟨ctx.clientSock, ctx.remoteIpStr, ctx.lastTxPort, ctx.txBuf.take ctx.txLen⟩ ::
          ctx.sent } hs hn2
    rw [cl_retried_cons] at hih
    rw [cl_timeouts, cl_fsm_event_getfile env g ctx _ hs, cl_getfile_timeout_retry env g ctx h1]
    simp only [hih]
    rfl

theorem cl_putfile_timeouts_retry (g : Globals) : ∀ (envs : List Env) (ctx : client_session_t),
    ctx.state = CL_ST_PUTFILE_TXDATA →
    ctx.num_retrans_tries + envs.length < g.gMaxNumRetransTries →
    cl_timeouts envs g ctx = (List.replicate envs.length 1, cl_retried envs ctx, g) := by
  intro envs
  induction envs with
  | nil => intro ctx _ _; simp only [cl_timeouts, cl_retried_nil, List.length_nil, List.replicate_zero]
  | cons env envs ih =>
    intro ctx hs hn
    simp only [List.length_cons, Nat.cast_add, Nat.cast_one] at hn
    have h1 : ctx.num_retrans_tries + 1 ≠ g.gMaxNumRetransTries := by omega
    have hn2 : (ctx.num_retrans_tries + 1) + (envs.length : Int) < g.gMaxNumRetransTries := by omega
    have hih := ih { ctx with
        num_retrans_tries := ctx.num_retrans_tries + 1,
        tmr1 := UtilTickTimerStart env.tick ctx.tmr1 ACK_TIMEOUT_SECS,
        sent := ⟨ctx.clientSock, ctx.remoteIpStr, ctx.lastTxPort, ctx.txBuf.take ctx.txLen⟩ ::
          ctx.sent } hs hn2
    rw [cl_retried_cons] at hih
    rw [cl_timeouts, cl_fsm_event_putfile env g ctx _ hs, cl_putfile_timeout_retry env g ctx h1]
    simp only [hih]
    rfl

theorem svr_getfile_timeouts_retry (g : Globals) : ∀ (envs : List Env) (ctx : server_session_t),
    ctx.state = SVR_ST_GETFILE_TXDATA →
    ctx.num_retrans_tries + envs.length < g.gMaxNumRetransTries →
    svr_timeouts envs ⟨ctx, g⟩ = ⟨svr_retried envs ctx, g⟩ := by
  intro envs
  induction envs with
  | nil => intro ctx _ _; simp only [svr_timeouts, svr_retried_nil]
  | cons env envs ih =>
    intro ctx hs hn
    simp only [List.length_cons, Nat.cast_add, Nat.cast_one] at hn
    have h1 : ctx.num_retrans_tries + 1 ≠ g.gMaxNumRetransTries := by omega
    have hn2 : (ctx.num_retrans_tries + 1) + (envs.length : Int) < g.gMaxNumRetransTries := by omega
    have hih := ih { ctx with
        num_retrans_tries := ctx.num_retrans_tries + 1,
        tmr1 := UtilTickTimerStart env.tick ctx.tmr1 ACK_TIMEOUT_SECS,
        sent := ⟨ctx.serverSock, ctx.client_ip, ctx.lastTxPort, ctx.txBuf.take ctx.txLen⟩ ::
          ctx.sent } hs hn2
    rw [svr_retried_cons] at hih
    rw [svr_timeouts]
    simp only []
    rw [svr_fsm_event_getfile env g ctx _ hs, svr_getfile_timeout_retry env g ctx h1, hih]

theorem svr_putfile_timeouts_retry (g : Globals) : ∀ (envs : List Env) (ctx : server_session_t),
    ctx.state = SVR_ST_PUTFILE_RXDATA →
    ctx.num_retrans_tries + envs.length < g.gMaxNumRetransTries →
    svr_timeouts envs ⟨ctx, g⟩ = ⟨svr_retried envs ctx, g⟩ := by
  intro envs
  induction envs with
  | nil => intro ctx _ _; simp only [svr_timeouts, svr_retried_nil]
  | cons env envs ih =>
    intro ctx hs hn
    simp only [List.length_cons, Nat.cast_add, Nat.cast_one] at hn
    have h1 : ctx.num_retrans_tries + 1 ≠ g.gMaxNumRetransTries := by omega
    have hn2 : (ctx.num_retrans_tries + 1) + (envs.length : Int) < g.gMaxNumRetransTries := by omega
    have hih := ih { ctx with
        num_retrans_tries := ctx.num_retrans_tries + 1,
        tmr1 := UtilTickTimerStart env.tick ctx.tmr1 ACK_TIMEOUT_SECS,
        sent := ⟨ctx.serverSock, ctx.client_ip, ctx.lastTxPort, ctx.txBuf.take ctx.txLen⟩ ::
          ctx.sent } hs hn2
    rw [svr_retried_cons] at hih
    rw [svr_timeouts]
    simp only []
    rw [svr_fsm_event_putfile env g ctx _ hs, svr_putfile_timeout_retry env g ctx h1, hih]

theorem errPkt_header (txBuf : List Nat) (h : txBuf.length = MAX_TX_BUFF) (c : Nat) (m : List Nat)
    (hm : strlen m ≤ PROT_MAX_DATA) :
    ((errTxBuf txBuf c m).take (errTxLen m)).take 4 =
      [0, TFTP_ERROR, ((c >>> 8) &&& 0xff) % 256, (c &&& 0xff) % 256] := by
  unfold strlen PROT_MAX_DATA at hm
  unfold MAX_TX_BUFF at h
  have h4 : 4 ≤ txBuf.length := by omega
  have hs := set_header txBuf h4 0 TFTP_ERROR (((c >>> 8) &&& 0xff) % 256) ((c &&& 0xff) % 256)
  have hmin : min 4 (((5 + (cstr m).length) % 65536 + 1) % 65536) = 4 := by omega
  have hlt : 4 < (5 + (cstr m).length) % 65536 := by omega
  unfold errTxBuf errTxLen strlen
  rw [List.take_take, hmin, List.take_set_of_lt _ _ hlt, hs, memcpy_eq]
  · simp
  · simp only [List.length_cons, List.length_drop]
    omega

theorem lastSendHeld_cons {sent : List Datagram} {txBuf : List Nat} {txLen lastTxPort : Nat}
    (h : LastSendHeld sent txBuf txLen lastTxPort) :
    ∃ d rest, sent = d :: rest ∧ d.bytes = txBuf.take txLen ∧ d.port = lastTxPort := by
  unfold LastSendHeld at h
  cases sent with
  | nil => simp at h
  | cons d rest =>
    simp only [List.head?_cons, Option.map_some', Option.some.injEq, Prod.mk.injEq] at h
    exact ⟨d, rest, rfl, h.1, h.2⟩


/-! ## Lemmas: what the handlers keep -/

theorem Extends_refl (Q : Datagram → Prop) (l : List Datagram) : Extends Q l l := by
  cases l with
  | nil => rfl
  | cons d l => exact Or.inl rfl

theorem Extends_cons (Q : Datagram → Prop) (old new : List Datagram) (d : Datagram)
    (hd : Q d) (h : Extends Q old new) : Extends Q old (d :: new) :=
  Or.inr ⟨hd, h⟩

theorem Extends_iff (Q : Datagram → Prop) (old : List Datagram) : ∀ new : List Datagram,
    Extends Q old new ↔ ∃ pre, new = pre ++ old ∧ ∀ d ∈ pre, Q d := by
  intro new
  induction new with
  | nil =>
    constructor
    · intro h
      exact ⟨[], by rw [show old = [] from h]; rfl, by simp⟩
    · rintro ⟨pre, h, -⟩
      have := List.append_eq_nil.mp h.symm
      exact this.2
  | cons d new ih =>
    constructor
    · rintro (h | ⟨hd, h⟩)
      · exact ⟨[], by rw [h]; rfl, by simp⟩
      · obtain ⟨pre, hp, hq⟩ := ih.mp h
        refine ⟨d :: pre, by rw [hp]; rfl, ?_⟩
        intro x hx
        rcases List.mem_cons.mp hx with rfl | hx
        · exact hd
        · exact hq x hx
    · rintro ⟨pre, hp, hq⟩
      cases pre with
      | nil => exact Or.inl hp
      | cons x pre =>
        simp only [List.cons_append, List.cons.injEq] at hp
        refine Or.inr ⟨?_, ih.mpr ⟨pre, hp.2, fun y hy => hq y (List.mem_cons_of_mem _ hy)⟩⟩
        rw [hp.1]
        exact hq x (List.mem_cons_self _ _)

theorem Extends_trans (Q : Datagram → Prop) (a b c : List Datagram)
    (h1 : Extends Q a b) (h2 : Extends Q b c) : Extends Q a c := by
  obtain ⟨p1, e1, q1⟩ := (Extends_iff Q a b).mp h1
  obtain ⟨p2, e2, q2⟩ := (Extends_iff Q b c).mp h2
  refine (Extends_iff Q a c).mpr ⟨p2 ++ p1, by rw [e2, e1, List.append_assoc], ?_⟩
  intro d hd
  rcases List.mem_append.mp hd with h | h
  · exact q2 d h
  · exact q1 d h

theorem Extends_mono (Q R : Datagram → Prop) (a b : List Datagram) (h : ∀ d, Q d → R d)
    (h1 : Extends Q a b) : Extends R a b := by
  obtain ⟨p1, e1, q1⟩ := (Extends_iff Q a b).mp h1
  exact (Extends_iff R a b).mpr ⟨p1, e1, fun d hd => h d (q1 d hd)⟩

theorem cl_getfile_write_frame (env : Env) (g : Globals) (ctx : client_session_t) :
    ClFrame ctx (cl_getfile_write env g ctx).2.1 := by
  have he4 := fun c => cl_send_error_pkt_form env c 0
    (ascii "error writing file data, closing connection") (by decide)
  unfold cl_getfile_write
  generalize ascii "error writing file data, closing connection" = m4 at he4 ⊢
  simp only [he4, cl_send_ack_form, cl_close_file_and_sock_form]
  clear he4
  by_cases h1 : (fwrite env ctx.rxInfo.dataBuf (size_t_of ((ctx.rxInfo.rxLen : Int) - 4)) ctx.pFile).1 ≠
      size_t_of ((ctx.rxInfo.rxLen : Int) - 4)
  · simp only [h1, if_true, ne_eq, not_false_eq_true]
    exact ⟨rfl, Or.inl rfl, Extends_cons _ _ _ _ (Or.inl rfl) (Extends_refl _ _)⟩
  · simp only [h1, if_false]
    by_cases h2 : ctx.rxInfo.isLastDataBlock ≠ 0
    · simp only [h2, if_true, ne_eq, not_false_eq_true]
      exact ⟨rfl, Or.inr rfl, Extends_cons _ _ _ _ (Or.inl rfl) (Extends_refl _ _)⟩
    · simp only [h2, if_false]
      exact ⟨rfl, Or.inr rfl, Extends_cons _ _ _ _ (Or.inl rfl) (Extends_refl _ _)⟩

theorem ClFrame_of_eq (ctx ctx2 out : client_session_t) (h1 : ctx2.svrPort = ctx.svrPort)
    (h2 : ctx2.lastTxPort = ctx.lastTxPort) (h3 : ctx2.sent = ctx.sent)
    (h : ClFrame ctx2 out) : ClFrame ctx out := by
  unfold ClFrame at h ⊢
  rw [h1, h2, h3] at h
  exact h

theorem cl_getfile_rxData_frame (env : Env) (g : Globals) (ctx : client_session_t) (ev : Nat) :
    ClFrame ctx (cl_getfile_rxData env g ctx ev).2.1 := by
  have he1 := fun c => cl_send_error_pkt_form env c 0
    (ascii "timeout waiting for data, closing connection") (by decide)
  have he2 := fun c => cl_send_error_pkt_form env c 1
    (ascii "error, failed to open file for writing") (by decide)
  have he3 := fun c => cl_send_error_pkt_form env c 0
    (ascii "error unexpected optcode recieved") (by decide)
  unfold cl_getfile_rxData
  generalize ascii "timeout waiting for data, closing connection" = m1 at he1 ⊢
  generalize ascii "error, failed to open file for writing" = m2 at he2 ⊢
  generalize ascii "error unexpected optcode recieved" = m3 at he3 ⊢
  by_cases hev : ev = EV_CL_TIMEOUT
  · simp only [hev, if_true]
    by_cases hn : ctx.num_retrans_tries + 1 = g.gMaxNumRetransTries
    · simp only [hn, if_true, he1, cl_close_file_and_sock_form]
      exact ⟨rfl, Or.inl rfl, Extends_cons _ _ _ _ (Or.inl rfl) (Extends_refl _ _)⟩
    · simp only [hn, if_false, cl_send_packet_buffer_form]
      exact ⟨rfl, Or.inl rfl, Extends_cons _ _ _ _ (Or.inr rfl) (Extends_refl _ _)⟩
  · simp only [hev, if_false]
    by_cases hpdu : ev = EV_CL_PDU_RX
    · simp only [hpdu, if_true]
      by_cases hop : ctx.rxInfo.optcode = TFTP_DATA
      · simp only [hop, if_true]
        by_cases hb : ctx.rxInfo.blocknum ≠ ctx.nextExpectedBlockNum
        · simp only [hb, if_true, ne_eq, not_false_eq_true]
          exact ⟨rfl, Or.inl rfl, Extends_refl _ _⟩
        · simp only [hb, if_false]
          by_cases hf : ctx.isFirstDataBlock ≠ 0
          · simp only [hf, if_true, ne_eq, not_false_eq_true]
            by_cases ho : env.fopenWrite (cstr ctx.filename) = true
            · simp only [ho, if_true, reduceCtorEq, if_false]
              exact ClFrame_of_eq _ _ _ rfl rfl rfl (cl_getfile_write_frame env g _)
            · simp only [ho, if_false, if_true, he2]
              exact ⟨rfl, Or.inl rfl, Extends_cons _ _ _ _ (Or.inl rfl) (Extends_refl _ _)⟩
          · simp only [hf, if_false]
            exact ClFrame_of_eq _ _ _ rfl rfl rfl (cl_getfile_write_frame env g _)
      · simp only [hop, if_false]
        by_cases hop2 : ctx.rxInfo.optcode = TFTP_ERROR
        · simp only [hop2, if_true, cl_close_file_and_sock_form]
          exact ⟨rfl, Or.inl rfl, Extends_refl _ _⟩
        · simp only [hop2, if_false, he3, cl_close_file_and_sock_form]
          exact ⟨rfl, Or.inl rfl, Extends_cons _ _ _ _ (Or.inl rfl) (Extends_refl _ _)⟩
    · simp only [hpdu, if_false]
      exact ⟨rfl, Or.inl rfl, Extends_refl _ _⟩

theorem cl_putfile_txData_frame (env : Env) (g : Globals) (ctx : client_session_t) (ev : Nat) :
    ClFrame ctx (cl_putfile_txData env g ctx ev).2.1 := by
  have he1 := fun c => cl_send_error_pkt_form env c 0
    (ascii "timeout waiting for ack, closing connection\n") (by decide)
  have he2 := fun c => cl_send_error_pkt_form env c 0
    (ascii "error sending data packet, closing connection") (by decide)
  have he3 := fun c => cl_send_error_pkt_form env c 0
    (ascii "error unexpected optcode recieved") (by decide)
  unfold cl_putfile_txData
  generalize ascii "timeout waiting for ack, closing connection\n" = m1 at he1 ⊢
  generalize ascii "error sending data packet, closing connection" = m2 at he2 ⊢
  generalize ascii "error unexpected optcode recieved" = m3 at he3 ⊢
  by_cases hev : ev = EV_CL_TIMEOUT
  · simp only [hev, if_true]
    by_cases hn : ctx.num_retrans_tries + 1 = g.gMaxNumRetransTries
    · simp only [hn, if_true, he1, cl_close_file_and_sock_form]
      exact ⟨rfl, Or.inl rfl, Extends_cons _ _ _ _ (Or.inl rfl) (Extends_refl _ _)⟩
    · simp only [hn, if_false, cl_send_packet_buffer_form]
      exact ⟨rfl, Or.inl rfl, Extends_cons _ _ _ _ (Or.inr rfl) (Extends_refl _ _)⟩
  · simp only [hev, if_false]
    by_cases hpdu : ev = EV_CL_PDU_RX
    · simp only [hpdu, if_true]
      by_cases hop : ctx.rxInfo.optcode = TFTP_ACK
      · simp only [hop, if_true]
        by_cases hb : ctx.rxInfo.blocknum ≠ ctx.nextExpectedBlockNum
        · simp only [hb, if_true, ne_eq, not_false_eq_true]
          exact ⟨rfl, Or.inl rfl, Extends_refl _ _⟩
        · simp only [hb, if_false]
          by_cases hd : (fread ctx.pFile PROT_MAX_DATA).1.length = 0 ∧ ctx.isFirstDataBlock = 0 ∧
              (ctx.txLen : Int) - 4 < PROT_MAX_DATA
          · simp only [hd, if_true]
            exact ⟨rfl, Or.inl rfl, Extends_refl _ _⟩
          · simp only [hd, if_false, cl_send_packet_buffer]
            by_cases hr : env.sendRc < 0
            · simp only [hr, if_true, he2, cl_close_file_and_sock_form]
              exact ⟨rfl, Or.inr rfl, Extends_cons _ _ _ _ (Or.inl rfl)
                (Extends_cons _ _ _ _ (Or.inl rfl) (Extends_refl _ _))⟩
            · simp only [hr, if_false]
              exact ⟨rfl, Or.inr rfl, Extends_cons _ _ _ _ (Or.inl rfl) (Extends_refl _ _)⟩
      · simp only [hop, if_false]
        by_cases hop2 : ctx.rxInfo.optcode = TFTP_ERROR
        · simp only [hop2, if_true, cl_close_file_and_sock_form]
          exact ⟨rfl, Or.inl rfl, Extends_refl _ _⟩
        · simp only [hop2, if_false, he3, cl_close_file_and_sock_form]
          exact ⟨rfl, Or.inl rfl, Extends_cons _ _ _ _ (Or.inl rfl) (Extends_refl _ _)⟩
    · simp only [hpdu, if_false]
      exact ⟨rfl, Or.inl rfl, Extends_refl _ _⟩

theorem svr_wait_first_request_frame (env : Env) (g : Globals) (ctx : server_session_t) (ev : Nat) :
    SvrFrame ctx (svr_wait_first_request env g ctx ev) := by
  have he1 := fun c => svr_send_error_pkt_form env c 1 (ascii "file not found") (by decide)
  have he2 := fun c => svr_send_error_pkt_form env c 0 (ascii "error sending data packet") (by decide)
  unfold svr_wait_first_request
  generalize ascii "file not found" = m1 at he1 ⊢
  generalize ascii "error sending data packet" = m2 at he2 ⊢
  by_cases hev : ev = EV_SVR_PDU_RX
  · simp only [hev, if_true]
    by_cases hop : ctx.rxInfo.optcode = TFTP_WRQ
    · simp only [hop, if_true]
      by_cases ho : env.fopenWrite (cstr ctx.rxInfo.filename) = true
      · simp only [ho, if_true, reduceCtorEq, if_false, svr_send_ack_form, server_change_state]
        by_cases hd : g.gFsmDebugOn = 0
        · simp only [hd, if_true]
          exact ⟨rfl, rfl, Or.inr rfl, Extends_cons _ _ _ _ ⟨rfl, Or.inl rfl⟩ (Extends_refl _ _)⟩
        · simp only [hd, if_false]
          exact ⟨rfl, rfl, Or.inr rfl, Extends_cons _ _ _ _ ⟨rfl, Or.inl rfl⟩ (Extends_refl _ _)⟩
      · simp only [ho, if_false, if_true, he1]
        exact ⟨rfl, rfl, Or.inl rfl, Extends_cons _ _ _ _ ⟨rfl, Or.inl rfl⟩ (Extends_refl _ _)⟩
    · simp only [hop, if_false]
      by_cases hop2 : ctx.rxInfo.optcode = TFTP_RRQ
      · simp only [hop2, if_true]
        cases hfo : env.fopenRead (cstr ctx.rxInfo.filename) with
        | none =>
          simp only [Option.map_none', if_true, he1]
          exact ⟨rfl, rfl, Or.inl rfl, Extends_cons _ _ _ _ ⟨rfl, Or.inl rfl⟩ (Extends_refl _ _)⟩
        | some content =>
          simp only [Option.map_some', reduceCtorEq, if_false, svr_send_packet_buffer,
            server_change_state]
          by_cases hr : env.sendRc < 0
          · simp only [hr, if_true, he2]
            exact ⟨rfl, rfl, Or.inr rfl, Extends_cons _ _ _ _ ⟨rfl, Or.inl rfl⟩
              (Extends_cons _ _ _ _ ⟨rfl, Or.inl rfl⟩ (Extends_refl _ _))⟩
          · simp only [hr, if_false]
            by_cases hd : g.gFsmDebugOn = 0
            · simp only [hd, if_true]
              exact ⟨rfl, rfl, Or.inr rfl, Extends_cons _ _ _ _ ⟨rfl, Or.inl rfl⟩ (Extends_refl _ _)⟩
            · simp only [hd, if_false]
              exact ⟨rfl, rfl, Or.inr rfl, Extends_cons _ _ _ _ ⟨rfl, Or.inl rfl⟩ (Extends_refl _ _)⟩
      · simp only [hop2, if_false, he2, server_change_state]
        exact ⟨rfl, rfl, Or.inl rfl, Extends_cons _ _ _ _ ⟨rfl, Or.inl rfl⟩ (Extends_refl _ _)⟩
  · simp only [hev, if_false, server_change_state]
    exact ⟨rfl, rfl, Or.inl rfl, Extends_refl _ _⟩

theorem svr_getfile_txData_frame (env : Env) (g : Globals) (ctx : server_session_t) (ev : Nat) :
    SvrFrame ctx (svr_getfile_txData env g ctx ev) := by
  have he1 := fun c => svr_send_error_pkt_form env c 0
    (ascii "timeout waiting for ACK, closing connection\n") (by decide)
  have he2 := fun c => svr_send_error_pkt_form env c 0
    (ascii "error sending data packet, closing connection") (by decide)
  have he3 := fun c => svr_send_error_pkt_form env c 0 (ascii "error, unexpected optcode") (by decide)
  unfold svr_getfile_txData
  generalize ascii "timeout waiting for ACK, closing connection\n" = m1 at he1 ⊢
  generalize ascii "error sending data packet, closing connection" = m2 at he2 ⊢
  generalize ascii "error, unexpected optcode" = m3 at he3 ⊢
  by_cases hev : ev = EV_SVR_TIMEOUT
  · simp only [hev, if_true]
    by_cases hn : ctx.num_retrans_tries + 1 = g.gMaxNumRetransTries
    · simp only [hn, if_true, he1, svr_close_file_form, server_change_state]
      exact ⟨rfl, rfl, Or.inl rfl, Extends_cons _ _ _ _ ⟨rfl, Or.inl rfl⟩ (Extends_refl _ _)⟩
    · simp only [hn, if_false, svr_send_packet_buffer_form]
      exact ⟨rfl, rfl, Or.inl rfl, Extends_cons _ _ _ _ ⟨rfl, Or.inr rfl⟩ (Extends_refl _ _)⟩
  · simp only [hev, if_false]
    by_cases hpdu : ev = EV_SVR_PDU_RX
    · simp only [hpdu, if_true]
      by_cases hop : ctx.rxInfo.optcode = TFTP_ACK
      · simp only [hop, if_true]
        by_cases hb : ctx.rxInfo.blocknum ≠ ctx.nextExpectedBlockNum
        · simp only [hb, if_true, ne_eq, not_false_eq_true]
          exact ⟨rfl, rfl, Or.inl rfl, Extends_refl _ _⟩
        · simp only [hb, if_false]
          by_cases hd : (fread ctx.pFile PROT_MAX_DATA).1.length = 0 ∧
              (ctx.txLen : Int) - 4 < PROT_MAX_DATA
          · simp only [hd, if_true, svr_close_file_form, server_change_state]
            exact ⟨rfl, rfl, Or.inl rfl, Extends_refl _ _⟩
          · simp only [hd, if_false, svr_send_packet_buffer]
            by_cases hr : env.sendRc < 0
            · simp only [hr, if_true, he2, server_change_state]
              exact ⟨rfl, rfl, Or.inr rfl, Extends_cons _ _ _ _ ⟨rfl, Or.inl rfl⟩
                (Extends_cons _ _ _ _ ⟨rfl, Or.inl rfl⟩ (Extends_refl _ _))⟩
            · simp only [hr, if_false]
              exact ⟨rfl, rfl, Or.inr rfl, Extends_cons _ _ _ _ ⟨rfl, Or.inl rfl⟩ (Extends_refl _ _)⟩
      · simp only [hop, if_false]
        by_cases hop2 : ctx.rxInfo.optcode = TFTP_ERROR
        · simp only [hop2, if_true, server_change_state]
          exact ⟨rfl, rfl, Or.inl rfl, Extends_refl _ _⟩
        · simp only [hop2, if_false, he3, server_change_state]
          exact ⟨rfl, rfl, Or.inl rfl, Extends_cons _ _ _ _ ⟨rfl, Or.inl rfl⟩ (Extends_refl _ _)⟩
    · simp only [hpdu, if_false]
      exact ⟨rfl, rfl, Or.inl rfl, Extends_refl _ _⟩

theorem svr_putfile_rxData_frame (env : Env) (g : Globals) (ctx : server_session_t) (ev : Nat) :
    SvrFrame ctx (svr_putfile_rxData env g ctx ev) := by
  have he1 := fun c => svr_send_error_pkt_form env c 0
    (ascii "timeout waiting for ACK, closing connection\n") (by decide)
  have he2 := fun c => svr_send_error_pkt_form env c 0
    (ascii "error writing file data, closing connection") (by decide)
  have he3 := fun c => svr_send_error_pkt_form env c 0 (ascii "error, unexpected optcode") (by decide)
  unfold svr_putfile_rxData
  generalize ascii "timeout waiting for ACK, closing connection\n" = m1 at he1 ⊢
  generalize ascii "error writing file data, closing connection" = m2 at he2 ⊢
  generalize ascii "error, unexpected optcode" = m3 at he3 ⊢
  by_cases hev : ev = EV_SVR_TIMEOUT
  · simp only [hev, if_true]
    by_cases hn : ctx.num_retrans_tries + 1 = g.gMaxNumRetransTries
    · simp only [hn, if_true, he1, svr_close_file_form, server_change_state]
      exact ⟨rfl, rfl, Or.inl rfl, Extends_cons _ _ _ _ ⟨rfl, Or.inl rfl⟩ (Extends_refl _ _)⟩
    · simp only [hn, if_false, svr_send_packet_buffer_form]
      exact ⟨rfl, rfl, Or.inl rfl, Extends_cons _ _ _ _ ⟨rfl, Or.inr rfl⟩ (Extends_refl _ _)⟩
  · simp only [hev, if_false]
    by_cases hpdu : ev = EV_SVR_PDU_RX
    · simp only [hpdu, if_true]
      by_cases hop : ctx.rxInfo.optcode = TFTP_DATA
      · simp only [hop, if_true]
        by_cases hb : ctx.rxInfo.blocknum ≠ ctx.nextExpectedBlockNum
        · simp only [hb, if_true, ne_eq, not_false_eq_true]
          exact ⟨rfl, rfl, Or.inl rfl, Extends_refl _ _⟩
        · simp only [hb, if_false]
          by_cases h1 : (fwrite env ctx.rxInfo.dataBuf (size_t_of ((ctx.rxInfo.rxLen : Int) - 4))
              ctx.pFile).1 ≠ size_t_of ((ctx.rxInfo.rxLen : Int) - 4)
          · simp only [h1, if_true, ne_eq, not_false_eq_true, he2, server_change_state]
            exact ⟨rfl, rfl, Or.inl rfl, Extends_cons _ _ _ _ ⟨rfl, Or.inl rfl⟩ (Extends_refl _ _)⟩
          · simp only [h1, if_false]
            by_cases h2 : ctx.rxInfo.isLastDataBlock ≠ 0
            · simp only [h2, if_true, ne_eq, not_false_eq_true, svr_send_ack_form,
                svr_close_file_form, server_change_state]
              exact ⟨rfl, rfl, Or.inr rfl, Extends_cons _ _ _ _ ⟨rfl, Or.inl rfl⟩ (Extends_refl _ _)⟩
            · simp only [h2, if_false, svr_send_ack_form]
              exact ⟨rfl, rfl, Or.inr rfl, Extends_cons _ _ _ _ ⟨rfl, Or.inl rfl⟩ (Extends_refl _ _)⟩
      · simp only [hop, if_false]
        by_cases hop2 : ctx.rxInfo.optcode = TFTP_ERROR
        · simp only [hop2, if_true, server_change_state]
          exact ⟨rfl, rfl, Or.inl rfl, Extends_refl _ _⟩
        · simp only [hop2, if_false, he3, server_change_state]
          exact ⟨rfl, rfl, Or.inl rfl, Extends_cons _ _ _ _ ⟨rfl, Or.inl rfl⟩ (Extends_refl _ _)⟩
    · simp only [hpdu, if_false]
      exact ⟨rfl, rfl, Or.inl rfl, Extends_refl _ _⟩

/-! ## Lemmas: what the event loops keep -/

theorem cl_fsm_event_frame (env : Env) (g : Globals) (ctx : client_session_t) (ev : Nat) :
    ClFrame ctx (cl_fsm_event env g ctx ev).2.1 := by
  unfold cl_fsm_event
  by_cases h1 : ctx.state = CL_ST_GETFILE_RXDATA
  · simp only [h1, if_true]
    split
    · exact cl_getfile_rxData_frame env g ctx ev
    · exact cl_getfile_rxData_frame env g ctx ev
  · simp only [h1, if_false]
    by_cases h2 : ctx.state = CL_ST_PUTFILE_TXDATA
    · simp only [h2, if_true]
      split
      · exact cl_putfile_txData_frame env g ctx ev
      · exact cl_putfile_txData_frame env g ctx ev
    · simp only [h2, if_false]
      exact ⟨rfl, Or.inl rfl, Extends_refl _ _⟩

theorem svr_fsm_event_frame (env : Env) (g : Globals) (ctx : server_session_t) (ev : Nat) :
    SvrFrame ctx (svr_fsm_event env g ctx ev) := by
  unfold svr_fsm_event
  split
  · exact svr_getfile_txData_frame env g ctx ev
  · split
    · exact svr_putfile_rxData_frame env g ctx ev
    · split
      · exact svr_wait_first_request_frame env g ctx ev
      · exact ⟨rfl, rfl, Or.inl rfl, Extends_refl _ _⟩

theorem ClAvoids_step (P : Nat) (sent0 : List Datagram) (ctx out : client_session_t)
    (h : ClAvoids P sent0 ctx) (hf : ClFrame ctx out) : ClAvoids P sent0 out := by
  obtain ⟨h1, h2, h3⟩ := h
  obtain ⟨f1, f2, f3⟩ := hf
  refine ⟨by rw [f1]; exact h1, ?_, ?_⟩
  · rcases f2 with f2 | f2 <;> rw [f2] <;> assumption
  · refine Extends_trans _ _ _ _ h3 (Extends_mono _ _ _ _ ?_ f3)
    intro d hd
    rcases hd with hd | hd <;> rw [hd] <;> assumption

theorem SvrOnlyTo_step (T : Nat) (sent0 : List Datagram) (ctx out : server_session_t)
    (hc : ctx.client_Port = T) (h : SvrOnlyTo T sent0 ctx) (hf : SvrFrame ctx out) :
    out.client_Port = T ∧ SvrOnlyTo T sent0 out := by
  obtain ⟨h2, h3⟩ := h
  obtain ⟨f1, -, f2, f3⟩ := hf
  refine ⟨by rw [f1]; exact hc, ?_, ?_⟩
  · rcases f2 with f2 | f2 <;> rw [f2] <;> assumption
  · refine Extends_trans _ _ _ _ h3 (Extends_mono _ _ _ _ ?_ f3)
    intro d hd
    rcases hd.2 with hd | hd <;> rw [hd] <;> assumption

theorem SvrOnSock_step (fd : Int) (sent0 : List Datagram) (ctx out : server_session_t)
    (h : SvrOnSock fd sent0 ctx) (hf : SvrFrame ctx out) : SvrOnSock fd sent0 out := by
  obtain ⟨h1, h3⟩ := h
  obtain ⟨-, f1, -, f3⟩ := hf
  refine ⟨by rw [f1]; exact h1, ?_⟩
  refine Extends_trans _ _ _ _ h3 (Extends_mono _ _ _ _ ?_ f3)
  intro d hd
  rw [hd.1]
  exact h1

theorem cl_dispatch_avoids (P : Nat) (sent0 : List Datagram) (env : Env) (r : Recv)
    (s : ClientLoop) (h : ClAvoids P sent0 s.ctx) : ClAvoids P sent0 (cl_dispatch env r s).ctx := by
  have h0 : ClAvoids P sent0
      { s.ctx with rxInfo := (receive_tftp_pkt s.ctx.rxInfo r.rxbuf r.rc.toNat).2.pf } := h
  unfold cl_dispatch
  simp only []
  split
  · split
    · exact ClAvoids_step P sent0 _ _ h0 (cl_fsm_event_frame env s.g _ EV_CL_PDU_RX)
    · exact ClAvoids_step P sent0 _ _ h0 (cl_fsm_event_frame env s.g _ EV_CL_PDU_RX)
  · exact h0

theorem cl_on_readable_avoids (P : Nat) (sent0 : List Datagram) (env : Env) (r : Recv)
    (s : ClientLoop) (hr : r.fromPort ≠ P) (h : ClAvoids P sent0 s.ctx) :
    ClAvoids P sent0 (cl_on_readable env r s).ctx := by
  have h0 : ClAvoids P sent0
      { s.ctx with svrPort := r.fromPort, rxInfo := init_receive_pkt s.ctx.rxInfo } :=
    ⟨hr, h.2.1, h.2.2⟩
  unfold cl_on_readable
  simp only []
  split
  · split
    · exact h0
    · split
      · exact cl_dispatch_avoids P sent0 env r _ h0
      · split
        · exact cl_dispatch_avoids P sent0 env r _ h0
        · exact h0
  · split
    · exact h
    · exact h

theorem cl_on_timer_avoids (P : Nat) (sent0 : List Datagram) (env : Env)
    (s : ClientLoop) (h : ClAvoids P sent0 s.ctx) :
    ClAvoids P sent0 (cl_on_timer env s).ctx := by
  have h0 : ClAvoids P sent0 { s.ctx with tmr1 := (UtilTickTimerRun env.tick s.ctx.tmr1).2 } := h
  unfold cl_on_timer
  simp only []
  split
  · exact ClAvoids_step P sent0 _ _ h0 (cl_fsm_event_frame env s.g _ EV_CL_TIMEOUT)
  · exact h0

theorem file_client_iter_avoids (P : Nat) (sent0 : List Datagram) (env : Env) (inp : Option Recv)
    (s : ClientLoop) (hr : ∀ r, inp = some r → r.fromPort ≠ P) (h : ClAvoids P sent0 s.ctx) :
    ClAvoids P sent0 (file_client_iter env inp s).ctx := by
  unfold file_client_iter
  cases inp with
  | none =>
    simp only []
    split
    · exact h
    · exact cl_on_timer_avoids P sent0 env s h
  | some r =>
    simp only []
    split
    · exact cl_on_readable_avoids P sent0 env r s (hr r rfl) h
    · exact cl_on_timer_avoids P sent0 env _ (cl_on_readable_avoids P sent0 env r s (hr r rfl) h)

theorem file_client_loop_avoids (P : Nat) (sent0 : List Datagram) :
    ∀ (inputs : List (Env × Option Recv)) (s : ClientLoop),
      (∀ x ∈ inputs, ∀ r, x.2 = some r → r.fromPort ≠ P) → ClAvoids P sent0 s.ctx →
      ClAvoids P sent0 (file_client_loop inputs s).ctx := by
  intro inputs
  induction inputs with
  | nil => intro s _ h; exact h
  | cons x rest ih =>
    intro s hin h
    obtain ⟨env, inp⟩ := x
    unfold file_client_loop
    split
    · exact h
    · exact ih _ (fun y hy => hin y (List.mem_cons_of_mem _ hy))
        (file_client_iter_avoids P sent0 env inp s (hin (env, inp) (List.mem_cons_self _ _)) h)

theorem svr_on_readable_onlyTo (T : Nat) (sent0 : List Datagram) (env : Env) (r : Recv)
    (s : ServerLoop) (hr : r.fromPort = T) (h : SvrOnlyTo T sent0 s.ctx) :
    (svr_on_readable env r s).ctx.client_Port = T ∧
      SvrOnlyTo T sent0 (svr_on_readable env r s).ctx := by
  have h0 : ∀ pf,
      ({ s.ctx with
         client_Port := r.fromPort, client_ip := r.fromIp, rxInfo := pf } :
        server_session_t).client_Port = T ∧
      SvrOnlyTo T sent0
        { s.ctx with
          client_Port := r.fromPort, client_ip := r.fromIp, rxInfo := pf } := fun pf => ⟨hr, h⟩
  unfold svr_on_readable
  simp only []
  split
  · split
    · exact SvrOnlyTo_step T sent0 _ _ (h0 _).1 (h0 _).2 (svr_fsm_event_frame env s.g _ EV_SVR_PDU_RX)
    · exact h0 _
  · exact h0 _

theorem svr_on_timer_onlyTo (T : Nat) (sent0 : List Datagram) (env : Env)
    (s : ServerLoop) (hc : s.ctx.client_Port = T) (h : SvrOnlyTo T sent0 s.ctx) :
    (svr_on_timer env s).ctx.client_Port = T ∧ SvrOnlyTo T sent0 (svr_on_timer env s).ctx := by
  have h0 : ({ s.ctx with tmr1 := (UtilTickTimerRun env.tick s.ctx.tmr1).2 } :
      server_session_t).client_Port = T ∧
      SvrOnlyTo T sent0 { s.ctx with tmr1 := (UtilTickTimerRun env.tick s.ctx.tmr1).2 } := ⟨hc, h⟩
  unfold svr_on_timer
  simp only []
  split
  · exact SvrOnlyTo_step T sent0 _ _ h0.1 h0.2 (svr_fsm_event_frame env s.g _ EV_SVR_TIMEOUT)
  · exact h0

theorem file_server_iter_onlyTo (T : Nat) (sent0 : List Datagram) (env : Env) (inp : Option Recv)
    (s : ServerLoop) (hr : ∀ r, inp = some r → r.fromPort = T)
    (hc : s.ctx.client_Port = T) (h : SvrOnlyTo T sent0 s.ctx) :
    (file_server_iter env inp s).ctx.client_Port = T ∧
      SvrOnlyTo T sent0 (file_server_iter env inp s).ctx := by
  unfold file_server_iter
  cases inp with
  | none => exact svr_on_timer_onlyTo T sent0 env s hc h
  | some r =>
    have h1 := svr_on_readable_onlyTo T sent0 env r s (hr r rfl) h
    exact svr_on_timer_onlyTo T sent0 env _ h1.1 h1.2

theorem file_server_loop_onlyTo (T : Nat) (sent0 : List Datagram) :
    ∀ (inputs : List (Env × Option Recv)) (s : ServerLoop),
      (∀ x ∈ inputs, ∀ r, x.2 = some r → r.fromPort = T) →
      s.ctx.client_Port = T → SvrOnlyTo T sent0 s.ctx →
      SvrOnlyTo T sent0 (file_server_loop inputs s).ctx := by
  intro inputs
  induction inputs with
  | nil => intro s _ _ h; exact h
  | cons x rest ih =>
    intro s hin hc h
    obtain ⟨env, inp⟩ := x
    unfold file_server_loop
    split
    · exact h
    · have h1 := file_server_iter_onlyTo T sent0 env inp s
        (hin (env, inp) (List.mem_cons_self _ _)) hc h
      exact ih _ (fun y hy => hin y (List.mem_cons_of_mem _ hy)) h1.1 h1.2

theorem svr_on_readable_onSock (fd : Int) (sent0 : List Datagram) (env : Env) (r : Recv)
    (s : ServerLoop) (h : SvrOnSock fd sent0 s.ctx) :
    SvrOnSock fd sent0 (svr_on_readable env r s).ctx := by
  have h0 : ∀ pf, SvrOnSock fd sent0
      { s.ctx with
        client_Port := r.fromPort, client_ip := r.fromIp, rxInfo := pf } := fun _ => h
  unfold svr_on_readable
  simp only []
  split
  · split
    · exact SvrOnSock_step fd sent0 _ _ (h0 _) (svr_fsm_event_frame env s.g _ EV_SVR_PDU_RX)
    · exact h0 _
  · exact h0 _

theorem svr_on_timer_onSock (fd : Int) (sent0 : List Datagram) (env : Env)
    (s : ServerLoop) (h : SvrOnSock fd sent0 s.ctx) :
    SvrOnSock fd sent0 (svr_on_timer env s).ctx := by
  have h0 : SvrOnSock fd sent0 { s.ctx with tmr1 := (UtilTickTimerRun env.tick s.ctx.tmr1).2 } := h
  unfold svr_on_timer
  simp only []
  split
  · exact SvrOnSock_step fd sent0 _ _ h0 (svr_fsm_event_frame env s.g _ EV_SVR_TIMEOUT)
  · exact h0

theorem file_server_loop_onSock (fd : Int) (sent0 : List Datagram) :
    ∀ (inputs : List (Env × Option Recv)) (s : ServerLoop),
      SvrOnSock fd sent0 s.ctx → SvrOnSock fd sent0 (file_server_loop inputs s).ctx := by
  intro inputs
  induction inputs with
  | nil => intro s h; exact h
  | cons x rest ih =>
    intro s h
    obtain ⟨env, inp⟩ := x
    unfold file_server_loop
    split
    · exact h
    · apply ih
      unfold file_server_iter
      cases inp with
      | none => exact svr_on_timer_onSock fd sent0 env s h
      | some r => exact svr_on_timer_onSock fd sent0 env _ (svr_on_readable_onSock fd sent0 env r s h)

theorem Extends_nil_forall (Q : Datagram → Prop) (l : List Datagram) (h : Extends Q [] l) :
    ∀ d ∈ l, Q d := by
  obtain ⟨pre, hp, hq⟩ := (Extends_iff Q [] l).mp h
  rw [List.append_nil] at hp
  rw [hp]
  exact hq

/-! ## Lemmas: a datagram received by the event loops -/

theorem ack_roundtrip (pf : prot_frame_info_t) (b : Nat) (rest : List Nat) :
    receive_tftp_pkt pf ([0, 4, b / 256, b % 256] ++ rest) 4 =
      (1, { pf := { pf with optcode := 4, blocknum := b, rxLen := 4 },
            reads := [3, 2, 1, 0], writes := [] }) := by
  have hb : ntohs_at ([0, 4, b / 256, b % 256] ++ rest) 2 = b := by
    simp [ntohs_at, rd]; omega
  rw [receive_ack_eq pf _ 4 (by omega) (by simp [rd]) (by simp [rd])]
  simp only [hb]

theorem cl_on_readable_event (env : Env) (r : Recv) (s : ClientLoop)
    (h1 : s.g.gDebugDropPacket = 0) (h2 : s.g.gDebugDropAllPks = 0) (hrc : r.rc > 0)
    (pf : prot_frame_info_t) (reads : List Nat) (writes : List (RxField × Nat))
    (ret : Nat) (c : client_session_t) (g : Globals)
    (hd : receive_tftp_pkt (init_receive_pkt s.ctx.rxInfo) r.rxbuf r.rc.toNat =
      (1, ⟨pf, reads, writes⟩))
    (he : cl_fsm_event env s.g { s.ctx with svrPort := r.fromPort, rxInfo := pf } EV_CL_PDU_RX =
      (ret, c, g)) :
    cl_on_readable env r s =
      { packetCount := s.packetCount + 1, ctx := c, g := g, connectionTmr := s.connectionTmr,
        left := if ret = 0 then true else s.left } := by
  have h10 : ¬ ((1 : Nat) = 0) := by decide
  unfold cl_on_readable cl_dispatch
  simp only [hrc, if_true, h1, h2, ne_eq, not_true_eq_false, false_and, if_false, hd, h10,
    not_false_eq_true, he]
  by_cases hr : ret = 0
  · simp only [hr, if_true]
  · simp only [hr, if_false]

theorem svr_on_readable_event (env : Env) (r : Recv) (s : ServerLoop) (hrc : r.rc > 0)
    (pf : prot_frame_info_t) (reads : List Nat) (writes : List (RxField × Nat))
    (hd : receive_tftp_pkt (init_receive_pkt s.ctx.rxInfo) r.rxbuf r.rc.toNat =
      (1, ⟨pf, reads, writes⟩)) :
    svr_on_readable env r s =
      { ctx := svr_fsm_event env s.g
          { s.ctx with client_Port := r.fromPort, client_ip := r.fromIp, rxInfo := pf }
          EV_SVR_PDU_RX,
        g := s.g } := by
  have h10 : ¬ ((1 : Nat) = 0) := by decide
  unfold svr_on_readable
  simp only [hrc, if_true, ne_eq, hd, h10, not_false_eq_true]

/-! ## Lemmas: accepted DATA blocks -/

theorem size_t_of_payload (n : Nat) (h : n < 2 ^ 64) : size_t_of (((4 + n : Nat) : Int) - 4) = n := by
  unfold size_t_of
  have h1 : ((4 + n : Nat) : Int) - 4 = (n : Int) := by push_cast; omega
  rw [h1]
  have h2 : (n : Int) % 2 ^ 64 = (n : Int) := Int.emod_eq_of_lt (by omega) (by exact_mod_cast h)
  rw [h2]
  exact Int.toNat_ofNat n

theorem fwrite_ok (env : Env) (src : List Nat) (count : Nat) (f : FILE)
    (h : count ≤ env.fwriteLimit) :
    fwrite env src count (some f) =
      (count, some { content := f.content ++ src.take count, pos := f.pos + count }) := by
  unfold fwrite
  simp only [Nat.min_eq_left h, List.take_take, Nat.min_self]

theorem cl_getfile_write_last (env : Env) (g : Globals) (ctx : client_session_t) (f : FILE)
    (n : Nat) (hf : ctx.pFile = some f) (hn : size_t_of ((ctx.rxInfo.rxLen : Int) - 4) = n)
    (hw : n ≤ env.fwriteLimit) (hl : ctx.rxInfo.isLastDataBlock ≠ 0) :
    cl_getfile_write env g ctx =
      (0, { ctx with
            num_retrans_tries := 0, blockNum := (ctx.blockNum + 1) % 65536,
            clientSock := close_socket ctx.clientSock, pFile := none,
            closed := ⟨f.content ++ ctx.rxInfo.dataBuf.take n, f.pos + n⟩ :: ctx.closed,
            txBuf := ackTxBuf ctx.txBuf ((ctx.blockNum + 1) % 65536), txLen := 4,
            lastTxPort := ctx.svrPort,
            sent := ⟨ctx.clientSock, ctx.remoteIpStr, ctx.svrPort,
              (ackTxBuf ctx.txBuf ((ctx.blockNum + 1) % 65536)).take 4⟩ :: ctx.sent }, g) := by
  unfold cl_getfile_write
  simp only [hn, hf, fwrite_ok env _ n f hw, ne_eq, not_true_eq_false, if_false, hl,
    not_false_eq_true, if_true, cl_send_ack_form, cl_close_file_and_sock_form, closeLog]

theorem cl_getfile_write_more (env : Env) (g : Globals) (ctx : client_session_t) (f : FILE)
    (n : Nat) (hf : ctx.pFile = some f) (hn : size_t_of ((ctx.rxInfo.rxLen : Int) - 4) = n)
    (hw : n ≤ env.fwriteLimit) (hl : ctx.rxInfo.isLastDataBlock = 0) :
    cl_getfile_write env g ctx =
      (1, { ctx with
            num_retrans_tries := 0, blockNum := (ctx.blockNum + 1) % 65536,
            pFile := some ⟨f.content ++ ctx.rxInfo.dataBuf.take n, f.pos + n⟩,
            tmr2 := progressTimer env g ctx.tmr2,
            tmr1 := UtilTickTimerStart env.tick ctx.tmr1 ACK_TIMEOUT_SECS,
            txBuf := ackTxBuf ctx.txBuf ((ctx.blockNum + 1) % 65536), txLen := 4,
            lastTxPort := ctx.svrPort,
            sent := ⟨ctx.clientSock, ctx.remoteIpStr, ctx.svrPort,
              (ackTxBuf ctx.txBuf ((ctx.blockNum + 1) % 65536)).take 4⟩ :: ctx.sent }, g) := by
  unfold cl_getfile_write
  simp only [hn, hf, fwrite_ok env _ n f hw, ne_eq, not_true_eq_false, if_false, hl,
    cl_send_ack_form]

theorem cl_getfile_rxData_next (env : Env) (g : Globals) (ctx : client_session_t)
    (hop : ctx.rxInfo.optcode = TFTP_DATA)
    (hb : ctx.rxInfo.blocknum = ctx.nextExpectedBlockNum) (hfirst : ctx.isFirstDataBlock = 0) :
    cl_getfile_rxData env g ctx EV_CL_PDU_RX =
      cl_getfile_write env g
        { ctx with nextExpectedBlockNum := (ctx.nextExpectedBlockNum + 1) % 65536 } := by
  have h10 : ¬ ((1 : Nat) = 0) := by decide
  unfold cl_getfile_rxData
  simp only [EV_CL_PDU_RX, EV_CL_TIMEOUT, h10, if_false, if_true, hop, hb, ne_eq,
    not_true_eq_false, hfirst]

theorem cl_getfile_rxData_first (env : Env) (g : Globals) (ctx : client_session_t)
    (hop : ctx.rxInfo.optcode = TFTP_DATA)
    (hb : ctx.rxInfo.blocknum = ctx.nextExpectedBlockNum) (hfirst : ctx.isFirstDataBlock ≠ 0)
    (hopen : env.fopenWrite (cstr ctx.filename) = true) :
    cl_getfile_rxData env g ctx EV_CL_PDU_RX =
      cl_getfile_write env g
        { ctx with
          nextExpectedBlockNum := (ctx.nextExpectedBlockNum + 1) % 65536,
          pFile := some ⟨[], 0⟩, isFirstDataBlock := 0 } := by
  have h10 : ¬ ((1 : Nat) = 0) := by decide
  unfold cl_getfile_rxData
  simp only [EV_CL_PDU_RX, EV_CL_TIMEOUT, h10, if_false, if_true, hop, hb, ne_eq,
    not_true_eq_false, hfirst, not_false_eq_true, hopen, reduceCtorEq]

theorem svr_putfile_rxData_last (env : Env) (g : Globals) (ctx : server_session_t) (f : FILE)
    (n : Nat) (hop : ctx.rxInfo.optcode = TFTP_DATA)
    (hb : ctx.rxInfo.blocknum = ctx.nextExpectedBlockNum)
    (hf : ctx.pFile = some f) (hn : size_t_of ((ctx.rxInfo.rxLen : Int) - 4) = n)
    (hw : n ≤ env.fwriteLimit) (hl : ctx.rxInfo.isLastDataBlock ≠ 0) :
    svr_putfile_rxData env g ctx EV_SVR_PDU_RX =
      { ctx with
        nextExpectedBlockNum := (ctx.nextExpectedBlockNum + 1) % 65536,
        num_retrans_tries := 0, blockNum := (ctx.blockNum + 1) % 65536,
        state := SVR_ST_WAIT_FIST_REQUEST, pFile := none,
        closed := ⟨f.content ++ ctx.rxInfo.dataBuf.take n, f.pos + n⟩ :: ctx.closed,
        txBuf := ackTxBuf ctx.txBuf ((ctx.blockNum + 1) % 65536), txLen := 4,
        lastTxPort := ctx.client_Port,
        sent := ⟨ctx.serverSock, ctx.client_ip, ctx.client_Port,
          (ackTxBuf ctx.txBuf ((ctx.blockNum + 1) % 65536)).take 4⟩ :: ctx.sent } := by
  have h10 : ¬ ((1 : Nat) = 0) := by decide
  unfold svr_putfile_rxData
  simp only [EV_SVR_PDU_RX, EV_SVR_TIMEOUT, h10, if_false, if_true, hop, hb, ne_eq,
    not_true_eq_false, hn, hf, fwrite_ok env _ n f hw, hl, not_false_eq_true,
    svr_send_ack_form, svr_close_file_form, server_change_state, closeLog]

theorem svr_putfile_rxData_more (env : Env) (g : Globals) (ctx : server_session_t) (f : FILE)
    (n : Nat) (hop : ctx.rxInfo.optcode = TFTP_DATA)
    (hb : ctx.rxInfo.blocknum = ctx.nextExpectedBlockNum)
    (hf : ctx.pFile = some f) (hn : size_t_of ((ctx.rxInfo.rxLen : Int) - 4) = n)
    (hw : n ≤ env.fwriteLimit) (hl : ctx.rxInfo.isLastDataBlock = 0) :
    svr_putfile_rxData env g ctx EV_SVR_PDU_RX =
      { ctx with
        nextExpectedBlockNum := (ctx.nextExpectedBlockNum + 1) % 65536,
        num_retrans_tries := 0, blockNum := (ctx.blockNum + 1) % 65536,
        pFile := some ⟨f.content ++ ctx.rxInfo.dataBuf.take n, f.pos + n⟩,
        tmr2 := progressTimer env g ctx.tmr2,
        tmr1 := UtilTickTimerStart env.tick ctx.tmr1 ACK_TIMEOUT_SECS,
        txBuf := ackTxBuf ctx.txBuf ((ctx.blockNum + 1) % 65536), txLen := 4,
        lastTxPort := ctx.client_Port,
        sent := ⟨ctx.serverSock, ctx.client_ip, ctx.client_Port,
          (ackTxBuf ctx.txBuf ((ctx.blockNum + 1) % 65536)).take 4⟩ :: ctx.sent } := by
  have h10 : ¬ ((1 : Nat) = 0) := by decide
  unfold svr_putfile_rxData
  simp only [EV_SVR_PDU_RX, EV_SVR_TIMEOUT, h10, if_false, if_true, hop, hb, ne_eq,
    not_true_eq_false, hn, hf, fwrite_ok env _ n f hw, hl, svr_send_ack_form]

theorem svr_wait_first_request_other (env : Env) (g : Globals) (ctx : server_session_t)
    (h1 : ctx.rxInfo.optcode ≠ TFTP_WRQ) (h2 : ctx.rxInfo.optcode ≠ TFTP_RRQ) :
    svr_wait_first_request env g ctx EV_SVR_PDU_RX =
      { ctx with
        state := SVR_ST_WAIT_FIST_REQUEST,
        txBuf := errTxBuf ctx.txBuf 0 (ascii "error sending data packet"),
        txLen := errTxLen (ascii "error sending data packet"),
        sent := ⟨ctx.serverSock, ctx.client_ip, ctx.client_Port,
          (errTxBuf ctx.txBuf 0 (ascii "error sending data packet")).take
            (errTxLen (ascii "error sending data packet"))⟩ :: ctx.sent } := by
  have he := fun c => svr_send_error_pkt_form env c 0 (ascii "error sending data packet") (by decide)
  unfold svr_wait_first_request
  generalize ascii "error sending data packet" = m at he ⊢
  simp only [if_true, h1, h2, if_false, he, server_change_state]

theorem dataRx_wellSized (pf : prot_frame_info_t) (h : pf.WellSized) (b : Nat) (payload : List Nat)
    (hp : payload.length ≤ PROT_MAX_DATA) : (dataRx pf b payload).WellSized := by
  obtain ⟨h1, h2, h3, h4⟩ := h
  refine ⟨?_, h2, h3, h4⟩
  simp only [dataRx, List.length_append, List.length_drop, h1]
  omega

theorem ackRx_wellSized (pf : prot_frame_info_t) (h : pf.WellSized) (b : Nat) :
    (ackRx pf b).WellSized := h

theorem dataRx_take (pf : prot_frame_info_t) (b : Nat) (payload : List Nat) :
    (dataRx pf b payload).dataBuf.take payload.length = payload := by
  simp only [dataRx, List.take_left']

theorem receive_dataPkt (pf : prot_frame_info_t) (h : pf.WellSized) (b : Nat)
    (payload rest : List Nat) (hp : payload.length ≤ PROT_MAX_DATA) :
    receive_tftp_pkt (init_receive_pkt pf) (dataPkt b payload ++ rest) (4 + payload.length) =
      (1, ⟨dataRx pf b payload, (List.range' 4 payload.length).reverse ++ [3, 2, 1, 0],
        ((List.range' 0 payload.length).map (fun j => (RxField.dataBuf, j))).reverse⟩) := by
  have h0 : (init_receive_pkt pf).WellSized := h
  unfold dataPkt
  rw [data_roundtrip (init_receive_pkt pf) h0 b payload rest hp]
  rfl

theorem receive_ackPkt (pf : prot_frame_info_t) (b : Nat) (rest : List Nat) :
    receive_tftp_pkt (init_receive_pkt pf) (ackPkt b ++ rest) 4 =
      (1, ⟨ackRx pf b, [3, 2, 1, 0], []⟩) := by
  unfold ackPkt
  rw [ack_roundtrip (init_receive_pkt pf) b rest]
  rfl

theorem file_client_loop_left (inputs : List (Env × Option Recv)) (s : ClientLoop)
    (h : s.left = true) : file_client_loop inputs s = s := by
  cases inputs with
  | nil => rfl
  | cons x rest =>
    obtain ⟨env, inp⟩ := x
    unfold file_client_loop
    simp only [h, or_true, if_true]

/-! ## Lemmas: a DATA block received by the loops -/

theorem cl_on_readable_pdu (env : Env) (r : Recv) (ctx : client_session_t) (g : Globals)
    (pk : Int) (tm : tick_timer_t) (lf : Bool)
    (h1 : g.gDebugDropPacket = 0) (h2 : g.gDebugDropAllPks = 0) (hrc : r.rc > 0)
    (pf : prot_frame_info_t) (reads : List Nat) (writes : List (RxField × Nat))
    (hd : receive_tftp_pkt (init_receive_pkt ctx.rxInfo) r.rxbuf r.rc.toNat =
      (1, ⟨pf, reads, writes⟩)) :
    cl_on_readable env r ⟨ctx, g, pk, tm, lf⟩ =
      ⟨(cl_fsm_event env g { ctx with svrPort := r.fromPort, rxInfo := pf } EV_CL_PDU_RX).2.1,
        (cl_fsm_event env g { ctx with svrPort := r.fromPort, rxInfo := pf } EV_CL_PDU_RX).2.2,
        pk + 1, tm,
        if (cl_fsm_event env g { ctx with svrPort := r.fromPort, rxInfo := pf } EV_CL_PDU_RX).1 = 0
          then true else lf⟩ :=
  cl_on_readable_event env r ⟨ctx, g, pk, tm, lf⟩ h1 h2 hrc pf reads writes _ _ _ hd rfl

theorem svr_on_readable_pdu (env : Env) (r : Recv) (ctx : server_session_t) (g : Globals)
    (hrc : r.rc > 0)
    (pf : prot_frame_info_t) (reads : List Nat) (writes : List (RxField × Nat))
    (hd : receive_tftp_pkt (init_receive_pkt ctx.rxInfo) r.rxbuf r.rc.toNat =
      (1, ⟨pf, reads, writes⟩)) :
    svr_on_readable env r ⟨ctx, g⟩ =
      ⟨svr_fsm_event env g
        { ctx with client_Port := r.fromPort, client_ip := r.fromIp, rxInfo := pf }
        EV_SVR_PDU_RX, g⟩ :=
  svr_on_readable_event env r ⟨ctx, g⟩ hrc pf reads writes hd

theorem cl_on_readable_data (env : Env) (r : Recv) (ctx : client_session_t) (g : Globals)
    (pk : Int) (tm : tick_timer_t) (lf : Bool) (b : Nat) (payload rest : List Nat) (f : FILE)
    (hr1 : r.rxbuf = dataPkt b payload ++ rest) (hr2 : r.rc = ((4 + payload.length : Nat) : Int))
    (hp1 : payload.length ≤ PROT_MAX_DATA) (hp2 : payload.length ≤ env.fwriteLimit)
    (hc1 : ctx.state = CL_ST_GETFILE_RXDATA) (hc2 : ctx.nextExpectedBlockNum = b)
    (hc3 : g.gDebugDropPacket = 0) (hc4 : g.gDebugDropAllPks = 0)
    (hc5 : ctx.rxInfo.WellSized) (hc6 : ctx.txBuf.length = MAX_TX_BUFF)
    (hcf : (ctx.isFirstDataBlock = 0 ∧ ctx.pFile = some f) ∨
      (ctx.isFirstDataBlock ≠ 0 ∧ env.fopenWrite (cstr ctx.filename) = true ∧ f = ⟨[], 0⟩)) :
    cl_on_readable env r ⟨ctx, g, pk, tm, lf⟩ =
      if payload.length < PROT_MAX_DATA then
        ⟨{ ctx with
           svrPort := r.fromPort, rxInfo := dataRx ctx.rxInfo b payload,
           nextExpectedBlockNum := (ctx.nextExpectedBlockNum + 1) % 65536,
           isFirstDataBlock := 0,
           num_retrans_tries := 0, blockNum := (ctx.blockNum + 1) % 65536,
           clientSock := close_socket ctx.clientSock, pFile := none,
           closed := ⟨f.content ++ payload, f.pos + payload.length⟩ :: ctx.closed,
           txBuf := ackTxBuf ctx.txBuf ((ctx.blockNum + 1) % 65536), txLen := 4,
           lastTxPort := r.fromPort,
           sent := ⟨ctx.clientSock, ctx.remoteIpStr, r.fromPort,
             ackPkt ((ctx.blockNum + 1) % 65536)⟩ :: ctx.sent }, g, pk + 1, tm, true⟩
      else
        ⟨{ ctx with
           svrPort := r.fromPort, rxInfo := dataRx ctx.rxInfo b payload,
           nextExpectedBlockNum := (ctx.nextExpectedBlockNum + 1) % 65536,
           isFirstDataBlock := 0,
           num_retrans_tries := 0, blockNum := (ctx.blockNum + 1) % 65536,
           pFile := some ⟨f.content ++ payload, f.pos + payload.length⟩,
           tmr2 := progressTimer env g ctx.tmr2,
           tmr1 := UtilTickTimerStart env.tick ctx.tmr1 ACK_TIMEOUT_SECS,
           txBuf := ackTxBuf ctx.txBuf ((ctx.blockNum + 1) % 65536), txLen := 4,
           lastTxPort := r.fromPort,
           sent := ⟨ctx.clientSock, ctx.remoteIpStr, r.fromPort,
             ackPkt ((ctx.blockNum + 1) % 65536)⟩ :: ctx.sent }, g, pk + 1, tm, lf⟩ := by
  have hrc : r.rc > 0 := by rw [hr2]; omega
  have hto : r.rc.toNat = 4 + payload.length := by rw [hr2]; exact Int.toNat_ofNat _
  have hsz : size_t_of (((4 + payload.length : Nat) : Int) - 4) = payload.length :=
    size_t_of_payload _ (by unfold PROT_MAX_DATA at hp1; omega)
  have hb16 : (ctx.blockNum + 1) % 65536 < 65536 := Nat.mod_lt _ (by decide)
  have hdc := receive_dataPkt ctx.rxInfo hc5 b payload rest hp1
  rw [← hr1, ← hto] at hdc
  have hwr : cl_getfile_rxData env g
      { ctx with svrPort := r.fromPort, rxInfo := dataRx ctx.rxInfo b payload } EV_CL_PDU_RX =
      cl_getfile_write env g
        { ctx with
          svrPort := r.fromPort, rxInfo := dataRx ctx.rxInfo b payload,
          nextExpectedBlockNum := (ctx.nextExpectedBlockNum + 1) % 65536,
          isFirstDataBlock := 0, pFile := some f } := by
    rcases hcf with ⟨hf1, hf2⟩ | ⟨hf1, hf2, hf3⟩
    · rw [cl_getfile_rxData_next env g
        { ctx with svrPort := r.fromPort, rxInfo := dataRx ctx.rxInfo b payload }
        rfl hc2.symm hf1]
      simp only [hf1, hf2]
    · rw [cl_getfile_rxData_first env g
        { ctx with svrPort := r.fromPort, rxInfo := dataRx ctx.rxInfo b payload }
        rfl hc2.symm hf1 hf2, hf3]
  have h10 : ¬ ((1 : Nat) = 0) := by decide
  rw [cl_on_readable_pdu env r ctx g pk tm lf hc3 hc4 hrc _ _ _ hdc,
    cl_fsm_event_getfile env g
      { ctx with svrPort := r.fromPort, rxInfo := dataRx ctx.rxInfo b payload } _ hc1, hwr]
  by_cases hlt : payload.length < PROT_MAX_DATA
  · have hlast : (dataRx ctx.rxInfo b payload).isLastDataBlock ≠ 0 := by
      simp only [dataRx, hlt, if_true]; decide
    rw [cl_getfile_write_last env g _ f payload.length rfl hsz hp2 hlast]
    simp only [hlt, if_true, dataRx_take, ackTxBuf_take _ hc6 _ hb16, ackPkt]
  · have hlast : (dataRx ctx.rxInfo b payload).isLastDataBlock = 0 := by
      simp only [dataRx, hlt, if_false]
    rw [cl_getfile_write_more env g _ f payload.length rfl hsz hp2 hlast]
    simp only [hlt, h10, if_false, dataRx_take, ackTxBuf_take _ hc6 _ hb16, ackPkt]

theorem svr_on_readable_data (env : Env) (r : Recv) (ctx : server_session_t) (g : Globals)
    (b : Nat) (payload rest : List Nat) (f : FILE)
    (hr1 : r.rxbuf = dataPkt b payload ++ rest) (hr2 : r.rc = ((4 + payload.length : Nat) : Int))
    (hp1 : payload.length ≤ PROT_MAX_DATA) (hp2 : payload.length ≤ env.fwriteLimit)
    (hs1 : ctx.state = SVR_ST_PUTFILE_RXDATA) (hs2 : ctx.nextExpectedBlockNum = b)
    (hs3 : ctx.pFile = some f) (hs4 : ctx.rxInfo.WellSized)
    (hs5 : ctx.txBuf.length = MAX_TX_BUFF) :
    svr_on_readable env r ⟨ctx, g⟩ =
      if payload.length < PROT_MAX_DATA then
        ⟨{ ctx with
           client_Port := r.fromPort, client_ip := r.fromIp,
           rxInfo := dataRx ctx.rxInfo b payload,
           nextExpectedBlockNum := (ctx.nextExpectedBlockNum + 1) % 65536,
           num_retrans_tries := 0, blockNum := (ctx.blockNum + 1) % 65536,
           state := SVR_ST_WAIT_FIST_REQUEST, pFile := none,
           closed := ⟨f.content ++ payload, f.pos + payload.length⟩ :: ctx.closed,
           txBuf := ackTxBuf ctx.txBuf ((ctx.blockNum + 1) % 65536), txLen := 4,
           lastTxPort := r.fromPort,
           sent := ⟨ctx.serverSock, r.fromIp, r.fromPort,
             ackPkt ((ctx.blockNum + 1) % 65536)⟩ :: ctx.sent }, g⟩
      else
        ⟨{ ctx with
           client_Port := r.fromPort, client_ip := r.fromIp,
           rxInfo := dataRx ctx.rxInfo b payload,
           nextExpectedBlockNum := (ctx.nextExpectedBlockNum + 1) % 65536,
           num_retrans_tries := 0, blockNum := (ctx.blockNum + 1) % 65536,
           pFile := some ⟨f.content ++ payload, f.pos + payload.length⟩,
           tmr2 := progressTimer env g ctx.tmr2,
           tmr1 := UtilTickTimerStart env.tick ctx.tmr1 ACK_TIMEOUT_SECS,
           txBuf := ackTxBuf ctx.txBuf ((ctx.blockNum + 1) % 65536), txLen := 4,
           lastTxPort := r.fromPort,
           sent := ⟨ctx.serverSock, r.fromIp, r.fromPort,
             ackPkt ((ctx.blockNum + 1) % 65536)⟩ :: ctx.sent }, g⟩ := by
  have hrc : r.rc > 0 := by rw [hr2]; omega
  have hto : r.rc.toNat = 4 + payload.length := by rw [hr2]; exact Int.toNat_ofNat _
  have hsz : size_t_of (((4 + payload.length : Nat) : Int) - 4) = payload.length :=
    size_t_of_payload _ (by unfold PROT_MAX_DATA at hp1; omega)
  have hb16 : (ctx.blockNum + 1) % 65536 < 65536 := Nat.mod_lt _ (by decide)
  have hdc := receive_dataPkt ctx.rxInfo hs4 b payload rest hp1
  rw [← hr1, ← hto] at hdc
  rw [svr_on_readable_pdu env r ctx g hrc _ _ _ hdc,
    svr_fsm_event_putfile env g
      { ctx with
        client_Port := r.fromPort, client_ip := r.fromIp,
        rxInfo := dataRx ctx.rxInfo b payload } _ hs1]
  by_cases hlt : payload.length < PROT_MAX_DATA
  · have hlast : (dataRx ctx.rxInfo b payload).isLastDataBlock ≠ 0 := by
      simp only [dataRx, hlt, if_true]; decide
    rw [svr_putfile_rxData_last env g
      { ctx with
        client_Port := r.fromPort, client_ip := r.fromIp,
        rxInfo := dataRx ctx.rxInfo b payload }
      f payload.length rfl hs2.symm hs3 hsz hp2 hlast]
    simp only [hlt, if_true, dataRx_take, ackTxBuf_take _ hs5 _ hb16, ackPkt]
  · have hlast : (dataRx ctx.rxInfo b payload).isLastDataBlock = 0 := by
      simp only [dataRx, hlt, if_false]
    rw [svr_putfile_rxData_more env g
      { ctx with
        client_Port := r.fromPort, client_ip := r.fromIp,
        rxInfo := dataRx ctx.rxInfo b payload }
      f payload.length rfl hs2.symm hs3 hsz hp2 hlast]
    simp only [hlt, if_false, dataRx_take, ackTxBuf_take _ hs5 _ hb16, ackPkt]

theorem svr_on_readable_data_wait (env : Env) (r : Recv) (ctx : server_session_t) (g : Globals)
    (b : Nat) (payload rest : List Nat)
    (hr1 : r.rxbuf = dataPkt b payload ++ rest) (hr2 : r.rc = ((4 + payload.length : Nat) : Int))
    (hp1 : payload.length ≤ PROT_MAX_DATA)
    (hs1 : ctx.state = SVR_ST_WAIT_FIST_REQUEST) (hs4 : ctx.rxInfo.WellSized) :
    svr_on_readable env r ⟨ctx, g⟩ =
      ⟨{ ctx with
         client_Port := r.fromPort, client_ip := r.fromIp,
         rxInfo := dataRx ctx.rxInfo b payload,
         txBuf := errTxBuf ctx.txBuf 0 (ascii "error sending data packet"),
         txLen := errTxLen (ascii "error sending data packet"),
         sent := ⟨ctx.serverSock, r.fromIp, r.fromPort,
           (errTxBuf ctx.txBuf 0 (ascii "error sending data packet")).take
             (errTxLen (ascii "error sending data packet"))⟩ :: ctx.sent }, g⟩ := by
  have hrc : r.rc > 0 := by rw [hr2]; omega
  have hto : r.rc.toNat = 4 + payload.length := by rw [hr2]; exact Int.toNat_ofNat _
  have hdc := receive_dataPkt ctx.rxInfo hs4 b payload rest hp1
  rw [← hr1, ← hto] at hdc
  rw [svr_on_readable_pdu env r ctx g hrc _ _ _ hdc,
    svr_fsm_event_wait env g
      { ctx with
        client_Port := r.fromPort, client_ip := r.fromIp,
        rxInfo := dataRx ctx.rxInfo b payload } _ hs1,
    svr_wait_first_request_other env g
      { ctx with
        client_Port := r.fromPort, client_ip := r.fromIp,
        rxInfo := dataRx ctx.rxInfo b payload }
      (show (3 : Nat) ≠ TFTP_WRQ by decide) (show (3 : Nat) ≠ TFTP_RRQ by decide)]
  simp only [hs1]

theorem errPkt_header0 (txBuf : List Nat) (h : txBuf.length = MAX_TX_BUFF) (m : List Nat)
    (hm : strlen m ≤ PROT_MAX_DATA) :
    ((errTxBuf txBuf 0 m).take (errTxLen m)).take 4 = [0, TFTP_ERROR, 0, 0] :=
  (errPkt_header txBuf h 0 m hm).trans (by decide)

/-! ## Lemmas: accepted ACKs -/

theorem dataTxBuf_length (txBuf : List Nat) (b : Nat) (bytes : List Nat) :
    (dataTxBuf txBuf b bytes).length = txBuf.length := by
  simp [dataTxBuf, memcpy_length]

theorem firstDataTxBuf_length (txBuf : List Nat) (b : Nat) (bytes : List Nat) :
    (firstDataTxBuf txBuf b bytes).length = txBuf.length := by
  simp [firstDataTxBuf, memcpy_length]

theorem dataTxBuf_take (txBuf : List Nat) (h : txBuf.length = MAX_TX_BUFF) (b : Nat)
    (hb : b < 65536) (bytes : List Nat) (hl : bytes.length ≤ PROT_MAX_DATA) :
    (dataTxBuf txBuf b bytes).take (4 + bytes.length) = dataPkt b bytes := by
  unfold dataTxBuf dataPkt
  rw [hi_byte_mod b hb, lo_byte_mod]
  exact data_bytes_after txBuf h 0 3 (b / 256) (b % 256) bytes hl

theorem firstDataTxBuf_take (txBuf : List Nat) (h : txBuf.length = MAX_TX_BUFF) (b : Nat)
    (hb : b < 65536) (bytes : List Nat) (hl : bytes.length ≤ PROT_MAX_DATA) :
    (firstDataTxBuf txBuf b bytes).take (4 + bytes.length) = dataPkt b bytes := by
  unfold firstDataTxBuf dataPkt
  rw [hi_byte_mod b hb, lo_byte_mod]
  exact data_bytes_before txBuf h 0 3 (b / 256) (b % 256) bytes hl

theorem cl_putfile_txData_send (env : Env) (g : Globals) (ctx : client_session_t)
    (hop : ctx.rxInfo.optcode = TFTP_ACK) (hb : ctx.rxInfo.blocknum = ctx.nextExpectedBlockNum)
    (hgo : ¬ ((fread ctx.pFile PROT_MAX_DATA).1.length = 0 ∧ ctx.isFirstDataBlock = 0 ∧
      (ctx.txLen : Int) - 4 < PROT_MAX_DATA))
    (hrc : 0 ≤ env.sendRc) (htx : ctx.txBuf.length = MAX_TX_BUFF) :
    cl_putfile_txData env g ctx EV_CL_PDU_RX =
      (1, { ctx with
            nextExpectedBlockNum := (ctx.nextExpectedBlockNum + 1) % 65536,
            blockNum := (ctx.blockNum + 1) % 65536, num_retrans_tries := 0,
            pFile := (fread ctx.pFile PROT_MAX_DATA).2,
            txBuf := dataTxBuf ctx.txBuf ((ctx.blockNum + 1) % 65536)
              (fread ctx.pFile PROT_MAX_DATA).1,
            txLen := 4 + (fread ctx.pFile PROT_MAX_DATA).1.length,
            lastTxPort := ctx.svrPort,
            sent := ⟨ctx.clientSock, ctx.remoteIpStr, ctx.svrPort,
              dataPkt ((ctx.blockNum + 1) % 65536) (fread ctx.pFile PROT_MAX_DATA).1⟩ :: ctx.sent,
            tmr2 := progressTimer env g ctx.tmr2,
            tmr1 := UtilTickTimerStart env.tick ctx.tmr1 ACK_TIMEOUT_SECS,
            isFirstDataBlock := 0 }, g) := by
  have hlen := fread_length_le ctx.pFile PROT_MAX_DATA
  have hb16 : (ctx.blockNum + 1) % 65536 < 65536 := Nat.mod_lt _ (by decide)
  have hmod : (4 + (fread ctx.pFile PROT_MAX_DATA).1.length) % 65536 =
      4 + (fread ctx.pFile PROT_MAX_DATA).1.length := by
    have : (fread ctx.pFile PROT_MAX_DATA).1.length ≤ 512 := hlen
    omega
  have htake := dataTxBuf_take ctx.txBuf htx _ hb16 _ hlen
  have hr : ¬ env.sendRc < 0 := by omega
  have h10 : ¬ ((1 : Nat) = 0) := by decide
  unfold dataTxBuf at htake
  unfold cl_putfile_txData dataTxBuf
  simp only [EV_CL_PDU_RX, EV_CL_TIMEOUT, hop, hb, hgo, if_false, if_true, h10,
    ne_eq, not_true_eq_false, Nat.zero_add, hmod, cl_send_packet_buffer, hr, htake]

theorem cl_putfile_txData_done (env : Env) (g : Globals) (ctx : client_session_t)
    (hop : ctx.rxInfo.optcode = TFTP_ACK) (hb : ctx.rxInfo.blocknum = ctx.nextExpectedBlockNum)
    (hgo : (fread ctx.pFile PROT_MAX_DATA).1.length = 0 ∧ ctx.isFirstDataBlock = 0 ∧
      (ctx.txLen : Int) - 4 < PROT_MAX_DATA) :
    cl_putfile_txData env g ctx EV_CL_PDU_RX =
      (0, { ctx with
            nextExpectedBlockNum := (ctx.nextExpectedBlockNum + 1) % 65536,
            blockNum := (ctx.blockNum + 1) % 65536, num_retrans_tries := 0,
            pFile := (fread ctx.pFile PROT_MAX_DATA).2,
            txBuf := memcpy ctx.txBuf 4 (fread ctx.pFile PROT_MAX_DATA).1 }, g) := by
  have h10 : ¬ ((1 : Nat) = 0) := by decide
  unfold cl_putfile_txData
  simp only [EV_CL_PDU_RX, EV_CL_TIMEOUT, hop, hb, hgo, if_false, if_true, h10,
    ne_eq, not_true_eq_false, and_self]

theorem cl_on_readable_ack (env : Env) (r : Recv) (ctx : client_session_t) (g : Globals)
    (pk : Int) (tm : tick_timer_t) (lf : Bool) (b : Nat) (rest : List Nat)
    (hr1 : r.rxbuf = ackPkt b ++ rest) (hr2 : r.rc = 4)
    (hc1 : ctx.state = CL_ST_PUTFILE_TXDATA) (hc2 : ctx.nextExpectedBlockNum = b)
    (hc3 : g.gDebugDropPacket = 0) (hc4 : g.gDebugDropAllPks = 0)
    (hrc : 0 ≤ env.sendRc) (htx : ctx.txBuf.length = MAX_TX_BUFF) :
    cl_on_readable env r ⟨ctx, g, pk, tm, lf⟩ =
      if (fread ctx.pFile PROT_MAX_DATA).1.length = 0 ∧ ctx.isFirstDataBlock = 0 ∧
          (ctx.txLen : Int) - 4 < PROT_MAX_DATA then
        ⟨{ ctx with
           svrPort := r.fromPort, rxInfo := ackRx ctx.rxInfo b,
           nextExpectedBlockNum := (ctx.nextExpectedBlockNum + 1) % 65536,
           blockNum := (ctx.blockNum + 1) % 65536, num_retrans_tries := 0,
           pFile := (fread ctx.pFile PROT_MAX_DATA).2,
           txBuf := memcpy ctx.txBuf 4 (fread ctx.pFile PROT_MAX_DATA).1 }, g, pk + 1, tm, true⟩
      else
        ⟨{ ctx with
           svrPort := r.fromPort, rxInfo := ackRx ctx.rxInfo b,
           nextExpectedBlockNum := (ctx.nextExpectedBlockNum + 1) % 65536,
           blockNum := (ctx.blockNum + 1) % 65536, num_retrans_tries := 0,
           pFile := (fread ctx.pFile PROT_MAX_DATA).2,
           txBuf := dataTxBuf ctx.txBuf ((ctx.blockNum + 1) % 65536)
             (fread ctx.pFile PROT_MAX_DATA).1,
           txLen := 4 + (fread ctx.pFile PROT_MAX_DATA).1.length,
           lastTxPort := r.fromPort,
           sent := ⟨ctx.clientSock, ctx.remoteIpStr, r.fromPort,
             dataPkt ((ctx.blockNum + 1) % 65536) (fread ctx.pFile PROT_MAX_DATA).1⟩ :: ctx.sent,
           tmr2 := progressTimer env g ctx.tmr2,
           tmr1 := UtilTickTimerStart env.tick ctx.tmr1 ACK_TIMEOUT_SECS,
           isFirstDataBlock := 0 }, g, pk + 1, tm, lf⟩ := by
  have hrc0 : r.rc > 0 := by rw [hr2]; decide
  have hto : r.rc.toNat = 4 := by rw [hr2]; rfl
  have hdc := receive_ackPkt ctx.rxInfo b rest
  rw [← hr1, ← hto] at hdc
  have h10 : ¬ ((1 : Nat) = 0) := by decide
  rw [cl_on_readable_pdu env r ctx g pk tm lf hc3 hc4 hrc0 _ _ _ hdc,
    cl_fsm_event_putfile env g
      { ctx with svrPort := r.fromPort, rxInfo := ackRx ctx.rxInfo b } _ hc1]
  by_cases hgo : (fread ctx.pFile PROT_MAX_DATA).1.length = 0 ∧ ctx.isFirstDataBlock = 0 ∧
      (ctx.txLen : Int) - 4 < PROT_MAX_DATA
  · rw [cl_putfile_txData_done env g
      { ctx with svrPort := r.fromPort, rxInfo := ackRx ctx.rxInfo b } rfl hc2.symm hgo]
    simp only [hgo, and_self, if_true]
  · rw [cl_putfile_txData_send env g
      { ctx with svrPort := r.fromPort, rxInfo := ackRx ctx.rxInfo b } rfl hc2.symm hgo hrc htx]
    simp only [hgo, h10, if_false]

/-! ## Lemmas: the start of `file_client` -/

theorem reqTxBuf_length (txBuf : List Nat) (op : Nat) (f : List Nat) :
    (reqTxBuf txBuf op f).length = txBuf.length := by
  simp [reqTxBuf, memcpy_length]

theorem send_first_request_form (env : Env) (g : Globals) (ctx : client_session_t)
    (operationStr f : List Nat) (hctx : ctx.txBuf.length = MAX_TX_BUFF)
    (hf : f.length ≤ 512) (hnul : ∀ c ∈ f, c ≠ 0) :
    (send_first_request env g ctx operationStr f).2 =
      { ctx with
        txBuf := reqTxBuf ctx.txBuf (if cstr operationStr = ascii "getfile" then 1 else 2) f,
        nextExpectedBlockNum := if cstr operationStr = ascii "getfile" then 1 else 0,
        state := if cstr operationStr = ascii "getfile" then CL_ST_GETFILE_RXDATA
          else CL_ST_PUTFILE_TXDATA,
        tmr1 := UtilTickTimerStart env.tick ctx.tmr1 ACK_TIMEOUT_SECS,
        tmr2 := if g.gFsmDebugOn = 0 then UtilTickTimerStart env.tick ctx.tmr2 PROGRESS_TMR_SEC
          else ctx.tmr2,
        txLen := f.length + 9,
        lastTxPort := ctx.remotePort,
        sent := ⟨ctx.clientSock, ctx.remoteIpStr, ctx.remotePort,
          requestPkt (if cstr operationStr = ascii "getfile" then 1 else 2) f⟩ :: ctx.sent } := by
  have hlen : ¬ f.length > PROT_MAX_DATA := by
    simp only [PROT_MAX_DATA]; omega
  have hoct : cstr [111, 99, 116, 101, 116] = [111, 99, 116, 101, 116] := by decide
  have hocl : strlen [111, 99, 116, 101, 116] = 5 := by decide
  have hmod : (2 + (f.length + 1) + (5 + 1)) % 65536 = f.length + 9 := by omega
  unfold send_first_request reqTxBuf requestPkt
  simp only [cstr_eq_self f hnul, strlen_eq_length f hnul, hlen, if_false, ascii_octet, hoct, hocl,
    Nat.zero_add, client_change_state, TFTP_RRQ, TFTP_WRQ]
  by_cases hop : cstr operationStr = ascii "getfile"
  · have hb := request_bytes ctx.txBuf hctx 1 f hf
    simp only [hop, if_true]
    by_cases hd : g.gFsmDebugOn = 0 <;> by_cases hr : env.sendRc = -1 <;>
      simp only [hd, hr, if_true, if_false, hmod, hb, not_true_eq_false]
  · have hb := request_bytes ctx.txBuf hctx 2 f hf
    simp only [hop, if_false]
    by_cases hd : g.gFsmDebugOn = 0 <;> by_cases hr : env.sendRc = -1 <;>
      simp only [hd, hr, if_true, if_false, hmod, hb, not_true_eq_false]

/-! ## Lemmas: an upload whose blocks are acknowledged in order -/

theorem blockOf_length (content : List Nat) (i : Nat) :
    (blockOf content i).length = min PROT_MAX_DATA (content.length - PROT_MAX_DATA * i) := by
  simp [blockOf]

theorem dataPkts_succ (content : List Nat) (n : Nat) :
    dataPkts content (n + 1) = dataPkt ((n + 1) % 65536) (blockOf content n) :: dataPkts content n := by
  simp [dataPkts, List.range_succ]

theorem fread_some (content : List Nat) (pos count : Nat) :
    fread (some ⟨content, pos⟩) count =
      ((content.drop pos).take count,
        some ⟨content, pos + ((content.drop pos).take count).length⟩) := rfl

theorem upload_step (content f : List Nat) (g : Globals) (n : Nat) (s : ClientLoop)
    (env : Env) (r : Recv) (rest : List Nat)
    (hg : g.gDebugDropPacket = 0 ∧ g.gDebugDropAllPks = 0)
    (hn : PROT_MAX_DATA * n ≤ content.length)
    (hr : r.rxbuf = ackPkt (n % 65536) ++ rest ∧ r.rc = 4) (hrc : 0 ≤ env.sendRc)
    (h : UploadInv content f g n s) :
    UploadInv content f g (n + 1) (cl_on_readable env r s) := by
  obtain ⟨h1, h2, h3, h4, h5, h6, h7, h8, h9, h10⟩ := h
  obtain ⟨ctx, sg, pk, tm, lf⟩ := s
  simp only [] at h1 h2 h3 h4 h5 h6 h7 h8 h9 h10
  subst h2
  have hmin : min (PROT_MAX_DATA * n) content.length = PROT_MAX_DATA * n := Nat.min_eq_left hn
  have hfr : fread ctx.pFile PROT_MAX_DATA =
      (blockOf content n, some ⟨content, PROT_MAX_DATA * n + (blockOf content n).length⟩) := by
    rw [h6, hmin, fread_some]
    rfl
  have hbl := blockOf_length content n
  have hgo : ¬ ((fread ctx.pFile PROT_MAX_DATA).1.length = 0 ∧ ctx.isFirstDataBlock = 0 ∧
      (ctx.txLen : Int) - 4 < PROT_MAX_DATA) := by
    rintro ⟨-, e2, e3⟩
    by_cases hn0 : n = 0
    · exact h8 hn0 e2
    · have hx := (h9 hn0).2
      have hbl1 := blockOf_length content (n - 1)
      rw [hx] at e3
      unfold PROT_MAX_DATA at *
      have : 512 * (n - 1) + 512 ≤ content.length := by omega
      have h512 : (blockOf content (n - 1)).length = 512 := by omega
      rw [h512] at e3
      omega
  rw [cl_on_readable_ack env r ctx sg pk tm lf (n % 65536) rest hr.1 hr.2 h3 h4 hg.1 hg.2 hrc h7]
  simp only [hgo, if_false]
  refine ⟨h1, rfl, h3, ?_, ?_, ?_, ?_, ?_, ?_, ?_⟩
  · simp only [h4]; omega
  · simp only [h5]; omega
  · simp only [hfr]
    congr 2
    rw [hbl]
    simp only [PROT_MAX_DATA] at hn ⊢
    omega
  · simp only [dataTxBuf_length]; exact h7
  · intro hc; omega
  · intro _
    simp only [hfr, Nat.add_sub_cancel, true_and]
  · simp only [List.map_cons, h10, hfr, h5, dataPkts_succ, List.cons_append, List.cons.injEq,
      and_true]
    congr 1
    omega

theorem upload_done (content f : List Nat) (g : Globals) (n : Nat) (s : ClientLoop)
    (env : Env) (r : Recv) (rest : List Nat)
    (hg : g.gDebugDropPacket = 0 ∧ g.gDebugDropAllPks = 0)
    (hn : n = content.length / PROT_MAX_DATA + 1)
    (hr : r.rxbuf = ackPkt (n % 65536) ++ rest ∧ r.rc = 4) (hrc : 0 ≤ env.sendRc)
    (h : UploadInv content f g n s) :
    (cl_on_readable env r s).left = true ∧ (cl_on_readable env r s).ctx.sent = s.ctx.sent ∧
      (cl_on_readable env r s).g = g := by
  obtain ⟨h1, h2, h3, h4, h5, h6, h7, h8, h9, h10⟩ := h
  obtain ⟨ctx, sg, pk, tm, lf⟩ := s
  simp only [] at h1 h2 h3 h4 h5 h6 h7 h8 h9 h10
  subst h2
  simp only [PROT_MAX_DATA] at hn
  have hn0 : n ≠ 0 := by omega
  have hlt : content.length < PROT_MAX_DATA * n := by
    rw [hn]
    unfold PROT_MAX_DATA
    have := Nat.div_add_mod content.length 512
    have := Nat.mod_lt content.length (show 512 > 0 by decide)
    omega
  have hmin : min (PROT_MAX_DATA * n) content.length = content.length :=
    Nat.min_eq_right (Nat.le_of_lt hlt)
  have hfr : (fread ctx.pFile PROT_MAX_DATA).1 = [] := by
    rw [h6, hmin, fread_some]
    simp
  have hbl1 := blockOf_length content (n - 1)
  have hgo : (fread ctx.pFile PROT_MAX_DATA).1.length = 0 ∧ ctx.isFirstDataBlock = 0 ∧
      (ctx.txLen : Int) - 4 < PROT_MAX_DATA := by
    refine ⟨by rw [hfr]; rfl, (h9 hn0).1, ?_⟩
    rw [(h9 hn0).2]
    unfold PROT_MAX_DATA at *
    have hd := Nat.div_add_mod content.length 512
    have hm := Nat.mod_lt content.length (show 512 > 0 by decide)
    have hn1 : n - 1 = content.length / 512 := by omega
    rw [hn1] at hbl1
    have : (blockOf content (content.length / 512)).length < 512 := by omega
    rw [hn1]
    push_cast
    omega
  rw [cl_on_readable_ack env r ctx sg pk tm lf (n % 65536) rest hr.1 hr.2 h3 h4 hg.1 hg.2 hrc h7]
  simp only [hgo, and_self, if_true]

theorem upload_start (env : Env) (g : Globals) (sock : Int) (ip f content : List Nat)
    (hf : f.length ≤ 512) (hnul : ∀ c ∈ f, c ≠ 0) (hopen : env.fopenRead f = some content) :
    ∃ s0, file_client_start env g sock ip f (ascii "putfile") = some s0 ∧
      UploadInv content f g 0 s0 := by
  have hput : cstr (ascii "putfile") = ascii "putfile" := by decide
  have hget : ¬ (cstr (ascii "putfile") = ascii "getfile") := by decide
  have hform := fun ctx h => send_first_request_form env g ctx (ascii "putfile") f h hf hnul
  simp only [hget, if_false] at hform
  unfold file_client_start
  simp only [hput, if_true, true_and, cstr_eq_self f hnul, hopen, Option.map_some', reduceCtorEq,
    if_false]
  refine ⟨_, rfl, ?_⟩
  rw [hform _ (List.length_replicate _ _)]
  refine ⟨rfl, rfl, rfl, rfl, rfl, ?_, ?_, ?_, ?_, ?_⟩
  · simp
  · simp only [reqTxBuf_length, List.length_replicate]
  · intro _; exact (show (1 : Int) ≠ 0 by decide)
  · intro h; exact absurd rfl h
  · rfl

theorem upload_run (content f : List Nat) (g : Globals) (envOf : Nat → Env) (r : Nat → Recv)
    (s0 : ClientLoop)
    (hg : g.gDone = 0 ∧ g.gDebugDropPacket = 0 ∧ g.gDebugDropAllPks = 0)
    (henv : ∀ i, 0 ≤ (envOf i).sendRc)
    (hr : ∀ i, ∃ rest, (r i).rxbuf = ackPkt (i % 65536) ++ rest ∧ (r i).rc = 4)
    (h0 : UploadInv content f g 0 s0) :
    ∀ n, n ≤ content.length / PROT_MAX_DATA + 1 →
      UploadInv content f g n (cl_receive envOf r n s0) := by
  intro n
  induction n with
  | zero => intro _; exact h0
  | succ n ih =>
    intro hn
    have hi := ih (by omega)
    obtain ⟨rest, hrest⟩ := hr n
    have hle : PROT_MAX_DATA * n ≤ content.length := by
      simp only [PROT_MAX_DATA] at hn ⊢
      have := Nat.div_mul_le_self content.length 512
      have : 512 * n ≤ 512 * (content.length / 512) := Nat.mul_le_mul_left _ (by omega)
      omega
    have hcont : ¬ ((cl_receive envOf r n s0).g.gDone ≠ 0 ∨ (cl_receive envOf r n s0).left = true) := by
      rw [hi.1, hi.2.1, hg.1]
      simp
    rw [cl_receive]
    simp only [hcont, if_false]
    exact upload_step content f g n _ (envOf n) (r n) rest ⟨hg.2.1, hg.2.2⟩ hle hrest (henv n) hi

theorem upload_end (content f : List Nat) (g : Globals) (envOf : Nat → Env) (r : Nat → Recv)
    (s0 : ClientLoop)
    (hg : g.gDone = 0 ∧ g.gDebugDropPacket = 0 ∧ g.gDebugDropAllPks = 0)
    (henv : ∀ i, 0 ≤ (envOf i).sendRc)
    (hr : ∀ i, ∃ rest, (r i).rxbuf = ackPkt (i % 65536) ++ rest ∧ (r i).rc = 4)
    (h0 : UploadInv content f g 0 s0) :
    (cl_receive envOf r (content.length / PROT_MAX_DATA + 2) s0).left = true ∧
      (cl_receive envOf r (content.length / PROT_MAX_DATA + 2) s0).ctx.sent =
        (cl_receive envOf r (content.length / PROT_MAX_DATA + 1) s0).ctx.sent := by
  have hi := upload_run content f g envOf r s0 hg henv hr h0 _ (Nat.le_refl _)
  obtain ⟨rest, hrest⟩ := hr (content.length / PROT_MAX_DATA + 1)
  have hcont : ¬ ((cl_receive envOf r (content.length / PROT_MAX_DATA + 1) s0).g.gDone ≠ 0 ∨
      (cl_receive envOf r (content.length / PROT_MAX_DATA + 1) s0).left = true) := by
    rw [hi.1, hi.2.1, hg.1]
    simp
  have hd := upload_done content f g _ _ (envOf (content.length / PROT_MAX_DATA + 1))
    (r (content.length / PROT_MAX_DATA + 1)) rest ⟨hg.2.1, hg.2.2⟩ rfl hrest (henv _) hi
  rw [show content.length / PROT_MAX_DATA + 2 = (content.length / PROT_MAX_DATA + 1) + 1 from rfl,
    cl_receive]
  simp only [hcont, if_false]
  exact ⟨hd.1, hd.2.1⟩

theorem cl_receive_left (envOf : Nat → Env) (r : Nat → Recv) (s0 : ClientLoop) (n : Nat)
    (h : (cl_receive envOf r n s0).left = true) :
    ∀ m, cl_receive envOf r (n + m) s0 = cl_receive envOf r n s0 := by
  intro m
  induction m with
  | zero => rfl
  | succ m ih =>
    rw [show n + (m + 1) = (n + m) + 1 from rfl, cl_receive, ih]
    simp only [h, or_true, if_true]

/-! ## Lemmas: the server side of a download -/

theorem svr_wait_first_request_rrq (env : Env) (g : Globals) (ctx : server_session_t)
    (content : List Nat) (htx : ctx.txBuf.length = MAX_TX_BUFF)
    (hop : ctx.rxInfo.optcode = TFTP_RRQ)
    (hopen : env.fopenRead (cstr ctx.rxInfo.filename) = some content)
    (hrc : 0 ≤ env.sendRc) :
    svr_wait_first_request env g ctx EV_SVR_PDU_RX =
      { ctx with
        pFile := some ⟨content, (blockOf content 0).length⟩,
        filename := cstr ctx.rxInfo.filename,
        blockNum := 1, nextExpectedBlockNum := 1,
        txBuf := firstDataTxBuf ctx.txBuf 1 (blockOf content 0),
        txLen := 4 + (blockOf content 0).length,
        lastTxPort := ctx.client_Port,
        sent := ⟨ctx.serverSock, ctx.client_ip, ctx.client_Port,
          dataPkt 1 (blockOf content 0)⟩ :: ctx.sent,
        tmr1 := UtilTickTimerStart env.tick ctx.tmr1 ACK_TIMEOUT_SECS,
        tmr2 := if g.gFsmDebugOn = 0 then UtilTickTimerStart env.tick ctx.tmr2 PROGRESS_TMR_SEC
          else ctx.tmr2,
        state := SVR_ST_GETFILE_TXDATA } := by
  have hblk : blockOf content 0 = content.take PROT_MAX_DATA := by
    simp [blockOf]
  have hlen : (content.take PROT_MAX_DATA).length ≤ PROT_MAX_DATA := by simp [List.length_take]
  have hmod : (4 + (content.take PROT_MAX_DATA).length) % 65536 =
      4 + (content.take PROT_MAX_DATA).length := by
    have : (content.take PROT_MAX_DATA).length ≤ 512 := hlen
    omega
  have htake := firstDataTxBuf_take ctx.txBuf htx 1 (by decide) (content.take PROT_MAX_DATA) hlen
  have h12 : ¬ ((1 : Nat) = 2) := by decide
  have h10 : ¬ ((1 : Nat) = 0) := by decide
  have hr : ¬ env.sendRc < 0 := by omega
  rw [hblk]
  unfold firstDataTxBuf at htake ⊢
  unfold svr_wait_first_request
  simp only [EV_SVR_PDU_RX, hop, hopen, TFTP_RRQ, TFTP_WRQ, h12, if_false, if_true,
    Option.map_some', fread, List.drop_zero, ne_eq, not_true_eq_false, Nat.zero_add, hmod,
    svr_send_packet_buffer, reduceCtorEq, hr, h10, htake, server_change_state]
  by_cases hd : g.gFsmDebugOn = 0 <;> simp only [hd, if_true, if_false]

theorem svr_getfile_txData_send (env : Env) (g : Globals) (ctx : server_session_t)
    (hop : ctx.rxInfo.optcode = TFTP_ACK) (hb : ctx.rxInfo.blocknum = ctx.nextExpectedBlockNum)
    (hgo : ¬ ((fread ctx.pFile PROT_MAX_DATA).1.length = 0 ∧
      (ctx.txLen : Int) - 4 < PROT_MAX_DATA))
    (hrc : 0 ≤ env.sendRc) (htx : ctx.txBuf.length = MAX_TX_BUFF) :
    svr_getfile_txData env g ctx EV_SVR_PDU_RX =
      { ctx with
        nextExpectedBlockNum := (ctx.nextExpectedBlockNum + 1) % 65536,
        blockNum := (ctx.blockNum + 1) % 65536, num_retrans_tries := 0,
        pFile := (fread ctx.pFile PROT_MAX_DATA).2,
        txBuf := dataTxBuf ctx.txBuf ((ctx.blockNum + 1) % 65536)
          (fread ctx.pFile PROT_MAX_DATA).1,
        txLen := 4 + (fread ctx.pFile PROT_MAX_DATA).1.length,
        lastTxPort := ctx.client_Port,
        sent := ⟨ctx.serverSock, ctx.client_ip, ctx.client_Port,
          dataPkt ((ctx.blockNum + 1) % 65536) (fread ctx.pFile PROT_MAX_DATA).1⟩ :: ctx.sent,
        tmr2 := progressTimer env g ctx.tmr2,
        tmr1 := UtilTickTimerStart env.tick ctx.tmr1 ACK_TIMEOUT_SECS } := by
  have hlen := fread_length_le ctx.pFile PROT_MAX_DATA
  have hb16 : (ctx.blockNum + 1) % 65536 < 65536 := Nat.mod_lt _ (by decide)
  have hmod : (4 + (fread ctx.pFile PROT_MAX_DATA).1.length) % 65536 =
      4 + (fread ctx.pFile PROT_MAX_DATA).1.length := by
    have : (fread ctx.pFile PROT_MAX_DATA).1.length ≤ 512 := hlen
    omega
  have htake := dataTxBuf_take ctx.txBuf htx _ hb16 _ hlen
  have hr : ¬ env.sendRc < 0 := by omega
  have h10 : ¬ ((1 : Nat) = 0) := by decide
  unfold dataTxBuf at htake
  unfold svr_getfile_txData dataTxBuf
  simp only [EV_SVR_PDU_RX, EV_SVR_TIMEOUT, hop, hb, hgo, if_false, if_true, h10,
    ne_eq, not_true_eq_false, Nat.zero_add, hmod, svr_send_packet_buffer, hr, htake]

theorem svr_getfile_txData_done (env : Env) (g : Globals) (ctx : server_session_t)
    (hop : ctx.rxInfo.optcode = TFTP_ACK) (hb : ctx.rxInfo.blocknum = ctx.nextExpectedBlockNum)
    (hgo : (fread ctx.pFile PROT_MAX_DATA).1.length = 0 ∧
      (ctx.txLen : Int) - 4 < PROT_MAX_DATA) :
    svr_getfile_txData env g ctx EV_SVR_PDU_RX =
      { ctx with
        nextExpectedBlockNum := (ctx.nextExpectedBlockNum + 1) % 65536,
        blockNum := (ctx.blockNum + 1) % 65536, num_retrans_tries := 0,
        txBuf := memcpy ctx.txBuf 4 (fread ctx.pFile PROT_MAX_DATA).1,
        pFile := none,
        closed := closeLog (fread ctx.pFile PROT_MAX_DATA).2 ctx.closed,
        state := SVR_ST_WAIT_FIST_REQUEST } := by
  have h10 : ¬ ((1 : Nat) = 0) := by decide
  unfold svr_getfile_txData
  simp only [EV_SVR_PDU_RX, EV_SVR_TIMEOUT, hop, hb, hgo, if_false, if_true, h10,
    ne_eq, not_true_eq_false, and_self, svr_close_file_form, server_change_state]

theorem requestPkt_length (op : Nat) (f : List Nat) (hnul : ∀ c ∈ f, c ≠ 0) :
    (requestPkt op f).length = f.length + 9 := by
  simp only [requestPkt, cstr_eq_self f hnul, ascii_octet, List.length_append, List.length_cons,
    List.length_nil]
  omega

theorem inRxBuf_length (pkt : List Nat) (h : pkt.length ≤ MAX_RX_BUFF) :
    (inRxBuf pkt).length = MAX_RX_BUFF := by
  simp only [inRxBuf, List.length_append, List.length_replicate]
  omega

theorem requestRx_wellSized (pf : prot_frame_info_t) (h : pf.WellSized) (op : Nat) (f : List Nat)
    (hf : f.length < PROT_MAX_DATA) (hnul : ∀ c ∈ f, c ≠ 0) : (requestRx pf op f).WellSized := by
  obtain ⟨h1, h2, h3, h4⟩ := h
  refine ⟨h1, ?_, h3, h4⟩
  have hlen : (requestPkt op f).length ≤ MAX_RX_BUFF := by
    rw [requestPkt_length op f hnul]
    simp only [PROT_MAX_DATA] at hf
    simp only [MAX_RX_BUFF]
    omega
  have hbuf := inRxBuf_length _ hlen
  simp only [requestRx, List.length_take, List.length_drop, hbuf]
  decide

theorem svr_wait_first_request_wrq (env : Env) (g : Globals) (ctx : server_session_t)
    (hop : ctx.rxInfo.optcode = TFTP_WRQ)
    (hopen : env.fopenWrite (cstr ctx.rxInfo.filename) = true) :
    svr_wait_first_request env g ctx EV_SVR_PDU_RX =
      { ctx with
        pFile := some ⟨[], 0⟩, filename := cstr ctx.rxInfo.filename,
        blockNum := 0, nextExpectedBlockNum := 1,
        txBuf := ackTxBuf ctx.txBuf 0, txLen := 4, lastTxPort := ctx.client_Port,
        sent := ⟨ctx.serverSock, ctx.client_ip, ctx.client_Port,
          (ackTxBuf ctx.txBuf 0).take 4⟩ :: ctx.sent,
        tmr1 := UtilTickTimerStart env.tick ctx.tmr1 ACK_TIMEOUT_SECS,
        tmr2 := if g.gFsmDebugOn = 0 then UtilTickTimerStart env.tick ctx.tmr2 PROGRESS_TMR_SEC
          else ctx.tmr2,
        state := SVR_ST_PUTFILE_RXDATA } := by
  unfold svr_wait_first_request
  simp only [EV_SVR_PDU_RX, hop, hopen, if_true, reduceCtorEq, if_false, svr_send_ack_form,
    server_change_state]
  by_cases hd : g.gFsmDebugOn = 0 <;> simp only [hd, if_true, if_false]

theorem svr_wait_first_request_wrq_fail (env : Env) (g : Globals) (ctx : server_session_t)
    (hop : ctx.rxInfo.optcode = TFTP_WRQ)
    (hopen : env.fopenWrite (cstr ctx.rxInfo.filename) = false) :
    svr_wait_first_request env g ctx EV_SVR_PDU_RX =
      { ctx with
        pFile := none,
        txBuf := errTxBuf ctx.txBuf 1 (ascii "file not found"),
        txLen := errTxLen (ascii "file not found"),
        sent := ⟨ctx.serverSock, ctx.client_ip, ctx.client_Port,
          (errTxBuf ctx.txBuf 1 (ascii "file not found")).take
            (errTxLen (ascii "file not found"))⟩ :: ctx.sent } := by
  have he := fun c => svr_send_error_pkt_form env c 1 (ascii "file not found") (by decide)
  unfold svr_wait_first_request
  generalize ascii "file not found" = m at he ⊢
  simp only [EV_SVR_PDU_RX, hop, hopen, if_true, if_false, he, Bool.false_eq_true]

theorem svr_wait_first_request_rrq_fail (env : Env) (g : Globals) (ctx : server_session_t)
    (hop : ctx.rxInfo.optcode = TFTP_RRQ)
    (hopen : env.fopenRead (cstr ctx.rxInfo.filename) = none) :
    svr_wait_first_request env g ctx EV_SVR_PDU_RX =
      { ctx with
        pFile := none,
        txBuf := errTxBuf ctx.txBuf 1 (ascii "file not found"),
        txLen := errTxLen (ascii "file not found"),
        sent := ⟨ctx.serverSock, ctx.client_ip, ctx.client_Port,
          (errTxBuf ctx.txBuf 1 (ascii "file not found")).take
            (errTxLen (ascii "file not found"))⟩ :: ctx.sent } := by
  have he := fun c => svr_send_error_pkt_form env c 1 (ascii "file not found") (by decide)
  have h12 : ¬ ((1 : Nat) = 2) := by decide
  unfold svr_wait_first_request
  generalize ascii "file not found" = m at he ⊢
  simp only [EV_SVR_PDU_RX, hop, hopen, TFTP_RRQ, TFTP_WRQ, h12, if_true, if_false, he,
    Option.map_none']

theorem svr_wait_first_request_rrq_sendfail (env : Env) (g : Globals) (ctx : server_session_t)
    (content : List Nat) (htx : ctx.txBuf.length = MAX_TX_BUFF)
    (hop : ctx.rxInfo.optcode = TFTP_RRQ)
    (hopen : env.fopenRead (cstr ctx.rxInfo.filename) = some content)
    (hrc : env.sendRc < 0) :
    svr_wait_first_request env g ctx EV_SVR_PDU_RX =
      { ctx with
        pFile := some ⟨content, (blockOf content 0).length⟩,
        filename := cstr ctx.rxInfo.filename,
        blockNum := 1, nextExpectedBlockNum := 1,
        txBuf := errTxBuf (firstDataTxBuf ctx.txBuf 1 (blockOf content 0)) 0
          (ascii "error sending data packet"),
        txLen := errTxLen (ascii "error sending data packet"),
        lastTxPort := ctx.client_Port,
        sent := ⟨ctx.serverSock, ctx.client_ip, ctx.client_Port,
            (errTxBuf (firstDataTxBuf ctx.txBuf 1 (blockOf content 0)) 0
              (ascii "error sending data packet")).take
              (errTxLen (ascii "error sending data packet"))⟩ ::
          ⟨ctx.serverSock, ctx.client_ip, ctx.client_Port,
            dataPkt 1 (blockOf content 0)⟩ :: ctx.sent,
        state := SVR_ST_WAIT_FIST_REQUEST } := by
  have he := fun c => svr_send_error_pkt_form env c 0 (ascii "error sending data packet")
    (by decide)
  have hblk : blockOf content 0 = content.take PROT_MAX_DATA := by
    simp [blockOf]
  have hlen : (content.take PROT_MAX_DATA).length ≤ PROT_MAX_DATA := by simp [List.length_take]
  have hmod : (4 + (content.take PROT_MAX_DATA).length) % 65536 =
      4 + (content.take PROT_MAX_DATA).length := by
    have : (content.take PROT_MAX_DATA).length ≤ 512 := hlen
    omega
  have htake := firstDataTxBuf_take ctx.txBuf htx 1 (by decide) (content.take PROT_MAX_DATA) hlen
  have h12 : ¬ ((1 : Nat) = 2) := by decide
  rw [hblk]
  unfold firstDataTxBuf at htake ⊢
  unfold svr_wait_first_request
  generalize ascii "error sending data packet" = m at he ⊢
  simp only [EV_SVR_PDU_RX, hop, hopen, TFTP_RRQ, TFTP_WRQ, h12, if_false, if_true,
    Option.map_some', fread, List.drop_zero, ne_eq, not_true_eq_false, Nat.zero_add, hmod,
    svr_send_packet_buffer, reduceCtorEq, hrc, htake, he, server_change_state]

/-! ## Lemmas: packets the client does not expect -/

theorem cl_getfile_rxData_error (env : Env) (g : Globals) (ctx : client_session_t)
    (hop : ctx.rxInfo.optcode = TFTP_ERROR) :
    cl_getfile_rxData env g ctx EV_CL_PDU_RX = (0, cl_close_file_and_sock ctx, g) := by
  have h53 : ¬ ((5 : Nat) = 3) := by decide
  have h10 : ¬ ((1 : Nat) = 0) := by decide
  unfold cl_getfile_rxData
  simp only [EV_CL_PDU_RX, EV_CL_TIMEOUT, hop, TFTP_ERROR, TFTP_DATA, h53, h10, if_false, if_true]

theorem cl_getfile_rxData_other (env : Env) (g : Globals) (ctx : client_session_t)
    (h1 : ctx.rxInfo.optcode ≠ TFTP_DATA) (h2 : ctx.rxInfo.optcode ≠ TFTP_ERROR) :
    cl_getfile_rxData env g ctx EV_CL_PDU_RX =
      (0, cl_close_file_and_sock
        { ctx with
          txBuf := errTxBuf ctx.txBuf 0 (ascii "error unexpected optcode recieved"),
          txLen := errTxLen (ascii "error unexpected optcode recieved"),
          sent := ⟨ctx.clientSock, ctx.remoteIpStr, ctx.svrPort,
            (errTxBuf ctx.txBuf 0 (ascii "error unexpected optcode recieved")).take
              (errTxLen (ascii "error unexpected optcode recieved"))⟩ :: ctx.sent }, g) := by
  have he := fun c => cl_send_error_pkt_form env c 0 (ascii "error unexpected optcode recieved")
    (by decide)
  have h10 : ¬ ((1 : Nat) = 0) := by decide
  unfold cl_getfile_rxData
  generalize ascii "error unexpected optcode recieved" = m at he ⊢
  simp only [EV_CL_PDU_RX, EV_CL_TIMEOUT, h1, h2, h10, if_false, if_true, he]

theorem cl_putfile_txData_error (env : Env) (g : Globals) (ctx : client_session_t)
    (hop : ctx.rxInfo.optcode = TFTP_ERROR) :
    cl_putfile_txData env g ctx EV_CL_PDU_RX = (0, cl_close_file_and_sock ctx, g) := by
  have h54 : ¬ ((5 : Nat) = 4) := by decide
  have h10 : ¬ ((1 : Nat) = 0) := by decide
  unfold cl_putfile_txData
  simp only [EV_CL_PDU_RX, EV_CL_TIMEOUT, hop, TFTP_ERROR, TFTP_ACK, h54, h10, if_false, if_true]

theorem cl_putfile_txData_other (env : Env) (g : Globals) (ctx : client_session_t)
    (h1 : ctx.rxInfo.optcode ≠ TFTP_ACK) (h2 : ctx.rxInfo.optcode ≠ TFTP_ERROR) :
    cl_putfile_txData env g ctx EV_CL_PDU_RX =
      (0, cl_close_file_and_sock
        { ctx with
          txBuf := errTxBuf ctx.txBuf 0 (ascii "error unexpected optcode recieved"),
          txLen := errTxLen (ascii "error unexpected optcode recieved"),
          sent := ⟨ctx.clientSock, ctx.remoteIpStr, ctx.svrPort,
            (errTxBuf ctx.txBuf 0 (ascii "error unexpected optcode recieved")).take
              (errTxLen (ascii "error unexpected optcode recieved"))⟩ :: ctx.sent }, g) := by
  have he := fun c => cl_send_error_pkt_form env c 0 (ascii "error unexpected optcode recieved")
    (by decide)
  have h10 : ¬ ((1 : Nat) = 0) := by decide
  unfold cl_putfile_txData
  generalize ascii "error unexpected optcode recieved" = m at he ⊢
  simp only [EV_CL_PDU_RX, EV_CL_TIMEOUT, h1, h2, h10, if_false, if_true, he]

/-! ## Lemmas: what accepting a packet does to the block numbers -/

theorem cl_accept_getfile (env : Env) (g : Globals) (ctx : client_session_t)
    (htx : ctx.txBuf.length = MAX_TX_BUFF)
    (hb : ctx.rxInfo.blocknum = ctx.nextExpectedBlockNum)
    (hs : ctx.state = CL_ST_GETFILE_RXDATA) (hop : ctx.rxInfo.optcode = TFTP_DATA)
    (hf : (ctx.isFirstDataBlock = 0 ∧ ctx.pFile ≠ none) ∨
      (ctx.isFirstDataBlock ≠ 0 ∧ env.fopenWrite (cstr ctx.filename) = true))
    (hw : size_t_of ((ctx.rxInfo.rxLen : Int) - 4) ≤ env.fwriteLimit) :
    (cl_fsm_event env g ctx EV_CL_PDU_RX).2.1.nextExpectedBlockNum =
      (ctx.nextExpectedBlockNum + 1) % 65536 ∧
    (cl_fsm_event env g ctx EV_CL_PDU_RX).2.1.blockNum = (ctx.blockNum + 1) % 65536 ∧
    (cl_fsm_event env g ctx EV_CL_PDU_RX).2.1.sent =
      ⟨ctx.clientSock, ctx.remoteIpStr, ctx.svrPort,
        [0, 4, (ctx.blockNum + 1) % 65536 / 256, (ctx.blockNum + 1) % 65536 % 256]⟩ ::
        ctx.sent ∧
    ((cl_fsm_event env g ctx EV_CL_PDU_RX).1 = 1 →
      (cl_fsm_event env g ctx EV_CL_PDU_RX).2.1.state = ctx.state ∧
      (cl_fsm_event env g ctx EV_CL_PDU_RX).2.1.txBuf.length = MAX_TX_BUFF ∧
      (cl_fsm_event env g ctx EV_CL_PDU_RX).2.1.isFirstDataBlock = 0 ∧
      (cl_fsm_event env g ctx EV_CL_PDU_RX).2.1.pFile ≠ none) ∧
    (cl_fsm_event env g ctx EV_CL_PDU_RX).2.2 = g := by
  have hak := ackTxBuf_take ctx.txBuf htx ((ctx.blockNum + 1) % 65536)
    (Nat.mod_lt _ (by decide))
  have h10 : ¬ ((1 : Nat) = 0) := by decide
  have h01 : ¬ ((0 : Nat) = 1) := by decide
  rw [cl_fsm_event_getfile env g ctx _ hs]
  rcases hf with ⟨hfirst, hpf⟩ | ⟨hfirst, hopen⟩
  · obtain ⟨f, hf⟩ := Option.ne_none_iff_exists'.mp hpf
    rw [cl_getfile_rxData_next env g ctx hop hb hfirst]
    by_cases hl : ctx.rxInfo.isLastDataBlock = 0
    · rw [cl_getfile_write_more env g
        { ctx with nextExpectedBlockNum := (ctx.nextExpectedBlockNum + 1) % 65536 } f _ hf rfl
        hw hl]
      refine ⟨rfl, rfl, ?_, fun _ => ⟨rfl, ?_, hfirst, by simp⟩, rfl⟩
      · simp only [hak]
      · simp only [ackTxBuf_length]; exact htx
    · rw [cl_getfile_write_last env g
        { ctx with nextExpectedBlockNum := (ctx.nextExpectedBlockNum + 1) % 65536 } f _ hf rfl
        hw hl]
      refine ⟨rfl, rfl, ?_, fun h => absurd h h01, rfl⟩
      simp only [hak]
  · rw [cl_getfile_rxData_first env g ctx hop hb hfirst hopen]
    by_cases hl : ctx.rxInfo.isLastDataBlock = 0
    · rw [cl_getfile_write_more env g
        { ctx with nextExpectedBlockNum := (ctx.nextExpectedBlockNum + 1) % 65536,
                   pFile := some ⟨[], 0⟩, isFirstDataBlock := 0 } ⟨[], 0⟩ _ rfl rfl hw hl]
      refine ⟨rfl, rfl, ?_, fun _ => ⟨rfl, ?_, rfl, by simp⟩, rfl⟩
      · simp only [hak]
      · simp only [ackTxBuf_length]; exact htx
    · rw [cl_getfile_write_last env g
        { ctx with nextExpectedBlockNum := (ctx.nextExpectedBlockNum + 1) % 65536,
                   pFile := some ⟨[], 0⟩, isFirstDataBlock := 0 } ⟨[], 0⟩ _ rfl rfl hw hl]
      refine ⟨rfl, rfl, ?_, fun h => absurd h h01, rfl⟩
      simp only [hak]

theorem cl_accept_putfile (env : Env) (g : Globals) (ctx : client_session_t)
    (htx : ctx.txBuf.length = MAX_TX_BUFF)
    (hb : ctx.rxInfo.blocknum = ctx.nextExpectedBlockNum)
    (hs : ctx.state = CL_ST_PUTFILE_TXDATA) (hop : ctx.rxInfo.optcode = TFTP_ACK)
    (hrc : 0 ≤ env.sendRc) :
    (cl_fsm_event env g ctx EV_CL_PDU_RX).2.1.nextExpectedBlockNum =
      (ctx.nextExpectedBlockNum + 1) % 65536 ∧
    (cl_fsm_event env g ctx EV_CL_PDU_RX).2.1.blockNum = (ctx.blockNum + 1) % 65536 ∧
    ((cl_fsm_event env g ctx EV_CL_PDU_RX).2.1.sent = ctx.sent ∨
      (cl_fsm_event env g ctx EV_CL_PDU_RX).2.1.sent =
        ⟨ctx.clientSock, ctx.remoteIpStr, ctx.svrPort,
          [0, 3, (ctx.blockNum + 1) % 65536 / 256, (ctx.blockNum + 1) % 65536 % 256] ++
            (fread ctx.pFile PROT_MAX_DATA).1⟩ :: ctx.sent) ∧
    ((cl_fsm_event env g ctx EV_CL_PDU_RX).1 = 1 →
      (cl_fsm_event env g ctx EV_CL_PDU_RX).2.1.state = ctx.state ∧
      (cl_fsm_event env g ctx EV_CL_PDU_RX).2.1.txBuf.length = MAX_TX_BUFF ∧
      (cl_fsm_event env g ctx EV_CL_PDU_RX).2.1.sent ≠ ctx.sent) ∧
    (cl_fsm_event env g ctx EV_CL_PDU_RX).2.2 = g := by
  have h10 : ¬ ((1 : Nat) = 0) := by decide
  have h01 : ¬ ((0 : Nat) = 1) := by decide
  rw [cl_fsm_event_putfile env g ctx _ hs]
  by_cases hgo : (fread ctx.pFile PROT_MAX_DATA).1.length = 0 ∧ ctx.isFirstDataBlock = 0 ∧
      (ctx.txLen : Int) - 4 < PROT_MAX_DATA
  · rw [cl_putfile_txData_done env g ctx hop hb hgo]
    exact ⟨rfl, rfl, Or.inl rfl, fun h => absurd h h01, rfl⟩
  · rw [cl_putfile_txData_send env g ctx hop hb hgo hrc htx]
    refine ⟨rfl, rfl, Or.inr rfl, fun _ => ⟨rfl, ?_, ?_⟩, rfl⟩
    · simp only [dataTxBuf_length]; exact htx
    · intro h
      have := congrArg List.length h
      simp at this

theorem svr_accept_putfile (env : Env) (g : Globals) (ctx : server_session_t)
    (htx : ctx.txBuf.length = MAX_TX_BUFF)
    (hb : ctx.rxInfo.blocknum = ctx.nextExpectedBlockNum)
    (hs : ctx.state = SVR_ST_PUTFILE_RXDATA) (hop : ctx.rxInfo.optcode = TFTP_DATA)
    (hpf : ctx.pFile ≠ none)
    (hw : size_t_of ((ctx.rxInfo.rxLen : Int) - 4) ≤ env.fwriteLimit) :
    (svr_fsm_event env g ctx EV_SVR_PDU_RX).nextExpectedBlockNum =
      (ctx.nextExpectedBlockNum + 1) % 65536 ∧
    (svr_fsm_event env g ctx EV_SVR_PDU_RX).blockNum = (ctx.blockNum + 1) % 65536 ∧
    (svr_fsm_event env g ctx EV_SVR_PDU_RX).sent =
      ⟨ctx.serverSock, ctx.client_ip, ctx.client_Port,
        [0, 4, (ctx.blockNum + 1) % 65536 / 256, (ctx.blockNum + 1) % 65536 % 256]⟩ ::
        ctx.sent ∧
    ((svr_fsm_event env g ctx EV_SVR_PDU_RX).state = ctx.state →
      (svr_fsm_event env g ctx EV_SVR_PDU_RX).txBuf.length = MAX_TX_BUFF ∧
      (svr_fsm_event env g ctx EV_SVR_PDU_RX).pFile ≠ none) := by
  have hak := ackTxBuf_take ctx.txBuf htx ((ctx.blockNum + 1) % 65536)
    (Nat.mod_lt _ (by decide))
  obtain ⟨f, hf⟩ := Option.ne_none_iff_exists'.mp hpf
  rw [svr_fsm_event_putfile env g ctx _ hs]
  by_cases hl : ctx.rxInfo.isLastDataBlock = 0
  · rw [svr_putfile_rxData_more env g ctx f _ hop hb hf rfl hw hl]
    refine ⟨rfl, rfl, ?_, fun _ => ⟨?_, by simp⟩⟩
    · simp only [hak]
    · simp only [ackTxBuf_length]; exact htx
  · rw [svr_putfile_rxData_last env g ctx f _ hop hb hf rfl hw hl]
    refine ⟨rfl, rfl, ?_, fun h => ?_⟩
    · simp only [hak]
    · rw [hs] at h
      exact absurd h (show SVR_ST_WAIT_FIST_REQUEST ≠ SVR_ST_PUTFILE_RXDATA by decide)

theorem svr_accept_getfile (env : Env) (g : Globals) (ctx : server_session_t)
    (htx : ctx.txBuf.length = MAX_TX_BUFF)
    (hb : ctx.rxInfo.blocknum = ctx.nextExpectedBlockNum)
    (hs : ctx.state = SVR_ST_GETFILE_TXDATA) (hop : ctx.rxInfo.optcode = TFTP_ACK)
    (hrc : 0 ≤ env.sendRc) :
    (svr_fsm_event env g ctx EV_SVR_PDU_RX).nextExpectedBlockNum =
      (ctx.nextExpectedBlockNum + 1) % 65536 ∧
    (svr_fsm_event env g ctx EV_SVR_PDU_RX).blockNum = (ctx.blockNum + 1) % 65536 ∧
    ((svr_fsm_event env g ctx EV_SVR_PDU_RX).sent = ctx.sent ∨
      (svr_fsm_event env g ctx EV_SVR_PDU_RX).sent =
        ⟨ctx.serverSock, ctx.client_ip, ctx.client_Port,
          [0, 3, (ctx.blockNum + 1) % 65536 / 256, (ctx.blockNum + 1) % 65536 % 256] ++
            (fread ctx.pFile PROT_MAX_DATA).1⟩ :: ctx.sent) ∧
    ((svr_fsm_event env g ctx EV_SVR_PDU_RX).state = ctx.state →
      (svr_fsm_event env g ctx EV_SVR_PDU_RX).txBuf.length = MAX_TX_BUFF ∧
      (svr_fsm_event env g ctx EV_SVR_PDU_RX).sent ≠ ctx.sent) := by
  rw [svr_fsm_event_getfile env g ctx _ hs]
  by_cases hgo : (fread ctx.pFile PROT_MAX_DATA).1.length = 0 ∧
      (ctx.txLen : Int) - 4 < PROT_MAX_DATA
  · rw [svr_getfile_txData_done env g ctx hop hb hgo]
    refine ⟨rfl, rfl, Or.inl rfl, fun h => ?_⟩
    rw [hs] at h
    exact absurd h (show SVR_ST_WAIT_FIST_REQUEST ≠ SVR_ST_GETFILE_TXDATA by decide)
  · rw [svr_getfile_txData_send env g ctx hop hb hgo hrc htx]
    refine ⟨rfl, rfl, Or.inr rfl, fun _ => ⟨?_, ?_⟩⟩
    · simp only [dataTxBuf_length]; exact htx
    · intro h
      have := congrArg List.length h
      simp at this

theorem cl_accept (env : Env) (g : Globals) (ctx : client_session_t)
    (htx : ctx.txBuf.length = MAX_TX_BUFF) (h : ClAccepts env ctx) :
    (clAfter env g ctx).nextExpectedBlockNum = (ctx.nextExpectedBlockNum + 1) % 65536 ∧
    (clAfter env g ctx).blockNum = (ctx.blockNum + 1) % 65536 ∧
    SentNumbered ctx.sent (clAfter env g ctx).sent ctx.clientSock ctx.remoteIpStr ctx.svrPort
      ((ctx.blockNum + 1) % 65536) ∧
    ((cl_fsm_event env g ctx EV_CL_PDU_RX).1 = 1 →
      (clAfter env g ctx).state = ctx.state ∧
      (clAfter env g ctx).txBuf.length = MAX_TX_BUFF ∧
      (ctx.state = CL_ST_GETFILE_RXDATA →
        (clAfter env g ctx).isFirstDataBlock = 0 ∧ (clAfter env g ctx).pFile ≠ none) ∧
      (clAfter env g ctx).sent ≠ ctx.sent) ∧
    (cl_fsm_event env g ctx EV_CL_PDU_RX).2.2 = g := by
  unfold clAfter
  obtain ⟨hb, ⟨hs, hop, hf, hw⟩ | ⟨hs, hop, hrc⟩⟩ := h
  · have a := cl_accept_getfile env g ctx htx hb hs hop hf hw
    refine ⟨a.1, a.2.1, Or.inr ⟨4, [], ?_⟩, fun h1 => ⟨(a.2.2.2.1 h1).1, (a.2.2.2.1 h1).2.1,
      fun _ => (a.2.2.2.1 h1).2.2, ?_⟩, a.2.2.2.2⟩
    · rw [a.2.2.1]; rfl
    · rw [a.2.2.1]
      intro h
      have := congrArg List.length h
      simp at this
  · have a := cl_accept_putfile env g ctx htx hb hs hop hrc
    refine ⟨a.1, a.2.1, ?_, fun h1 => ⟨(a.2.2.2.1 h1).1, (a.2.2.2.1 h1).2.1, fun hg => ?_,
      (a.2.2.2.1 h1).2.2⟩, a.2.2.2.2⟩
    · rcases a.2.2.1 with h | h
      · exact Or.inl h
      · exact Or.inr ⟨3, _, h⟩
    · rw [hs] at hg
      exact absurd hg (show CL_ST_PUTFILE_TXDATA ≠ CL_ST_GETFILE_RXDATA by decide)

theorem cl_accept_next (env env2 : Env) (g : Globals) (ctx : client_session_t)
    (rx : prot_frame_info_t)
    (htx : ctx.txBuf.length = MAX_TX_BUFF) (h : ClAccepts env ctx)
    (h1 : (cl_fsm_event env g ctx EV_CL_PDU_RX).1 = 1)
    (hrx : rx.optcode = ctx.rxInfo.optcode ∧
      rx.blocknum = (ctx.nextExpectedBlockNum + 1) % 65536)
    (he : size_t_of ((rx.rxLen : Int) - 4) ≤ env2.fwriteLimit ∧ 0 ≤ env2.sendRc) :
    ClAccepts env2 (clNext env g ctx rx) ∧
    (clNext env g ctx rx).txBuf.length = MAX_TX_BUFF ∧
    (clAfter env2 g (clNext env g ctx rx)).nextExpectedBlockNum =
      (ctx.nextExpectedBlockNum + 2) % 65536 ∧
    (clAfter env2 g (clNext env g ctx rx)).blockNum = (ctx.blockNum + 2) % 65536 := by
  have a := cl_accept env g ctx htx h
  have b := a.2.2.2.1 h1
  have hacc : ClAccepts env2 (clNext env g ctx rx) := by
    refine ⟨hrx.2.trans a.1.symm, ?_⟩
    obtain ⟨-, ⟨hs, hop, -, -⟩ | ⟨hs, hop, -⟩⟩ := h
    · exact Or.inl ⟨b.1.trans hs, hrx.1.trans hop, Or.inl (b.2.2.1 hs), he.1⟩
    · exact Or.inr ⟨b.1.trans hs, hrx.1.trans hop, he.2⟩
  have c := cl_accept env2 g (clNext env g ctx rx) b.2.1 hacc
  refine ⟨hacc, b.2.1, ?_, ?_⟩
  · rw [c.1]
    show ((clAfter env g ctx).nextExpectedBlockNum + 1) % 65536 = _
    rw [a.1]; omega
  · rw [c.2.1]
    show ((clAfter env g ctx).blockNum + 1) % 65536 = _
    rw [a.2.1]; omega

theorem svr_accept (env : Env) (g : Globals) (ctx : server_session_t)
    (htx : ctx.txBuf.length = MAX_TX_BUFF) (h : SvrAccepts env ctx) :
    (svrAfter env g ctx).nextExpectedBlockNum = (ctx.nextExpectedBlockNum + 1) % 65536 ∧
    (svrAfter env g ctx).blockNum = (ctx.blockNum + 1) % 65536 ∧
    SentNumbered ctx.sent (svrAfter env g ctx).sent ctx.serverSock ctx.client_ip ctx.client_Port
      ((ctx.blockNum + 1) % 65536) ∧
    ((svrAfter env g ctx).state = ctx.state →
      (svrAfter env g ctx).txBuf.length = MAX_TX_BUFF ∧
      (ctx.state = SVR_ST_PUTFILE_RXDATA → (svrAfter env g ctx).pFile ≠ none) ∧
      (svrAfter env g ctx).sent ≠ ctx.sent) := by
  unfold svrAfter
  obtain ⟨hb, ⟨hs, hop, hpf, hw⟩ | ⟨hs, hop, hrc⟩⟩ := h
  · have a := svr_accept_putfile env g ctx htx hb hs hop hpf hw
    refine ⟨a.1, a.2.1, Or.inr ⟨4, [], ?_⟩, fun h1 => ⟨(a.2.2.2 h1).1,
      fun _ => (a.2.2.2 h1).2, ?_⟩⟩
    · rw [a.2.2.1]; rfl
    · rw [a.2.2.1]
      intro h
      have := congrArg List.length h
      simp at this
  · have a := svr_accept_getfile env g ctx htx hb hs hop hrc
    refine ⟨a.1, a.2.1, ?_, fun h1 => ⟨(a.2.2.2 h1).1, fun hg => ?_, (a.2.2.2 h1).2⟩⟩
    · rcases a.2.2.1 with h | h
      · exact Or.inl h
      · exact Or.inr ⟨3, _, h⟩
    · rw [hs] at hg
      exact absurd hg (show SVR_ST_GETFILE_TXDATA ≠ SVR_ST_PUTFILE_RXDATA by decide)

theorem svr_accept_next (env env2 : Env) (g : Globals) (ctx : server_session_t)
    (rx : prot_frame_info_t)
    (htx : ctx.txBuf.length = MAX_TX_BUFF) (h : SvrAccepts env ctx)
    (h1 : (svrAfter env g ctx).state = ctx.state)
    (hrx : rx.optcode = ctx.rxInfo.optcode ∧
      rx.blocknum = (ctx.nextExpectedBlockNum + 1) % 65536)
    (he : size_t_of ((rx.rxLen : Int) - 4) ≤ env2.fwriteLimit ∧ 0 ≤ env2.sendRc) :
    SvrAccepts env2 (svrNext env g ctx rx) ∧
    (svrNext env g ctx rx).txBuf.length = MAX_TX_BUFF ∧
    (svrAfter env2 g (svrNext env g ctx rx)).nextExpectedBlockNum =
      (ctx.nextExpectedBlockNum + 2) % 65536 ∧
    (svrAfter env2 g (svrNext env g ctx rx)).blockNum = (ctx.blockNum + 2) % 65536 := by
  have a := svr_accept env g ctx htx h
  have b := a.2.2.2 h1
  have hacc : SvrAccepts env2 (svrNext env g ctx rx) := by
    refine ⟨hrx.2.trans a.1.symm, ?_⟩
    obtain ⟨-, ⟨hs, hop, -, -⟩ | ⟨hs, hop, -⟩⟩ := h
    · exact Or.inl ⟨h1.trans hs, hrx.1.trans hop, b.2.1 hs, he.1⟩
    · exact Or.inr ⟨h1.trans hs, hrx.1.trans hop, he.2⟩
  have c := svr_accept env2 g (svrNext env g ctx rx) b.1 hacc
  refine ⟨hacc, b.1, ?_, ?_⟩
  · rw [c.1]
    show ((svrAfter env g ctx).nextExpectedBlockNum + 1) % 65536 = _
    rw [a.1]; omega
  · rw [c.2.1]
    show ((svrAfter env g ctx).blockNum + 1) % 65536 = _
    rw [a.2.1]; omega

/-! ## Lemmas: the tick timer -/

theorem UtilTickTimerRun_idle (tick : Nat) (t : tick_timer_t) (h : t.running = 0) :
    UtilTickTimerRun tick t = (0, t) := by
  simp only [UtilTickTimerRun, h, if_true]

theorem UtilTickTimerRun_running (tick : Nat) (t : tick_timer_t) (h : t.running ≠ 0) :
    UtilTickTimerRun tick t =
      if t.tTimeout ≤ (tick + (2 ^ 32 - t.tStart % 2 ^ 32)) % 2 ^ 32 then
        (1, { t with tDiff := (tick + (2 ^ 32 - t.tStart % 2 ^ 32)) % 2 ^ 32, running := 0 })
      else (0, { t with tDiff := (tick + (2 ^ 32 - t.tStart % 2 ^ 32)) % 2 ^ 32 }) := by
  simp only [UtilTickTimerRun, h, if_false, ge_iff_le]

theorem timerRuns_idle (t : tick_timer_t) (h : t.running = 0) :
    ∀ ticks, timerRuns ticks t = (List.replicate ticks.length 0, t) := by
  intro ticks
  induction ticks with
  | nil => rfl
  | cons tick rest ih =>
    simp only [timerRuns, UtilTickTimerRun_idle tick t h, ih, List.length_cons,
      List.replicate_succ]

theorem UtilTickTimerRun_expired (tick : Nat) (t : tick_timer_t)
    (h : (UtilTickTimerRun tick t).1 = 1) :
    t.running ≠ 0 ∧ (UtilTickTimerRun tick t).2.running = 0 := by
  by_cases hr : t.running = 0
  · rw [UtilTickTimerRun_idle tick t hr] at h
    exact absurd h (show (0 : Nat) ≠ 1 by decide)
  · refine ⟨hr, ?_⟩
    rw [UtilTickTimerRun_running tick t hr] at h ⊢
    by_cases hd : t.tTimeout ≤ (tick + (2 ^ 32 - t.tStart % 2 ^ 32)) % 2 ^ 32
    · rw [if_pos hd]
    · rw [if_neg hd] at h
      exact absurd h (show (0 : Nat) ≠ 1 by decide)

theorem UtilTickTimerRun_ret (tick : Nat) (t : tick_timer_t) :
    (UtilTickTimerRun tick t).1 = 0 ∨ (UtilTickTimerRun tick t).1 = 1 := by
  by_cases hr : t.running = 0
  · rw [UtilTickTimerRun_idle tick t hr]
    exact Or.inl rfl
  · rw [UtilTickTimerRun_running tick t hr]
    by_cases hd : t.tTimeout ≤ (tick + (2 ^ 32 - t.tStart % 2 ^ 32)) % 2 ^ 32
    · rw [if_pos hd]; exact Or.inr rfl
    · rw [if_neg hd]; exact Or.inl rfl

theorem UtilTickTimerRun_started (tick tick2 : Nat) (t : tick_timer_t) (secs : Nat) :
    UtilTickTimerRun tick2 (UtilTickTimerStart tick t secs) =
      if (secs * 1000) % 2 ^ 32 ≤ (tick2 + (2 ^ 32 - tick % 2 ^ 32)) % 2 ^ 32 then
        (1, { tStart := tick, tTimeout := (secs * 1000) % 2 ^ 32,
              tDiff := (tick2 + (2 ^ 32 - tick % 2 ^ 32)) % 2 ^ 32, running := 0 })
      else
        (0, { tStart := tick, tTimeout := (secs * 1000) % 2 ^ 32,
              tDiff := (tick2 + (2 ^ 32 - tick % 2 ^ 32)) % 2 ^ 32, running := 1 }) := by
  rw [UtilTickTimerRun_running tick2 _ (show (UtilTickTimerStart tick t secs).running ≠ 0 from
    Nat.one_ne_zero)]
  rfl

/-! ## Lemmas: the timer test after a restart -/

theorem elapsed_same_tick (tick : Nat) : (tick + (2 ^ 32 - tick % 2 ^ 32)) % 2 ^ 32 = 0 := by
  omega

theorem UtilTickTimerRun_fresh (tick tick2 : Nat) (t0 : tick_timer_t)
    (h : (tick2 + (2 ^ 32 - tick % 2 ^ 32)) % 2 ^ 32 < 3000) :
    UtilTickTimerRun tick2 (UtilTickTimerStart tick t0 ACK_TIMEOUT_SECS) =
      (0, { UtilTickTimerStart tick t0 ACK_TIMEOUT_SECS with
            tDiff := (tick2 + (2 ^ 32 - tick % 2 ^ 32)) % 2 ^ 32 }) := by
  have hn : ¬ (ACK_TIMEOUT_SECS * 1000 % 2 ^ 32 ≤ (tick2 + (2 ^ 32 - tick % 2 ^ 32)) % 2 ^ 32) := by
    have : ACK_TIMEOUT_SECS * 1000 % 2 ^ 32 = 3000 := by decide
    rw [this]
    omega
  rw [UtilTickTimerRun_started, if_neg hn]
  rfl

theorem cl_on_timer_fresh (env env2 : Env) (s : ClientLoop) (t0 : tick_timer_t)
    (ht : s.ctx.tmr1 = UtilTickTimerStart env.tick t0 ACK_TIMEOUT_SECS)
    (h : (env2.tick + (2 ^ 32 - env.tick % 2 ^ 32)) % 2 ^ 32 < 3000) :
    cl_on_timer env2 s =
      { s with ctx := { s.ctx with tmr1 := { s.ctx.tmr1 with
          tDiff := (env2.tick + (2 ^ 32 - env.tick % 2 ^ 32)) % 2 ^ 32 } } } := by
  obtain ⟨ctx, g, pk, tm, lf⟩ := s
  simp only [] at ht
  unfold cl_on_timer
  simp only [ht, UtilTickTimerRun_fresh env.tick env2.tick t0 h, ne_eq, not_true_eq_false,
    if_false]

theorem svr_on_timer_fresh (env env2 : Env) (s : ServerLoop) (t0 : tick_timer_t)
    (ht : s.ctx.tmr1 = UtilTickTimerStart env.tick t0 ACK_TIMEOUT_SECS)
    (h : (env2.tick + (2 ^ 32 - env.tick % 2 ^ 32)) % 2 ^ 32 < 3000) :
    svr_on_timer env2 s =
      { s with ctx := { s.ctx with tmr1 := { s.ctx.tmr1 with
          tDiff := (env2.tick + (2 ^ 32 - env.tick % 2 ^ 32)) % 2 ^ 32 } } } := by
  obtain ⟨ctx, g⟩ := s
  simp only [] at ht
  unfold svr_on_timer
  simp only [ht, UtilTickTimerRun_fresh env.tick env2.tick t0 h, ne_eq, not_true_eq_false,
    if_false]

theorem cl_on_timer_same_tick (env : Env) (s : ClientLoop) (t0 : tick_timer_t)
    (ht : s.ctx.tmr1 = UtilTickTimerStart env.tick t0 ACK_TIMEOUT_SECS) :
    cl_on_timer env s = s := by
  have h0 := elapsed_same_tick env.tick
  rw [cl_on_timer_fresh env env s t0 ht (by rw [h0]; decide), h0]
  obtain ⟨ctx, g, pk, tm, lf⟩ := s
  cases ctx
  simp only [] at ht
  subst ht
  rfl

theorem svr_on_timer_same_tick (env : Env) (s : ServerLoop) (t0 : tick_timer_t)
    (ht : s.ctx.tmr1 = UtilTickTimerStart env.tick t0 ACK_TIMEOUT_SECS) :
    svr_on_timer env s = s := by
  have h0 := elapsed_same_tick env.tick
  rw [svr_on_timer_fresh env env s t0 ht (by rw [h0]; decide), h0]
  obtain ⟨ctx, g⟩ := s
  cases ctx
  simp only [] at ht
  subst ht
  rfl

/-! ## Lemmas: the blocks of a file -/

theorem tick_diff_int (s n : Nat) (hs : s < 2 ^ 32) :
    (((n + (2 ^ 32 - s % 2 ^ 32)) % 2 ^ 32 : Nat) : Int) = ((n : Int) - (s : Int)) % 2 ^ 32 := by
  have h1 : s % 2 ^ 32 = s := Nat.mod_eq_of_lt hs
  rw [h1]
  have h2 : ((n + (2 ^ 32 - s) : Nat) : Int) = ((n : Int) - (s : Int)) + 2 ^ 32 := by
    omega
  rw [Int.natCast_mod, h2]
  simp

theorem tick_diff_clock (c1 c2 : Nat) (h : c1 ≤ c2) :
    (c2 % 2 ^ 32 + (2 ^ 32 - (c1 % 2 ^ 32) % 2 ^ 32)) % 2 ^ 32 = (c2 - c1) % 2 ^ 32 := by
  have hlt : c1 % 2 ^ 32 < 2 ^ 32 := Nat.mod_lt _ (by decide)
  have hi := tick_diff_int (c1 % 2 ^ 32) (c2 % 2 ^ 32) hlt
  have h3 : (((c2 % 2 ^ 32 : Nat) : Int) - ((c1 % 2 ^ 32 : Nat) : Int)) % 2 ^ 32 =
      (((c2 - c1 : Nat) % 2 ^ 32 : Nat) : Int) := by
    rw [Int.natCast_mod, Int.natCast_mod, Int.natCast_mod, Nat.cast_sub h]
    push_cast
    rw [Int.sub_emod, Int.emod_emod_of_dvd _ (dvd_refl _), Int.emod_emod_of_dvd _ (dvd_refl _),
      ← Int.sub_emod]
  rw [h3] at hi
  exact Int.ofNat_inj.mp hi

/-! ## Lemmas: runs of time-outs and received packets -/

theorem cl_events_done (es : List ClientEvent) (s : client_session_t × Globals)
    (h : s.2.gDone ≠ 0) : cl_events es s = s := by
  cases es with
  | nil => rfl
  | cons e es => rw [cl_events, if_pos h]

theorem cl_events_append (a b : List ClientEvent) :
    ∀ s : client_session_t × Globals, cl_events (a ++ b) s = cl_events b (cl_events a s) := by
  induction a with
  | nil => intro s; rfl
  | cons e es ih =>
    intro s
    by_cases h : s.2.gDone ≠ 0
    · rw [List.cons_append, cl_events, if_pos h, cl_events, if_pos h, cl_events_done b s h]
    · rw [List.cons_append, cl_events, if_neg h, cl_events, if_neg h, ih]

theorem svr_events_done (es : List ServerEvent) (s : ServerLoop)
    (h : s.g.gDone ≠ 0) : svr_events es s = s := by
  cases es with
  | nil => rfl
  | cons e es => rw [svr_events, if_pos h]

theorem svr_events_append (a b : List ServerEvent) :
    ∀ s : ServerLoop, svr_events (a ++ b) s = svr_events b (svr_events a s) := by
  induction a with
  | nil => intro s; rfl
  | cons e es ih =>
    intro s
    by_cases h : s.g.gDone ≠ 0
    · rw [List.cons_append, svr_events, if_pos h, svr_events, if_pos h, svr_events_done b s h]
    · rw [List.cons_append, svr_events, if_neg h, svr_events, if_neg h, ih]

theorem cl_timeout_step (env : Env) (g : Globals) (c : client_session_t)
    (hs : c.state = CL_ST_GETFILE_RXDATA ∨ c.state = CL_ST_PUTFILE_TXDATA)
    (h : c.num_retrans_tries + 1 ≠ g.gMaxNumRetransTries) :
    cl_fsm_event env g c EV_CL_TIMEOUT =
      (1, { c with
            num_retrans_tries := c.num_retrans_tries + 1,
            tmr1 := UtilTickTimerStart env.tick c.tmr1 ACK_TIMEOUT_SECS,
            sent := ⟨c.clientSock, c.remoteIpStr, c.lastTxPort, c.txBuf.take c.txLen⟩ ::
              c.sent }, g) := by
  rcases hs with hs | hs
  · rw [cl_fsm_event_getfile env g c _ hs, cl_getfile_timeout_retry env g c h]; rfl
  · rw [cl_fsm_event_putfile env g c _ hs, cl_putfile_timeout_retry env g c h]; rfl

theorem svr_timeout_step (env : Env) (g : Globals) (c : server_session_t)
    (hs : c.state = SVR_ST_PUTFILE_RXDATA ∨ c.state = SVR_ST_GETFILE_TXDATA)
    (h : c.num_retrans_tries + 1 ≠ g.gMaxNumRetransTries) :
    svr_fsm_event env g c EV_SVR_TIMEOUT =
      { c with
        num_retrans_tries := c.num_retrans_tries + 1,
        tmr1 := UtilTickTimerStart env.tick c.tmr1 ACK_TIMEOUT_SECS,
        sent := ⟨c.serverSock, c.client_ip, c.lastTxPort, c.txBuf.take c.txLen⟩ :: c.sent } := by
  rcases hs with hs | hs
  · rw [svr_fsm_event_putfile env g c _ hs, svr_putfile_timeout_retry env g c h]
  · rw [svr_fsm_event_getfile env g c _ hs, svr_getfile_timeout_retry env g c h]

theorem cl_abort_step (env : Env) (g : Globals) (c : client_session_t)
    (hs : c.state = CL_ST_GETFILE_RXDATA ∨ c.state = CL_ST_PUTFILE_TXDATA)
    (h : c.num_retrans_tries + 1 = g.gMaxNumRetransTries) :
    cl_fsm_event env g c EV_CL_TIMEOUT =
      (0, cl_aborted (clAbortMsg c.state) c, { g with gDone := 1 }) := by
  rcases hs with hs | hs
  · rw [cl_fsm_event_getfile env g c _ hs, cl_getfile_timeout_abort env g c h]
    unfold clAbortMsg
    rw [if_pos hs]
    rfl
  · have hne : ¬ c.state = CL_ST_GETFILE_RXDATA := by rw [hs]; decide
    rw [cl_fsm_event_putfile env g c _ hs, cl_putfile_timeout_abort env g c h]
    unfold clAbortMsg
    rw [if_neg hne]
    rfl

theorem svr_abort_step (env : Env) (g : Globals) (c : server_session_t)
    (hs : c.state = SVR_ST_PUTFILE_RXDATA ∨ c.state = SVR_ST_GETFILE_TXDATA)
    (h : c.num_retrans_tries + 1 = g.gMaxNumRetransTries) :
    svr_fsm_event env g c EV_SVR_TIMEOUT =
      svr_aborted (ascii "timeout waiting for ACK, closing connection\n") c := by
  rcases hs with hs | hs
  · rw [svr_fsm_event_putfile env g c _ hs, svr_putfile_timeout_abort env g c h]; rfl
  · rw [svr_fsm_event_getfile env g c _ hs, svr_getfile_timeout_abort env g c h]; rfl

theorem cl_events_timeouts (g : Globals) (hg : g.gDone = 0) :
    ∀ (envs : List Env) (c : client_session_t),
    (c.state = CL_ST_GETFILE_RXDATA ∨ c.state = CL_ST_PUTFILE_TXDATA) →
    c.num_retrans_tries + envs.length < g.gMaxNumRetransTries →
    cl_events (envs.map ClientEvent.timeout) (c, g) = (cl_retried envs c, g) := by
  intro envs
  induction envs with
  | nil => intro c _ _; simp only [List.map_nil, cl_events, cl_retried_nil]
  | cons env envs ih =>
    intro c hs hn
    simp only [List.length_cons, Nat.cast_add, Nat.cast_one] at hn
    have h1 : c.num_retrans_tries + 1 ≠ g.gMaxNumRetransTries := by omega
    have hn2 : (c.num_retrans_tries + 1) + (envs.length : Int) < g.gMaxNumRetransTries := by omega
    have hih := ih { c with
        num_retrans_tries := c.num_retrans_tries + 1,
        tmr1 := UtilTickTimerStart env.tick c.tmr1 ACK_TIMEOUT_SECS,
        sent := ⟨c.clientSock, c.remoteIpStr, c.lastTxPort, c.txBuf.take c.txLen⟩ ::
          c.sent } hs hn2
    rw [cl_retried_cons] at hih
    have hg2 : ¬ ((c, g).2.gDone ≠ 0) := fun h => h hg
    rw [List.map_cons, cl_events, if_neg hg2, cl_event]
    simp only []
    rw [cl_timeout_step env g c hs h1]
    exact hih

theorem svr_events_timeouts (g : Globals) (hg : g.gDone = 0) :
    ∀ (envs : List Env) (c : server_session_t),
    (c.state = SVR_ST_PUTFILE_RXDATA ∨ c.state = SVR_ST_GETFILE_TXDATA) →
    c.num_retrans_tries + envs.length < g.gMaxNumRetransTries →
    svr_events (envs.map ServerEvent.timeout) ⟨c, g⟩ = ⟨svr_retried envs c, g⟩ := by
  intro envs
  induction envs with
  | nil => intro c _ _; simp only [List.map_nil, svr_events, svr_retried_nil]
  | cons env envs ih =>
    intro c hs hn
    simp only [List.length_cons, Nat.cast_add, Nat.cast_one] at hn
    have h1 : c.num_retrans_tries + 1 ≠ g.gMaxNumRetransTries := by omega
    have hn2 : (c.num_retrans_tries + 1) + (envs.length : Int) < g.gMaxNumRetransTries := by omega
    have hih := ih { c with
        num_retrans_tries := c.num_retrans_tries + 1,
        tmr1 := UtilTickTimerStart env.tick c.tmr1 ACK_TIMEOUT_SECS,
        sent := ⟨c.serverSock, c.client_ip, c.lastTxPort, c.txBuf.take c.txLen⟩ ::
          c.sent } hs hn2
    rw [svr_retried_cons] at hih
    have hg2 : ¬ ((⟨c, g⟩ : ServerLoop).g.gDone ≠ 0) := fun h => h hg
    rw [List.map_cons, svr_events, if_neg hg2, svr_event]
    simp only []
    rw [svr_timeout_step env g c hs h1]
    exact hih

theorem cl_packet_step (env : Env) (g : Globals) (c : client_session_t) (port : Nat)
    (rx : prot_frame_info_t) (h : ClMismatched c rx) :
    cl_fsm_event env g { c with svrPort := port, rxInfo := rx } EV_CL_PDU_RX =
      (1, { c with svrPort := port, rxInfo := rx }, g) := by
  obtain ⟨hb, ⟨hs, hop⟩ | ⟨hs, hop⟩⟩ := h
  · rw [cl_fsm_event_getfile env g _ _ (by exact hs),
      cl_getfile_stale env g _ (by exact hop) (by exact hb)]
    rfl
  · rw [cl_fsm_event_putfile env g _ _ (by exact hs),
      cl_putfile_stale env g _ (by exact hop) (by exact hb)]
    rfl

theorem svr_packet_step (env : Env) (g : Globals) (c : server_session_t) (ip : List Nat)
    (port : Nat) (rx : prot_frame_info_t) (h : SvrMismatched c rx) :
    svr_fsm_event env g { c with client_Port := port, client_ip := ip, rxInfo := rx }
        EV_SVR_PDU_RX =
      { c with client_Port := port, client_ip := ip, rxInfo := rx } := by
  obtain ⟨hb, ⟨hs, hop⟩ | ⟨hs, hop⟩⟩ := h
  · rw [svr_fsm_event_putfile env g _ _ (by exact hs),
      svr_putfile_stale env g _ (by exact hop) (by exact hb)]
  · rw [svr_fsm_event_getfile env g _ _ (by exact hs),
      svr_getfile_stale env g _ (by exact hop) (by exact hb)]

theorem cl_heard_nil (c : client_session_t) : cl_heard [] c = c := rfl

theorem svr_heard_nil (c : server_session_t) : svr_heard [] c = c := rfl

theorem cl_heard_cons (p : Env × Nat × prot_frame_info_t)
    (ps : List (Env × Nat × prot_frame_info_t)) (c : client_session_t) :
    cl_heard ps { c with svrPort := p.2.1, rxInfo := p.2.2 } = cl_heard (p :: ps) c := by
  cases ps with
  | nil => rfl
  | cons q qs =>
    obtain ⟨x, hx⟩ : ∃ x, (q :: qs).getLast? = some x :=
      ⟨_, List.getLast?_eq_getLast _ (List.cons_ne_nil q qs)⟩
    unfold cl_heard
    rw [List.getLast?_cons_cons, hx]

theorem svr_heard_cons (p : Env × List Nat × Nat × prot_frame_info_t)
    (ps : List (Env × List Nat × Nat × prot_frame_info_t)) (c : server_session_t) :
    svr_heard ps { c with client_Port := p.2.2.1, client_ip := p.2.1, rxInfo := p.2.2.2 } =
      svr_heard (p :: ps) c := by
  cases ps with
  | nil => rfl
  | cons q qs =>
    obtain ⟨x, hx⟩ : ∃ x, (q :: qs).getLast? = some x :=
      ⟨_, List.getLast?_eq_getLast _ (List.cons_ne_nil q qs)⟩
    unfold svr_heard
    rw [List.getLast?_cons_cons, hx]

theorem cl_events_packets (g : Globals) (hg : g.gDone = 0) :
    ∀ (ps : List (Env × Nat × prot_frame_info_t)) (c : client_session_t),
    (∀ p ∈ ps, ClMismatched c p.2.2) →
    cl_events (ps.map (fun p => ClientEvent.packet p.1 p.2.1 p.2.2)) (c, g) =
      (cl_heard ps c, g) := by
  intro ps
  induction ps with
  | nil => intro c _; rfl
  | cons p ps ih =>
    intro c h
    have hp : ClMismatched c p.2.2 := h p (List.mem_cons_self _ _)
    have hrest : ∀ q ∈ ps, ClMismatched { c with svrPort := p.2.1, rxInfo := p.2.2 } q.2.2 :=
      fun q hq => h q (List.mem_cons_of_mem _ hq)
    have hih := ih { c with svrPort := p.2.1, rxInfo := p.2.2 } hrest
    rw [cl_heard_cons] at hih
    have hg2 : ¬ ((c, g).2.gDone ≠ 0) := fun h => h hg
    rw [List.map_cons, cl_events, if_neg hg2, cl_event]
    simp only []
    rw [cl_packet_step p.1 g c p.2.1 p.2.2 hp]
    exact hih

theorem svr_events_packets (g : Globals) (hg : g.gDone = 0) :
    ∀ (ps : List (Env × List Nat × Nat × prot_frame_info_t)) (c : server_session_t),
    (∀ p ∈ ps, SvrMismatched c p.2.2.2) →
    svr_events (ps.map (fun p => ServerEvent.packet p.1 p.2.1 p.2.2.1 p.2.2.2)) ⟨c, g⟩ =
      ⟨svr_heard ps c, g⟩ := by
  intro ps
  induction ps with
  | nil => intro c _; rfl
  | cons p ps ih =>
    intro c h
    have hp : SvrMismatched c p.2.2.2 := h p (List.mem_cons_self _ _)
    have hrest : ∀ q ∈ ps, SvrMismatched
        { c with client_Port := p.2.2.1, client_ip := p.2.1, rxInfo := p.2.2.2 } q.2.2.2 :=
      fun q hq => h q (List.mem_cons_of_mem _ hq)
    have hih := ih { c with client_Port := p.2.2.1, client_ip := p.2.1, rxInfo := p.2.2.2 } hrest
    rw [svr_heard_cons] at hih
    have hg2 : ¬ ((⟨c, g⟩ : ServerLoop).g.gDone ≠ 0) := fun h => h hg
    rw [List.map_cons, svr_events, if_neg hg2, svr_event]
    simp only []
    rw [svr_packet_step p.1 g c p.2.1 p.2.2.1 p.2.2.2 hp]
    exact hih

theorem cl_heard_keeps (ps : List (Env × Nat × prot_frame_info_t)) (c : client_session_t) :
    (cl_heard ps c).state = c.state ∧
    (cl_heard ps c).nextExpectedBlockNum = c.nextExpectedBlockNum ∧
    (cl_heard ps c).num_retrans_tries = c.num_retrans_tries ∧
    (cl_heard ps c).sent = c.sent ∧
    (cl_heard ps c).clientSock = c.clientSock ∧
    (cl_heard ps c).remoteIpStr = c.remoteIpStr ∧
    (cl_heard ps c).lastTxPort = c.lastTxPort ∧
    (cl_heard ps c).txBuf = c.txBuf ∧
    (cl_heard ps c).txLen = c.txLen ∧
    (cl_heard ps c).pFile = c.pFile := by
  unfold cl_heard
  cases ps.getLast? with
  | none => exact ⟨rfl, rfl, rfl, rfl, rfl, rfl, rfl, rfl, rfl, rfl⟩
  | some p => exact ⟨rfl, rfl, rfl, rfl, rfl, rfl, rfl, rfl, rfl, rfl⟩

theorem svr_heard_keeps (ps : List (Env × List Nat × Nat × prot_frame_info_t))
    (c : server_session_t) :
    (svr_heard ps c).state = c.state ∧
    (svr_heard ps c).nextExpectedBlockNum = c.nextExpectedBlockNum ∧
    (svr_heard ps c).num_retrans_tries = c.num_retrans_tries ∧
    (svr_heard ps c).sent = c.sent ∧
    (svr_heard ps c).serverSock = c.serverSock ∧
    (svr_heard ps c).lastTxPort = c.lastTxPort ∧
    (svr_heard ps c).txBuf = c.txBuf ∧
    (svr_heard ps c).txLen = c.txLen ∧
    (svr_heard ps c).pFile = c.pFile := by
  unfold svr_heard
  cases ps.getLast? with
  | none => exact ⟨rfl, rfl, rfl, rfl, rfl, rfl, rfl, rfl, rfl⟩
  | some p => exact ⟨rfl, rfl, rfl, rfl, rfl, rfl, rfl, rfl, rfl⟩

theorem cl_scenario_run (g : Globals) (hg : g.gDone = 0) (envs1 envs2 : List Env)
    (ps : List (Env × Nat × prot_frame_info_t)) (c : client_session_t)
    (hs : c.state = CL_ST_GETFILE_RXDATA ∨ c.state = CL_ST_PUTFILE_TXDATA)
    (hn : c.num_retrans_tries + envs1.length + envs2.length < g.gMaxNumRetransTries)
    (hps : ∀ p ∈ ps, ClMismatched c p.2.2) :
    cl_events (clScenario envs1 ps envs2) (c, g) =
      (cl_retried envs2 (cl_heard ps (cl_retried envs1 c)), g) := by
  have hk := cl_heard_keeps ps (cl_retried envs1 c)
  have hs2 : (cl_heard ps (cl_retried envs1 c)).state = CL_ST_GETFILE_RXDATA ∨
      (cl_heard ps (cl_retried envs1 c)).state = CL_ST_PUTFILE_TXDATA := by
    rw [hk.1]; exact hs
  have hn2 : (cl_heard ps (cl_retried envs1 c)).num_retrans_tries + (envs2.length : Int) <
      g.gMaxNumRetransTries := by
    rw [hk.2.2.1]; exact hn
  have hps2 : ∀ p ∈ ps, ClMismatched (cl_retried envs1 c) p.2.2 := fun p hp => hps p hp
  unfold clScenario
  rw [cl_events_append, cl_events_append,
    cl_events_timeouts g hg envs1 c hs (by omega),
    cl_events_packets g hg ps (cl_retried envs1 c) hps2,
    cl_events_timeouts g hg envs2 _ hs2 hn2]

theorem svr_scenario_run (g : Globals) (hg : g.gDone = 0) (envs1 envs2 : List Env)
    (ps : List (Env × List Nat × Nat × prot_frame_info_t)) (c : server_session_t)
    (hs : c.state = SVR_ST_PUTFILE_RXDATA ∨ c.state = SVR_ST_GETFILE_TXDATA)
    (hn : c.num_retrans_tries + envs1.length + envs2.length < g.gMaxNumRetransTries)
    (hps : ∀ p ∈ ps, SvrMismatched c p.2.2.2) :
    svr_events (svrScenario envs1 ps envs2) ⟨c, g⟩ =
      ⟨svr_retried envs2 (svr_heard ps (svr_retried envs1 c)), g⟩ := by
  have hk := svr_heard_keeps ps (svr_retried envs1 c)
  have hs2 : (svr_heard ps (svr_retried envs1 c)).state = SVR_ST_PUTFILE_RXDATA ∨
      (svr_heard ps (svr_retried envs1 c)).state = SVR_ST_GETFILE_TXDATA := by
    rw [hk.1]; exact hs
  have hn2 : (svr_heard ps (svr_retried envs1 c)).num_retrans_tries + (envs2.length : Int) <
      g.gMaxNumRetransTries := by
    rw [hk.2.2.1]; exact hn
  have hps2 : ∀ p ∈ ps, SvrMismatched (svr_retried envs1 c) p.2.2.2 := fun p hp => hps p hp
  unfold svrScenario
  rw [svr_events_append, svr_events_append,
    svr_events_timeouts g hg envs1 c hs (by omega),
    svr_events_packets g hg ps (svr_retried envs1 c) hps2,
    svr_events_timeouts g hg envs2 _ hs2 hn2]

theorem cl_scenario_sent (envs1 envs2 : List Env) (ps : List (Env × Nat × prot_frame_info_t))
    (c : client_session_t) :
    (cl_retried envs2 (cl_heard ps (cl_retried envs1 c))).sent =
      List.replicate (envs1.length + envs2.length)
        ⟨c.clientSock, c.remoteIpStr, c.lastTxPort, c.txBuf.take c.txLen⟩ ++ c.sent := by
  have h : (cl_retried envs2 (cl_heard ps (cl_retried envs1 c))).sent =
      List.replicate envs2.length
        ⟨c.clientSock, c.remoteIpStr, c.lastTxPort, c.txBuf.take c.txLen⟩ ++
      (List.replicate envs1.length
        ⟨c.clientSock, c.remoteIpStr, c.lastTxPort, c.txBuf.take c.txLen⟩ ++ c.sent) := by
    unfold cl_heard
    cases ps.getLast? with
    | none => rfl
    | some p => rfl
  rw [h, ← List.append_assoc, ← List.replicate_add, Nat.add_comm]

theorem svr_scenario_sent (envs1 envs2 : List Env)
    (ps : List (Env × List Nat × Nat × prot_frame_info_t)) (c : server_session_t) :
    (svr_retried envs2 (svr_heard ps (svr_retried envs1 c))).sent =
      List.replicate envs2.length
        ⟨c.serverSock, (svr_heard ps c).client_ip, c.lastTxPort, c.txBuf.take c.txLen⟩ ++
      (List.replicate envs1.length
        ⟨c.serverSock, c.client_ip, c.lastTxPort, c.txBuf.take c.txLen⟩ ++ c.sent) := by
  unfold svr_heard
  cases ps.getLast? with
  | none => rfl
  | some p => rfl

theorem filter_error_new (e : Datagram) (l rest : List Datagram)
    (he : isErrorDatagram e = true) (hl : ∀ d ∈ l, isErrorDatagram d = false) :
    (((e :: (l ++ rest)).take (l.length + 1)).filter isErrorDatagram) = [e] := by
  have ht : (l ++ rest).take l.length = l := List.take_left' rfl
  rw [List.take_succ_cons, ht, List.filter_cons_of_pos he]
  congr 1
  rw [List.filter_eq_nil_iff]
  intro a ha
  rw [hl a ha]
  decide

theorem errTxBuf_isError (sock : Int) (ip : List Nat) (port : Nat) (txBuf : List Nat)
    (h : txBuf.length = MAX_TX_BUFF) (m : List Nat) (hm : strlen m ≤ PROT_MAX_DATA) :
    isErrorDatagram ⟨sock, ip, port, (errTxBuf txBuf 0 m).take (errTxLen m)⟩ = true := by
  have h4 := errPkt_header0 txBuf h m hm
  have h2 : ((errTxBuf txBuf 0 m).take (errTxLen m)).take 2 = [0, TFTP_ERROR] := by
    have := congrArg (List.take 2) h4
    rw [List.take_take] at this
    exact this
  unfold isErrorDatagram
  simp only [h2, decide_True]

theorem clAbortMsg_short (st : Nat) : strlen (clAbortMsg st) ≤ PROT_MAX_DATA := by
  unfold clAbortMsg
  split <;> decide

/-! ## Lemmas: an accepted packet resets the retry counter -/

theorem cl_accept_resets (env : Env) (g : Globals) (ctx : client_session_t)
    (htx : ctx.txBuf.length = MAX_TX_BUFF) (h : ClAccepts env ctx) :
    (clAfter env g ctx).num_retrans_tries = 0 := by
  unfold clAfter
  obtain ⟨hb, ⟨hs, hop, hf, hw⟩ | ⟨hs, hop, hrc⟩⟩ := h
  · rw [cl_fsm_event_getfile env g ctx _ hs]
    rcases hf with ⟨hfirst, hpf⟩ | ⟨hfirst, hopen⟩
    · obtain ⟨f, hf⟩ := Option.ne_none_iff_exists'.mp hpf
      rw [cl_getfile_rxData_next env g ctx hop hb hfirst]
      by_cases hl : ctx.rxInfo.isLastDataBlock = 0
      · rw [cl_getfile_write_more env g
          { ctx with nextExpectedBlockNum := (ctx.nextExpectedBlockNum + 1) % 65536 } f _ hf rfl
          hw hl]
      · rw [cl_getfile_write_last env g
          { ctx with nextExpectedBlockNum := (ctx.nextExpectedBlockNum + 1) % 65536 } f _ hf rfl
          hw hl]
    · rw [cl_getfile_rxData_first env g ctx hop hb hfirst hopen]
      by_cases hl : ctx.rxInfo.isLastDataBlock = 0
      · rw [cl_getfile_write_more env g
          { ctx with nextExpectedBlockNum := (ctx.nextExpectedBlockNum + 1) % 65536,
                     pFile := some ⟨[], 0⟩, isFirstDataBlock := 0 } ⟨[], 0⟩ _ rfl rfl hw hl]
      · rw [cl_getfile_write_last env g
          { ctx with nextExpectedBlockNum := (ctx.nextExpectedBlockNum + 1) % 65536,
                     pFile := some ⟨[], 0⟩, isFirstDataBlock := 0 } ⟨[], 0⟩ _ rfl rfl hw hl]
  · rw [cl_fsm_event_putfile env g ctx _ hs]
    by_cases hgo : (fread ctx.pFile PROT_MAX_DATA).1.length = 0 ∧ ctx.isFirstDataBlock = 0 ∧
        (ctx.txLen : Int) - 4 < PROT_MAX_DATA
    · rw [cl_putfile_txData_done env g ctx hop hb hgo]
    · rw [cl_putfile_txData_send env g ctx hop hb hgo hrc htx]

theorem svr_accept_resets (env : Env) (g : Globals) (ctx : server_session_t)
    (htx : ctx.txBuf.length = MAX_TX_BUFF) (h : SvrAccepts env ctx) :
    (svrAfter env g ctx).num_retrans_tries = 0 := by
  unfold svrAfter
  obtain ⟨hb, ⟨hs, hop, hpf, hw⟩ | ⟨hs, hop, hrc⟩⟩ := h
  · obtain ⟨f, hf⟩ := Option.ne_none_iff_exists'.mp hpf
    rw [svr_fsm_event_putfile env g ctx _ hs]
    by_cases hl : ctx.rxInfo.isLastDataBlock = 0
    · rw [svr_putfile_rxData_more env g ctx f _ hop hb hf rfl hw hl]
    · rw [svr_putfile_rxData_last env g ctx f _ hop hb hf rfl hw hl]
  · rw [svr_fsm_event_getfile env g ctx _ hs]
    by_cases hgo : (fread ctx.pFile PROT_MAX_DATA).1.length = 0 ∧
        (ctx.txLen : Int) - 4 < PROT_MAX_DATA
    · rw [svr_getfile_txData_done env g ctx hop hb hgo]
    · rw [svr_getfile_txData_send env g ctx hop hb hgo hrc htx]

/-! ## Lemmas: time-outs, ignored packets, time-outs -/

theorem cl_scenario_ends (g : Globals) (hg : g.gDone = 0) (envs1 envs2 : List Env) (last : Env)
    (ps : List (Env × Nat × prot_frame_info_t)) (c : client_session_t)
    (hmax : g.gMaxNumRetransTries = (envs1.length : Int) + envs2.length + 1)
    (hs : c.state = CL_ST_GETFILE_RXDATA ∨ c.state = CL_ST_PUTFILE_TXDATA)
    (h0 : c.num_retrans_tries = 0) (htx : c.txBuf.length = MAX_TX_BUFF)
    (hne : (c.txBuf.take c.txLen).take 2 ≠ [0, TFTP_ERROR])
    (hps : ∀ p ∈ ps, ClMismatched c p.2.2) :
    (cl_events (clScenario envs1 [] []) (c, g)).1.num_retrans_tries = envs1.length ∧
    cl_events (clScenario envs1 ps []) (c, g) =
      (cl_heard ps (cl_events (clScenario envs1 [] []) (c, g)).1, g) ∧
    (cl_events (clScenario envs1 ps []) (c, g)).1.num_retrans_tries = envs1.length ∧
    ((cl_events (clScenario envs1 ps envs2) (c, g)).2.gDone = 0 ∧
      (cl_events (clScenario envs1 ps envs2) (c, g)).1.sent =
        List.replicate (envs1.length + envs2.length)
          ⟨c.clientSock, c.remoteIpStr, c.lastTxPort, c.txBuf.take c.txLen⟩ ++ c.sent) ∧
    ((cl_events (clScenario envs1 ps envs2 ++ [ClientEvent.timeout last]) (c, g)).2.gDone = 1 ∧
      (∃ e, isErrorDatagram e = true ∧
        (cl_events (clScenario envs1 ps envs2 ++ [ClientEvent.timeout last]) (c, g)).1.sent =
          e :: (List.replicate (envs1.length + envs2.length)
            ⟨c.clientSock, c.remoteIpStr, c.lastTxPort, c.txBuf.take c.txLen⟩ ++ c.sent)) ∧
      (((cl_events (clScenario envs1 ps envs2 ++ [ClientEvent.timeout last]) (c, g)).1.sent.take
        (envs1.length + envs2.length + 1)).filter isErrorDatagram).length = 1 ∧
      (cl_events (clScenario envs1 ps envs2 ++ [ClientEvent.timeout last]) (c, g)).1.pFile = none) := by
  have r1 := cl_scenario_run g hg envs1 [] [] c hs
    (by rw [h0, hmax]; simp only [List.length_nil]; omega) (fun p hp => absurd hp (List.not_mem_nil p))
  have r2 := cl_scenario_run g hg envs1 [] ps c hs
    (by rw [h0, hmax]; simp only [List.length_nil]; omega) hps
  have r3 := cl_scenario_run g hg envs1 envs2 ps c hs (by rw [h0, hmax]; omega) hps
  rw [cl_retried_nil] at r2
  rw [cl_retried_nil, cl_heard_nil] at r1
  have hk := cl_heard_keeps ps (cl_retried envs1 c)
  have hsent := cl_scenario_sent envs1 envs2 ps c
  have hn1 : (cl_retried envs1 c).num_retrans_tries = envs1.length := by
    show c.num_retrans_tries + (envs1.length : Int) = envs1.length
    rw [h0]; omega
  have hX : (cl_retried envs2 (cl_heard ps (cl_retried envs1 c))).num_retrans_tries + 1 =
      g.gMaxNumRetransTries := by
    show (cl_heard ps (cl_retried envs1 c)).num_retrans_tries + (envs2.length : Int) + 1 =
      g.gMaxNumRetransTries
    rw [hk.2.2.1, hn1, hmax]
  have hsX : (cl_retried envs2 (cl_heard ps (cl_retried envs1 c))).state = CL_ST_GETFILE_RXDATA ∨
      (cl_retried envs2 (cl_heard ps (cl_retried envs1 c))).state = CL_ST_PUTFILE_TXDATA := by
    show (cl_heard ps (cl_retried envs1 c)).state = CL_ST_GETFILE_RXDATA ∨
      (cl_heard ps (cl_retried envs1 c)).state = CL_ST_PUTFILE_TXDATA
    rw [hk.1]; exact hs
  have htxX : (cl_retried envs2 (cl_heard ps (cl_retried envs1 c))).txBuf.length = MAX_TX_BUFF := by
    show (cl_heard ps (cl_retried envs1 c)).txBuf.length = MAX_TX_BUFF
    rw [hk.2.2.2.2.2.2.2.1]; exact htx
  have hg2 : ¬ ((cl_retried envs2 (cl_heard ps (cl_retried envs1 c)), g).2.gDone ≠ 0) :=
    fun h => h hg
  have r4 : cl_events (clScenario envs1 ps envs2 ++ [ClientEvent.timeout last]) (c, g) =
      (cl_aborted (clAbortMsg (cl_retried envs2 (cl_heard ps (cl_retried envs1 c))).state)
        (cl_retried envs2 (cl_heard ps (cl_retried envs1 c))), { g with gDone := 1 }) := by
    rw [cl_events_append, r3, cl_events, if_neg hg2, cl_events, cl_event]
    simp only []
    rw [cl_abort_step last g _ hsX hX]
  have he := errTxBuf_isError (cl_retried envs2 (cl_heard ps (cl_retried envs1 c))).clientSock
    (cl_retried envs2 (cl_heard ps (cl_retried envs1 c))).remoteIpStr
    (cl_retried envs2 (cl_heard ps (cl_retried envs1 c))).svrPort _ htxX
    (clAbortMsg (cl_retried envs2 (cl_heard ps (cl_retried envs1 c))).state) (clAbortMsg_short _)
  have hfin : (cl_aborted (clAbortMsg (cl_retried envs2 (cl_heard ps (cl_retried envs1 c))).state)
        (cl_retried envs2 (cl_heard ps (cl_retried envs1 c)))).sent =
      _ :: (List.replicate (envs1.length + envs2.length)
        ⟨c.clientSock, c.remoteIpStr, c.lastTxPort, c.txBuf.take c.txLen⟩ ++ c.sent) :=
    congrArg (List.cons _) hsent
  have hd : ∀ d ∈ List.replicate (envs1.length + envs2.length)
      (⟨c.clientSock, c.remoteIpStr, c.lastTxPort, c.txBuf.take c.txLen⟩ : Datagram),
      isErrorDatagram d = false := by
    intro d hd
    rw [List.eq_of_mem_replicate hd]
    unfold isErrorDatagram
    exact decide_eq_false hne
  have hcount := filter_error_new _ _ c.sent he hd
  rw [List.length_replicate] at hcount
  refine ⟨?_, ?_, ?_, ⟨?_, ?_⟩, ?_, ⟨_, he, ?_⟩, ?_, ?_⟩
  · rw [r1]; exact hn1
  · rw [r2, r1]
  · rw [r2]; exact hk.2.2.1.trans hn1
  · rw [r3]; exact hg
  · rw [r3]; exact hsent
  · rw [r4]
  · rw [r4]; exact hfin
  · rw [r4, hfin, hcount]; rfl
  · rw [r4]; rfl

theorem svr_scenario_ends (g : Globals) (hg : g.gDone = 0) (envs1 envs2 : List Env) (last : Env)
    (ps : List (Env × List Nat × Nat × prot_frame_info_t)) (c : server_session_t)
    (hmax : g.gMaxNumRetransTries = (envs1.length : Int) + envs2.length + 1)
    (hs : c.state = SVR_ST_PUTFILE_RXDATA ∨ c.state = SVR_ST_GETFILE_TXDATA)
    (h0 : c.num_retrans_tries = 0) (htx : c.txBuf.length = MAX_TX_BUFF)
    (hne : (c.txBuf.take c.txLen).take 2 ≠ [0, TFTP_ERROR])
    (hps : ∀ p ∈ ps, SvrMismatched c p.2.2.2) :
    (svr_events (svrScenario envs1 [] []) ⟨c, g⟩).ctx.num_retrans_tries = envs1.length ∧
    svr_events (svrScenario envs1 ps []) ⟨c, g⟩ =
      ⟨svr_heard ps (svr_events (svrScenario envs1 [] []) ⟨c, g⟩).ctx, g⟩ ∧
    (svr_events (svrScenario envs1 ps []) ⟨c, g⟩).ctx.num_retrans_tries = envs1.length ∧
    ((svr_events (svrScenario envs1 ps envs2) ⟨c, g⟩).ctx.state = c.state ∧
      (svr_events (svrScenario envs1 ps envs2) ⟨c, g⟩).ctx.sent =
        List.replicate envs2.length
          ⟨c.serverSock, (svr_heard ps c).client_ip, c.lastTxPort, c.txBuf.take c.txLen⟩ ++
        (List.replicate envs1.length
          ⟨c.serverSock, c.client_ip, c.lastTxPort, c.txBuf.take c.txLen⟩ ++ c.sent)) ∧
    ((svr_events (svrScenario envs1 ps envs2 ++ [ServerEvent.timeout last]) ⟨c, g⟩).ctx.state =
        SVR_ST_WAIT_FIST_REQUEST ∧
      (svr_events (svrScenario envs1 ps envs2 ++ [ServerEvent.timeout last]) ⟨c, g⟩).g = g ∧
      (∃ e, isErrorDatagram e = true ∧
        (svr_events (svrScenario envs1 ps envs2 ++ [ServerEvent.timeout last]) ⟨c, g⟩).ctx.sent =
          e :: (List.replicate envs2.length
              ⟨c.serverSock, (svr_heard ps c).client_ip, c.lastTxPort, c.txBuf.take c.txLen⟩ ++
            (List.replicate envs1.length
              ⟨c.serverSock, c.client_ip, c.lastTxPort, c.txBuf.take c.txLen⟩ ++ c.sent))) ∧
      (((svr_events (svrScenario envs1 ps envs2 ++ [ServerEvent.timeout last])
        ⟨c, g⟩).ctx.sent.take (envs1.length + envs2.length + 1)).filter isErrorDatagram).length = 1 ∧
      (svr_events (svrScenario envs1 ps envs2 ++ [ServerEvent.timeout last]) ⟨c, g⟩).ctx.pFile =
        none) := by
  have r1 := svr_scenario_run g hg envs1 [] [] c hs
    (by rw [h0, hmax]; simp only [List.length_nil]; omega) (fun p hp => absurd hp (List.not_mem_nil p))
  have r2 := svr_scenario_run g hg envs1 [] ps c hs
    (by rw [h0, hmax]; simp only [List.length_nil]; omega) hps
  have r3 := svr_scenario_run g hg envs1 envs2 ps c hs (by rw [h0, hmax]; omega) hps
  rw [svr_retried_nil] at r2
  rw [svr_retried_nil, svr_heard_nil] at r1
  have hk := svr_heard_keeps ps (svr_retried envs1 c)
  have hsent := svr_scenario_sent envs1 envs2 ps c
  have hn1 : (svr_retried envs1 c).num_retrans_tries = envs1.length := by
    show c.num_retrans_tries + (envs1.length : Int) = envs1.length
    rw [h0]; omega
  have hX : (svr_retried envs2 (svr_heard ps (svr_retried envs1 c))).num_retrans_tries + 1 =
      g.gMaxNumRetransTries := by
    show (svr_heard ps (svr_retried envs1 c)).num_retrans_tries + (envs2.length : Int) + 1 =
      g.gMaxNumRetransTries
    rw [hk.2.2.1, hn1, hmax]
  have hsX0 : (svr_retried envs2 (svr_heard ps (svr_retried envs1 c))).state = c.state := by
    show (svr_heard ps (svr_retried envs1 c)).state = c.state
    rw [hk.1]; rfl
  have hsX : (svr_retried envs2 (svr_heard ps (svr_retried envs1 c))).state = SVR_ST_PUTFILE_RXDATA ∨
      (svr_retried envs2 (svr_heard ps (svr_retried envs1 c))).state = SVR_ST_GETFILE_TXDATA := by
    rw [hsX0]; exact hs
  have htxX : (svr_retried envs2 (svr_heard ps (svr_retried envs1 c))).txBuf.length =
      MAX_TX_BUFF := by
    show (svr_heard ps (svr_retried envs1 c)).txBuf.length = MAX_TX_BUFF
    rw [hk.2.2.2.2.2.2.1]; exact htx
  have hg2 : ¬ ((⟨svr_retried envs2 (svr_heard ps (svr_retried envs1 c)), g⟩ :
      ServerLoop).g.gDone ≠ 0) := fun h => h hg
  have r4 : svr_events (svrScenario envs1 ps envs2 ++ [ServerEvent.timeout last]) ⟨c, g⟩ =
      ⟨svr_aborted (ascii "timeout waiting for ACK, closing connection\n")
        (svr_retried envs2 (svr_heard ps (svr_retried envs1 c))), g⟩ := by
    rw [svr_events_append, r3, svr_events, if_neg hg2, svr_events, svr_event]
    simp only []
    rw [svr_abort_step last g _ hsX hX]
  have he := errTxBuf_isError (svr_retried envs2 (svr_heard ps (svr_retried envs1 c))).serverSock
    (svr_retried envs2 (svr_heard ps (svr_retried envs1 c))).client_ip
    (svr_retried envs2 (svr_heard ps (svr_retried envs1 c))).client_Port _ htxX
    (ascii "timeout waiting for ACK, closing connection\n") (by decide)
  have hfin : (svr_aborted (ascii "timeout waiting for ACK, closing connection\n")
        (svr_retried envs2 (svr_heard ps (svr_retried envs1 c)))).sent =
      _ :: (List.replicate envs2.length
          ⟨c.serverSock, (svr_heard ps c).client_ip, c.lastTxPort, c.txBuf.take c.txLen⟩ ++
        (List.replicate envs1.length
          ⟨c.serverSock, c.client_ip, c.lastTxPort, c.txBuf.take c.txLen⟩ ++ c.sent)) :=
    congrArg (List.cons _) hsent
  have hd : ∀ d ∈ List.replicate envs2.length
        (⟨c.serverSock, (svr_heard ps c).client_ip, c.lastTxPort, c.txBuf.take c.txLen⟩ : Datagram) ++
      List.replicate envs1.length
        (⟨c.serverSock, c.client_ip, c.lastTxPort, c.txBuf.take c.txLen⟩ : Datagram),
      isErrorDatagram d = false := by
    intro d hd
    rcases List.mem_append.mp hd with h | h
    · rw [List.eq_of_mem_replicate h]
      unfold isErrorDatagram
      exact decide_eq_false hne
    · rw [List.eq_of_mem_replicate h]
      unfold isErrorDatagram
      exact decide_eq_false hne
  have hcount := filter_error_new _ _ c.sent he hd
  rw [List.length_append, List.length_replicate, List.length_replicate, List.append_assoc,
    Nat.add_comm envs2.length envs1.length] at hcount
  refine ⟨?_, ?_, ?_, ⟨?_, ?_⟩, ?_, ?_, ⟨_, he, ?_⟩, ?_, ?_⟩
  · rw [r1]; exact hn1
  · rw [r2, r1]
  · rw [r2]; exact hk.2.2.1.trans hn1
  · rw [r3]; exact hsX0
  · rw [r3]; exact hsent
  · rw [r4]; rfl
  · rw [r4]
  · rw [r4]; exact hfin
  · rw [r4, hfin, hcount]; rfl
  · rw [r4]; rfl

/-! ## Lemmas: the stores of the encoders -/

theorem applyStores_append (buf : List Nat) (a b : List (Nat × Nat)) :
    applyStores buf (a ++ b) = applyStores (applyStores buf a) b := by
  unfold applyStores
  rw [List.foldl_append]

theorem applyStores_length (stores : List (Nat × Nat)) :
    ∀ buf : List Nat, (applyStores buf stores).length = buf.length := by
  induction stores with
  | nil => intro buf; rfl
  | cons p ps ih =>
    intro buf
    have h : applyStores buf (p :: ps) = applyStores (buf.set p.1 p.2) ps := rfl
    rw [h, ih, List.length_set]

theorem memcpy_stores (src : List Nat) :
    ∀ (dst : List Nat) (off : Nat), memcpy dst off src = applyStores dst (memcpyStores off src) := by
  induction src with
  | nil => intro dst off; rfl
  | cons b bs ih =>
    intro dst off
    have h : applyStores dst (memcpyStores off (b :: bs)) =
        applyStores (dst.set off b) (memcpyStores (off + 1) bs) := rfl
    rw [h, ← ih]
    rfl

theorem memcpyStores_bound (src : List Nat) :
    ∀ (off : Nat) (p : Nat × Nat), p ∈ memcpyStores off src → off ≤ p.1 ∧ p.1 < off + src.length := by
  induction src with
  | nil => intro off p hp; exact absurd hp (List.not_mem_nil p)
  | cons b bs ih =>
    intro off p hp
    rcases List.mem_cons.mp hp with h | h
    · rw [h, List.length_cons]
      exact ⟨Nat.le_refl _, by omega⟩
    · have := ih (off + 1) p h
      rw [List.length_cons]
      omega

theorem ackTxBuf_stores (txBuf : List Nat) (b : Nat) :
    ackTxBuf txBuf b = applyStores txBuf (ackStores b) := rfl

theorem errTxBuf_stores (txBuf : List Nat) (c : Nat) (m : List Nat) :
    errTxBuf txBuf c m = applyStores txBuf (errorStores c m) := by
  unfold errTxBuf errorStores
  rw [applyStores_append, applyStores_append, memcpy_stores]
  rfl

theorem dataTxBuf_stores (txBuf : List Nat) (b : Nat) (bytes : List Nat) :
    dataTxBuf txBuf b bytes = applyStores txBuf (dataStores b bytes) := by
  unfold dataTxBuf dataStores
  rw [applyStores_append, memcpy_stores]
  rfl

theorem firstDataTxBuf_stores (txBuf : List Nat) (b : Nat) (bytes : List Nat) :
    firstDataTxBuf txBuf b bytes = applyStores txBuf (firstDataStores b bytes) := by
  unfold firstDataTxBuf firstDataStores
  rw [applyStores_append, memcpy_stores]
  rfl

theorem ackStores_bound (b : Nat) : StoresInTxBuf (ackStores b) := by
  intro p hp
  unfold ackStores at hp
  simp only [List.mem_cons, List.mem_singleton, List.not_mem_nil, or_false] at hp
  rcases hp with h | h | h | h <;> (rw [h]; unfold MAX_TX_BUFF; simp)

theorem errorStores_bound (c : Nat) (m : List Nat) (hm : strlen m ≤ PROT_MAX_DATA) :
    StoresInTxBuf (errorStores c m) := by
  unfold PROT_MAX_DATA at hm
  intro p hp
  unfold errorStores at hp
  rcases List.mem_append.mp hp with h | h
  · rcases List.mem_append.mp h with h | h
    · simp only [List.mem_cons, List.mem_singleton, List.not_mem_nil, or_false] at h
      rcases h with h | h | h | h <;> (rw [h]; unfold MAX_TX_BUFF; simp)
    · have := memcpyStores_bound _ _ _ h
      unfold strlen at hm
      unfold MAX_TX_BUFF
      omega
  · rw [List.mem_singleton] at h
    rw [h]
    unfold MAX_TX_BUFF
    show (5 + strlen m) % 65536 < 600
    omega

theorem dataStores_bound (b : Nat) (bytes : List Nat) (h : bytes.length ≤ PROT_MAX_DATA) :
    StoresInTxBuf (dataStores b bytes) := by
  unfold PROT_MAX_DATA at h
  intro p hp
  unfold dataStores at hp
  rcases List.mem_append.mp hp with h1 | h1
  · have := memcpyStores_bound _ _ _ h1
    unfold MAX_TX_BUFF
    omega
  · simp only [List.mem_cons, List.mem_singleton, List.not_mem_nil, or_false] at h1
    rcases h1 with h | h | h | h <;> (rw [h]; unfold MAX_TX_BUFF; simp)

theorem firstDataStores_bound (b : Nat) (bytes : List Nat) (h : bytes.length ≤ PROT_MAX_DATA) :
    StoresInTxBuf (firstDataStores b bytes) := by
  unfold PROT_MAX_DATA at h
  intro p hp
  unfold firstDataStores at hp
  rcases List.mem_append.mp hp with h1 | h1
  · simp only [List.mem_cons, List.mem_singleton, List.not_mem_nil, or_false] at h1
    rcases h1 with h | h | h | h <;> (rw [h]; unfold MAX_TX_BUFF; simp)
  · have := memcpyStores_bound _ _ _ h1
    unfold MAX_TX_BUFF
    omega

theorem requestStores_bound (op : Nat) (f : List Nat) (hf : strlen f ≤ PROT_MAX_DATA) :
    StoresInTxBuf (requestStores op f) := by
  unfold PROT_MAX_DATA at hf
  have ho : (cstr (ascii "octet") ++ [0]).length = 6 := by decide
  intro p hp
  unfold requestStores at hp
  rcases List.mem_append.mp hp with h | h
  · rcases List.mem_append.mp h with h | h
    · simp only [List.mem_cons, List.mem_singleton, List.not_mem_nil, or_false] at h
      rcases h with h | h <;> (rw [h]; unfold MAX_TX_BUFF; simp)
    · have := memcpyStores_bound _ _ _ h
      rw [List.length_append, List.length_singleton] at this
      unfold strlen at hf
      unfold MAX_TX_BUFF
      omega
  · have := memcpyStores_bound _ _ _ h
    rw [ho] at this
    unfold MAX_TX_BUFF
    omega

theorem errTxLen_bound (m : List Nat) (hm : strlen m ≤ PROT_MAX_DATA) :
    errTxLen m = strlen m + 6 ∧ errTxLen m ≤ MAX_TX_BUFF := by
  unfold PROT_MAX_DATA at hm
  unfold errTxLen MAX_TX_BUFF
  omega

theorem send_first_request_stores (env : Env) (g : Globals) (ctx : client_session_t)
    (operationStr f : List Nat) (hf : strlen f ≤ PROT_MAX_DATA) :
    (send_first_request env g ctx operationStr f).2.txBuf =
      applyStores ctx.txBuf (requestStores (requestOpcode operationStr) f) ∧
    (send_first_request env g ctx operationStr f).2.txLen = strlen f + 9 := by
  have hlen : ¬ strlen f > PROT_MAX_DATA := by omega
  have hocl : strlen (ascii "octet") = 5 := by decide
  have hmod : (0 + 2 + (strlen f + 1) + (5 + 1)) % 65536 = strlen f + 9 := by
    unfold PROT_MAX_DATA at hf
    omega
  have hst : ∀ txBuf op, applyStores txBuf (requestStores op f) =
      memcpy (memcpy ((txBuf.set 0 0x00).set 1 op) 2 (cstr f ++ [0])) (2 + (strlen f + 1))
        (cstr (ascii "octet") ++ [0]) := by
    intro txBuf op
    unfold requestStores
    rw [applyStores_append, applyStores_append, memcpy_stores, memcpy_stores]
    rfl
  rw [hst]
  unfold send_first_request requestOpcode
  simp only [hlen, if_false, hocl, client_change_state, Nat.zero_add] at hmod ⊢
  by_cases hop : cstr operationStr = ascii "getfile"
  · simp only [hop, if_true]
    by_cases hd : g.gFsmDebugOn = 0 <;> by_cases hr : env.sendRc = -1 <;>
      simp only [hd, hr, if_true, if_false, hmod, not_true_eq_false, and_self]
  · simp only [hop, if_false]
    by_cases hd : g.gFsmDebugOn = 0 <;> by_cases hr : env.sendRc = -1 <;>
      simp only [hd, hr, if_true, if_false, hmod, not_true_eq_false, and_self]

theorem send_first_request_long (env : Env) (g : Globals) (ctx : client_session_t)
    (operationStr f : List Nat) (hf : strlen f > PROT_MAX_DATA) :
    send_first_request env g ctx operationStr f = (0, ctx) := by
  unfold send_first_request
  simp only [hf, if_true]

theorem cl_send_error_pkt_long (env : Env) (ctx : client_session_t) (c : Nat) (m : List Nat)
    (hm : strlen m > PROT_MAX_DATA) : cl_send_error_pkt env ctx c m = (0, ctx) := by
  unfold cl_send_error_pkt
  simp only [hm, if_true]

theorem svr_send_error_pkt_long (env : Env) (ctx : server_session_t) (c : Nat) (m : List Nat)
    (hm : strlen m > PROT_MAX_DATA) : svr_send_error_pkt env ctx c m = (0, ctx) := by
  unfold svr_send_error_pkt
  simp only [hm, if_true]

/-! ## Lemmas: the stores of the decoder on a datagram of at most 516 bytes -/

theorem receive_stores_in_rxInfo (pf : prot_frame_info_t) (pktBuf : List Nat) (pktBufLen : Nat)
    (h : pktBufLen ≤ 4 + PROT_MAX_DATA) :
    ∀ w ∈ (receive_tftp_pkt pf pktBuf pktBufLen).2.writes, StoreInRxInfo w := by
  unfold PROT_MAX_DATA at h
  by_cases hl : pktBufLen < 4
  · rw [receive_short pf pktBuf pktBufLen hl]
    intro w hw
    exact absurd hw (List.not_mem_nil w)
  · have hl4 : 4 ≤ pktBufLen := by omega
    by_cases h0 : rd pktBuf 0 = 0
    · by_cases h3 : rd pktBuf 1 = 3
      · rw [receive_data_eq pf pktBuf pktBufLen hl4 h0 h3]
        intro w hw
        simp only [List.mem_reverse, List.mem_map, List.mem_range'_1] at hw
        obtain ⟨j, hj, rfl⟩ := hw
        unfold StoreInRxInfo RxField.offset PROT_MAX_DATA MAX_MODE_BUFF
        simp only []
        omega
      · by_cases h4 : rd pktBuf 1 = 4
        · rw [receive_ack_eq pf pktBuf pktBufLen hl4 h0 h4]
          intro w hw
          exact absurd hw (List.not_mem_nil w)
        · by_cases h12 : rd pktBuf 1 = 1 ∨ rd pktBuf 1 = 2
          · rw [receive_request_eq pf pktBuf pktBufLen hl4 h0 h12]
            intro w hw
            simp only [List.mem_cons, List.mem_reverse, List.mem_map, List.mem_range'_1] at hw
            rcases hw with rfl | rfl | ⟨j, hj, rfl⟩
            · decide
            · decide
            · unfold StoreInRxInfo RxField.offset PROT_MAX_DATA MAX_MODE_BUFF
              unfold PROT_MAX_DATA at hj
              simp only []
              omega
          · by_cases h5 : rd pktBuf 1 = 5
            · rw [receive_error_eq pf pktBuf pktBufLen hl4 h0 h5]
              intro w hw
              simp only [List.mem_cons, List.mem_reverse, List.mem_map, List.mem_range'_1] at hw
              rcases hw with rfl | ⟨j, hj, rfl⟩
              · decide
              · unfold StoreInRxInfo RxField.offset PROT_MAX_DATA MAX_MODE_BUFF
                unfold PROT_MAX_DATA at hj
                simp only []
                omega
            · have h1 : rd pktBuf 1 ≠ 1 := fun e => h12 (Or.inl e)
              have h2 : rd pktBuf 1 ≠ 2 := fun e => h12 (Or.inr e)
              have hw0 : (receive_tftp_pkt pf pktBuf pktBufLen).2.writes = [] := by
                unfold receive_tftp_pkt
                simp [hl, h0, h1, h2, h3, h4, h5, TFTP_DATA, TFTP_ACK, TFTP_RRQ, TFTP_WRQ,
                  TFTP_ERROR, RxRun.load]
              rw [hw0]
              intro w hw
              exact absurd hw (List.not_mem_nil w)
    · have hw0 : (receive_tftp_pkt pf pktBuf pktBufLen).2.writes = [] := by
        unfold receive_tftp_pkt
        simp [hl, h0, RxRun.load]
      rw [hw0]
      intro w hw
      exact absurd hw (List.not_mem_nil w)

/-! ## Lemmas: stores below index 600 keep the rest of the buffer -/

theorem applyStores_getElem (stores : List (Nat × Nat)) :
    ∀ (buf : List Nat) (i : Nat), (∀ p ∈ stores, p.1 ≠ i) →
      (applyStores buf stores)[i]? = buf[i]? := by
  induction stores with
  | nil => intro buf i _; rfl
  | cons p ps ih =>
    intro buf i h
    have h1 : applyStores buf (p :: ps) = applyStores (buf.set p.1 p.2) ps := rfl
    have hp : p.1 ≠ i := h p (List.mem_cons_self _ _)
    rw [h1, ih (buf.set p.1 p.2) i (fun q hq => h q (List.mem_cons_of_mem _ hq)),
      List.getElem?_set_ne hp]

theorem TxKept_refl (buf : List Nat) (len : Nat) : TxKept buf len buf len :=
  ⟨rfl, fun _ _ => rfl, Or.inl rfl⟩

theorem TxKept_trans {a b c : List Nat} {la lb lc : Nat} (h1 : TxKept a la b lb)
    (h2 : TxKept b lb c lc) : TxKept a la c lc := by
  obtain ⟨x1, x2, x3⟩ := h1
  obtain ⟨y1, y2, y3⟩ := h2
  refine ⟨y1.trans x1, fun i hi => (y2 i hi).trans (x2 i hi), ?_⟩
  rcases y3 with y3 | y3
  · rw [y3]; exact x3
  · exact Or.inr y3

theorem TxKept_stores (stores : List (Nat × Nat)) (h : StoresInTxBuf stores) (buf : List Nat)
    (len outLen : Nat) (hl : outLen = len ∨ outLen ≤ MAX_TX_BUFF) :
    TxKept buf len (applyStores buf stores) outLen := by
  refine ⟨applyStores_length stores buf, fun i hi => ?_, hl⟩
  apply applyStores_getElem
  intro p hp
  have := h p hp
  omega

theorem TxKept_err (buf : List Nat) (len c : Nat) (m : List Nat) (hm : strlen m ≤ PROT_MAX_DATA) :
    TxKept buf len (errTxBuf buf c m) (errTxLen m) := by
  rw [errTxBuf_stores]
  exact TxKept_stores _ (errorStores_bound c m hm) buf len _ (Or.inr (errTxLen_bound m hm).2)

theorem TxKept_ack (buf : List Nat) (len b : Nat) : TxKept buf len (ackTxBuf buf b) 4 := by
  rw [ackTxBuf_stores]
  exact TxKept_stores _ (ackStores_bound b) buf len _ (Or.inr (by decide))

theorem TxKept_data (buf : List Nat) (len b : Nat) (bytes : List Nat)
    (h : bytes.length ≤ PROT_MAX_DATA) :
    TxKept buf len (dataTxBuf buf b bytes) ((4 + bytes.length) % 65536) := by
  rw [dataTxBuf_stores]
  refine TxKept_stores _ (dataStores_bound b bytes h) buf len _ (Or.inr ?_)
  unfold PROT_MAX_DATA at h
  unfold MAX_TX_BUFF
  omega

theorem TxKept_firstData (buf : List Nat) (len b : Nat) (bytes : List Nat)
    (h : bytes.length ≤ PROT_MAX_DATA) :
    TxKept buf len (firstDataTxBuf buf b bytes) ((4 + bytes.length) % 65536) := by
  rw [firstDataTxBuf_stores]
  refine TxKept_stores _ (firstDataStores_bound b bytes h) buf len _ (Or.inr ?_)
  unfold PROT_MAX_DATA at h
  unfold MAX_TX_BUFF
  omega

theorem TxKept_fread (buf : List Nat) (len : Nat) (bytes : List Nat)
    (h : bytes.length ≤ PROT_MAX_DATA) : TxKept buf len (memcpy buf 4 bytes) len := by
  rw [memcpy_stores]
  refine TxKept_stores _ ?_ buf len _ (Or.inl rfl)
  intro p hp
  have := memcpyStores_bound _ _ _ hp
  unfold PROT_MAX_DATA at h
  unfold MAX_TX_BUFF
  omega

theorem TxKept_request (buf : List Nat) (len op : Nat) (f : List Nat)
    (hf : strlen f ≤ PROT_MAX_DATA) :
    TxKept buf len (applyStores buf (requestStores op f)) (strlen f + 9) := by
  refine TxKept_stores _ (requestStores_bound op f hf) buf len _ (Or.inr ?_)
  unfold PROT_MAX_DATA at hf
  unfold MAX_TX_BUFF
  omega

/-! ## Lemmas: what the handlers keep of the transmit buffer -/

theorem cl_getfile_write_txKept (env : Env) (g : Globals) (ctx : client_session_t) :
    TxKept ctx.txBuf ctx.txLen (cl_getfile_write env g ctx).2.1.txBuf
      (cl_getfile_write env g ctx).2.1.txLen := by
  have he4 := fun c => cl_send_error_pkt_form env c 0
    (ascii "error writing file data, closing connection") (by decide)
  have hm4 : strlen (ascii "error writing file data, closing connection") ≤ PROT_MAX_DATA := by
    decide
  unfold cl_getfile_write
  generalize ascii "error writing file data, closing connection" = m4 at he4 hm4 ⊢
  simp only [he4, cl_send_ack_form, cl_close_file_and_sock_form]
  by_cases h1 : (fwrite env ctx.rxInfo.dataBuf (size_t_of ((ctx.rxInfo.rxLen : Int) - 4)) ctx.pFile).1 ≠
      size_t_of ((ctx.rxInfo.rxLen : Int) - 4)
  · simp only [h1, if_true, ne_eq, not_false_eq_true]
    exact TxKept_err _ _ _ _ hm4
  · simp only [h1, if_false]
    by_cases h2 : ctx.rxInfo.isLastDataBlock ≠ 0
    · simp only [h2, if_true, ne_eq, not_false_eq_true]
      exact TxKept_ack _ _ _
    · simp only [h2, if_false]
      exact TxKept_ack _ _ _

theorem cl_getfile_rxData_txKept (env : Env) (g : Globals) (ctx : client_session_t) (ev : Nat) :
    TxKept ctx.txBuf ctx.txLen (cl_getfile_rxData env g ctx ev).2.1.txBuf
      (cl_getfile_rxData env g ctx ev).2.1.txLen := by
  have he1 := fun c => cl_send_error_pkt_form env c 0
    (ascii "timeout waiting for data, closing connection") (by decide)
  have hm1 : strlen (ascii "timeout waiting for data, closing connection") ≤ PROT_MAX_DATA := by
    decide
  have he2 := fun c => cl_send_error_pkt_form env c 1
    (ascii "error, failed to open file for writing") (by decide)
  have hm2 : strlen (ascii "error, failed to open file for writing") ≤ PROT_MAX_DATA := by
    decide
  have he3 := fun c => cl_send_error_pkt_form env c 0
    (ascii "error unexpected optcode recieved") (by decide)
  have hm3 : strlen (ascii "error unexpected optcode recieved") ≤ PROT_MAX_DATA := by
    decide
  unfold cl_getfile_rxData
  generalize ascii "timeout waiting for data, closing connection" = m1 at he1 hm1 ⊢
  generalize ascii "error, failed to open file for writing" = m2 at he2 hm2 ⊢
  generalize ascii "error unexpected optcode recieved" = m3 at he3 hm3 ⊢
  by_cases hev : ev = EV_CL_TIMEOUT
  · simp only [hev, if_true]
    by_cases hn : ctx.num_retrans_tries + 1 = g.gMaxNumRetransTries
    · simp only [hn, if_true, he1, cl_close_file_and_sock_form]
      exact TxKept_err _ _ _ _ hm1
    · simp only [hn, if_false, cl_send_packet_buffer_form]
      exact TxKept_refl _ _
  · simp only [hev, if_false]
    by_cases hpdu : ev = EV_CL_PDU_RX
    · simp only [hpdu, if_true]
      by_cases hop : ctx.rxInfo.optcode = TFTP_DATA
      · simp only [hop, if_true]
        by_cases hb : ctx.rxInfo.blocknum ≠ ctx.nextExpectedBlockNum
        · simp only [hb, if_true, ne_eq, not_false_eq_true]
          exact TxKept_refl _ _
        · simp only [hb, if_false]
          by_cases hf : ctx.isFirstDataBlock ≠ 0
          · simp only [hf, if_true, ne_eq, not_false_eq_true]
            by_cases ho : env.fopenWrite (cstr ctx.filename) = true
            · simp only [ho, if_true, reduceCtorEq, if_false]
              exact cl_getfile_write_txKept env g _
            · simp only [ho, if_false, if_true, he2]
              exact TxKept_err _ _ _ _ hm2
          · simp only [hf, if_false]
            exact cl_getfile_write_txKept env g _
      · simp only [hop, if_false]
        by_cases hop2 : ctx.rxInfo.optcode = TFTP_ERROR
        · simp only [hop2, if_true, cl_close_file_and_sock_form]
          exact TxKept_refl _ _
        · simp only [hop2, if_false, he3, cl_close_file_and_sock_form]
          exact TxKept_err _ _ _ _ hm3
    · simp only [hpdu, if_false]
      exact TxKept_refl _ _

theorem cl_putfile_txData_txKept (env : Env) (g : Globals) (ctx : client_session_t) (ev : Nat) :
    TxKept ctx.txBuf ctx.txLen (cl_putfile_txData env g ctx ev).2.1.txBuf
      (cl_putfile_txData env g ctx ev).2.1.txLen := by
  have he1 := fun c => cl_send_error_pkt_form env c 0
    (ascii "timeout waiting for ack, closing connection\n") (by decide)
  have hm1 : strlen (ascii "timeout waiting for ack, closing connection\n") ≤ PROT_MAX_DATA := by
    decide
  have he2 := fun c => cl_send_error_pkt_form env c 0
    (ascii "error sending data packet, closing connection") (by decide)
  have hm2 : strlen (ascii "error sending data packet, closing connection") ≤ PROT_MAX_DATA := by
    decide
  have he3 := fun c => cl_send_error_pkt_form env c 0
    (ascii "error unexpected optcode recieved") (by decide)
  have hm3 : strlen (ascii "error unexpected optcode recieved") ≤ PROT_MAX_DATA := by
    decide
  unfold cl_putfile_txData
  generalize ascii "timeout waiting for ack, closing connection\n" = m1 at he1 hm1 ⊢
  generalize ascii "error sending data packet, closing connection" = m2 at he2 hm2 ⊢
  generalize ascii "error unexpected optcode recieved" = m3 at he3 hm3 ⊢
  by_cases hev : ev = EV_CL_TIMEOUT
  · simp only [hev, if_true]
    by_cases hn : ctx.num_retrans_tries + 1 = g.gMaxNumRetransTries
    · simp only [hn, if_true, he1, cl_close_file_and_sock_form]
      exact TxKept_err _ _ _ _ hm1
    · simp only [hn, if_false, cl_send_packet_buffer_form]
      exact TxKept_refl _ _
  · simp only [hev, if_false]
    by_cases hpdu : ev = EV_CL_PDU_RX
    · simp only [hpdu, if_true]
      by_cases hop : ctx.rxInfo.optcode = TFTP_ACK
      · simp only [hop, if_true]
        by_cases hb : ctx.rxInfo.blocknum ≠ ctx.nextExpectedBlockNum
        · simp only [hb, if_true, ne_eq, not_false_eq_true]
          exact TxKept_refl _ _
        · simp only [hb, if_false]
          by_cases hd : (fread ctx.pFile PROT_MAX_DATA).1.length = 0 ∧ ctx.isFirstDataBlock = 0 ∧
              (ctx.txLen : Int) - 4 < PROT_MAX_DATA
          · simp only [hd, if_true]
            exact TxKept_fread _ _ _ (fread_length_le _ _)
          · simp only [hd, if_false, cl_send_packet_buffer]
            by_cases hr : env.sendRc < 0
            · simp only [hr, if_true, he2, cl_close_file_and_sock_form]
              exact TxKept_trans (TxKept_data _ _ _ _ (fread_length_le _ _)) (TxKept_err _ _ _ _ hm2)
            · simp only [hr, if_false]
              exact TxKept_data _ _ _ _ (fread_length_le _ _)
      · simp only [hop, if_false]
        by_cases hop2 : ctx.rxInfo.optcode = TFTP_ERROR
        · simp only [hop2, if_true, cl_close_file_and_sock_form]
          exact TxKept_refl _ _
        · simp only [hop2, if_false, he3, cl_close_file_and_sock_form]
          exact TxKept_err _ _ _ _ hm3
    · simp only [hpdu, if_false]
      exact TxKept_refl _ _

theorem svr_wait_first_request_txKept (env : Env) (g : Globals) (ctx : server_session_t) (ev : Nat) :
    TxKept ctx.txBuf ctx.txLen (svr_wait_first_request env g ctx ev).txBuf
      (svr_wait_first_request env g ctx ev).txLen := by
  have he1 := fun c => svr_send_error_pkt_form env c 1 (ascii "file not found") (by decide)
  have hm1 : strlen (ascii "file not found") ≤ PROT_MAX_DATA := by
    decide
  have he2 := fun c => svr_send_error_pkt_form env c 0 (ascii "error sending data packet") (by decide)
  have hm2 : strlen (ascii "error sending data packet") ≤ PROT_MAX_DATA := by
    decide
  unfold svr_wait_first_request
  generalize ascii "file not found" = m1 at he1 hm1 ⊢
  generalize ascii "error sending data packet" = m2 at he2 hm2 ⊢
  by_cases hev : ev = EV_SVR_PDU_RX
  · simp only [hev, if_true]
    by_cases hop : ctx.rxInfo.optcode = TFTP_WRQ
    · simp only [hop, if_true]
      by_cases ho : env.fopenWrite (cstr ctx.rxInfo.filename) = true
      · simp only [ho, if_true, reduceCtorEq, if_false, svr_send_ack_form, server_change_state]
        by_cases hd : g.gFsmDebugOn = 0
        · simp only [hd, if_true]
          exact TxKept_ack _ _ _
        · simp only [hd, if_false]
          exact TxKept_ack _ _ _
      · simp only [ho, if_false, if_true, he1]
        exact TxKept_err _ _ _ _ hm1
    · simp only [hop, if_false]
      by_cases hop2 : ctx.rxInfo.optcode = TFTP_RRQ
      · simp only [hop2, if_true]
        cases hfo : env.fopenRead (cstr ctx.rxInfo.filename) with
        | none =>
          simp only [Option.map_none', if_true, he1]
          exact TxKept_err _ _ _ _ hm1
        | some content =>
          simp only [Option.map_some', reduceCtorEq, if_false, svr_send_packet_buffer,
            server_change_state]
          by_cases hr : env.sendRc < 0
          · simp only [hr, if_true, he2]
            exact TxKept_trans (TxKept_firstData _ _ _ _ (fread_length_le _ _)) (TxKept_err _ _ _ _ hm2)
          · simp only [hr, if_false]
            by_cases hd : g.gFsmDebugOn = 0
            · simp only [hd, if_true]
              exact TxKept_firstData _ _ _ _ (fread_length_le _ _)
            · simp only [hd, if_false]
              exact TxKept_firstData _ _ _ _ (fread_length_le _ _)
      · simp only [hop2, if_false, he2, server_change_state]
        exact TxKept_err _ _ _ _ hm2
  · simp only [hev, if_false, server_change_state]
    exact TxKept_refl _ _

theorem svr_getfile_txData_txKept (env : Env) (g : Globals) (ctx : server_session_t) (ev : Nat) :
    TxKept ctx.txBuf ctx.txLen (svr_getfile_txData env g ctx ev).txBuf
      (svr_getfile_txData env g ctx ev).txLen := by
  have he1 := fun c => svr_send_error_pkt_form env c 0
    (ascii "timeout waiting for ACK, closing connection\n") (by decide)
  have hm1 : strlen (ascii "timeout waiting for ACK, closing connection\n") ≤ PROT_MAX_DATA := by
    decide
  have he2 := fun c => svr_send_error_pkt_form env c 0
    (ascii "error sending data packet, closing connection") (by decide)
  have hm2 : strlen (ascii "error sending data packet, closing connection") ≤ PROT_MAX_DATA := by
    decide
  have he3 := fun c => svr_send_error_pkt_form env c 0 (ascii "error, unexpected optcode") (by decide)
  have hm3 : strlen (ascii "error, unexpected optcode") ≤ PROT_MAX_DATA := by
    decide
  unfold svr_getfile_txData
  generalize ascii "timeout waiting for ACK, closing connection\n" = m1 at he1 hm1 ⊢
  generalize ascii "error sending data packet, closing connection" = m2 at he2 hm2 ⊢
  generalize ascii "error, unexpected optcode" = m3 at he3 hm3 ⊢
  by_cases hev : ev = EV_SVR_TIMEOUT
  · simp only [hev, if_true]
    by_cases hn : ctx.num_retrans_tries + 1 = g.gMaxNumRetransTries
    · simp only [hn, if_true, he1, svr_close_file_form, server_change_state]
      exact TxKept_err _ _ _ _ hm1
    · simp only [hn, if_false, svr_send_packet_buffer_form]
      exact TxKept_refl _ _
  · simp only [hev, if_false]
    by_cases hpdu : ev = EV_SVR_PDU_RX
    · simp only [hpdu, if_true]
      by_cases hop : ctx.rxInfo.optcode = TFTP_ACK
      · simp only [hop, if_true]
        by_cases hb : ctx.rxInfo.blocknum ≠ ctx.nextExpectedBlockNum
        · simp only [hb, if_true, ne_eq, not_false_eq_true]
          exact TxKept_refl _ _
        · simp only [hb, if_false]
          by_cases hd : (fread ctx.pFile PROT_MAX_DATA).1.length = 0 ∧
              (ctx.txLen : Int) - 4 < PROT_MAX_DATA
          · simp only [hd, if_true, svr_close_file_form, server_change_state]
            exact TxKept_fread _ _ _ (fread_length_le _ _)
          · simp only [hd, if_false, svr_send_packet_buffer]
            by_cases hr : env.sendRc < 0
            · simp only [hr, if_true, he2, server_change_state]
              exact TxKept_trans (TxKept_data _ _ _ _ (fread_length_le _ _)) (TxKept_err _ _ _ _ hm2)
            · simp only [hr, if_false]
              exact TxKept_data _ _ _ _ (fread_length_le _ _)
      · simp only [hop, if_false]
        by_cases hop2 : ctx.rxInfo.optcode = TFTP_ERROR
        · simp only [hop2, if_true, server_change_state]
          exact TxKept_refl _ _
        · simp only [hop2, if_false, he3, server_change_state]
          exact TxKept_err _ _ _ _ hm3
    · simp only [hpdu, if_false]
      exact TxKept_refl _ _

theorem svr_putfile_rxData_txKept (env : Env) (g : Globals) (ctx : server_session_t) (ev : Nat) :
    TxKept ctx.txBuf ctx.txLen (svr_putfile_rxData env g ctx ev).txBuf
      (svr_putfile_rxData env g ctx ev).txLen := by
  have he1 := fun c => svr_send_error_pkt_form env c 0
    (ascii "timeout waiting for ACK, closing connection\n") (by decide)
  have hm1 : strlen (ascii "timeout waiting for ACK, closing connection\n") ≤ PROT_MAX_DATA := by
    decide
  have he2 := fun c => svr_send_error_pkt_form env c 0
    (ascii "error writing file data, closing connection") (by decide)
  have hm2 : strlen (ascii "error writing file data, closing connection") ≤ PROT_MAX_DATA := by
    decide
  have he3 := fun c => svr_send_error_pkt_form env c 0 (ascii "error, unexpected optcode") (by decide)
  have hm3 : strlen (ascii "error, unexpected optcode") ≤ PROT_MAX_DATA := by
    decide
  unfold svr_putfile_rxData
  generalize ascii "timeout waiting for ACK, closing connection\n" = m1 at he1 hm1 ⊢
  generalize ascii "error writing file data, closing connection" = m2 at he2 hm2 ⊢
  generalize ascii "error, unexpected optcode" = m3 at he3 hm3 ⊢
  by_cases hev : ev = EV_SVR_TIMEOUT
  · simp only [hev, if_true]
    by_cases hn : ctx.num_retrans_tries + 1 = g.gMaxNumRetransTries
    · simp only [hn, if_true, he1, svr_close_file_form, server_change_state]
      exact TxKept_err _ _ _ _ hm1
    · simp only [hn, if_false, svr_send_packet_buffer_form]
      exact TxKept_refl _ _
  · simp only [hev, if_false]
    by_cases hpdu : ev = EV_SVR_PDU_RX
    · simp only [hpdu, if_true]
      by_cases hop : ctx.rxInfo.optcode = TFTP_DATA
      · simp only [hop, if_true]
        by_cases hb : ctx.rxInfo.blocknum ≠ ctx.nextExpectedBlockNum
        · simp only [hb, if_true, ne_eq, not_false_eq_true]
          exact TxKept_refl _ _
        · simp only [hb, if_false]
          by_cases h1 : (fwrite env ctx.rxInfo.dataBuf (size_t_of ((ctx.rxInfo.rxLen : Int) - 4))
              ctx.pFile).1 ≠ size_t_of ((ctx.rxInfo.rxLen : Int) - 4)
          · simp only [h1, if_true, ne_eq, not_false_eq_true, he2, server_change_state]
            exact TxKept_err _ _ _ _ hm2
          · simp only [h1, if_false]
            by_cases h2 : ctx.rxInfo.isLastDataBlock ≠ 0
            · simp only [h2, if_true, ne_eq, not_false_eq_true, svr_send_ack_form,
                svr_close_file_form, server_change_state]
              exact TxKept_ack _ _ _
            · simp only [h2, if_false, svr_send_ack_form]
              exact TxKept_ack _ _ _
      · simp only [hop, if_false]
        by_cases hop2 : ctx.rxInfo.optcode = TFTP_ERROR
        · simp only [hop2, if_true, server_change_state]
          exact TxKept_refl _ _
        · simp only [hop2, if_false, he3, server_change_state]
          exact TxKept_err _ _ _ _ hm3
    · simp only [hpdu, if_false]
      exact TxKept_refl _ _

theorem cl_fsm_event_txKept (env : Env) (g : Globals) (ctx : client_session_t) (ev : Nat) :
    TxKept ctx.txBuf ctx.txLen (cl_fsm_event env g ctx ev).2.1.txBuf
      (cl_fsm_event env g ctx ev).2.1.txLen := by
  unfold cl_fsm_event
  by_cases h1 : ctx.state = CL_ST_GETFILE_RXDATA
  · simp only [h1, if_true]
    split
    · exact cl_getfile_rxData_txKept env g ctx ev
    · exact cl_getfile_rxData_txKept env g ctx ev
  · simp only [h1, if_false]
    by_cases h2 : ctx.state = CL_ST_PUTFILE_TXDATA
    · simp only [h2, if_true]
      split
      · exact cl_putfile_txData_txKept env g ctx ev
      · exact cl_putfile_txData_txKept env g ctx ev
    · simp only [h2, if_false]
      exact TxKept_refl _ _

theorem svr_fsm_event_txKept (env : Env) (g : Globals) (ctx : server_session_t) (ev : Nat) :
    TxKept ctx.txBuf ctx.txLen (svr_fsm_event env g ctx ev).txBuf
      (svr_fsm_event env g ctx ev).txLen := by
  unfold svr_fsm_event
  split
  · exact svr_getfile_txData_txKept env g ctx ev
  · split
    · exact svr_putfile_rxData_txKept env g ctx ev
    · split
      · exact svr_wait_first_request_txKept env g ctx ev
      · exact TxKept_refl _ _

/-! ## Lemmas: the transmit buffer after the DATA encoders, for a buffer of any length -/

theorem cl_putfile_txData_buf (env : Env) (g : Globals) (ctx : client_session_t)
    (hop : ctx.rxInfo.optcode = TFTP_ACK) (hb : ctx.rxInfo.blocknum = ctx.nextExpectedBlockNum)
    (hgo : ¬ ((fread ctx.pFile PROT_MAX_DATA).1.length = 0 ∧ ctx.isFirstDataBlock = 0 ∧
      (ctx.txLen : Int) - 4 < PROT_MAX_DATA))
    (hrc : 0 ≤ env.sendRc) :
    (cl_putfile_txData env g ctx EV_CL_PDU_RX).2.1.txBuf =
      dataTxBuf ctx.txBuf ((ctx.blockNum + 1) % 65536) (fread ctx.pFile PROT_MAX_DATA).1 ∧
    (cl_putfile_txData env g ctx EV_CL_PDU_RX).2.1.txLen =
      (4 + (fread ctx.pFile PROT_MAX_DATA).1.length) % 65536 := by
  have hr : ¬ env.sendRc < 0 := by omega
  have h10 : ¬ ((1 : Nat) = 0) := by decide
  unfold cl_putfile_txData dataTxBuf
  simp only [EV_CL_PDU_RX, EV_CL_TIMEOUT, hop, hb, hgo, if_false, if_true, h10,
    ne_eq, not_true_eq_false, Nat.zero_add, cl_send_packet_buffer, hr, and_self]

theorem svr_getfile_txData_buf (env : Env) (g : Globals) (ctx : server_session_t)
    (hop : ctx.rxInfo.optcode = TFTP_ACK) (hb : ctx.rxInfo.blocknum = ctx.nextExpectedBlockNum)
    (hgo : ¬ ((fread ctx.pFile PROT_MAX_DATA).1.length = 0 ∧
      (ctx.txLen : Int) - 4 < PROT_MAX_DATA))
    (hrc : 0 ≤ env.sendRc) :
    (svr_getfile_txData env g ctx EV_SVR_PDU_RX).txBuf =
      dataTxBuf ctx.txBuf ((ctx.blockNum + 1) % 65536) (fread ctx.pFile PROT_MAX_DATA).1 ∧
    (svr_getfile_txData env g ctx EV_SVR_PDU_RX).txLen =
      (4 + (fread ctx.pFile PROT_MAX_DATA).1.length) % 65536 := by
  have hr : ¬ env.sendRc < 0 := by omega
  have h10 : ¬ ((1 : Nat) = 0) := by decide
  unfold svr_getfile_txData dataTxBuf
  simp only [EV_SVR_PDU_RX, EV_SVR_TIMEOUT, hop, hb, hgo, if_false, if_true, h10,
    ne_eq, not_true_eq_false, Nat.zero_add, svr_send_packet_buffer, hr, and_self]

theorem svr_wait_first_request_buf (env : Env) (g : Globals) (ctx : server_session_t)
    (content : List Nat) (hop : ctx.rxInfo.optcode = TFTP_RRQ)
    (hopen : env.fopenRead (cstr ctx.rxInfo.filename) = some content)
    (hrc : 0 ≤ env.sendRc) :
    (svr_wait_first_request env g ctx EV_SVR_PDU_RX).txBuf =
      firstDataTxBuf ctx.txBuf 1 (blockOf content 0) ∧
    (svr_wait_first_request env g ctx EV_SVR_PDU_RX).txLen =
      (4 + (blockOf content 0).length) % 65536 := by
  have hblk : blockOf content 0 = content.take PROT_MAX_DATA := by
    simp [blockOf]
  have h12 : ¬ ((1 : Nat) = 2) := by decide
  have h10 : ¬ ((1 : Nat) = 0) := by decide
  have hr : ¬ env.sendRc < 0 := by omega
  rw [hblk]
  unfold firstDataTxBuf
  unfold svr_wait_first_request
  simp only [EV_SVR_PDU_RX, hop, hopen, TFTP_RRQ, TFTP_WRQ, h12, if_false, if_true,
    Option.map_some', fread, List.drop_zero, ne_eq, not_true_eq_false, Nat.zero_add,
    svr_send_packet_buffer, reduceCtorEq, hr, h10, server_change_state]
  by_cases hd : g.gFsmDebugOn = 0 <;> simp only [hd, if_true, if_false, and_self]

/-! ## C1 -/

/-- C1: for every block number `b < 65536` and payload `p` of at most 512 bytes,
`receive_tftp_pkt` on the DATA packet `00 03 b_hi b_lo p` (length `4 + |p|`, held
in any receive buffer) returns 1 with opcode 3, block number `b`, the first `|p|`
bytes of `dataBuf` equal to `p`, `rxLen - 4 = |p|` and `isLastDataBlock = 1`
exactly when `|p| < 512`; and on the ACK packet built by `cl_send_ack` and by
`svr_send_ack` for block `b` it returns 1 with opcode 4 and block number `b`. -/
theorem data_ack_decode_encode (pf : prot_frame_info_t) (hpf : pf.WellSized) (b : Nat)
    (hb : b < 65536) (p rest : List Nat) (hp : p.length ≤ 512)
    (env : Env) (cl : client_session_t) (sv : server_session_t)
    (hcl : cl.txBuf.length = MAX_TX_BUFF) (hsv : sv.txBuf.length = MAX_TX_BUFF)
    (hclb : cl.blockNum = b) (hsvb : sv.blockNum = b) :
    (let out := receive_tftp_pkt pf ([0, 3, b / 256, b % 256] ++ p ++ rest) (4 + p.length)
     out.1 = 1 ∧ out.2.pf.optcode = TFTP_DATA ∧ out.2.pf.blocknum = b ∧
       out.2.pf.dataBuf.take p.length = p ∧ out.2.pf.rxLen - 4 = p.length ∧
       (out.2.pf.isLastDataBlock = 1 ↔ p.length < 512)) ∧
    (let tx := (cl_send_ack env cl).2
     let out := receive_tftp_pkt pf (lastSent tx.sent ++ rest) tx.txLen
     out.1 = 1 ∧ out.2.pf.optcode = TFTP_ACK ∧ out.2.pf.blocknum = b) ∧
    (let tx := (svr_send_ack env sv).2
     let out := receive_tftp_pkt pf (lastSent tx.sent ++ rest) tx.txLen
     out.1 = 1 ∧ out.2.pf.optcode = TFTP_ACK ∧ out.2.pf.blocknum = b) := by
  have hack : ∀ c : Nat, c = b →
      let out := receive_tftp_pkt pf ([0, 4, c / 256, c % 256] ++ rest) 4
      out.1 = 1 ∧ out.2.pf.optcode = TFTP_ACK ∧ out.2.pf.blocknum = b := by
    intro c hc
    subst hc
    rw [receive_ack_eq pf _ 4 (by omega) (by simp [rd]) (by simp [rd])]
    simp [TFTP_ACK, ntohs_at, rd]
    omega
  refine ⟨?_, ?_, ?_⟩
  · rw [data_roundtrip pf hpf b p rest hp]
    simp only [TFTP_DATA, PROT_MAX_DATA, true_and, List.take_left', Nat.add_sub_cancel_left]
    split <;> simp_all
  · rw [cl_send_ack_eq env cl hcl (by omega)]
    exact hack cl.blockNum hclb
  · rw [svr_send_ack_eq env sv hsv (by omega)]
    exact hack sv.blockNum hsvb

/-- Witness for C1: block 258, payload `ABC`, zeroed
receive structure, ACKs built from the initial sessions with block number 258. -/
theorem data_ack_decode_encode_witness :
    prot_frame_info_t.zero.WellSized ∧ 258 < 65536 ∧ [65, 66, 67].length ≤ 512 ∧
    ((let out := receive_tftp_pkt prot_frame_info_t.zero
        ([0, 3, 258 / 256, 258 % 256] ++ [65, 66, 67] ++ []) (4 + [65, 66, 67].length)
      out.1 = 1 ∧ out.2.pf.optcode = TFTP_DATA ∧ out.2.pf.blocknum = 258 ∧
        out.2.pf.dataBuf.take [65, 66, 67].length = [65, 66, 67] ∧
        out.2.pf.rxLen - 4 = [65, 66, 67].length ∧
        (out.2.pf.isLastDataBlock = 1 ↔ [65, 66, 67].length < 512)) ∧
     (let tx := (cl_send_ack Env.sample sampleAckClient).2
      let out := receive_tftp_pkt prot_frame_info_t.zero (lastSent tx.sent ++ []) tx.txLen
      out.1 = 1 ∧ out.2.pf.optcode = TFTP_ACK ∧ out.2.pf.blocknum = 258) ∧
     (let tx := (svr_send_ack Env.sample sampleAckServer).2
      let out := receive_tftp_pkt prot_frame_info_t.zero (lastSent tx.sent ++ []) tx.txLen
      out.1 = 1 ∧ out.2.pf.optcode = TFTP_ACK ∧ out.2.pf.blocknum = 258)) :=
  ⟨zero_wellSized, by decide, by decide,
    data_ack_decode_encode prot_frame_info_t.zero zero_wellSized 258 (by decide) [65, 66, 67] []
      (by decide) Env.sample
      sampleAckClient sampleAckServer
      (List.length_replicate MAX_TX_BUFF 0) (List.length_replicate MAX_TX_BUFF 0) rfl rfl⟩

/-! ## C2 -/

/-- C2 (evaluation at the failing input): the RRQ packet that `send_first_request`
builds for `getfile a` is `00 01 'a' 00 "octet" 00`, and the WRQ packet for
`putfile a` is the same with opcode 2; `receive_tftp_pkt` on each returns 1 with
that opcode and the filename string `a`, but the `mode` member is not "octet": no
element of `mode` below its capacity 12 is stored, and `mode` still holds the
zeros it held before. -/
theorem request_roundtrip_loses_mode :
    rrqDatagram = [0, 1, 97, 0, 111, 99, 116, 101, 116, 0] ∧
    wrqDatagram = [0, 2, 97, 0, 111, 99, 116, 101, 116, 0] ∧
    (decodeInRxBuf rrqDatagram).1 = 1 ∧ (decodeInRxBuf rrqDatagram).2.pf.optcode = 1 ∧
    cstr (decodeInRxBuf rrqDatagram).2.pf.filename = ascii "a" ∧
    (decodeInRxBuf wrqDatagram).1 = 1 ∧ (decodeInRxBuf wrqDatagram).2.pf.optcode = 2 ∧
    cstr (decodeInRxBuf wrqDatagram).2.pf.filename = ascii "a" ∧
    (decodeInRxBuf rrqDatagram).2.pf.mode = List.replicate 12 0 ∧
    (decodeInRxBuf wrqDatagram).2.pf.mode = List.replicate 12 0 ∧
    cstr (decodeInRxBuf rrqDatagram).2.pf.mode ≠ ascii "octet" ∧
    cstr (decodeInRxBuf wrqDatagram).2.pf.mode ≠ ascii "octet" ∧
    (∀ w ∈ (decodeInRxBuf rrqDatagram).2.writes, w.1 = RxField.mode → ¬ w.2 < MAX_MODE_BUFF) := by
  decide

/-! ## C3 -/

/-- C3 (evaluation at the failing input): the ERROR packet that the client sends
when an upload of 512 bytes `A` is aborted by the third time-out is built by
`cl_send_error_pkt` for code 0 and the 44-byte time-out message over the DATA
block last sent; `receive_tftp_pkt` decodes it with return value 1, opcode 5 and
`errCode` 0, but the `errMessage` string is the message followed by the byte
`0x41` of the DATA block, not the message. -/
theorem error_roundtrip_appends_stale_byte :
    lastSent uploadAborted.sent =
      lastSent (cl_send_error_pkt Env.sample uploadAwaitingAck 0 timeoutMsg).2.sent ∧
    (decodeInRxBuf (lastSent uploadAborted.sent)).1 = 1 ∧
    (decodeInRxBuf (lastSent uploadAborted.sent)).2.pf.optcode = 5 ∧
    (decodeInRxBuf (lastSent uploadAborted.sent)).2.pf.errCode = 0 ∧
    cstr (decodeInRxBuf (lastSent uploadAborted.sent)).2.pf.errMessage = timeoutMsg ++ [0x41] ∧
    cstr (decodeInRxBuf (lastSent uploadAborted.sent)).2.pf.errMessage ≠ timeoutMsg := by
  decide

/-! ## C4 -/

/-- C4 (evaluation at the failing input): in an upload of 512 bytes `A` the
transmit buffer holds the DATA block last sent (`00 03 00 01` and the 512 bytes
`0x41`); the packet that `cl_send_error_pkt` and `svr_send_error_pkt` produce over
such a buffer for code 0 and the 44-byte time-out message has `|m| + 6` bytes, not
`|m| + 5`: the byte after the message is the byte `0x41` the buffer held at index
`4 + |m|`, and the NUL follows it.  It is the packet the client sends on the third
time-out.  From a zeroed transmit buffer the same call produces a different
packet. -/
theorem error_packet_carries_stale_byte :
    uploadAwaitingAck.txBuf = [0, 3, 0, 1] ++ List.replicate 512 0x41 ++ List.replicate 84 0 ∧
    timeoutMsg.length = 44 ∧
    lastSent (cl_send_error_pkt Env.sample uploadAwaitingAck 0 timeoutMsg).2.sent =
      [0, 5, 0, 0] ++ timeoutMsg ++ [0x41, 0] ∧
    (cl_send_error_pkt Env.sample uploadAwaitingAck 0 timeoutMsg).2.txLen = timeoutMsg.length + 6 ∧
    lastSent (svr_send_error_pkt Env.sample downloadAwaitingAck 0 timeoutMsg).2.sent =
      [0, 5, 0, 0] ++ timeoutMsg ++ [0x41, 0] ∧
    (svr_send_error_pkt Env.sample downloadAwaitingAck 0 timeoutMsg).2.txLen = timeoutMsg.length + 6 ∧
    lastSent (cl_send_error_pkt Env.sample uploadAwaitingAck 0 timeoutMsg).2.sent ≠
      [0, 5, 0, 0] ++ timeoutMsg ++ [0] ∧
    lastSent uploadAborted.sent = [0, 5, 0, 0] ++ timeoutMsg ++ [0x41, 0] ∧
    uploadAborted.txLen = timeoutMsg.length + 6 ∧
    lastSent (cl_send_error_pkt Env.sample
        (client_session_init Globals.init 3 (ascii "10.0.0.1") (ascii "b.bin")) 0 timeoutMsg).2.sent =
      [0, 5, 0, 0] ++ timeoutMsg ++ [0, 0] := by
  decide

/-! ## C5 -/

/-- C5: `receive_tftp_pkt` returns 0 for every buffer of length below 4, for every
buffer whose first byte is not 0, and for every buffer of length at least 4 with
first byte 0 whose second byte is none of 1, 2, 3, 4, 5. -/
theorem receive_rejects_malformed (pf : prot_frame_info_t) (pktBuf : List Nat) (pktBufLen : Nat)
    (h : pktBufLen < 4 ∨ rd pktBuf 0 ≠ 0 ∨
      (4 ≤ pktBufLen ∧ rd pktBuf 0 = 0 ∧ rd pktBuf 1 ∉ [1, 2, 3, 4, 5])) :
    (receive_tftp_pkt pf pktBuf pktBufLen).1 = 0 := by
  rcases h with h | h | ⟨_, _, h⟩
  · rw [receive_short pf pktBuf pktBufLen h]
  · exact receive_first_nonzero pf pktBuf pktBufLen h
  · simp only [List.mem_cons, List.mem_singleton, not_or, List.not_mem_nil, or_false] at h
    exact receive_bad_opcode pf pktBuf pktBufLen h.1 h.2.1 h.2.2.1 h.2.2.2.1 h.2.2.2.2

/-- Witness for C5: a 3-byte buffer, a buffer starting
with 1, and a 4-byte buffer with opcode 9. -/
theorem receive_rejects_malformed_witness :
    (receive_tftp_pkt prot_frame_info_t.zero [0, 3, 0] 3).1 = 0 ∧
    (receive_tftp_pkt prot_frame_info_t.zero [1, 3, 0, 1, 65] 5).1 = 0 ∧
    (receive_tftp_pkt prot_frame_info_t.zero [0, 9, 0, 1] 4).1 = 0 :=
  ⟨receive_rejects_malformed _ _ _ (Or.inl (by decide)),
   receive_rejects_malformed _ _ _ (Or.inr (Or.inl (by decide))),
   receive_rejects_malformed _ _ _ (Or.inr (Or.inr ⟨by decide, by decide, by decide⟩))⟩

/-! ## C6 -/

/-- C6 (evaluation at the failing input): the 4-byte datagram `00 01 'a' 'b'`
holds no NUL-terminated filename, and the 5-byte datagram `00 05 00 01 'a'` holds
no NUL after its message byte; `receive_tftp_pkt` returns 1 on both and reads the
receive buffer at indices beyond the datagram, up to 513 and 515.  With the byte
`'c'` left in the receive buffer after the first datagram, the decoded filename
is `abc`. -/
theorem unterminated_fields_are_accepted :
    (decodeInRxBuf [0, 1, 97, 98]).1 = 1 ∧
    4 ∈ (decodeInRxBuf [0, 1, 97, 98]).2.reads ∧ 513 ∈ (decodeInRxBuf [0, 1, 97, 98]).2.reads ∧
    (decodeInRxBuf [0, 5, 0, 1, 97]).1 = 1 ∧
    5 ∈ (decodeInRxBuf [0, 5, 0, 1, 97]).2.reads ∧ 515 ∈ (decodeInRxBuf [0, 5, 0, 1, 97]).2.reads ∧
    (receive_tftp_pkt prot_frame_info_t.zero
      ([0, 1, 97, 98] ++ [99] ++ List.replicate 2043 0) 4).1 = 1 ∧
    cstr (receive_tftp_pkt prot_frame_info_t.zero
      ([0, 1, 97, 98] ++ [99] ++ List.replicate 2043 0) 4).2.pf.filename = [97, 98, 99] := by
  decide

/-! ## C7 -/

/-- C7 (evaluation at the failing input): on the RRQ packet
`00 01 'a' 00 "octet" 00` `receive_tftp_pkt` stores at index 512 of `filename`
(capacity 512) and at index 513 of `mode` (capacity 12); on the ERROR packet
`00 05 00 01 'e' 00` it stores at index 512 of `errMessage` (capacity 512). -/
theorem string_terminators_stored_past_capacity :
    (RxField.filename, 512) ∈ (decodeInRxBuf [0, 1, 97, 0, 111, 99, 116, 101, 116, 0]).2.writes ∧
    (RxField.mode, 513) ∈ (decodeInRxBuf [0, 1, 97, 0, 111, 99, 116, 101, 116, 0]).2.writes ∧
    (RxField.errMessage, 512) ∈ (decodeInRxBuf [0, 5, 0, 1, 101, 0]).2.writes ∧
    RxField.filename.cap = 512 ∧ RxField.mode.cap = 12 ∧ RxField.errMessage.cap = 512 := by
  decide

/-! ## C8 -/

/-- C8 (evaluation at the failing input): on a DATA datagram of 517 bytes
(`00 03 00 01` and 513 payload bytes) `receive_tftp_pkt` returns 1, reports a
payload length `rxLen - 4 = 513` and stores at index 512 of the 512-byte
`dataBuf`; on a datagram of 2048 bytes it stores at every index up to 2043. -/
theorem oversized_data_overruns_dataBuf :
    (decodeInRxBuf ([0, 3, 0, 1] ++ List.replicate 513 65)).1 = 1 ∧
    (decodeInRxBuf ([0, 3, 0, 1] ++ List.replicate 513 65)).2.pf.rxLen - 4 = 513 ∧
    (RxField.dataBuf, 512) ∈ (decodeInRxBuf ([0, 3, 0, 1] ++ List.replicate 513 65)).2.writes ∧
    RxField.dataBuf.cap = 512 ∧
    ([0, 3, 0, 1] ++ List.replicate 2044 65).length = MAX_RX_BUFF ∧
    (decodeInRxBuf ([0, 3, 0, 1] ++ List.replicate 2044 65)).1 = 1 ∧
    (RxField.dataBuf, 2043) ∈ (decodeInRxBuf ([0, 3, 0, 1] ++ List.replicate 2044 65)).2.writes := by
  decide

/-! ## C9 -/

/-- C9: for every filename `f` of at most 512 bytes, none of them NUL,
`send_first_request` hands to `sendto` exactly the `|f| + 9` bytes
`00, opcode, f, 00, "octet", 00`, addressed to the configured port, where the
opcode is 1 when the operation string is `getfile` and 2 otherwise; these bytes
are `txBuf[0 .. txLen)` and `txLen = |f| + 9`. -/
theorem send_first_request_packet (env : Env) (g : Globals) (ctx : client_session_t)
    (operationStr f : List Nat) (hctx : ctx.txBuf.length = MAX_TX_BUFF)
    (hf : f.length ≤ 512) (hnul : ∀ c ∈ f, c ≠ 0) :
    let out := (send_first_request env g ctx operationStr f).2
    let opcode := if cstr operationStr = ascii "getfile" then 1 else 2
    let pkt := [0, opcode] ++ f ++ [0] ++ ascii "octet" ++ [0]
    out.sent = ⟨ctx.clientSock, ctx.remoteIpStr, ctx.remotePort, pkt⟩ :: ctx.sent ∧
      out.txBuf.take out.txLen = pkt ∧ out.txLen = f.length + 9 ∧ pkt.length = f.length + 9 := by
  have hlen : ¬ f.length > PROT_MAX_DATA := by
    simp only [PROT_MAX_DATA]; omega
  have hoct : cstr [111, 99, 116, 101, 116] = [111, 99, 116, 101, 116] := by decide
  have hocl : strlen [111, 99, 116, 101, 116] = 5 := by decide
  have hmod : (2 + (f.length + 1) + (5 + 1)) % 65536 = 2 + (f.length + 1) + (5 + 1) := by omega
  have hsum : 2 + (f.length + 1) + (5 + 1) = f.length + 9 := by omega
  unfold send_first_request
  simp only [cstr_eq_self f hnul, strlen_eq_length f hnul, hlen, if_false, ascii_octet, hoct, hocl,
    Nat.zero_add, client_change_state, TFTP_RRQ, TFTP_WRQ]
  by_cases hop : cstr operationStr = ascii "getfile"
  · have hb := request_bytes ctx.txBuf hctx 1 f hf
    simp only [hop, if_true]
    by_cases hd : g.gFsmDebugOn = 0 <;> by_cases hr : env.sendRc = -1 <;>
      simp only [hd, hr, if_true, if_false, hmod, hb, not_true_eq_false] <;> simp <;> omega
  · have hb := request_bytes ctx.txBuf hctx 2 f hf
    simp only [hop, if_false]
    by_cases hd : g.gFsmDebugOn = 0 <;> by_cases hr : env.sendRc = -1 <;>
      simp only [hd, hr, if_true, if_false, hmod, hb, not_true_eq_false] <;> simp <;> omega

/-- Witness for C9: `getfile a.bin` from the initial
client session. -/
theorem send_first_request_packet_witness :
    (ascii "a.bin").length ≤ 512 ∧ (∀ c ∈ ascii "a.bin", c ≠ 0) ∧
    (let ctx := client_session_init Globals.init 3 (ascii "10.0.0.1") (ascii "a.bin")
     let out := (send_first_request Env.sample Globals.init ctx (ascii "getfile") (ascii "a.bin")).2
     let opcode := if cstr (ascii "getfile") = ascii "getfile" then 1 else 2
     let pkt := [0, opcode] ++ ascii "a.bin" ++ [0] ++ ascii "octet" ++ [0]
     out.sent = ⟨ctx.clientSock, ctx.remoteIpStr, ctx.remotePort, pkt⟩ :: ctx.sent ∧
       out.txBuf.take out.txLen = pkt ∧ out.txLen = (ascii "a.bin").length + 9 ∧
       pkt.length = (ascii "a.bin").length + 9) :=
  ⟨by decide, by decide,
    send_first_request_packet Env.sample Globals.init
      (client_session_init Globals.init 3 (ascii "10.0.0.1") (ascii "a.bin"))
      (ascii "getfile") (ascii "a.bin") (by simp [client_session_init]) (by decide) (by decide)⟩

/-! ## C10 -/

/-- C10: the ACK built by `cl_send_ack` and by `svr_send_ack` for session block
number `b` is exactly the 4 bytes `00 04 (b / 256) (b % 256)`; and the DATA
packet built by `cl_putfile_txData` and `svr_getfile_txData` (on the expected
ACK, unless the transfer is over) and by `svr_wait_first_request` (on an RRQ whose
file opens) is `00 03 (b / 256) (b % 256)` for the session block number `b` at
that point, followed by exactly the bytes read from the file; it is the datagram
handed to `sendto` on top of the earlier ones (an ERROR datagram may follow it
when `sendto` fails), and when `sendto` succeeds `txLen = 4 + ` number of bytes
read and `txBuf[0 .. txLen)` is that packet. -/
theorem ack_and_data_packets (env : Env) (g : Globals)
    (cl : client_session_t) (hcl : cl.txBuf.length = MAX_TX_BUFF) (hclb : cl.blockNum < 65536)
    (sv : server_session_t) (hsv : sv.txBuf.length = MAX_TX_BUFF) (hsvb : sv.blockNum < 65536)
    (cp : client_session_t) (hcp : cp.txBuf.length = MAX_TX_BUFF)
    (hcpop : cp.rxInfo.optcode = TFTP_ACK) (hcpblk : cp.rxInfo.blocknum = cp.nextExpectedBlockNum)
    (hcpgo : ¬ ((fread cp.pFile PROT_MAX_DATA).1.length = 0 ∧ cp.isFirstDataBlock = 0 ∧
      (cp.txLen : Int) - 4 < PROT_MAX_DATA))
    (sg : server_session_t) (hsg : sg.txBuf.length = MAX_TX_BUFF)
    (hsgop : sg.rxInfo.optcode = TFTP_ACK) (hsgblk : sg.rxInfo.blocknum = sg.nextExpectedBlockNum)
    (hsggo : ¬ ((fread sg.pFile PROT_MAX_DATA).1.length = 0 ∧
      (sg.txLen : Int) - 4 < PROT_MAX_DATA))
    (sw : server_session_t) (hsw : sw.txBuf.length = MAX_TX_BUFF) (content : List Nat)
    (hswop : sw.rxInfo.optcode = TFTP_RRQ)
    (hswopen : env.fopenRead (cstr sw.rxInfo.filename) = some content) :
    ((cl_send_ack env cl).2.sent =
        ⟨cl.clientSock, cl.remoteIpStr, cl.svrPort, [0, 4, cl.blockNum / 256, cl.blockNum % 256]⟩ :: cl.sent ∧
      (cl_send_ack env cl).2.txLen = 4) ∧
    ((svr_send_ack env sv).2.sent =
        ⟨sv.serverSock, sv.client_ip, sv.client_Port, [0, 4, sv.blockNum / 256, sv.blockNum % 256]⟩ :: sv.sent ∧
      (svr_send_ack env sv).2.txLen = 4) ∧
    (let bytes := (fread cp.pFile PROT_MAX_DATA).1
     let out := (cl_putfile_txData env g cp EV_CL_PDU_RX).2.1
     let b := (cp.blockNum + 1) % 65536
     out.blockNum = b ∧
     (∃ pre, out.sent =
          pre ++ ⟨cp.clientSock, cp.remoteIpStr, cp.svrPort, [0, 3, b / 256, b % 256] ++ bytes⟩ :: cp.sent ∧
        (0 ≤ env.sendRc → pre = [] ∧ out.txLen = 4 + bytes.length ∧
          out.txBuf.take out.txLen = [0, 3, b / 256, b % 256] ++ bytes))) ∧
    (let bytes := (fread sg.pFile PROT_MAX_DATA).1
     let out := svr_getfile_txData env g sg EV_SVR_PDU_RX
     let b := (sg.blockNum + 1) % 65536
     out.blockNum = b ∧
     (∃ pre, out.sent =
          pre ++ ⟨sg.serverSock, sg.client_ip, sg.client_Port, [0, 3, b / 256, b % 256] ++ bytes⟩ :: sg.sent ∧
        (0 ≤ env.sendRc → pre = [] ∧ out.txLen = 4 + bytes.length ∧
          out.txBuf.take out.txLen = [0, 3, b / 256, b % 256] ++ bytes))) ∧
    (let bytes := content.take PROT_MAX_DATA
     let out := svr_wait_first_request env g sw EV_SVR_PDU_RX
     out.blockNum = 1 ∧
     (∃ pre, out.sent =
          pre ++ ⟨sw.serverSock, sw.client_ip, sw.client_Port, [0, 3, 0, 1] ++ bytes⟩ :: sw.sent ∧
        (0 ≤ env.sendRc → pre = [] ∧ out.txLen = 4 + bytes.length ∧
          out.txBuf.take out.txLen = [0, 3, 0, 1] ++ bytes))) := by
  refine ⟨?_, ?_, ?_, ?_, ?_⟩
  · rw [cl_send_ack_eq env cl hcl hclb]
    exact ⟨rfl, rfl⟩
  · rw [svr_send_ack_eq env sv hsv hsvb]
    exact ⟨rfl, rfl⟩
  · exact cl_putfile_txData_data env g cp hcp hcpop hcpblk hcpgo
  · exact svr_getfile_txData_data env g sg hsg hsgop hsgblk hsggo
  · exact svr_wait_first_request_data env g sw hsw content hswop hswopen

/-- Witness for C10: ACKs for block 258; the first DATA block
of an upload of `ABC`; the second DATA block (3 bytes) of a download of 515
bytes; the first DATA block of a download of `ABC`. -/
theorem ack_and_data_packets_witness :
    (sampleUpload.rxInfo.optcode = TFTP_ACK ∧
      sampleUpload.rxInfo.blocknum = sampleUpload.nextExpectedBlockNum ∧
      sampleDownload.rxInfo.optcode = TFTP_ACK ∧
      sampleDownload.rxInfo.blocknum = sampleDownload.nextExpectedBlockNum ∧
      sampleRequest.rxInfo.optcode = TFTP_RRQ ∧
      Env.sample.fopenRead (cstr sampleRequest.rxInfo.filename) = some [65, 66, 67]) ∧
    (((cl_send_ack Env.sample sampleAckClient).2.sent =
        ⟨sampleAckClient.clientSock, sampleAckClient.remoteIpStr, sampleAckClient.svrPort,
          [0, 4, sampleAckClient.blockNum / 256, sampleAckClient.blockNum % 256]⟩ ::
          sampleAckClient.sent ∧
      (cl_send_ack Env.sample sampleAckClient).2.txLen = 4) ∧
    ((svr_send_ack Env.sample sampleAckServer).2.sent =
        ⟨sampleAckServer.serverSock, sampleAckServer.client_ip, sampleAckServer.client_Port,
          [0, 4, sampleAckServer.blockNum / 256, sampleAckServer.blockNum % 256]⟩ ::
          sampleAckServer.sent ∧
      (svr_send_ack Env.sample sampleAckServer).2.txLen = 4) ∧
    (let bytes := (fread sampleUpload.pFile PROT_MAX_DATA).1
     let out := (cl_putfile_txData Env.sample Globals.init sampleUpload EV_CL_PDU_RX).2.1
     let b := (sampleUpload.blockNum + 1) % 65536
     out.blockNum = b ∧
     (∃ pre, out.sent =
          pre ++ ⟨sampleUpload.clientSock, sampleUpload.remoteIpStr, sampleUpload.svrPort,
            [0, 3, b / 256, b % 256] ++ bytes⟩ :: sampleUpload.sent ∧
        (0 ≤ Env.sample.sendRc → pre = [] ∧ out.txLen = 4 + bytes.length ∧
          out.txBuf.take out.txLen = [0, 3, b / 256, b % 256] ++ bytes))) ∧
    (let bytes := (fread sampleDownload.pFile PROT_MAX_DATA).1
     let out := svr_getfile_txData Env.sample Globals.init sampleDownload EV_SVR_PDU_RX
     let b := (sampleDownload.blockNum + 1) % 65536
     out.blockNum = b ∧
     (∃ pre, out.sent =
          pre ++ ⟨sampleDownload.serverSock, sampleDownload.client_ip, sampleDownload.client_Port,
            [0, 3, b / 256, b % 256] ++ bytes⟩ :: sampleDownload.sent ∧
        (0 ≤ Env.sample.sendRc → pre = [] ∧ out.txLen = 4 + bytes.length ∧
          out.txBuf.take out.txLen = [0, 3, b / 256, b % 256] ++ bytes))) ∧
    (let bytes := [65, 66, 67].take PROT_MAX_DATA
     let out := svr_wait_first_request Env.sample Globals.init sampleRequest EV_SVR_PDU_RX
     out.blockNum = 1 ∧
     (∃ pre, out.sent =
          pre ++ ⟨sampleRequest.serverSock, sampleRequest.client_ip, sampleRequest.client_Port,
            [0, 3, 0, 1] ++ bytes⟩ :: sampleRequest.sent ∧
        (0 ≤ Env.sample.sendRc → pre = [] ∧ out.txLen = 4 + bytes.length ∧
          out.txBuf.take out.txLen = [0, 3, 0, 1] ++ bytes)))) :=
  ⟨⟨rfl, rfl, rfl, rfl, rfl, by decide⟩,
    ack_and_data_packets Env.sample Globals.init
      sampleAckClient (List.length_replicate MAX_TX_BUFF 0) (by decide)
      sampleAckServer (List.length_replicate MAX_TX_BUFF 0) (by decide)
      sampleUpload (List.length_replicate MAX_TX_BUFF 0) rfl rfl (by decide)
      sampleDownload (List.length_replicate MAX_TX_BUFF 0) rfl rfl (by decide)
      sampleRequest (List.length_replicate MAX_TX_BUFF 0) [65, 66, 67] rfl (by decide)⟩


/-! ## C11: a block that is not the expected one is ignored -/

/-- C11. In every session whose state is a transfer state, a received DATA
(client `CL_ST_GETFILE_RXDATA`, server `SVR_ST_PUTFILE_RXDATA`) or ACK (client
`CL_ST_PUTFILE_TXDATA`, server `SVR_ST_GETFILE_TXDATA`) whose block number is not
`nextExpectedBlockNum` leaves the whole session as it was: state, `blockNum`,
`nextExpectedBlockNum`, the stream, `txBuf`, `txLen` and the list of datagrams
sent.  The client handlers return 1 (the session continues), and the same holds
after any number of such deliveries, whatever the environment answers. -/
theorem stale_block_is_ignored (g : Globals) (cg cp : client_session_t)
    (sp sg : server_session_t) (envs : List Env)
    (hcg : cg.state = CL_ST_GETFILE_RXDATA ∧ cg.rxInfo.optcode = TFTP_DATA ∧
      cg.rxInfo.blocknum ≠ cg.nextExpectedBlockNum)
    (hcp : cp.state = CL_ST_PUTFILE_TXDATA ∧ cp.rxInfo.optcode = TFTP_ACK ∧
      cp.rxInfo.blocknum ≠ cp.nextExpectedBlockNum)
    (hsp : sp.state = SVR_ST_PUTFILE_RXDATA ∧ sp.rxInfo.optcode = TFTP_DATA ∧
      sp.rxInfo.blocknum ≠ sp.nextExpectedBlockNum)
    (hsg : sg.state = SVR_ST_GETFILE_TXDATA ∧ sg.rxInfo.optcode = TFTP_ACK ∧
      sg.rxInfo.blocknum ≠ sg.nextExpectedBlockNum) :
    (∀ env, cl_fsm_event env g cg EV_CL_PDU_RX = (1, cg, g)) ∧
    (∀ env, cl_fsm_event env g cp EV_CL_PDU_RX = (1, cp, g)) ∧
    (∀ env, svr_fsm_event env g sp EV_SVR_PDU_RX = sp) ∧
    (∀ env, svr_fsm_event env g sg EV_SVR_PDU_RX = sg) ∧
    envs.foldl (fun c env => (cl_fsm_event env g c EV_CL_PDU_RX).2.1) cg = cg ∧
    envs.foldl (fun c env => (cl_fsm_event env g c EV_CL_PDU_RX).2.1) cp = cp ∧
    envs.foldl (fun c env => svr_fsm_event env g c EV_SVR_PDU_RX) sp = sp ∧
    envs.foldl (fun c env => svr_fsm_event env g c EV_SVR_PDU_RX) sg = sg := by
  have h1 : ∀ env, cl_fsm_event env g cg EV_CL_PDU_RX = (1, cg, g) := fun env => by
    rw [cl_fsm_event_getfile env g cg _ hcg.1, cl_getfile_stale env g cg hcg.2.1 hcg.2.2]; rfl
  have h2 : ∀ env, cl_fsm_event env g cp EV_CL_PDU_RX = (1, cp, g) := fun env => by
    rw [cl_fsm_event_putfile env g cp _ hcp.1, cl_putfile_stale env g cp hcp.2.1 hcp.2.2]; rfl
  have h3 : ∀ env, svr_fsm_event env g sp EV_SVR_PDU_RX = sp := fun env => by
    rw [svr_fsm_event_putfile env g sp _ hsp.1, svr_putfile_stale env g sp hsp.2.1 hsp.2.2]
  have h4 : ∀ env, svr_fsm_event env g sg EV_SVR_PDU_RX = sg := fun env => by
    rw [svr_fsm_event_getfile env g sg _ hsg.1, svr_getfile_stale env g sg hsg.2.1 hsg.2.2]
  refine ⟨h1, h2, h3, h4, ?_, ?_, ?_, ?_⟩
  · exact foldl_fixed _ cg (fun env => by rw [h1 env]) envs
  · exact foldl_fixed _ cp (fun env => by rw [h2 env]) envs
  · exact foldl_fixed _ sp h3 envs
  · exact foldl_fixed _ sg h4 envs

theorem stale_block_is_ignored_witness :
    (∀ env, cl_fsm_event env Globals.init staleDataClient EV_CL_PDU_RX =
      (1, staleDataClient, Globals.init)) ∧
    (∀ env, cl_fsm_event env Globals.init staleAckClient EV_CL_PDU_RX =
      (1, staleAckClient, Globals.init)) ∧
    (∀ env, svr_fsm_event env Globals.init staleDataServer EV_SVR_PDU_RX = staleDataServer) ∧
    (∀ env, svr_fsm_event env Globals.init staleAckServer EV_SVR_PDU_RX = staleAckServer) ∧
    [Env.sample, Env.sample].foldl
      (fun c env => (cl_fsm_event env Globals.init c EV_CL_PDU_RX).2.1) staleDataClient =
        staleDataClient ∧
    [Env.sample, Env.sample].foldl
      (fun c env => (cl_fsm_event env Globals.init c EV_CL_PDU_RX).2.1) staleAckClient =
        staleAckClient ∧
    [Env.sample, Env.sample].foldl
      (fun c env => svr_fsm_event env Globals.init c EV_SVR_PDU_RX) staleDataServer =
        staleDataServer ∧
    [Env.sample, Env.sample].foldl
      (fun c env => svr_fsm_event env Globals.init c EV_SVR_PDU_RX) staleAckServer =
        staleAckServer :=
  stale_block_is_ignored Globals.init staleDataClient staleAckClient staleDataServer
    staleAckServer [Env.sample, Env.sample] (by decide) (by decide) (by decide) (by decide)

/-! ## C16: the time-out that reaches the maximum ends the session -/

/-- C16. Let `gMaxNumRetransTries` be `envs.length + 1` (so at least 1) and let
a session be in a transfer state with retry counter 0.  The first
`envs.length` time-outs each return 1, retransmit (`cl_retried`,
`svr_retried`) and leave `gDone` as it was; the next time-out returns 0, hands
exactly one more datagram to `sendto`, an ERROR packet with code 0, and closes
the stream (`cl_aborted`, `svr_aborted`).  The client then has `gDone = 1`; the
server is in `SVR_ST_WAIT_FIST_REQUEST` and the process-wide variables are as
before. -/
theorem max_timeouts_end_session (g : Globals) (envs : List Env) (last : Env)
    (cg cp : client_session_t) (sg sp : server_session_t)
    (hmax : g.gMaxNumRetransTries = (envs.length : Int) + 1)
    (hcg : cg.state = CL_ST_GETFILE_RXDATA ∧ cg.num_retrans_tries = 0 ∧
      cg.txBuf.length = MAX_TX_BUFF)
    (hcp : cp.state = CL_ST_PUTFILE_TXDATA ∧ cp.num_retrans_tries = 0 ∧
      cp.txBuf.length = MAX_TX_BUFF)
    (hsg : sg.state = SVR_ST_GETFILE_TXDATA ∧ sg.num_retrans_tries = 0 ∧
      sg.txBuf.length = MAX_TX_BUFF)
    (hsp : sp.state = SVR_ST_PUTFILE_RXDATA ∧ sp.num_retrans_tries = 0 ∧
      sp.txBuf.length = MAX_TX_BUFF) :
    (cl_timeouts envs g cg = (List.replicate envs.length 1, cl_retried envs cg, g) ∧
      cl_fsm_event last g (cl_retried envs cg) EV_CL_TIMEOUT =
        (0, cl_aborted (ascii "timeout waiting for data, closing connection") (cl_retried envs cg),
          { g with gDone := 1 }) ∧
      ((errTxBuf cg.txBuf 0 (ascii "timeout waiting for data, closing connection")).take
        (errTxLen (ascii "timeout waiting for data, closing connection"))).take 4 =
          [0, TFTP_ERROR, 0, 0]) ∧
    (cl_timeouts envs g cp = (List.replicate envs.length 1, cl_retried envs cp, g) ∧
      cl_fsm_event last g (cl_retried envs cp) EV_CL_TIMEOUT =
        (0, cl_aborted (ascii "timeout waiting for ack, closing connection\n") (cl_retried envs cp),
          { g with gDone := 1 }) ∧
      ((errTxBuf cp.txBuf 0 (ascii "timeout waiting for ack, closing connection\n")).take
        (errTxLen (ascii "timeout waiting for ack, closing connection\n"))).take 4 =
          [0, TFTP_ERROR, 0, 0]) ∧
    (svr_timeouts envs ⟨sg, g⟩ = ⟨svr_retried envs sg, g⟩ ∧
      svr_timeouts [last] ⟨svr_retried envs sg, g⟩ =
        ⟨svr_aborted (ascii "timeout waiting for ACK, closing connection\n") (svr_retried envs sg), g⟩ ∧
      ((errTxBuf sg.txBuf 0 (ascii "timeout waiting for ACK, closing connection\n")).take
        (errTxLen (ascii "timeout waiting for ACK, closing connection\n"))).take 4 =
          [0, TFTP_ERROR, 0, 0]) ∧
    (svr_timeouts envs ⟨sp, g⟩ = ⟨svr_retried envs sp, g⟩ ∧
      svr_timeouts [last] ⟨svr_retried envs sp, g⟩ =
        ⟨svr_aborted (ascii "timeout waiting for ACK, closing connection\n") (svr_retried envs sp), g⟩ ∧
      ((errTxBuf sp.txBuf 0 (ascii "timeout waiting for ACK, closing connection\n")).take
        (errTxLen (ascii "timeout waiting for ACK, closing connection\n"))).take 4 =
          [0, TFTP_ERROR, 0, 0]) := by
  obtain ⟨hcg1, hcg2, hcg3⟩ := hcg
  obtain ⟨hcp1, hcp2, hcp3⟩ := hcp
  obtain ⟨hsg1, hsg2, hsg3⟩ := hsg
  obtain ⟨hsp1, hsp2, hsp3⟩ := hsp
  have kcg : (cl_retried envs cg).num_retrans_tries + 1 = g.gMaxNumRetransTries := by
    simp only [cl_retried, hcg2, hmax]; omega
  have kcp : (cl_retried envs cp).num_retrans_tries + 1 = g.gMaxNumRetransTries := by
    simp only [cl_retried, hcp2, hmax]; omega
  have ksg : (svr_retried envs sg).num_retrans_tries + 1 = g.gMaxNumRetransTries := by
    simp only [svr_retried, hsg2, hmax]; omega
  have ksp : (svr_retried envs sp).num_retrans_tries + 1 = g.gMaxNumRetransTries := by
    simp only [svr_retried, hsp2, hmax]; omega
  refine ⟨⟨?_, ?_, ?_⟩, ⟨?_, ?_, ?_⟩, ⟨?_, ?_, ?_⟩, ⟨?_, ?_, ?_⟩⟩
  · exact cl_getfile_timeouts_retry g envs cg hcg1 (by rw [hcg2, hmax]; omega)
  · rw [cl_fsm_event_getfile last g _ _ (by exact hcg1),
      cl_getfile_timeout_abort last g _ kcg]
    rfl
  · exact errPkt_header cg.txBuf hcg3 0 _ (by decide)
  · exact cl_putfile_timeouts_retry g envs cp hcp1 (by rw [hcp2, hmax]; omega)
  · rw [cl_fsm_event_putfile last g _ _ (by exact hcp1),
      cl_putfile_timeout_abort last g _ kcp]
    rfl
  · exact errPkt_header cp.txBuf hcp3 0 _ (by decide)
  · exact svr_getfile_timeouts_retry g envs sg hsg1 (by rw [hsg2, hmax]; omega)
  · rw [svr_timeouts, svr_timeouts]
    simp only []
    rw [svr_fsm_event_getfile last g _ _ (by exact hsg1), svr_getfile_timeout_abort last g _ ksg]
    rfl
  · exact errPkt_header sg.txBuf hsg3 0 _ (by decide)
  · exact svr_putfile_timeouts_retry g envs sp hsp1 (by rw [hsp2, hmax]; omega)
  · rw [svr_timeouts, svr_timeouts]
    simp only []
    rw [svr_fsm_event_putfile last g _ _ (by exact hsp1), svr_putfile_timeout_abort last g _ ksp]
    rfl
  · exact errPkt_header sp.txBuf hsp3 0 _ (by decide)

theorem max_timeouts_end_session_witness :
    (cl_timeouts [Env.sample, Env.sample] Globals.init staleDataClient = (List.replicate [Env.sample, Env.sample].length 1, cl_retried [Env.sample, Env.sample] staleDataClient, Globals.init) ∧
      cl_fsm_event Env.sample Globals.init (cl_retried [Env.sample, Env.sample] staleDataClient) EV_CL_TIMEOUT =
        (0, cl_aborted (ascii "timeout waiting for data, closing connection") (cl_retried [Env.sample, Env.sample] staleDataClient),
          { Globals.init with gDone := 1 }) ∧
      ((errTxBuf staleDataClient.txBuf 0 (ascii "timeout waiting for data, closing connection")).take
        (errTxLen (ascii "timeout waiting for data, closing connection"))).take 4 =
          [0, TFTP_ERROR, 0, 0]) ∧
    (cl_timeouts [Env.sample, Env.sample] Globals.init staleAckClient = (List.replicate [Env.sample, Env.sample].length 1, cl_retried [Env.sample, Env.sample] staleAckClient, Globals.init) ∧
      cl_fsm_event Env.sample Globals.init (cl_retried [Env.sample, Env.sample] staleAckClient) EV_CL_TIMEOUT =
        (0, cl_aborted (ascii "timeout waiting for ack, closing connection\n") (cl_retried [Env.sample, Env.sample] staleAckClient),
          { Globals.init with gDone := 1 }) ∧
      ((errTxBuf staleAckClient.txBuf 0 (ascii "timeout waiting for ack, closing connection\n")).take
        (errTxLen (ascii "timeout waiting for ack, closing connection\n"))).take 4 =
          [0, TFTP_ERROR, 0, 0]) ∧
    (svr_timeouts [Env.sample, Env.sample] ⟨staleAckServer, Globals.init⟩ = ⟨svr_retried [Env.sample, Env.sample] staleAckServer, Globals.init⟩ ∧
      svr_timeouts [Env.sample] ⟨svr_retried [Env.sample, Env.sample] staleAckServer, Globals.init⟩ =
        ⟨svr_aborted (ascii "timeout waiting for ACK, closing connection\n") (svr_retried [Env.sample, Env.sample] staleAckServer), Globals.init⟩ ∧
      ((errTxBuf staleAckServer.txBuf 0 (ascii "timeout waiting for ACK, closing connection\n")).take
        (errTxLen (ascii "timeout waiting for ACK, closing connection\n"))).take 4 =
          [0, TFTP_ERROR, 0, 0]) ∧
    (svr_timeouts [Env.sample, Env.sample] ⟨staleDataServer, Globals.init⟩ = ⟨svr_retried [Env.sample, Env.sample] staleDataServer, Globals.init⟩ ∧
      svr_timeouts [Env.sample] ⟨svr_retried [Env.sample, Env.sample] staleDataServer, Globals.init⟩ =
        ⟨svr_aborted (ascii "timeout waiting for ACK, closing connection\n") (svr_retried [Env.sample, Env.sample] staleDataServer), Globals.init⟩ ∧
      ((errTxBuf staleDataServer.txBuf 0 (ascii "timeout waiting for ACK, closing connection\n")).take
        (errTxLen (ascii "timeout waiting for ACK, closing connection\n"))).take 4 =
          [0, TFTP_ERROR, 0, 0]) :=
  max_timeouts_end_session Globals.init [Env.sample, Env.sample] Env.sample staleDataClient
    staleAckClient staleAckServer staleDataServer (by decide) (by decide) (by decide) (by decide)
    (by decide)

/-! ## C17: a time-out below the maximum retransmits the last datagram -/

/-- C17. In each transfer state, when the session holds its most recent send
(`LastSendHeld`: the head `d` of `sent` carries `txBuf[0 .. txLen)` and went to
`lastTxPort`) and the time-out does not bring the retry counter to
`gMaxNumRetransTries`, the handler hands one datagram to `sendto`, with the
bytes and the destination port of `d`, adds 1 to the retry counter, restarts the
ack timer with `ACK_TIMEOUT_SECS`, and changes nothing else: state, `blockNum`,
`nextExpectedBlockNum`, `txBuf` and `txLen` are as before. -/
theorem timeout_retransmits_last_send (env : Env) (g : Globals)
    (cg cp : client_session_t) (sg sp : server_session_t)
    (hcg : cg.state = CL_ST_GETFILE_RXDATA ∧ cg.num_retrans_tries + 1 ≠ g.gMaxNumRetransTries ∧
      LastSendHeld cg.sent cg.txBuf cg.txLen cg.lastTxPort)
    (hcp : cp.state = CL_ST_PUTFILE_TXDATA ∧ cp.num_retrans_tries + 1 ≠ g.gMaxNumRetransTries ∧
      LastSendHeld cp.sent cp.txBuf cp.txLen cp.lastTxPort)
    (hsg : sg.state = SVR_ST_GETFILE_TXDATA ∧ sg.num_retrans_tries + 1 ≠ g.gMaxNumRetransTries ∧
      LastSendHeld sg.sent sg.txBuf sg.txLen sg.lastTxPort)
    (hsp : sp.state = SVR_ST_PUTFILE_RXDATA ∧ sp.num_retrans_tries + 1 ≠ g.gMaxNumRetransTries ∧
      LastSendHeld sp.sent sp.txBuf sp.txLen sp.lastTxPort) :
    (∃ d rest, cg.sent = d :: rest ∧ d.bytes = cg.txBuf.take cg.txLen ∧ d.port = cg.lastTxPort ∧
      cl_fsm_event env g cg EV_CL_TIMEOUT =
        (1, { cg with
              num_retrans_tries := cg.num_retrans_tries + 1,
              tmr1 := UtilTickTimerStart env.tick cg.tmr1 ACK_TIMEOUT_SECS,
              sent := ⟨cg.clientSock, cg.remoteIpStr, d.port, d.bytes⟩ :: d :: rest }, g)) ∧
    (∃ d rest, cp.sent = d :: rest ∧ d.bytes = cp.txBuf.take cp.txLen ∧ d.port = cp.lastTxPort ∧
      cl_fsm_event env g cp EV_CL_TIMEOUT =
        (1, { cp with
              num_retrans_tries := cp.num_retrans_tries + 1,
              tmr1 := UtilTickTimerStart env.tick cp.tmr1 ACK_TIMEOUT_SECS,
              sent := ⟨cp.clientSock, cp.remoteIpStr, d.port, d.bytes⟩ :: d :: rest }, g)) ∧
    (∃ d rest, sg.sent = d :: rest ∧ d.bytes = sg.txBuf.take sg.txLen ∧ d.port = sg.lastTxPort ∧
      svr_fsm_event env g sg EV_SVR_TIMEOUT =
        { sg with
          num_retrans_tries := sg.num_retrans_tries + 1,
          tmr1 := UtilTickTimerStart env.tick sg.tmr1 ACK_TIMEOUT_SECS,
          sent := ⟨sg.serverSock, sg.client_ip, d.port, d.bytes⟩ :: d :: rest }) ∧
    (∃ d rest, sp.sent = d :: rest ∧ d.bytes = sp.txBuf.take sp.txLen ∧ d.port = sp.lastTxPort ∧
      svr_fsm_event env g sp EV_SVR_TIMEOUT =
        { sp with
          num_retrans_tries := sp.num_retrans_tries + 1,
          tmr1 := UtilTickTimerStart env.tick sp.tmr1 ACK_TIMEOUT_SECS,
          sent := ⟨sp.serverSock, sp.client_ip, d.port, d.bytes⟩ :: d :: rest }) := by
  obtain ⟨hcg1, hcg2, hcg3⟩ := hcg
  obtain ⟨hcp1, hcp2, hcp3⟩ := hcp
  obtain ⟨hsg1, hsg2, hsg3⟩ := hsg
  obtain ⟨hsp1, hsp2, hsp3⟩ := hsp
  refine ⟨?_, ?_, ?_, ?_⟩
  · obtain ⟨d, rest, hd, hb, hp⟩ := lastSendHeld_cons hcg3
    refine ⟨d, rest, hd, hb, hp, ?_⟩
    rw [cl_fsm_event_getfile env g cg _ hcg1, cl_getfile_timeout_retry env g cg hcg2, hb, hp, hd]
    rfl
  · obtain ⟨d, rest, hd, hb, hp⟩ := lastSendHeld_cons hcp3
    refine ⟨d, rest, hd, hb, hp, ?_⟩
    rw [cl_fsm_event_putfile env g cp _ hcp1, cl_putfile_timeout_retry env g cp hcp2, hb, hp, hd]
    rfl
  · obtain ⟨d, rest, hd, hb, hp⟩ := lastSendHeld_cons hsg3
    refine ⟨d, rest, hd, hb, hp, ?_⟩
    rw [svr_fsm_event_getfile env g sg _ hsg1, svr_getfile_timeout_retry env g sg hsg2, hb, hp, hd]
  · obtain ⟨d, rest, hd, hb, hp⟩ := lastSendHeld_cons hsp3
    refine ⟨d, rest, hd, hb, hp, ?_⟩
    rw [svr_fsm_event_putfile env g sp _ hsp1, svr_putfile_timeout_retry env g sp hsp2, hb, hp, hd]

theorem timeout_retransmits_last_send_witness :
    (∃ d rest, getfileStarted.sent = d :: rest ∧ d.bytes = getfileStarted.txBuf.take getfileStarted.txLen ∧ d.port = getfileStarted.lastTxPort ∧
      cl_fsm_event Env.sample Globals.init getfileStarted EV_CL_TIMEOUT =
        (1, { getfileStarted with
              num_retrans_tries := getfileStarted.num_retrans_tries + 1,
              tmr1 := UtilTickTimerStart Env.sample.tick getfileStarted.tmr1 ACK_TIMEOUT_SECS,
              sent := ⟨getfileStarted.clientSock, getfileStarted.remoteIpStr, d.port, d.bytes⟩ :: d :: rest }, Globals.init)) ∧
    (∃ d rest, putfileStarted.sent = d :: rest ∧ d.bytes = putfileStarted.txBuf.take putfileStarted.txLen ∧ d.port = putfileStarted.lastTxPort ∧
      cl_fsm_event Env.sample Globals.init putfileStarted EV_CL_TIMEOUT =
        (1, { putfileStarted with
              num_retrans_tries := putfileStarted.num_retrans_tries + 1,
              tmr1 := UtilTickTimerStart Env.sample.tick putfileStarted.tmr1 ACK_TIMEOUT_SECS,
              sent := ⟨putfileStarted.clientSock, putfileStarted.remoteIpStr, d.port, d.bytes⟩ :: d :: rest }, Globals.init)) ∧
    (∃ d rest, downloadStarted.sent = d :: rest ∧ d.bytes = downloadStarted.txBuf.take downloadStarted.txLen ∧ d.port = downloadStarted.lastTxPort ∧
      svr_fsm_event Env.sample Globals.init downloadStarted EV_SVR_TIMEOUT =
        { downloadStarted with
          num_retrans_tries := downloadStarted.num_retrans_tries + 1,
          tmr1 := UtilTickTimerStart Env.sample.tick downloadStarted.tmr1 ACK_TIMEOUT_SECS,
          sent := ⟨downloadStarted.serverSock, downloadStarted.client_ip, d.port, d.bytes⟩ :: d :: rest }) ∧
    (∃ d rest, uploadAccepted.sent = d :: rest ∧ d.bytes = uploadAccepted.txBuf.take uploadAccepted.txLen ∧ d.port = uploadAccepted.lastTxPort ∧
      svr_fsm_event Env.sample Globals.init uploadAccepted EV_SVR_TIMEOUT =
        { uploadAccepted with
          num_retrans_tries := uploadAccepted.num_retrans_tries + 1,
          tmr1 := UtilTickTimerStart Env.sample.tick uploadAccepted.tmr1 ACK_TIMEOUT_SECS,
          sent := ⟨uploadAccepted.serverSock, uploadAccepted.client_ip, d.port, d.bytes⟩ :: d :: rest }) :=
  timeout_retransmits_last_send Env.sample Globals.init getfileStarted putfileStarted
    downloadStarted uploadAccepted (by decide) (by decide) (by decide) (by decide)

/-! ## C18: the ports the client sends to -/

/-- C18, counterexample. In `getfile a` with the well-known port 69: (1) a DATA
block 2, which is not the expected block, arrives from port 5000, so `svrPort`
is 5000, and the next time-out retransmits the request to port 69; (2) after
DATA block 1 from port 5000 was acknowledged to port 5000, DATA block 2 arrives
from source port 69 and its ACK goes to port 69. -/
theorem client_sends_to_well_known_port_again :
    file_client_start Env.sample Globals.init 3 (ascii "10.0.0.1") (ascii "a") (ascii "getfile") =
      some getfileLoop ∧
    getfileLoop.ctx.remotePort = 69 ∧
    (file_client_loop [(Env.sample, some (recvOf (dataPkt 2 []) 5000))] getfileLoop).ctx.svrPort =
      5000 ∧
    (file_client_loop [(Env.sample, some (recvOf (dataPkt 2 []) 5000)), (envAt 5000, none)]
      getfileLoop).ports = [69, 69] ∧
    getfileAfterBlock1.ports = [5000, 69] ∧
    (file_client_loop [(Env.sample, some (recvOf (dataPkt 2 [1, 2, 3]) 69))]
      getfileAfterBlock1).ports = [69, 5000, 69] := by
  decide

/-- C18, amended. Once neither `svrPort` nor `lastTxPort` is the port `P` (a
datagram has arrived from another port and the last packet went to another
port), no datagram the loop of `file_client` sends afterwards is addressed to
`P`, retransmissions included, for every sequence of time-outs and received
datagrams (accepted, stale or malformed) of at most 516 bytes whose source port
is not `P`.  On a datagram of that size every store of the decoder lands inside
`rxInfo` (`StoreInRxInfo`), so `svrPort` and `lastTxPort` are written by the
loop and the senders only; a longer DATA datagram is stored past `dataBuf`
without a check and reaches the members behind `rxInfo`, `lastTxPort` among
them. -/
theorem client_avoids_port (P : Nat) (inputs : List (Env × Option Recv)) (s : ClientLoop)
    (hs : s.ctx.svrPort ≠ P ∧ s.ctx.lastTxPort ≠ P)
    (hin : ∀ x ∈ inputs, ∀ r, x.2 = some r → r.fromPort ≠ P)
    (hsz : ∀ x ∈ inputs, ∀ r, x.2 = some r → r.rc ≤ ((4 + PROT_MAX_DATA : Nat) : Int)) :
    (∃ new, (file_client_loop inputs s).ctx.sent = new ++ s.ctx.sent ∧ ∀ d ∈ new, d.port ≠ P) ∧
    (∀ x ∈ inputs, ∀ r, x.2 = some r → ∀ pf : prot_frame_info_t,
      ∀ w ∈ (receive_tftp_pkt pf r.rxbuf r.rc.toNat).2.writes, StoreInRxInfo w) := by
  have h := file_client_loop_avoids P s.ctx.sent inputs s hin ⟨hs.1, hs.2, Extends_refl _ _⟩
  refine ⟨(Extends_iff _ _ _).mp h.2.2, ?_⟩
  intro x hx r hr pf
  have hle : r.rc.toNat ≤ 4 + PROT_MAX_DATA := Int.toNat_le.mpr (hsz x hx r hr)
  exact receive_stores_in_rxInfo pf r.rxbuf r.rc.toNat hle

theorem client_avoids_port_witness :
    (∃ new, (file_client_loop
        [(envAt 5000, none), (envAt 5000, some (recvOf (dataPkt 2 [1, 2, 3]) 5000))]
        getfileAfterBlock1).ctx.sent = new ++ getfileAfterBlock1.ctx.sent ∧
      ∀ d ∈ new, d.port ≠ 69) ∧
    (∀ x ∈ [(envAt 5000, none), (envAt 5000, some (recvOf (dataPkt 2 [1, 2, 3]) 5000))],
      ∀ r, x.2 = some r → ∀ pf : prot_frame_info_t,
        ∀ w ∈ (receive_tftp_pkt pf r.rxbuf r.rc.toNat).2.writes, StoreInRxInfo w) :=
  client_avoids_port 69 [(envAt 5000, none), (envAt 5000, some (recvOf (dataPkt 2 [1, 2, 3]) 5000))]
    getfileAfterBlock1 (by decide) (by decide) (by decide)

/-! ## C19: the ports the server replies to -/

/-- C19, counterexample. The server accepts a WRQ from port 5000 and replies to
port 5000; DATA block 1 of that upload then arrives from source port 6000 and
its ACK, sent in `SVR_ST_PUTFILE_RXDATA`, goes to port 6000. -/
theorem server_reply_follows_later_source_port :
    serverAfterWrq.ctx.state = SVR_ST_PUTFILE_RXDATA ∧
    serverAfterWrq.ctx.client_Port = 5000 ∧
    serverAfterWrq.ports = [5000] ∧
    (file_server_loop [(Env.sample, some (recvOf (dataPkt 1 [1, 2, 3]) 6000))]
      serverAfterWrq).ports = [6000, 5000] := by
  decide

/-- C19, amended. When the port captured from the request is `T` (`client_Port`
and `lastTxPort` are `T`), every datagram the loop of `file_server` sends
afterwards is addressed to `T`, provided every datagram received afterwards comes
from source port `T` and is at most 516 bytes long.  On a datagram of that size
every store of the decoder lands inside `rxInfo` (`StoreInRxInfo`), so
`client_Port` and `lastTxPort` are written by the loop and the senders only; a
longer DATA datagram is stored past `dataBuf` without a check and reaches the
members behind `rxInfo`, `lastTxPort` among them. -/
theorem server_replies_to_captured_port (T : Nat) (inputs : List (Env × Option Recv))
    (s : ServerLoop) (hs : s.ctx.client_Port = T ∧ s.ctx.lastTxPort = T)
    (hin : ∀ x ∈ inputs, ∀ r, x.2 = some r → r.fromPort = T)
    (hsz : ∀ x ∈ inputs, ∀ r, x.2 = some r → r.rc ≤ ((4 + PROT_MAX_DATA : Nat) : Int)) :
    (∃ new, (file_server_loop inputs s).ctx.sent = new ++ s.ctx.sent ∧ ∀ d ∈ new, d.port = T) ∧
    (∀ x ∈ inputs, ∀ r, x.2 = some r → ∀ pf : prot_frame_info_t,
      ∀ w ∈ (receive_tftp_pkt pf r.rxbuf r.rc.toNat).2.writes, StoreInRxInfo w) := by
  have h := file_server_loop_onlyTo T s.ctx.sent inputs s hin hs.1 ⟨hs.2, Extends_refl _ _⟩
  refine ⟨(Extends_iff _ _ _).mp h.2, ?_⟩
  intro x hx r hr pf
  have hle : r.rc.toNat ≤ 4 + PROT_MAX_DATA := Int.toNat_le.mpr (hsz x hx r hr)
  exact receive_stores_in_rxInfo pf r.rxbuf r.rc.toNat hle

theorem server_replies_to_captured_port_witness :
    (∃ new, (file_server_loop
        [(envAt 5000, none), (Env.sample, some (recvOf (dataPkt 1 [1, 2, 3]) 5000))]
        serverAfterWrq).ctx.sent = new ++ serverAfterWrq.ctx.sent ∧
      ∀ d ∈ new, d.port = 5000) ∧
    (∀ x ∈ [(envAt 5000, none), (Env.sample, some (recvOf (dataPkt 1 [1, 2, 3]) 5000))],
      ∀ r, x.2 = some r → ∀ pf : prot_frame_info_t,
        ∀ w ∈ (receive_tftp_pkt pf r.rxbuf r.rc.toNat).2.writes, StoreInRxInfo w) :=
  server_replies_to_captured_port 5000
    [(envAt 5000, none), (Env.sample, some (recvOf (dataPkt 1 [1, 2, 3]) 5000))]
    serverAfterWrq (by decide) (by decide) (by decide)

/-! ## C20: the port the server replies from -/

/-- C20, counterexample. The only socket of the server is the one
`create_svr_sock` binds to the listening port (69 here); the first reply to the
WRQ and the reply that follows it are both handed to `sendto` on that socket, so
both leave from port 69. -/
theorem server_replies_from_listening_port :
    (create_svr_sock Globals.init 3).localPort = 69 ∧
    (file_server_loop [(Env.sample, some (recvOf (dataPkt 1 [1, 2, 3]) 5000))]
      serverAfterWrq).ctx.sent.map (Datagram.srcPort [create_svr_sock Globals.init 3]) =
        [some 69, some 69] := by
  decide

/-- C20, amended. Every datagram the server sends, the first reply to a request
included, is handed to `sendto` on the listening socket that `create_svr_sock`
bound to `gSrvPort`, so it leaves from the listening port; the server binds no
other port. -/
theorem server_sends_on_listening_socket (g : Globals) (fd : Int)
    (inputs : List (Env × Option Recv)) :
    ∀ d ∈ (file_server_loop inputs (file_server_start g fd)).ctx.sent,
      d.sock = fd ∧ Datagram.srcPort [create_svr_sock g fd] d = some g.gSrvPort := by
  have h := file_server_loop_onSock fd [] inputs (file_server_start g fd) ⟨rfl, Extends_refl _ _⟩
  intro d hd
  have hs := Extends_nil_forall _ _ h.2 d hd
  refine ⟨hs, ?_⟩
  simp [Datagram.srcPort, create_svr_sock, hs]

/-- C20, witness: the DATA block a freshly started server on descriptor 3 sends in
reply to a read request leaves on descriptor 3, from the listening port 69. -/
theorem server_sends_on_listening_socket_witness :
    firstDataReply ∈ (file_server_loop [(Env.sample, some (recvOf rrqDatagram 5000))]
        (file_server_start Globals.init 3)).ctx.sent ∧
      firstDataReply.sock = 3 ∧
      Datagram.srcPort [create_svr_sock Globals.init 3] firstDataReply =
        some Globals.init.gSrvPort :=
  ⟨by decide, server_sends_on_listening_socket Globals.init 3
    [(Env.sample, some (recvOf rrqDatagram 5000))] firstDataReply (by decide)⟩

/-! ## C12: the ACK of an accepted DATA block -/

/-- C12, evaluation at the failing inputs. (1) `getfile` with a file name of 513
bytes: `send_first_request` returns early, `file_client` enters its loop in
state `CL_ST_GETFILE_RXDATA` with `blockNum = nextExpectedBlockNum = 0` and
nothing sent; DATA block 0 is then accepted and the ACK sent for it carries block
number 1.  (2) `getfile a`: DATA block 1 with a payload of 513 bytes is accepted,
acknowledged, and the session continues with the ack timer restarted, although
the payload length is not 512. -/
theorem accepted_data_breaks_ack_rule :
    (file_client_start Env.sample Globals.init 3 (ascii "10.0.0.1") longName (ascii "getfile") =
        some longNameLoop ∧
      longNameLoop.ctx.state = CL_ST_GETFILE_RXDATA ∧ longNameLoop.ctx.sent = [] ∧
      longNameLoop.ctx.blockNum = 0 ∧ longNameLoop.ctx.nextExpectedBlockNum = 0 ∧
      (file_client_loop [(Env.sample, some (recvOf (dataPkt 0 [1, 2, 3]) 5000))]
        longNameLoop).packets = [ackPkt 1] ∧
      (file_client_loop [(Env.sample, some (recvOf (dataPkt 0 [1, 2, 3]) 5000))]
        longNameLoop).ctx.closed = [⟨[1, 2, 3], 3⟩]) ∧
    ((file_client_loop [(envAt 2000, some (recvOf (dataPkt 1 (List.replicate 513 65)) 5000))]
        getfileLoop).packets = [ackPkt 1, rrqDatagram] ∧
      (file_client_loop [(envAt 2000, some (recvOf (dataPkt 1 (List.replicate 513 65)) 5000))]
        getfileLoop).left = false ∧
      (file_client_loop [(envAt 2000, some (recvOf (dataPkt 1 (List.replicate 513 65)) 5000))]
        getfileLoop).ctx.tmr1 = UtilTickTimerStart 2000 getfileLoop.ctx.tmr1 ACK_TIMEOUT_SECS ∧
      getfileLoop.ctx.tmr1 = UtilTickTimerStart 1000 tick_timer_t.zero ACK_TIMEOUT_SECS) := by
  decide

/-! ## C13: the final DATA block and its duplicates -/

/-- C13, counterexample. The server accepts a WRQ from port 5000 and then DATA
block 1 with 3 payload bytes: it writes them, sends the ACK of block 1, closes
the file and is back in `SVR_ST_WAIT_FIST_REQUEST`.  The same DATA packet
delivered again makes the server send a packet (an ERROR packet with code 0) and
rewrite `txBuf` and `txLen`. -/
theorem duplicate_final_data_is_answered :
    serverAfterUpload.ctx.state = SVR_ST_WAIT_FIST_REQUEST ∧
    serverAfterUpload.ctx.closed = [⟨[1, 2, 3], 3⟩] ∧
    serverAfterUpload.packets = [ackPkt 1, ackPkt 0] ∧
    serverAfterUpload.ctx.txLen = 4 ∧
    (file_server_loop [(Env.sample, some (recvOf (dataPkt 1 [1, 2, 3]) 5000))]
      serverAfterUpload).packets.map (List.take 4) = [[0, 5, 0, 0], ackPkt 1, ackPkt 0] ∧
    (file_server_loop [(Env.sample, some (recvOf (dataPkt 1 [1, 2, 3]) 5000))]
      serverAfterUpload).ctx.txLen = 31 ∧
    (file_server_loop [(Env.sample, some (recvOf (dataPkt 1 [1, 2, 3]) 5000))]
      serverAfterUpload).ctx.closed = [⟨[1, 2, 3], 3⟩] := by
  decide

/-- C13, amended. A DATA block with fewer than 512 payload bytes that carries
the expected block number, received in `CL_ST_GETFILE_RXDATA` resp.
`SVR_ST_PUTFILE_RXDATA` with the stream open (or opened for the first block) and
`fwrite` storing all bytes: the receiver appends the payload to the file once,
sends one ACK, closes the file and ends the session (the client leaves its loop,
after which no input changes anything; the server is in
`SVR_ST_WAIT_FIST_REQUEST`).  A further delivery of the same DATA packet to the
server writes nothing and leaves the state, but is answered with one ERROR
packet with code 0. -/
theorem final_data_block_ends_transfer (env env2 : Env) (r : Recv) (b : Nat)
    (payload rest : List Nat) (f : FILE) (c : ClientLoop) (s : ServerLoop)
    (hr : r.rxbuf = dataPkt b payload ++ rest ∧ r.rc = ((4 + payload.length : Nat) : Int))
    (hp : payload.length < PROT_MAX_DATA ∧ payload.length ≤ env.fwriteLimit)
    (hc : c.ctx.state = CL_ST_GETFILE_RXDATA ∧ c.ctx.nextExpectedBlockNum = b ∧
      c.g.gDebugDropPacket = 0 ∧ c.g.gDebugDropAllPks = 0 ∧ c.ctx.rxInfo.WellSized ∧
      c.ctx.txBuf.length = MAX_TX_BUFF)
    (hcf : (c.ctx.isFirstDataBlock = 0 ∧ c.ctx.pFile = some f) ∨
      (c.ctx.isFirstDataBlock ≠ 0 ∧ env.fopenWrite (cstr c.ctx.filename) = true ∧ f = ⟨[], 0⟩))
    (hs : s.ctx.state = SVR_ST_PUTFILE_RXDATA ∧ s.ctx.nextExpectedBlockNum = b ∧
      s.ctx.pFile = some f ∧ s.ctx.rxInfo.WellSized ∧ s.ctx.txBuf.length = MAX_TX_BUFF) :
    ((cl_on_readable env r c).left = true ∧
      (cl_on_readable env r c).ctx.sent =
        ⟨c.ctx.clientSock, c.ctx.remoteIpStr, r.fromPort, ackPkt ((c.ctx.blockNum + 1) % 65536)⟩ ::
          c.ctx.sent ∧
      (cl_on_readable env r c).ctx.pFile = none ∧
      (cl_on_readable env r c).ctx.closed =
        ⟨f.content ++ payload, f.pos + payload.length⟩ :: c.ctx.closed ∧
      ∀ inputs, file_client_loop inputs (cl_on_readable env r c) = cl_on_readable env r c) ∧
    ((svr_on_readable env r s).ctx.state = SVR_ST_WAIT_FIST_REQUEST ∧
      (svr_on_readable env r s).ctx.sent =
        ⟨s.ctx.serverSock, r.fromIp, r.fromPort, ackPkt ((s.ctx.blockNum + 1) % 65536)⟩ ::
          s.ctx.sent ∧
      (svr_on_readable env r s).ctx.pFile = none ∧
      (svr_on_readable env r s).ctx.closed =
        ⟨f.content ++ payload, f.pos + payload.length⟩ :: s.ctx.closed) ∧
    ((svr_on_readable env2 r (svr_on_readable env r s)).ctx.state = SVR_ST_WAIT_FIST_REQUEST ∧
      (svr_on_readable env2 r (svr_on_readable env r s)).ctx.pFile = none ∧
      (svr_on_readable env2 r (svr_on_readable env r s)).ctx.closed =
        (svr_on_readable env r s).ctx.closed ∧
      ∃ d, (svr_on_readable env2 r (svr_on_readable env r s)).ctx.sent =
          d :: (svr_on_readable env r s).ctx.sent ∧
        d.port = r.fromPort ∧ d.bytes.take 4 = [0, TFTP_ERROR, 0, 0]) := by
  obtain ⟨hr1, hr2⟩ := hr
  obtain ⟨hp1, hp2⟩ := hp
  obtain ⟨hc1, hc2, hc3, hc4, hc5, hc6⟩ := hc
  obtain ⟨hs1, hs2, hs3, hs4, hs5⟩ := hs
  obtain ⟨cc, cg, cpk, ctm, clf⟩ := c
  obtain ⟨sc, sg⟩ := s
  have hple : payload.length ≤ PROT_MAX_DATA := Nat.le_of_lt hp1
  have hcl := cl_on_readable_data env r cc cg cpk ctm clf b payload rest f hr1 hr2 hple hp2
    hc1 hc2 hc3 hc4 hc5 hc6 hcf
  have hsv := svr_on_readable_data env r sc sg b payload rest f hr1 hr2 hple hp2
    hs1 hs2 hs3 hs4 hs5
  simp only [hp1, if_true] at hcl hsv
  have hdup := svr_on_readable_data_wait env2 r _ sg b payload rest hr1 hr2 hple
    (show (svr_on_readable env r ⟨sc, sg⟩).ctx.state = SVR_ST_WAIT_FIST_REQUEST by rw [hsv])
    (show (svr_on_readable env r ⟨sc, sg⟩).ctx.rxInfo.WellSized by
      rw [hsv]; exact dataRx_wellSized _ hs4 b payload hple)
  have hg : (svr_on_readable env r ⟨sc, sg⟩) =
      ⟨(svr_on_readable env r ⟨sc, sg⟩).ctx, sg⟩ := by rw [hsv]
  rw [← hg] at hdup
  have hlen2 : (svr_on_readable env r ⟨sc, sg⟩).ctx.txBuf.length = MAX_TX_BUFF := by
    rw [hsv]; simp only [ackTxBuf_length]; exact hs5
  refine ⟨⟨?_, ?_, ?_, ?_, ?_⟩, ⟨?_, ?_, ?_, ?_⟩, ⟨?_, ?_, ?_, ?_⟩⟩
  · rw [hcl]
  · rw [hcl]
  · rw [hcl]
  · rw [hcl]
  · intro inputs
    exact file_client_loop_left inputs _ (by rw [hcl])
  · rw [hsv]
  · rw [hsv]
  · rw [hsv]
  · rw [hsv]
  · rw [hdup, hsv]
  · rw [hdup, hsv]
  · rw [hdup]
  · have hh := errPkt_header0 _ hlen2 (ascii "error sending data packet") (by decide)
    rw [hdup]
    refine ⟨_, rfl, rfl, ?_⟩
    dsimp only
    exact hh

theorem final_data_block_ends_transfer_witness :
    ((cl_on_readable Env.sample (recvOf (dataPkt 6 [1, 2, 3]) 5000) clientExpecting6).left = true ∧
      (cl_on_readable Env.sample (recvOf (dataPkt 6 [1, 2, 3]) 5000) clientExpecting6).ctx.sent =
        ⟨clientExpecting6.ctx.clientSock, clientExpecting6.ctx.remoteIpStr, (recvOf (dataPkt 6 [1, 2, 3]) 5000).fromPort, ackPkt ((clientExpecting6.ctx.blockNum + 1) % 65536)⟩ ::
          clientExpecting6.ctx.sent ∧
      (cl_on_readable Env.sample (recvOf (dataPkt 6 [1, 2, 3]) 5000) clientExpecting6).ctx.pFile = none ∧
      (cl_on_readable Env.sample (recvOf (dataPkt 6 [1, 2, 3]) 5000) clientExpecting6).ctx.closed =
        ⟨(⟨List.replicate 2560 65, 2560⟩ : FILE).content ++ [1, 2, 3], (⟨List.replicate 2560 65, 2560⟩ : FILE).pos + [1, 2, 3].length⟩ :: clientExpecting6.ctx.closed ∧
      ∀ inputs, file_client_loop inputs (cl_on_readable Env.sample (recvOf (dataPkt 6 [1, 2, 3]) 5000) clientExpecting6) = cl_on_readable Env.sample (recvOf (dataPkt 6 [1, 2, 3]) 5000) clientExpecting6) ∧
    ((svr_on_readable Env.sample (recvOf (dataPkt 6 [1, 2, 3]) 5000) serverExpecting6).ctx.state = SVR_ST_WAIT_FIST_REQUEST ∧
      (svr_on_readable Env.sample (recvOf (dataPkt 6 [1, 2, 3]) 5000) serverExpecting6).ctx.sent =
        ⟨serverExpecting6.ctx.serverSock, (recvOf (dataPkt 6 [1, 2, 3]) 5000).fromIp, (recvOf (dataPkt 6 [1, 2, 3]) 5000).fromPort, ackPkt ((serverExpecting6.ctx.blockNum + 1) % 65536)⟩ ::
          serverExpecting6.ctx.sent ∧
      (svr_on_readable Env.sample (recvOf (dataPkt 6 [1, 2, 3]) 5000) serverExpecting6).ctx.pFile = none ∧
      (svr_on_readable Env.sample (recvOf (dataPkt 6 [1, 2, 3]) 5000) serverExpecting6).ctx.closed =
        ⟨(⟨List.replicate 2560 65, 2560⟩ : FILE).content ++ [1, 2, 3], (⟨List.replicate 2560 65, 2560⟩ : FILE).pos + [1, 2, 3].length⟩ :: serverExpecting6.ctx.closed) ∧
    ((svr_on_readable Env.sample (recvOf (dataPkt 6 [1, 2, 3]) 5000) (svr_on_readable Env.sample (recvOf (dataPkt 6 [1, 2, 3]) 5000) serverExpecting6)).ctx.state = SVR_ST_WAIT_FIST_REQUEST ∧
      (svr_on_readable Env.sample (recvOf (dataPkt 6 [1, 2, 3]) 5000) (svr_on_readable Env.sample (recvOf (dataPkt 6 [1, 2, 3]) 5000) serverExpecting6)).ctx.pFile = none ∧
      (svr_on_readable Env.sample (recvOf (dataPkt 6 [1, 2, 3]) 5000) (svr_on_readable Env.sample (recvOf (dataPkt 6 [1, 2, 3]) 5000) serverExpecting6)).ctx.closed =
        (svr_on_readable Env.sample (recvOf (dataPkt 6 [1, 2, 3]) 5000) serverExpecting6).ctx.closed ∧
      ∃ d, (svr_on_readable Env.sample (recvOf (dataPkt 6 [1, 2, 3]) 5000) (svr_on_readable Env.sample (recvOf (dataPkt 6 [1, 2, 3]) 5000) serverExpecting6)).ctx.sent =
          d :: (svr_on_readable Env.sample (recvOf (dataPkt 6 [1, 2, 3]) 5000) serverExpecting6).ctx.sent ∧
        d.port = (recvOf (dataPkt 6 [1, 2, 3]) 5000).fromPort ∧ d.bytes.take 4 = [0, TFTP_ERROR, 0, 0]) :=
  final_data_block_ends_transfer Env.sample Env.sample (recvOf (dataPkt 6 [1, 2, 3]) 5000) 6 [1, 2, 3]
    (List.replicate (MAX_RX_BUFF - 7) 0) ⟨List.replicate 2560 65, 2560⟩ clientExpecting6
    serverExpecting6 ⟨rfl, rfl⟩ ⟨by decide, by decide⟩
    ⟨by decide, by decide, by decide, by decide, zero_wellSized, by decide⟩
    (Or.inl ⟨by decide, rfl⟩)
    ⟨by decide, by decide, rfl, zero_wellSized, by decide⟩

/-! ## C14: an upload of a whole number of blocks -/

/-- C14, counterexample. For the source file of `65535 * 512` bytes (`k = 65535`)
the additional DATA block, the one after the 65535 full blocks, carries the block
number 0 in its header (`00 03 00 00`), not `k + 1 = 65536`: `blockNum` is a
16-bit counter. -/
theorem upload_block_number_wraps :
    wrapFile.length = 65535 * 512 ∧
    ∃ s0, file_client_start wrapEnv Globals.init 3 (ascii "10.0.0.1") (ascii "b.bin")
        (ascii "putfile") = some s0 ∧
      (cl_receive (fun _ => Env.sample) ackFrom5000 65536 s0).packets.head? =
        some [0, 3, 0, 0] := by
  have hlen : wrapFile.length = 65535 * 512 := List.length_replicate _ _
  refine ⟨hlen, ?_⟩
  obtain ⟨s0, hs0, hinv⟩ := upload_start wrapEnv Globals.init 3 (ascii "10.0.0.1") (ascii "b.bin")
    wrapFile (by decide) (by decide) rfl
  refine ⟨s0, hs0, ?_⟩
  have hdiv : wrapFile.length / PROT_MAX_DATA + 1 = 65536 := by
    rw [hlen]; rfl
  have hrun := upload_run wrapFile (ascii "b.bin") Globals.init (fun _ => Env.sample) ackFrom5000
    s0 ⟨rfl, rfl, rfl⟩ (fun _ => (by decide : (0 : Int) ≤ Env.sample.sendRc)) (fun i => ⟨_, rfl, rfl⟩) hinv 65536
    (by rw [hdiv])
  have hblk : blockOf wrapFile 65535 = [] := by
    unfold blockOf
    rw [List.drop_eq_nil_of_le (by rw [hlen]; decide)]
    rfl
  have hp := hrun.2.2.2.2.2.2.2.2.2
  unfold ClientLoop.packets
  rw [hp, show (65536 : Nat) = 65535 + 1 from rfl, dataPkts_succ, hblk]
  rfl

/-- C14, amended. For a source file of `k * 512` bytes, `k ≥ 1`, and a file
name of at most 512 bytes without NUL, `file_client` started for `putfile` sends
the request and then, as the ACKs of the blocks `0, 1, .., k` arrive in order
(block numbers as 16-bit values, no time-out in between, `sendto` succeeding): `k`
DATA blocks of 512 payload bytes and one more DATA block with no payload, block
`i` carrying the number `i mod 65536` (`dataPkts`).  The loop goes on while block
`k + 1` awaits its ACK; on that ACK it ends, nothing more is sent, and no later
datagram changes anything. -/
theorem upload_of_full_blocks (env0 : Env) (envOf : Nat → Env) (r : Nat → Recv) (g : Globals)
    (sock : Int) (ip f content : List Nat) (k : Nat)
    (hk : 1 ≤ k ∧ content.length = k * PROT_MAX_DATA)
    (hf : f.length ≤ 512 ∧ ∀ c ∈ f, c ≠ 0) (hopen : env0.fopenRead f = some content)
    (hg : g.gDone = 0 ∧ g.gDebugDropPacket = 0 ∧ g.gDebugDropAllPks = 0)
    (henv : ∀ i, 0 ≤ (envOf i).sendRc)
    (hr : ∀ i, ∃ rest, (r i).rxbuf = ackPkt (i % 65536) ++ rest ∧ (r i).rc = 4) :
    ∃ s0, file_client_start env0 g sock ip f (ascii "putfile") = some s0 ∧
      (cl_receive envOf r (k + 1) s0).packets = dataPkts content (k + 1) ++ [requestPkt 2 f] ∧
      (∀ i, i < k → (blockOf content i).length = PROT_MAX_DATA) ∧ blockOf content k = [] ∧
      (cl_receive envOf r (k + 1) s0).left = false ∧
      (cl_receive envOf r (k + 2) s0).left = true ∧
      (cl_receive envOf r (k + 2) s0).packets = (cl_receive envOf r (k + 1) s0).packets ∧
      ∀ m, cl_receive envOf r (k + 2 + m) s0 = cl_receive envOf r (k + 2) s0 := by
  obtain ⟨s0, hs0, hinv⟩ := upload_start env0 g sock ip f content hf.1 hf.2 hopen
  have hdiv : content.length / PROT_MAX_DATA = k := by
    rw [hk.2]; exact Nat.mul_div_cancel k (by decide)
  have hrun := upload_run content f g envOf r s0 hg henv hr hinv (k + 1) (by rw [hdiv])
  have hend := upload_end content f g envOf r s0 hg henv hr hinv
  rw [hdiv] at hend
  refine ⟨s0, hs0, hrun.2.2.2.2.2.2.2.2.2, ?_, ?_, hrun.1, hend.1, ?_, ?_⟩
  · intro i hi
    rw [blockOf_length, hk.2]
    simp only [PROT_MAX_DATA]
    have : 512 * i + 512 ≤ k * 512 := by omega
    omega
  · unfold blockOf
    rw [List.drop_eq_nil_of_le (by rw [hk.2, Nat.mul_comm])]
    rfl
  · unfold ClientLoop.packets
    rw [hend.2]
  · exact cl_receive_left envOf r s0 (k + 2) hend.1

theorem upload_of_full_blocks_witness :
    ∃ s0, file_client_start oneBlockEnv Globals.init 3 (ascii "10.0.0.1") (ascii "b.bin")
        (ascii "putfile") = some s0 ∧
      (cl_receive (fun _ => Env.sample) ackFrom5000 (1 + 1) s0).packets =
        dataPkts oneBlockFile (1 + 1) ++ [requestPkt 2 (ascii "b.bin")] ∧
      (∀ i, i < 1 → (blockOf oneBlockFile i).length = PROT_MAX_DATA) ∧
      blockOf oneBlockFile 1 = [] ∧
      (cl_receive (fun _ => Env.sample) ackFrom5000 (1 + 1) s0).left = false ∧
      (cl_receive (fun _ => Env.sample) ackFrom5000 (1 + 2) s0).left = true ∧
      (cl_receive (fun _ => Env.sample) ackFrom5000 (1 + 2) s0).packets =
        (cl_receive (fun _ => Env.sample) ackFrom5000 (1 + 1) s0).packets ∧
      ∀ m, cl_receive (fun _ => Env.sample) ackFrom5000 (1 + 2 + m) s0 =
        cl_receive (fun _ => Env.sample) ackFrom5000 (1 + 2) s0 :=
  upload_of_full_blocks oneBlockEnv (fun _ => Env.sample) ackFrom5000 Globals.init 3
    (ascii "10.0.0.1") (ascii "b.bin") oneBlockFile 1 ⟨by decide, by decide⟩
    ⟨by decide, by decide⟩ rfl ⟨rfl, rfl, rfl⟩ (fun _ => (by decide : (0 : Int) ≤ Env.sample.sendRc)) (fun _ => ⟨_, rfl, rfl⟩)

/-! ## C15: a download over a channel without loss -/

/-- C21, evaluation at the failing inputs. A server that serves a download of a
1000-byte file (after the RRQ and DATA block 1) is back in
`SVR_ST_WAIT_FIST_REQUEST` with the source file still open, and no stream closed,
after (1) a received ERROR packet, (2) a packet with an unexpected opcode (DATA),
(3) a failure of `sendto` for DATA block 2.  A server that serves an upload (after
the WRQ and the ACK of block 0) is back in `SVR_ST_WAIT_FIST_REQUEST` with the
target file still open after (4) a received ERROR packet, (5) a packet with an
unexpected opcode (ACK), (6) a failure of `fwrite`.  Only the completion of the
transfer (7) closes the file. -/
theorem server_leaves_file_open :
    ((serverAfterRrqThen kiloEnv errorDatagram).ctx.state = SVR_ST_WAIT_FIST_REQUEST ∧
      (serverAfterRrqThen kiloEnv errorDatagram).ctx.pFile = some ⟨kiloFile, 512⟩ ∧
      (serverAfterRrqThen kiloEnv errorDatagram).ctx.closed = []) ∧
    ((serverAfterRrqThen kiloEnv (dataPkt 1 [1, 2, 3])).ctx.state = SVR_ST_WAIT_FIST_REQUEST ∧
      (serverAfterRrqThen kiloEnv (dataPkt 1 [1, 2, 3])).ctx.pFile = some ⟨kiloFile, 512⟩ ∧
      (serverAfterRrqThen kiloEnv (dataPkt 1 [1, 2, 3])).ctx.closed = []) ∧
    ((serverAfterRrqThen Env.kiloSendFails (ackPkt 1)).ctx.state = SVR_ST_WAIT_FIST_REQUEST ∧
      (serverAfterRrqThen Env.kiloSendFails (ackPkt 1)).ctx.pFile = some ⟨kiloFile, 1000⟩ ∧
      (serverAfterRrqThen Env.kiloSendFails (ackPkt 1)).ctx.closed = []) ∧
    ((serverAfterWrqThen Env.sample errorDatagram).ctx.state = SVR_ST_WAIT_FIST_REQUEST ∧
      (serverAfterWrqThen Env.sample errorDatagram).ctx.pFile = some ⟨[], 0⟩ ∧
      (serverAfterWrqThen Env.sample errorDatagram).ctx.closed = []) ∧
    ((serverAfterWrqThen Env.sample (ackPkt 1)).ctx.state = SVR_ST_WAIT_FIST_REQUEST ∧
      (serverAfterWrqThen Env.sample (ackPkt 1)).ctx.pFile = some ⟨[], 0⟩ ∧
      (serverAfterWrqThen Env.sample (ackPkt 1)).ctx.closed = []) ∧
    ((serverAfterWrqThen Env.diskFull (dataPkt 1 [1, 2, 3])).ctx.state =
        SVR_ST_WAIT_FIST_REQUEST ∧
      (serverAfterWrqThen Env.diskFull (dataPkt 1 [1, 2, 3])).ctx.pFile = some ⟨[], 0⟩ ∧
      (serverAfterWrqThen Env.diskFull (dataPkt 1 [1, 2, 3])).ctx.closed = []) ∧
    ((serverAfterWrqThen Env.sample (dataPkt 1 [1, 2, 3])).ctx.state =
        SVR_ST_WAIT_FIST_REQUEST ∧
      (serverAfterWrqThen Env.sample (dataPkt 1 [1, 2, 3])).ctx.pFile = none ∧
      (serverAfterWrqThen Env.sample (dataPkt 1 [1, 2, 3])).ctx.closed = [⟨[1, 2, 3], 3⟩]) := by
  decide

/-! ## C22: a write request in the waiting state -/

/-- C22. When the server is in `SVR_ST_WAIT_FIST_REQUEST`, a WRQ has been decoded
and the file it names opens for writing, the event `EV_SVR_PDU_RX` makes the
server send exactly one datagram, to the address of the request: the ACK of block
0, bytes `00 04 00 00`.  Afterwards `nextExpectedBlockNum` is 1, `blockNum` is 0,
the ack timer `tmr1` has been started at the current tick for `ACK_TIMEOUT_SECS`
and is running, the opened file is held, and the state is
`SVR_ST_PUTFILE_RXDATA`. -/
theorem wrq_is_acknowledged_with_block_zero (env : Env) (g : Globals) (ctx : server_session_t)
    (hs : ctx.state = SVR_ST_WAIT_FIST_REQUEST) (hop : ctx.rxInfo.optcode = TFTP_WRQ)
    (hopen : env.fopenWrite (cstr ctx.rxInfo.filename) = true)
    (htx : ctx.txBuf.length = MAX_TX_BUFF) :
    (svr_fsm_event env g ctx EV_SVR_PDU_RX).sent =
      ⟨ctx.serverSock, ctx.client_ip, ctx.client_Port, [0, 4, 0, 0]⟩ :: ctx.sent ∧
    (svr_fsm_event env g ctx EV_SVR_PDU_RX).nextExpectedBlockNum = 1 ∧
    (svr_fsm_event env g ctx EV_SVR_PDU_RX).blockNum = 0 ∧
    (svr_fsm_event env g ctx EV_SVR_PDU_RX).tmr1 =
      UtilTickTimerStart env.tick ctx.tmr1 ACK_TIMEOUT_SECS ∧
    (svr_fsm_event env g ctx EV_SVR_PDU_RX).tmr1.running = 1 ∧
    (svr_fsm_event env g ctx EV_SVR_PDU_RX).pFile = some ⟨[], 0⟩ ∧
    (svr_fsm_event env g ctx EV_SVR_PDU_RX).closed = ctx.closed ∧
    (svr_fsm_event env g ctx EV_SVR_PDU_RX).state = SVR_ST_PUTFILE_RXDATA := by
  rw [svr_fsm_event_wait env g ctx _ hs, svr_wait_first_request_wrq env g ctx hop hopen]
  have ht := ackTxBuf_take ctx.txBuf htx 0 (by decide)
  refine ⟨?_, rfl, rfl, rfl, rfl, rfl, rfl, rfl⟩
  simp only [ht]

/-- C22, witness: the WRQ for the file `a` from port 5000, decoded by a waiting
server whose environment opens every file. -/
theorem wrq_is_acknowledged_with_block_zero_witness :
    (svr_fsm_event Env.sample Globals.init sampleWrq EV_SVR_PDU_RX).sent =
      [⟨3, [], 5000, [0, 4, 0, 0]⟩] ∧
    (svr_fsm_event Env.sample Globals.init sampleWrq EV_SVR_PDU_RX).nextExpectedBlockNum = 1 ∧
    (svr_fsm_event Env.sample Globals.init sampleWrq EV_SVR_PDU_RX).tmr1 = ⟨1000, 3000, 0, 1⟩ ∧
    (svr_fsm_event Env.sample Globals.init sampleWrq EV_SVR_PDU_RX).state =
      SVR_ST_PUTFILE_RXDATA := by
  have h := wrq_is_acknowledged_with_block_zero Env.sample Globals.init sampleWrq rfl rfl rfl
    (by decide)
  exact ⟨h.1, h.2.1, h.2.2.2.1, h.2.2.2.2.2.2.2⟩

/-! ## C23: a read request in the waiting state -/

/-- C23. When the server is in `SVR_ST_WAIT_FIST_REQUEST`, an RRQ has been decoded
and the file it names opens for reading with the content `content`, the event
`EV_SVR_PDU_RX` makes the server hand to `sendto`, for the address of the request,
the DATA packet of block 1 with the first `min 512 content.length` bytes of the
file.  When `sendto` succeeds nothing else is sent, the ack timer `tmr1` is
started at the current tick and the state becomes `SVR_ST_GETFILE_TXDATA`.  When
`sendto` fails the server then sends one ERROR packet (code 0), does not start the
ack timer and stays in `SVR_ST_WAIT_FIST_REQUEST`. -/
theorem rrq_is_answered_with_block_one (env : Env) (g : Globals) (ctx : server_session_t)
    (content : List Nat)
    (hs : ctx.state = SVR_ST_WAIT_FIST_REQUEST) (hop : ctx.rxInfo.optcode = TFTP_RRQ)
    (hopen : env.fopenRead (cstr ctx.rxInfo.filename) = some content)
    (htx : ctx.txBuf.length = MAX_TX_BUFF) :
    dataPkt 1 (blockOf content 0) = [0, 3, 0, 1] ++ content.take (min 512 content.length) ∧
    (0 ≤ env.sendRc →
      (svr_fsm_event env g ctx EV_SVR_PDU_RX).sent =
        ⟨ctx.serverSock, ctx.client_ip, ctx.client_Port, dataPkt 1 (blockOf content 0)⟩ ::
          ctx.sent ∧
      (svr_fsm_event env g ctx EV_SVR_PDU_RX).tmr1 =
        UtilTickTimerStart env.tick ctx.tmr1 ACK_TIMEOUT_SECS ∧
      (svr_fsm_event env g ctx EV_SVR_PDU_RX).blockNum = 1 ∧
      (svr_fsm_event env g ctx EV_SVR_PDU_RX).nextExpectedBlockNum = 1 ∧
      (svr_fsm_event env g ctx EV_SVR_PDU_RX).state = SVR_ST_GETFILE_TXDATA) ∧
    (env.sendRc < 0 →
      (∃ e, (svr_fsm_event env g ctx EV_SVR_PDU_RX).sent =
          ⟨ctx.serverSock, ctx.client_ip, ctx.client_Port, e⟩ ::
            ⟨ctx.serverSock, ctx.client_ip, ctx.client_Port, dataPkt 1 (blockOf content 0)⟩ ::
              ctx.sent ∧
        e.take 4 = [0, TFTP_ERROR, 0, 0]) ∧
      (svr_fsm_event env g ctx EV_SVR_PDU_RX).tmr1 = ctx.tmr1 ∧
      (svr_fsm_event env g ctx EV_SVR_PDU_RX).state = SVR_ST_WAIT_FIST_REQUEST) := by
  rw [svr_fsm_event_wait env g ctx _ hs]
  refine ⟨?_, ?_, ?_⟩
  · have : content.take (min 512 content.length) = content.take 512 := by
      rw [List.take_eq_take]
      omega
    rw [this]
    simp [dataPkt, blockOf, PROT_MAX_DATA]
  · intro hrc
    rw [svr_wait_first_request_rrq env g ctx content htx hop hopen hrc]
    exact ⟨rfl, rfl, rfl, rfl, rfl⟩
  · intro hrc
    rw [svr_wait_first_request_rrq_sendfail env g ctx content htx hop hopen hrc]
    refine ⟨⟨_, rfl, ?_⟩, rfl, rfl⟩
    exact errPkt_header0 _ (by rw [firstDataTxBuf_length]; exact htx) _ (by decide)

/-- C23, witness: the RRQ for the file `a` (content `ABC`) from port 5000, with
`sendto` succeeding and with `sendto` failing. -/
theorem rrq_is_answered_with_block_one_witness :
    (svr_fsm_event Env.sample Globals.init sampleRequest EV_SVR_PDU_RX).sent =
      [⟨3, [], 5000, [0, 3, 0, 1, 65, 66, 67]⟩] ∧
    (svr_fsm_event Env.sample Globals.init sampleRequest EV_SVR_PDU_RX).state =
      SVR_ST_GETFILE_TXDATA ∧
    (svr_fsm_event Env.sendFails Globals.init sampleRequest EV_SVR_PDU_RX).state =
      SVR_ST_WAIT_FIST_REQUEST ∧
    (svr_fsm_event Env.sendFails Globals.init sampleRequest EV_SVR_PDU_RX).sent.map
      (fun d => d.bytes.take 4) = [[0, 5, 0, 0], [0, 3, 0, 1]] := by
  have h := rrq_is_answered_with_block_one Env.sample Globals.init sampleRequest [65, 66, 67]
    rfl rfl rfl (by decide)
  have h2 := rrq_is_answered_with_block_one Env.sendFails Globals.init sampleRequest
    [65, 66, 67] rfl rfl rfl (by decide)
  obtain ⟨⟨e, he1, he2⟩, -, hst⟩ := h2.2.2 (by decide)
  refine ⟨(h.2.1 (by decide)).1, (h.2.1 (by decide)).2.2.2.2, hst, ?_⟩
  rw [he1]
  simp only [List.map_cons, List.map_nil, he2]
  rfl

/-! ## C24: what the waiting server cannot serve -/

/-- C24. When the server is in `SVR_ST_WAIT_FIST_REQUEST` and the decoded packet
is a WRQ whose file does not open for writing, an RRQ whose file does not open for
reading, or a packet with any other opcode, the event `EV_SVR_PDU_RX` makes the
server send exactly one datagram, to the address of the packet, that starts with
the opcode of ERROR (`00 05`) and the error code (1 for a request, 0 otherwise);
no stream is opened (`pFile` is `NULL` after a request and unchanged otherwise,
nothing is closed), and the state stays `SVR_ST_WAIT_FIST_REQUEST`. -/
theorem unservable_packet_is_answered_with_error (env : Env) (g : Globals)
    (ctx : server_session_t)
    (hs : ctx.state = SVR_ST_WAIT_FIST_REQUEST) (htx : ctx.txBuf.length = MAX_TX_BUFF)
    (h : (ctx.rxInfo.optcode = TFTP_WRQ ∧ env.fopenWrite (cstr ctx.rxInfo.filename) = false) ∨
      (ctx.rxInfo.optcode = TFTP_RRQ ∧ env.fopenRead (cstr ctx.rxInfo.filename) = none) ∨
      (ctx.rxInfo.optcode ≠ TFTP_WRQ ∧ ctx.rxInfo.optcode ≠ TFTP_RRQ)) :
    (∃ e, (svr_fsm_event env g ctx EV_SVR_PDU_RX).sent =
        ⟨ctx.serverSock, ctx.client_ip, ctx.client_Port, e⟩ :: ctx.sent ∧
      e.take 4 = [0, TFTP_ERROR, 0,
        if ctx.rxInfo.optcode = TFTP_WRQ ∨ ctx.rxInfo.optcode = TFTP_RRQ then 1 else 0]) ∧
    (svr_fsm_event env g ctx EV_SVR_PDU_RX).pFile =
      (if ctx.rxInfo.optcode = TFTP_WRQ ∨ ctx.rxInfo.optcode = TFTP_RRQ then none
        else ctx.pFile) ∧
    (svr_fsm_event env g ctx EV_SVR_PDU_RX).closed = ctx.closed ∧
    (svr_fsm_event env g ctx EV_SVR_PDU_RX).state = SVR_ST_WAIT_FIST_REQUEST := by
  rw [svr_fsm_event_wait env g ctx _ hs]
  have h1 := errPkt_header ctx.txBuf htx 1 (ascii "file not found") (by decide)
  rcases h with ⟨hop, hopen⟩ | ⟨hop, hopen⟩ | ⟨hw, hr⟩
  · rw [svr_wait_first_request_wrq_fail env g ctx hop hopen]
    refine ⟨⟨_, rfl, ?_⟩, ?_, rfl, hs⟩
    · rw [h1, if_pos (Or.inl hop)]
      rfl
    · rw [if_pos (Or.inl hop)]
  · rw [svr_wait_first_request_rrq_fail env g ctx hop hopen]
    refine ⟨⟨_, rfl, ?_⟩, ?_, rfl, hs⟩
    · rw [h1, if_pos (Or.inr hop)]
      rfl
    · rw [if_pos (Or.inr hop)]
  · have hno : ¬ (ctx.rxInfo.optcode = TFTP_WRQ ∨ ctx.rxInfo.optcode = TFTP_RRQ) := by
      rintro (h | h)
      · exact hw h
      · exact hr h
    rw [svr_wait_first_request_other env g ctx hw hr]
    refine ⟨⟨_, rfl, ?_⟩, ?_, rfl, rfl⟩
    · rw [errPkt_header0 ctx.txBuf htx _ (by decide), if_neg hno]
    · rw [if_neg hno]

/-- C24, witness: a WRQ and an RRQ for the file `a` when no file opens, and an ACK
of block 1, each decoded by a waiting server. -/
theorem unservable_packet_is_answered_with_error_witness :
    ((svr_fsm_event Env.noFiles Globals.init sampleWrq EV_SVR_PDU_RX).sent.map
        (fun d => d.bytes.take 4) = [[0, 5, 0, 1]] ∧
      (svr_fsm_event Env.noFiles Globals.init sampleWrq EV_SVR_PDU_RX).state =
        SVR_ST_WAIT_FIST_REQUEST) ∧
    ((svr_fsm_event Env.noFiles Globals.init sampleRequest EV_SVR_PDU_RX).sent.map
        (fun d => d.bytes.take 4) = [[0, 5, 0, 1]] ∧
      (svr_fsm_event Env.noFiles Globals.init sampleRequest EV_SVR_PDU_RX).pFile = none) ∧
    ((svr_fsm_event Env.sample Globals.init sampleStray EV_SVR_PDU_RX).sent.map
        (fun d => d.bytes.take 4) = [[0, 5, 0, 0]] ∧
      (svr_fsm_event Env.sample Globals.init sampleStray EV_SVR_PDU_RX).state =
        SVR_ST_WAIT_FIST_REQUEST) := by
  obtain ⟨⟨e1, a1, b1⟩, -, -, d1⟩ := unservable_packet_is_answered_with_error Env.noFiles
    Globals.init sampleWrq rfl (by decide) (Or.inl ⟨rfl, rfl⟩)
  obtain ⟨⟨e2, a2, b2⟩, c2, -, -⟩ := unservable_packet_is_answered_with_error Env.noFiles
    Globals.init sampleRequest rfl (by decide) (Or.inr (Or.inl ⟨rfl, rfl⟩))
  obtain ⟨⟨e3, a3, b3⟩, -, -, d3⟩ := unservable_packet_is_answered_with_error Env.sample
    Globals.init sampleStray rfl (by decide) (Or.inr (Or.inr ⟨by decide, by decide⟩))
  refine ⟨⟨?_, d1⟩, ⟨?_, c2⟩, ⟨?_, d3⟩⟩
  · rw [a1]
    simp only [List.map_cons, List.map_nil, b1]
    rfl
  · rw [a2]
    simp only [List.map_cons, List.map_nil, b2]
    rfl
  · rw [a3]
    simp only [List.map_cons, List.map_nil, b3]
    rfl

/-! ## C25: packets the client does not expect -/

/-- C25. When the client is in `CL_ST_GETFILE_RXDATA` and the decoded packet is
not a DATA packet, or in `CL_ST_PUTFILE_TXDATA` and the decoded packet is not an
ACK, the event `EV_CL_PDU_RX` ends the session: `cl_fsm_event` returns 0, the
socket is closed (`INVALID_SOCKET`), the file is closed (`pFile` is `NULL`, the
stream that was open is in the log of closed streams).  When the packet is an
ERROR packet nothing is sent; otherwise exactly one datagram is sent, to the
address of the packet, and it starts with `00 05 00 00`: an ERROR packet with
the error code 0. -/
theorem unexpected_packet_aborts_client (env : Env) (g : Globals) (ctx : client_session_t)
    (htx : ctx.txBuf.length = MAX_TX_BUFF)
    (h : (ctx.state = CL_ST_GETFILE_RXDATA ∧ ctx.rxInfo.optcode ≠ TFTP_DATA) ∨
      (ctx.state = CL_ST_PUTFILE_TXDATA ∧ ctx.rxInfo.optcode ≠ TFTP_ACK)) :
    (cl_fsm_event env g ctx EV_CL_PDU_RX).1 = 0 ∧
    (cl_fsm_event env g ctx EV_CL_PDU_RX).2.1.clientSock = close_socket ctx.clientSock ∧
    close_socket ctx.clientSock = INVALID_SOCKET ∧
    (cl_fsm_event env g ctx EV_CL_PDU_RX).2.1.pFile = none ∧
    (cl_fsm_event env g ctx EV_CL_PDU_RX).2.1.closed = closeLog ctx.pFile ctx.closed ∧
    (cl_fsm_event env g ctx EV_CL_PDU_RX).2.2 = g ∧
    (ctx.rxInfo.optcode = TFTP_ERROR →
      (cl_fsm_event env g ctx EV_CL_PDU_RX).2.1.sent = ctx.sent) ∧
    (ctx.rxInfo.optcode ≠ TFTP_ERROR →
      ∃ e, (cl_fsm_event env g ctx EV_CL_PDU_RX).2.1.sent =
          ⟨ctx.clientSock, ctx.remoteIpStr, ctx.svrPort, e⟩ :: ctx.sent ∧
        e.take 4 = [0, TFTP_ERROR, 0, 0]) := by
  have hcs : close_socket ctx.clientSock = INVALID_SOCKET := by
    unfold close_socket
    split <;> simp_all
  have hh := errPkt_header0 ctx.txBuf htx (ascii "error unexpected optcode recieved") (by decide)
  have h54 : TFTP_ERROR ≠ TFTP_ACK := by decide
  have h53 : TFTP_ERROR ≠ TFTP_DATA := by decide
  rcases h with ⟨hs, hop⟩ | ⟨hs, hop⟩
  · rw [cl_fsm_event_getfile env g ctx _ hs]
    by_cases he : ctx.rxInfo.optcode = TFTP_ERROR
    · rw [cl_getfile_rxData_error env g ctx he, cl_close_file_and_sock_form]
      exact ⟨rfl, rfl, hcs, rfl, rfl, rfl, fun _ => rfl, fun hn => absurd he hn⟩
    · rw [cl_getfile_rxData_other env g ctx hop he, cl_close_file_and_sock_form]
      exact ⟨rfl, rfl, hcs, rfl, rfl, rfl, fun hn => absurd hn he, fun _ => ⟨_, rfl, hh⟩⟩
  · rw [cl_fsm_event_putfile env g ctx _ hs]
    by_cases he : ctx.rxInfo.optcode = TFTP_ERROR
    · rw [cl_putfile_txData_error env g ctx he, cl_close_file_and_sock_form]
      exact ⟨rfl, rfl, hcs, rfl, rfl, rfl, fun _ => rfl, fun hn => absurd he hn⟩
    · rw [cl_putfile_txData_other env g ctx hop he, cl_close_file_and_sock_form]
      exact ⟨rfl, rfl, hcs, rfl, rfl, rfl, fun hn => absurd hn he, fun _ => ⟨_, rfl, hh⟩⟩

/-- C25, witness: an ACK decoded during a download is answered with one ERROR
packet of code 0 and ends the session; an ERROR packet decoded during an upload
ends the session without a reply. -/
theorem unexpected_packet_aborts_client_witness :
    ((cl_fsm_event Env.sample Globals.init ackInDownload EV_CL_PDU_RX).1 = 0 ∧
      (cl_fsm_event Env.sample Globals.init ackInDownload EV_CL_PDU_RX).2.1.sent.map
        (fun d => d.bytes.take 4) = [[0, 5, 0, 0]] ∧
      (cl_fsm_event Env.sample Globals.init ackInDownload EV_CL_PDU_RX).2.1.pFile = none) ∧
    ((cl_fsm_event Env.sample Globals.init errorInUpload EV_CL_PDU_RX).1 = 0 ∧
      (cl_fsm_event Env.sample Globals.init errorInUpload EV_CL_PDU_RX).2.1.sent = [] ∧
      (cl_fsm_event Env.sample Globals.init errorInUpload EV_CL_PDU_RX).2.1.clientSock =
        INVALID_SOCKET) := by
  have h1 := unexpected_packet_aborts_client Env.sample Globals.init ackInDownload (by decide)
    (Or.inl ⟨rfl, by decide⟩)
  have h2 := unexpected_packet_aborts_client Env.sample Globals.init errorInUpload (by decide)
    (Or.inr ⟨rfl, by decide⟩)
  obtain ⟨e, he1, he2⟩ := h1.2.2.2.2.2.2.2 (by decide)
  refine ⟨⟨h1.1, ?_, h1.2.2.2.1⟩, ⟨h2.1, h2.2.2.2.2.2.2.1 rfl, h2.2.1.trans h2.2.2.1⟩⟩
  rw [he1]
  simp only [List.map_cons, he2]
  rfl

/-! ## C26: block numbers are 16-bit counters -/

/-- C26. Whenever a session accepts the decoded packet in a transfer state
(`ClAccepts`, `SvrAccepts`: the expected block number, DATA for the receiver of
the file with the write succeeding, ACK for its sender with `sendto` succeeding),
the new `nextExpectedBlockNum` and the new `blockNum` are the old values plus 1
modulo 65536, and a packet sent in reply (the ACK, or the next DATA block)
carries the new `blockNum` as the two bytes `blockNum / 256`, `blockNum % 256`
of its header.  When the transfer goes on after that (the client handler returned
1, the server stayed in its state), a following packet of the same kind numbered
with the old `nextExpectedBlockNum` plus 1 modulo 65536 is accepted in turn, and
the counters advance again.  In particular from `nextExpectedBlockNum = 65535`
the packet numbered 65535 gives `nextExpectedBlockNum = 0`, the following packet
numbered 0 is accepted and gives 1. -/
theorem block_numbers_wrap (env env2 : Env) (g : Globals) (cl : client_session_t)
    (sv : server_session_t) (rxc rxs : prot_frame_info_t)
    (hcl : ClAccepts env cl ∧ cl.txBuf.length = MAX_TX_BUFF)
    (hsv : SvrAccepts env sv ∧ sv.txBuf.length = MAX_TX_BUFF)
    (hrxc : rxc.optcode = cl.rxInfo.optcode ∧
      rxc.blocknum = (cl.nextExpectedBlockNum + 1) % 65536)
    (hrxs : rxs.optcode = sv.rxInfo.optcode ∧
      rxs.blocknum = (sv.nextExpectedBlockNum + 1) % 65536)
    (he2 : size_t_of ((rxc.rxLen : Int) - 4) ≤ env2.fwriteLimit ∧
      size_t_of ((rxs.rxLen : Int) - 4) ≤ env2.fwriteLimit ∧ 0 ≤ env2.sendRc) :
    ((clAfter env g cl).nextExpectedBlockNum = (cl.nextExpectedBlockNum + 1) % 65536 ∧
      (clAfter env g cl).blockNum = (cl.blockNum + 1) % 65536 ∧
      (cl_fsm_event env g cl EV_CL_PDU_RX).2.2 = g ∧
      SentNumbered cl.sent (clAfter env g cl).sent cl.clientSock cl.remoteIpStr cl.svrPort
        (clAfter env g cl).blockNum ∧
      (cl.nextExpectedBlockNum = 65535 →
        (clAfter env g cl).nextExpectedBlockNum = 0 ∧ rxc.blocknum = 0) ∧
      ((cl_fsm_event env g cl EV_CL_PDU_RX).1 = 1 →
        ClAccepts env2 (clNext env g cl rxc) ∧
        (clAfter env2 g (clNext env g cl rxc)).nextExpectedBlockNum =
          (cl.nextExpectedBlockNum + 2) % 65536 ∧
        (clAfter env2 g (clNext env g cl rxc)).blockNum = (cl.blockNum + 2) % 65536 ∧
        (cl.nextExpectedBlockNum = 65535 →
          (clAfter env2 g (clNext env g cl rxc)).nextExpectedBlockNum = 1))) ∧
    ((svrAfter env g sv).nextExpectedBlockNum = (sv.nextExpectedBlockNum + 1) % 65536 ∧
      (svrAfter env g sv).blockNum = (sv.blockNum + 1) % 65536 ∧
      SentNumbered sv.sent (svrAfter env g sv).sent sv.serverSock sv.client_ip sv.client_Port
        (svrAfter env g sv).blockNum ∧
      (sv.nextExpectedBlockNum = 65535 →
        (svrAfter env g sv).nextExpectedBlockNum = 0 ∧ rxs.blocknum = 0) ∧
      ((svrAfter env g sv).state = sv.state →
        SvrAccepts env2 (svrNext env g sv rxs) ∧
        (svrAfter env2 g (svrNext env g sv rxs)).nextExpectedBlockNum =
          (sv.nextExpectedBlockNum + 2) % 65536 ∧
        (svrAfter env2 g (svrNext env g sv rxs)).blockNum = (sv.blockNum + 2) % 65536 ∧
        (sv.nextExpectedBlockNum = 65535 →
          (svrAfter env2 g (svrNext env g sv rxs)).nextExpectedBlockNum = 1))) := by
  have a := cl_accept env g cl hcl.2 hcl.1
  have b := svr_accept env g sv hsv.2 hsv.1
  refine ⟨⟨a.1, a.2.1, a.2.2.2.2, ?_, ?_, ?_⟩, ⟨b.1, b.2.1, ?_, ?_, ?_⟩⟩
  · rw [a.2.1]; exact a.2.2.1
  · intro h
    rw [a.1, hrxc.2, h]
    exact ⟨rfl, rfl⟩
  · intro h1
    have c := cl_accept_next env env2 g cl rxc hcl.2 hcl.1 h1 hrxc ⟨he2.1, he2.2.2⟩
    refine ⟨c.1, c.2.2.1, c.2.2.2, fun h => ?_⟩
    rw [c.2.2.1, h]
  · rw [b.2.1]; exact b.2.2.1
  · intro h
    rw [b.1, hrxs.2, h]
    exact ⟨rfl, rfl⟩
  · intro h1
    have c := svr_accept_next env env2 g sv rxs hsv.2 hsv.1 h1 hrxs ⟨he2.2.1, he2.2.2⟩
    refine ⟨c.1, c.2.2.1, c.2.2.2, fun h => ?_⟩
    rw [c.2.2.1, h]

/-- C26, witness: a client in a download and a server in a download, both
expecting number 65535: DATA 65535 is acknowledged with `00 04 ff ff`, the ACK of
65535 is answered with DATA block 0 (`00 03 00 00`), the expected number becomes
0, and the following packet numbered 0 makes it 1. -/
theorem block_numbers_wrap_witness :
    ((clAfter Env.sample Globals.init wrapClient).nextExpectedBlockNum = 0 ∧
      (clAfter Env.sample Globals.init wrapClient).blockNum = 65535 ∧
      (clAfter Env.sample Globals.init wrapClient).sent.map (fun d => d.bytes) =
        [[0, 4, 255, 255]] ∧
      (clAfter Env.sample Globals.init (clNext Env.sample Globals.init wrapClient
        { wrapClient.rxInfo with blocknum := 0 })).nextExpectedBlockNum = 1) ∧
    ((svrAfter Env.sample Globals.init wrapServer).nextExpectedBlockNum = 0 ∧
      (svrAfter Env.sample Globals.init wrapServer).blockNum = 0 ∧
      (svrAfter Env.sample Globals.init wrapServer).sent.map (fun d => d.bytes.take 4) =
        [[0, 3, 0, 0]] ∧
      (svrAfter Env.sample Globals.init (svrNext Env.sample Globals.init wrapServer
        { wrapServer.rxInfo with blocknum := 0 })).nextExpectedBlockNum = 1) := by
  have h := block_numbers_wrap Env.sample Env.sample Globals.init wrapClient wrapServer
    { wrapClient.rxInfo with blocknum := 0 } { wrapServer.rxInfo with blocknum := 0 }
    ⟨⟨rfl, Or.inl ⟨rfl, rfl, Or.inl ⟨rfl, by decide⟩, by decide⟩⟩, by decide⟩
    ⟨⟨rfl, Or.inr ⟨rfl, rfl, by decide⟩⟩, by decide⟩
    ⟨rfl, rfl⟩ ⟨rfl, rfl⟩ ⟨by decide, by decide, by decide⟩
  obtain ⟨⟨c1, c2, -, -, -, c6⟩, ⟨s1, s2, -, -, s5⟩⟩ := h
  refine ⟨⟨c1, c2, by decide, (c6 (by decide)).2.2.2 rfl⟩,
    ⟨s1, s2, by decide, (s5 (by decide)).2.2.2 rfl⟩⟩

/-! ## C27: the timer reports an expiry once -/

/-- C27. `UtilTickTimerRun` returns 0 or 1.  On a timer that is not running (the
zeroed timer that was never started, a timer stopped by `UtilStopTimer`, a timer
that has reported its expiry) every call, at whatever tick readings, returns 0 and
leaves the timer as it is.  When a call returns 1 the timer was running and is
not running afterwards, so all later calls return 0, for every sequence of tick
readings; only `UtilTickTimerStart` and `UtilTickTimerStartMs` set it running
again, and a restarted timer reports again, once the 32-bit tick difference since
the restart reaches its duration. -/
theorem timer_reports_expiry_once (t : tick_timer_t) (tick : Nat) (later : List Nat) :
    ((UtilTickTimerRun tick t).1 = 0 ∨ (UtilTickTimerRun tick t).1 = 1) ∧
    (t.running = 0 →
      timerRuns (tick :: later) t = (List.replicate (later.length + 1) 0, t)) ∧
    ((UtilTickTimerRun tick t).1 = 1 →
      t.running ≠ 0 ∧ (UtilTickTimerRun tick t).2.running = 0 ∧
      timerRuns later (UtilTickTimerRun tick t).2 =
        (List.replicate later.length 0, (UtilTickTimerRun tick t).2)) ∧
    (tick_timer_t.zero.running = 0 ∧ (UtilStopTimer t).running = 0) ∧
    (∀ secs ms tick2,
      (UtilTickTimerStart tick t secs).running = 1 ∧
      (UtilTickTimerStartMs tick t ms).running = 1 ∧
      (UtilTickTimerRun tick2 (UtilTickTimerStart tick t secs)).1 =
        if (secs * 1000) % 2 ^ 32 ≤ (tick2 + (2 ^ 32 - tick % 2 ^ 32)) % 2 ^ 32 then 1 else 0) := by
  refine ⟨UtilTickTimerRun_ret tick t, ?_, ?_, ⟨rfl, rfl⟩, ?_⟩
  · intro h
    exact timerRuns_idle t h (tick :: later)
  · intro h
    have h2 := UtilTickTimerRun_expired tick t h
    exact ⟨h2.1, h2.2, timerRuns_idle _ h2.2 later⟩
  · intro secs ms tick2
    refine ⟨rfl, rfl, ?_⟩
    rw [UtilTickTimerRun_started]
    split <;> rfl

/-- C27, witness: a timer started at tick 1000 for 3 seconds reports at tick 4000
and not at the ticks 5000, 9000 and 100000 read afterwards; the zeroed timer
never reports. -/
theorem timer_reports_expiry_once_witness :
    (UtilTickTimerRun 4000 (UtilTickTimerStart 1000 tick_timer_t.zero 3)).1 = 1 ∧
    (timerRuns [5000, 9000, 100000]
      (UtilTickTimerRun 4000 (UtilTickTimerStart 1000 tick_timer_t.zero 3)).2).1 = [0, 0, 0] ∧
    (timerRuns [4000, 5000] tick_timer_t.zero).1 = [0, 0] := by
  have h := timer_reports_expiry_once (UtilTickTimerStart 1000 tick_timer_t.zero 3) 4000
    [5000, 9000, 100000]
  have h0 := timer_reports_expiry_once tick_timer_t.zero 4000 [5000]
  have e : (UtilTickTimerRun 4000 (UtilTickTimerStart 1000 tick_timer_t.zero 3)).1 = 1 := by
    decide
  refine ⟨e, ?_, ?_⟩
  · rw [(h.2.2.1 e).2.2]
    rfl
  · rw [h0.2.1 rfl]
    rfl

/-! ## C28: a datagram is handled before the ack timer is tested -/

/-- C28. In an iteration of `file_client` or `file_server` with a datagram, the
ack timer is tested on the session as the dispatch of the datagram left it (and
not at all when the client left its loop).  So when that dispatch started the ack
timer `tmr1` at the tick of the iteration, whatever the timer was before, even
expired, no time-out event is dispatched: the iteration ends in the state the
dispatch produced, with nothing retransmitted.  The same holds when the timer
test reads a later tick `env2.tick`, less than 3000 ms after the restart: only
the field `tDiff` of the timer changes. -/
theorem datagram_is_handled_before_timer_test (env env2 : Env) (rc rs : Recv) (c : ClientLoop)
    (s : ServerLoop) (tc ts : tick_timer_t)
    (hc : (cl_on_readable env rc c).ctx.tmr1 = UtilTickTimerStart env.tick tc ACK_TIMEOUT_SECS)
    (hs : (svr_on_readable env rs s).ctx.tmr1 = UtilTickTimerStart env.tick ts ACK_TIMEOUT_SECS)
    (h2 : (env2.tick + (2 ^ 32 - env.tick % 2 ^ 32)) % 2 ^ 32 < 3000) :
    (file_client_iter env (some rc) c =
        (if (cl_on_readable env rc c).left then cl_on_readable env rc c
          else cl_on_timer env (cl_on_readable env rc c)) ∧
      file_client_iter env (some rc) c = cl_on_readable env rc c ∧
      cl_on_timer env2 (cl_on_readable env rc c) =
        { cl_on_readable env rc c with ctx := { (cl_on_readable env rc c).ctx with
            tmr1 := { (cl_on_readable env rc c).ctx.tmr1 with
              tDiff := (env2.tick + (2 ^ 32 - env.tick % 2 ^ 32)) % 2 ^ 32 } } }) ∧
    (file_server_iter env (some rs) s = svr_on_timer env (svr_on_readable env rs s) ∧
      file_server_iter env (some rs) s = svr_on_readable env rs s ∧
      svr_on_timer env2 (svr_on_readable env rs s) =
        { svr_on_readable env rs s with ctx := { (svr_on_readable env rs s).ctx with
            tmr1 := { (svr_on_readable env rs s).ctx.tmr1 with
              tDiff := (env2.tick + (2 ^ 32 - env.tick % 2 ^ 32)) % 2 ^ 32 } } }) := by
  refine ⟨⟨rfl, ?_, cl_on_timer_fresh env env2 _ tc hc h2⟩,
    ⟨rfl, ?_, svr_on_timer_fresh env env2 _ ts hs h2⟩⟩
  · show (if (cl_on_readable env rc c).left then cl_on_readable env rc c
      else cl_on_timer env (cl_on_readable env rc c)) = _
    rw [cl_on_timer_same_tick env _ tc hc]
    split <;> rfl
  · show svr_on_timer env (svr_on_readable env rs s) = _
    exact svr_on_timer_same_tick env _ ts hs

/-- C28, witness: at tick 5000 the ack timers of a client that sent its read
request at tick 1000 and of a server that sent DATA block 1 at tick 1000 have
expired.  In an iteration without a datagram both retransmit.  In an iteration in
which DATA block 1 (512 bytes) reaches the client and the ACK of block 1 reaches
the server, the client only sends its ACK and the server only sends DATA block 2. -/
theorem datagram_is_handled_before_timer_test_witness :
    ((UtilTickTimerRun 5000 getfileLoop.ctx.tmr1).1 = 1 ∧
      (file_client_iter kiloEnvLater none getfileLoop).packets.map (fun p => p.take 4) =
        [[0, 1, 97, 0], [0, 1, 97, 0]] ∧
      (file_client_iter kiloEnvLater (some fullBlock1) getfileLoop).packets.map
        (fun p => p.take 4) = [[0, 4, 0, 1], [0, 1, 97, 0]]) ∧
    ((UtilTickTimerRun 5000 serverAfterRrq.ctx.tmr1).1 = 1 ∧
      (file_server_iter kiloEnvLater none serverAfterRrq).packets.map (fun p => p.take 4) =
        [[0, 3, 0, 1], [0, 3, 0, 1]] ∧
      (file_server_iter kiloEnvLater (some (recvOf (ackPkt 1) 5000)) serverAfterRrq).packets.map
        (fun p => p.take 4) = [[0, 3, 0, 2], [0, 3, 0, 1]]) := by
  have h := datagram_is_handled_before_timer_test kiloEnvLater kiloEnvLater fullBlock1
    (recvOf (ackPkt 1) 5000) getfileLoop serverAfterRrq
    getfileLoop.ctx.tmr1 serverAfterRrq.ctx.tmr1 (by decide) (by decide) (by decide)
  refine ⟨⟨by decide, by decide, ?_⟩, ⟨by decide, by decide, ?_⟩⟩
  · rw [h.1.2.1]
    decide
  · rw [h.2.2.1]
    decide

/-! ## C29: an upload of a file of any length -/

/-- C30, evaluation at the failing input. With `gMaxNumRetransTries = 3`: a
server whose first download saw one time-out and was then ended by a received
ERROR packet (or by a packet with an unexpected opcode) enters
`SVR_ST_GETFILE_TXDATA` for the next read request with `num_retrans_tries = 1`,
and that second session is terminated by its second time-out (state
`SVR_ST_WAIT_FIST_REQUEST`, file closed, last datagram an ERROR packet), whereas
the first session of a server is still in `SVR_ST_GETFILE_TXDATA` after two
time-outs. -/
theorem second_session_inherits_retry_count :
    ((file_server_loop (secondSessionInputs errorDatagram)
        (file_server_start Globals.init 3)).ctx.state = SVR_ST_GETFILE_TXDATA ∧
      (file_server_loop (secondSessionInputs errorDatagram)
        (file_server_start Globals.init 3)).ctx.num_retrans_tries = 1 ∧
      (file_server_loop (secondSessionInputs errorDatagram ++ twoTimeouts 5200)
        (file_server_start Globals.init 3)).ctx.state = SVR_ST_WAIT_FIST_REQUEST ∧
      ((file_server_loop (secondSessionInputs errorDatagram ++ twoTimeouts 5200)
        (file_server_start Globals.init 3)).ctx.sent.head?.map (fun d => d.bytes.take 4)) =
          some [0, 5, 0, 0]) ∧
    ((file_server_loop (secondSessionInputs (dataPkt 1 [1, 2, 3]))
        (file_server_start Globals.init 3)).ctx.state = SVR_ST_GETFILE_TXDATA ∧
      (file_server_loop (secondSessionInputs (dataPkt 1 [1, 2, 3]))
        (file_server_start Globals.init 3)).ctx.num_retrans_tries = 1 ∧
      (file_server_loop (secondSessionInputs (dataPkt 1 [1, 2, 3]) ++ twoTimeouts 5200)
        (file_server_start Globals.init 3)).ctx.state = SVR_ST_WAIT_FIST_REQUEST) ∧
    ((file_server_loop ([(envAt 1000, some (recvOf rrqDatagram 5000))] ++ twoTimeouts 1000)
        (file_server_start Globals.init 3)).ctx.state = SVR_ST_GETFILE_TXDATA ∧
      (file_server_loop ([(envAt 1000, some (recvOf rrqDatagram 5000))] ++ twoTimeouts 1000)
        (file_server_start Globals.init 3)).ctx.num_retrans_tries = 2) := by
  decide

/-! ## C31: the destination of the ERROR packet of the retry-exhaustion abort -/

/-- C31, evaluation at the failing input.  With `gMaxNumRetransTries = 3` and the
server port 69: a client that sent its request to port 69 and never receives a
datagram retransmits the request twice to port 69 (`lastTxPort`) and, at the
third time-out, sets `gDone` and addresses its ERROR packet to port 0, the value
`svrPort` holds while no datagram was received; this holds for `getfile` and for
`putfile`.  After one datagram with a mismatched block number from port 6000 the
retransmissions still go to port 69 and the ERROR packet goes to port 6000. -/
theorem abort_error_goes_to_svrPort :
    (file_client_start Env.sample Globals.init 3 (ascii "10.0.0.1") (ascii "a")
        (ascii "getfile")).map (fun s => (s.ports, s.ctx.remotePort, s.ctx.svrPort)) =
      some ([69], 69, 0) ∧
    ((file_client_loop threeTimeouts getfileLoop).ports = [0, 69, 69, 69] ∧
      (file_client_loop threeTimeouts getfileLoop).packets.map (fun p => p.take 4) =
        [[0, 5, 0, 0], [0, 1, 97, 0], [0, 1, 97, 0], [0, 1, 97, 0]] ∧
      (file_client_loop threeTimeouts getfileLoop).g.gDone = 1 ∧
      (file_client_loop threeTimeouts getfileLoop).ctx.lastTxPort = 69 ∧
      (file_client_loop threeTimeouts getfileLoop).ctx.remotePort = 69) ∧
    ((file_client_loop threeTimeouts putfileLoop).ports = [0, 69, 69, 69] ∧
      (file_client_loop threeTimeouts putfileLoop).packets.map (fun p => p.take 4) =
        [[0, 5, 0, 0], [0, 2, 97, 0], [0, 2, 97, 0], [0, 2, 97, 0]] ∧
      (file_client_loop threeTimeouts putfileLoop).g.gDone = 1 ∧
      (file_client_loop threeTimeouts putfileLoop).ctx.lastTxPort = 69) ∧
    ((file_client_loop ((envAt 1100, some (recvOf (dataPkt 7 [1, 2, 3]) 6000)) :: threeTimeouts)
        getfileLoop).ports = [6000, 69, 69, 69] ∧
      (file_client_loop ((envAt 1100, some (recvOf (dataPkt 7 [1, 2, 3]) 6000)) :: threeTimeouts)
        getfileLoop).packets.map (fun p => p.take 4) =
        [[0, 5, 0, 0], [0, 1, 97, 0], [0, 1, 97, 0], [0, 1, 97, 0]]) := by
  decide

/-! ## C32: packets with another block number leave the retry counter alone -/

/-- Claim C32.  Let `gMaxNumRetransTries` be `envs1.length + envs2.length + 1` and
let a client (download or upload) and a server (upload or download) be in a
transfer state with the retry counter 0, the last datagram sent not an ERROR
packet.  After `envs1.length` time-outs the counter is `envs1.length`; any
number of received DATA/ACK packets whose block number is not
`nextExpectedBlockNum` leave it there (they change `svrPort` / `client_Port`,
`client_ip` and `rxInfo` only, `cl_heard` / `svr_heard`); the next
`envs2.length` time-outs retransmit and the session still runs; one more
time-out ends the session (`gDone = 1` on the client, the state
`SVR_ST_WAIT_FIST_REQUEST` on the server, stream closed).  The datagrams sent in
the whole run are the `envs1.length + envs2.length` retransmissions and one
ERROR packet, the last.  An accepted packet sets the counter to 0. -/
theorem mismatched_packets_keep_retry_count (g : Globals) (envs1 envs2 : List Env) (last : Env)
    (cps : List (Env × Nat × prot_frame_info_t))
    (sps : List (Env × List Nat × Nat × prot_frame_info_t))
    (c : client_session_t) (s : server_session_t)
    (hg : g.gDone = 0)
    (hmax : g.gMaxNumRetransTries = (envs1.length : Int) + envs2.length + 1)
    (hc : (c.state = CL_ST_GETFILE_RXDATA ∨ c.state = CL_ST_PUTFILE_TXDATA) ∧
      c.num_retrans_tries = 0 ∧ c.txBuf.length = MAX_TX_BUFF ∧
      (c.txBuf.take c.txLen).take 2 ≠ [0, TFTP_ERROR])
    (hcps : ∀ p ∈ cps, ClMismatched c p.2.2)
    (hs : (s.state = SVR_ST_PUTFILE_RXDATA ∨ s.state = SVR_ST_GETFILE_TXDATA) ∧
      s.num_retrans_tries = 0 ∧ s.txBuf.length = MAX_TX_BUFF ∧
      (s.txBuf.take s.txLen).take 2 ≠ [0, TFTP_ERROR])
    (hsps : ∀ p ∈ sps, SvrMismatched s p.2.2.2) :
    ((cl_events (clScenario envs1 [] []) (c, g)).1.num_retrans_tries = envs1.length ∧
      cl_events (clScenario envs1 cps []) (c, g) =
        (cl_heard cps (cl_events (clScenario envs1 [] []) (c, g)).1, g) ∧
      (cl_events (clScenario envs1 cps []) (c, g)).1.num_retrans_tries = envs1.length ∧
      ((cl_events (clScenario envs1 cps envs2) (c, g)).2.gDone = 0 ∧
        (cl_events (clScenario envs1 cps envs2) (c, g)).1.sent =
          List.replicate (envs1.length + envs2.length)
            ⟨c.clientSock, c.remoteIpStr, c.lastTxPort, c.txBuf.take c.txLen⟩ ++ c.sent) ∧
      ((cl_events (clScenario envs1 cps envs2 ++ [ClientEvent.timeout last]) (c, g)).2.gDone = 1 ∧
        (∃ e, isErrorDatagram e = true ∧
          (cl_events (clScenario envs1 cps envs2 ++ [ClientEvent.timeout last]) (c, g)).1.sent =
            e :: (List.replicate (envs1.length + envs2.length)
              ⟨c.clientSock, c.remoteIpStr, c.lastTxPort, c.txBuf.take c.txLen⟩ ++ c.sent)) ∧
        (((cl_events (clScenario envs1 cps envs2 ++ [ClientEvent.timeout last]) (c, g)).1.sent.take
          (envs1.length + envs2.length + 1)).filter isErrorDatagram).length = 1 ∧
        (cl_events (clScenario envs1 cps envs2 ++ [ClientEvent.timeout last]) (c, g)).1.pFile =
          none)) ∧
    ((svr_events (svrScenario envs1 [] []) ⟨s, g⟩).ctx.num_retrans_tries = envs1.length ∧
      svr_events (svrScenario envs1 sps []) ⟨s, g⟩ =
        ⟨svr_heard sps (svr_events (svrScenario envs1 [] []) ⟨s, g⟩).ctx, g⟩ ∧
      (svr_events (svrScenario envs1 sps []) ⟨s, g⟩).ctx.num_retrans_tries = envs1.length ∧
      ((svr_events (svrScenario envs1 sps envs2) ⟨s, g⟩).ctx.state = s.state ∧
        (svr_events (svrScenario envs1 sps envs2) ⟨s, g⟩).ctx.sent =
          List.replicate envs2.length
            ⟨s.serverSock, (svr_heard sps s).client_ip, s.lastTxPort, s.txBuf.take s.txLen⟩ ++
          (List.replicate envs1.length
            ⟨s.serverSock, s.client_ip, s.lastTxPort, s.txBuf.take s.txLen⟩ ++ s.sent)) ∧
      ((svr_events (svrScenario envs1 sps envs2 ++ [ServerEvent.timeout last]) ⟨s, g⟩).ctx.state =
          SVR_ST_WAIT_FIST_REQUEST ∧
        (svr_events (svrScenario envs1 sps envs2 ++ [ServerEvent.timeout last]) ⟨s, g⟩).g = g ∧
        (∃ e, isErrorDatagram e = true ∧
          (svr_events (svrScenario envs1 sps envs2 ++ [ServerEvent.timeout last]) ⟨s, g⟩).ctx.sent =
            e :: (List.replicate envs2.length
                ⟨s.serverSock, (svr_heard sps s).client_ip, s.lastTxPort, s.txBuf.take s.txLen⟩ ++
              (List.replicate envs1.length
                ⟨s.serverSock, s.client_ip, s.lastTxPort, s.txBuf.take s.txLen⟩ ++ s.sent))) ∧
        (((svr_events (svrScenario envs1 sps envs2 ++ [ServerEvent.timeout last])
          ⟨s, g⟩).ctx.sent.take (envs1.length + envs2.length + 1)).filter
            isErrorDatagram).length = 1 ∧
        (svr_events (svrScenario envs1 sps envs2 ++ [ServerEvent.timeout last]) ⟨s, g⟩).ctx.pFile =
          none)) ∧
    (∀ (env : Env) (c2 : client_session_t), c2.txBuf.length = MAX_TX_BUFF → ClAccepts env c2 →
      (cl_fsm_event env g c2 EV_CL_PDU_RX).2.1.num_retrans_tries = 0) ∧
    (∀ (env : Env) (s2 : server_session_t), s2.txBuf.length = MAX_TX_BUFF → SvrAccepts env s2 →
      (svr_fsm_event env g s2 EV_SVR_PDU_RX).num_retrans_tries = 0) :=
  ⟨cl_scenario_ends g hg envs1 envs2 last cps c hmax hc.1 hc.2.1 hc.2.2.1 hc.2.2.2 hcps,
    svr_scenario_ends g hg envs1 envs2 last sps s hmax hs.1 hs.2.1 hs.2.2.1 hs.2.2.2 hsps,
    fun env c2 htx h => cl_accept_resets env g c2 htx h,
    fun env s2 htx h => svr_accept_resets env g s2 htx h⟩

/-- Witness of C32: with the default maximum of 3, one time-out, two DATA (ACK)
packets of block 5 from port 6000 while block 6 is expected, then two more
time-outs: the client sets `gDone`, the server returns to the waiting state, and
each has sent two retransmissions and one ERROR packet. -/
theorem mismatched_packets_keep_retry_count_witness :
    (cl_events (clScenario [envAt 4100] [(envAt 4200, 6000, staleDataClient.rxInfo),
        (envAt 4300, 6000, staleDataClient.rxInfo)] [envAt 7200])
      (waitingDataClient, Globals.init)).2.gDone = 0 ∧
    (cl_events (clScenario [envAt 4100] [(envAt 4200, 6000, staleDataClient.rxInfo),
        (envAt 4300, 6000, staleDataClient.rxInfo)] [envAt 7200] ++
        [ClientEvent.timeout (envAt 10300)]) (waitingDataClient, Globals.init)).2.gDone = 1 ∧
    (((cl_events (clScenario [envAt 4100] [(envAt 4200, 6000, staleDataClient.rxInfo),
        (envAt 4300, 6000, staleDataClient.rxInfo)] [envAt 7200] ++
        [ClientEvent.timeout (envAt 10300)]) (waitingDataClient, Globals.init)).1.sent.take
          ([envAt 4100].length + [envAt 7200].length + 1)).filter isErrorDatagram).length = 1 ∧
    (svr_events (svrScenario [envAt 4100] [(envAt 4200, [], 6000, staleAckServer.rxInfo),
        (envAt 4300, [], 6000, staleAckServer.rxInfo)] [envAt 7200] ++
        [ServerEvent.timeout (envAt 10300)]) ⟨waitingAckServer, Globals.init⟩).ctx.state =
      SVR_ST_WAIT_FIST_REQUEST :=
  have h := mismatched_packets_keep_retry_count Globals.init [envAt 4100] [envAt 7200]
    (envAt 10300)
    [(envAt 4200, 6000, staleDataClient.rxInfo), (envAt 4300, 6000, staleDataClient.rxInfo)]
    [(envAt 4200, [], 6000, staleAckServer.rxInfo), (envAt 4300, [], 6000, staleAckServer.rxInfo)]
    waitingDataClient waitingAckServer (by decide) (by decide) (by decide) (by decide)
    (by decide) (by decide)
  ⟨h.1.2.2.2.1.1, h.1.2.2.2.2.1, h.1.2.2.2.2.2.2.1, h.2.1.2.2.2.2.1⟩

/-- Claim C33.  A running timer started at the tick `s` and tested at the tick
`n`, both readings of the 32-bit millisecond counter: `UtilTickTimerRun` returns
1 exactly when `(n - s) mod 2^32` is at least the time-out, it records that
difference in `tDiff`, and it stops the timer exactly when it returns 1;
`UtilTickTimerStart` with `secs` seconds stores the start tick, the time-out
`(secs * 1000) mod 2^32` and sets the timer running.  For two readings `c1 ≤ c2`
of the monotonic clock the recorded difference is `(c2 - c1) mod 2^32`, whether
or not the counter wrapped in between. -/
theorem timer_arithmetic_is_modular (s n : Nat) (hs : s < 2 ^ 32) (hn : n < 2 ^ 32)
    (tm : tick_timer_t) (hrun : tm.running ≠ 0) (hst : tm.tStart = s) :
    ((UtilTickTimerRun n tm).1 = 1 ↔ ((n : Int) - (s : Int)) % 2 ^ 32 ≥ (tm.tTimeout : Int)) ∧
    ((UtilTickTimerRun n tm).1 = 1 ∨ (UtilTickTimerRun n tm).1 = 0) ∧
    (((UtilTickTimerRun n tm).2.tDiff : Nat) : Int) = ((n : Int) - (s : Int)) % 2 ^ 32 ∧
    ((UtilTickTimerRun n tm).2.running = 0 ↔ (UtilTickTimerRun n tm).1 = 1) ∧
    (UtilTickTimerRun n tm).2.tStart = s ∧
    (UtilTickTimerRun n tm).2.tTimeout = tm.tTimeout ∧
    (∀ (t0 : tick_timer_t) (secs : Nat),
      UtilTickTimerStart s t0 secs =
        { tStart := s, tTimeout := (secs * 1000) % 2 ^ 32, tDiff := 0, running := 1 }) ∧
    (∀ (t0 : tick_timer_t) (ms c1 c2 : Nat), c1 ≤ c2 →
      (UtilTickTimerRun (get_tick_count c2)
        (UtilTickTimerStartMs (get_tick_count c1) t0 ms)).2.tDiff = (c2 - c1) % 2 ^ 32 ∧
      ((UtilTickTimerRun (get_tick_count c2)
        (UtilTickTimerStartMs (get_tick_count c1) t0 ms)).1 = 1 ↔ ms ≤ (c2 - c1) % 2 ^ 32)) := by
  subst hst
  have hd := tick_diff_int tm.tStart n hs
  have hr := UtilTickTimerRun_running n tm hrun
  have _hn := hn
  by_cases hc : tm.tTimeout ≤ (n + (2 ^ 32 - tm.tStart % 2 ^ 32)) % 2 ^ 32
  · rw [if_pos hc] at hr
    have hci : (tm.tTimeout : Int) ≤ ((n : Int) - (tm.tStart : Int)) % 2 ^ 32 := by
      rw [← hd]; exact Int.ofNat_le.mpr hc
    rw [hr]
    refine ⟨⟨fun _ => hci, fun _ => rfl⟩, Or.inl rfl, hd, ⟨fun _ => rfl, fun _ => rfl⟩, rfl, rfl,
      fun _ _ => rfl, ?_⟩
    intro t0 ms c1 c2 h
    have hk := tick_diff_clock c1 c2 h
    have hr2 := UtilTickTimerRun_running (get_tick_count c2)
      (UtilTickTimerStartMs (get_tick_count c1) t0 ms) Nat.one_ne_zero
    simp only [UtilTickTimerStartMs, get_tick_count] at hr2 ⊢
    rw [hk] at hr2
    rw [hr2]
    by_cases hm : ms ≤ (c2 - c1) % 2 ^ 32
    · rw [if_pos hm]; exact ⟨rfl, fun _ => hm, fun _ => rfl⟩
    · rw [if_neg hm]; exact ⟨rfl, fun h0 => absurd h0 Nat.zero_ne_one, fun h0 => absurd h0 hm⟩
  · rw [if_neg hc] at hr
    have hci : ¬ (tm.tTimeout : Int) ≤ ((n : Int) - (tm.tStart : Int)) % 2 ^ 32 := by
      rw [← hd]; exact fun h => hc (Int.ofNat_le.mp h)
    rw [hr]
    refine ⟨⟨fun h0 => absurd h0 Nat.zero_ne_one, fun h0 => absurd h0 hci⟩, Or.inr rfl, hd,
      ⟨fun h0 => absurd h0 hrun, fun h0 => absurd h0 Nat.zero_ne_one⟩, rfl, rfl, fun _ _ => rfl, ?_⟩
    intro t0 ms c1 c2 h
    have hk := tick_diff_clock c1 c2 h
    have hr2 := UtilTickTimerRun_running (get_tick_count c2)
      (UtilTickTimerStartMs (get_tick_count c1) t0 ms) Nat.one_ne_zero
    simp only [UtilTickTimerStartMs, get_tick_count] at hr2 ⊢
    rw [hk] at hr2
    rw [hr2]
    by_cases hm : ms ≤ (c2 - c1) % 2 ^ 32
    · rw [if_pos hm]; exact ⟨rfl, fun _ => hm, fun _ => rfl⟩
    · rw [if_neg hm]; exact ⟨rfl, fun h0 => absurd h0 Nat.zero_ne_one, fun h0 => absurd h0 hm⟩

/-- Witness of C33: a timer of 3 seconds started 1000 ms before the counter
wraps and tested at the tick 2500, that is 3500 ms later, has expired. -/
theorem timer_arithmetic_is_modular_witness :
    (4294966296 < 2 ^ 32 ∧ 2500 < 2 ^ 32) ∧
    (UtilTickTimerRun 2500 (UtilTickTimerStart 4294966296 ⟨0, 0, 0, 0⟩ 3)).1 = 1 ∧
    (UtilTickTimerRun 2500 (UtilTickTimerStart 4294966296 ⟨0, 0, 0, 0⟩ 3)).2.running = 0 ∧
    (UtilTickTimerRun 2500 (UtilTickTimerStart 4294966296 ⟨0, 0, 0, 0⟩ 3)).2.tDiff = 3500 :=
  have h := timer_arithmetic_is_modular 4294966296 2500 (by decide) (by decide)
    (UtilTickTimerStart 4294966296 ⟨0, 0, 0, 0⟩ 3) (by decide) rfl
  have h1 := h.1.mpr (by decide)
  ⟨⟨by decide, by decide⟩, h1, h.2.2.2.1.mpr h1, by decide⟩

/-! ## C34: the encoders stay inside the transmit buffer -/

/-- Claim C34.  The list `txBuf` of a session may have any length: its first
`MAX_TX_BUFF` = 600 bytes are the array and the bytes from index 600 on the
memory behind it, so a store at an index of 600 or more changes the list.  For a
file name, an error message and a file chunk of at most 512 bytes the request,
ERROR, ACK and DATA encoders leave every byte from index 600 on as it was
(`TxKept`), the buffer they leave is the result of the stores listed in
`requestStores`, `errorStores`, `ackStores`, `dataStores`, `firstDataStores`,
all of them at indices below 600 (`StoresInTxBuf`), and `txLen` is at most 600
afterwards.  The same frame holds for every handler of the two state machines at
every event, whatever path it takes.  For a file name or message longer than 512
bytes `send_first_request`, `cl_send_error_pkt` and `svr_send_error_pkt` return 0
and leave the session, buffer included, as it was. -/
theorem encoders_stay_in_txBuf (env : Env) (g : Globals) (c : client_session_t)
    (s : server_session_t) (operationStr filename errMsg : List Nat) (errCode : Nat) :
    (strlen filename ≤ PROT_MAX_DATA →
      StoresInTxBuf (requestStores (requestOpcode operationStr) filename) ∧
      (send_first_request env g c operationStr filename).2.txBuf =
        applyStores c.txBuf (requestStores (requestOpcode operationStr) filename) ∧
      TxKept c.txBuf c.txLen (send_first_request env g c operationStr filename).2.txBuf
        (send_first_request env g c operationStr filename).2.txLen ∧
      (send_first_request env g c operationStr filename).2.txLen ≤ MAX_TX_BUFF) ∧
    (strlen filename > PROT_MAX_DATA →
      send_first_request env g c operationStr filename = (0, c)) ∧
    (strlen errMsg ≤ PROT_MAX_DATA →
      StoresInTxBuf (errorStores errCode errMsg) ∧
      ((cl_send_error_pkt env c errCode errMsg).2.txBuf =
          applyStores c.txBuf (errorStores errCode errMsg) ∧
        TxKept c.txBuf c.txLen (cl_send_error_pkt env c errCode errMsg).2.txBuf
          (cl_send_error_pkt env c errCode errMsg).2.txLen ∧
        (cl_send_error_pkt env c errCode errMsg).2.txLen ≤ MAX_TX_BUFF) ∧
      ((svr_send_error_pkt env s errCode errMsg).2.txBuf =
          applyStores s.txBuf (errorStores errCode errMsg) ∧
        TxKept s.txBuf s.txLen (svr_send_error_pkt env s errCode errMsg).2.txBuf
          (svr_send_error_pkt env s errCode errMsg).2.txLen ∧
        (svr_send_error_pkt env s errCode errMsg).2.txLen ≤ MAX_TX_BUFF)) ∧
    (strlen errMsg > PROT_MAX_DATA →
      cl_send_error_pkt env c errCode errMsg = (0, c) ∧
      svr_send_error_pkt env s errCode errMsg = (0, s)) ∧
    ((StoresInTxBuf (ackStores c.blockNum) ∧
        (cl_send_ack env c).2.txBuf = applyStores c.txBuf (ackStores c.blockNum) ∧
        TxKept c.txBuf c.txLen (cl_send_ack env c).2.txBuf (cl_send_ack env c).2.txLen ∧
        (cl_send_ack env c).2.txLen = 4) ∧
      (StoresInTxBuf (ackStores s.blockNum) ∧
        (svr_send_ack env s).2.txBuf = applyStores s.txBuf (ackStores s.blockNum) ∧
        TxKept s.txBuf s.txLen (svr_send_ack env s).2.txBuf (svr_send_ack env s).2.txLen ∧
        (svr_send_ack env s).2.txLen = 4)) ∧
    (∀ (b : Nat) (chunk : List Nat), chunk.length ≤ PROT_MAX_DATA →
      StoresInTxBuf (dataStores b chunk) ∧ StoresInTxBuf (firstDataStores b chunk) ∧
      (4 + chunk.length) % 65536 ≤ MAX_TX_BUFF) ∧
    (c.rxInfo.optcode = TFTP_ACK → c.rxInfo.blocknum = c.nextExpectedBlockNum →
      ¬ ((fread c.pFile PROT_MAX_DATA).1.length = 0 ∧ c.isFirstDataBlock = 0 ∧
        (c.txLen : Int) - 4 < PROT_MAX_DATA) →
      0 ≤ env.sendRc →
      StoresInTxBuf (dataStores ((c.blockNum + 1) % 65536) (fread c.pFile PROT_MAX_DATA).1) ∧
      (cl_putfile_txData env g c EV_CL_PDU_RX).2.1.txBuf =
        applyStores c.txBuf
          (dataStores ((c.blockNum + 1) % 65536) (fread c.pFile PROT_MAX_DATA).1) ∧
      (cl_putfile_txData env g c EV_CL_PDU_RX).2.1.txLen ≤ MAX_TX_BUFF) ∧
    (s.rxInfo.optcode = TFTP_ACK → s.rxInfo.blocknum = s.nextExpectedBlockNum →
      ¬ ((fread s.pFile PROT_MAX_DATA).1.length = 0 ∧ (s.txLen : Int) - 4 < PROT_MAX_DATA) →
      0 ≤ env.sendRc →
      StoresInTxBuf (dataStores ((s.blockNum + 1) % 65536) (fread s.pFile PROT_MAX_DATA).1) ∧
      (svr_getfile_txData env g s EV_SVR_PDU_RX).txBuf =
        applyStores s.txBuf
          (dataStores ((s.blockNum + 1) % 65536) (fread s.pFile PROT_MAX_DATA).1) ∧
      (svr_getfile_txData env g s EV_SVR_PDU_RX).txLen ≤ MAX_TX_BUFF) ∧
    (∀ content : List Nat, s.rxInfo.optcode = TFTP_RRQ →
      env.fopenRead (cstr s.rxInfo.filename) = some content → 0 ≤ env.sendRc →
      StoresInTxBuf (firstDataStores 1 (blockOf content 0)) ∧
      (svr_wait_first_request env g s EV_SVR_PDU_RX).txBuf =
        applyStores s.txBuf (firstDataStores 1 (blockOf content 0)) ∧
      (svr_wait_first_request env g s EV_SVR_PDU_RX).txLen ≤ MAX_TX_BUFF) ∧
    (∀ ev : Nat,
      TxKept c.txBuf c.txLen (cl_getfile_rxData env g c ev).2.1.txBuf
        (cl_getfile_rxData env g c ev).2.1.txLen ∧
      TxKept c.txBuf c.txLen (cl_putfile_txData env g c ev).2.1.txBuf
        (cl_putfile_txData env g c ev).2.1.txLen ∧
      TxKept c.txBuf c.txLen (cl_fsm_event env g c ev).2.1.txBuf
        (cl_fsm_event env g c ev).2.1.txLen ∧
      TxKept s.txBuf s.txLen (svr_wait_first_request env g s ev).txBuf
        (svr_wait_first_request env g s ev).txLen ∧
      TxKept s.txBuf s.txLen (svr_getfile_txData env g s ev).txBuf
        (svr_getfile_txData env g s ev).txLen ∧
      TxKept s.txBuf s.txLen (svr_putfile_rxData env g s ev).txBuf
        (svr_putfile_rxData env g s ev).txLen ∧
      TxKept s.txBuf s.txLen (svr_fsm_event env g s ev).txBuf
        (svr_fsm_event env g s ev).txLen) := by
  have hfr := fread_length_le c.pFile PROT_MAX_DATA
  have hfs := fread_length_le s.pFile PROT_MAX_DATA
  have hdl : ∀ chunk : List Nat, chunk.length ≤ PROT_MAX_DATA →
      (4 + chunk.length) % 65536 ≤ MAX_TX_BUFF := by
    intro chunk hl
    unfold PROT_MAX_DATA at hl
    unfold MAX_TX_BUFF
    omega
  refine ⟨fun hf => ?_, fun hf => send_first_request_long env g c operationStr filename hf,
    fun hm => ?_, fun hm => ⟨cl_send_error_pkt_long env c errCode errMsg hm,
      svr_send_error_pkt_long env s errCode errMsg hm⟩, ?_, fun b chunk hl => ?_,
    fun hop hb hgo hrc => ?_, fun hop hb hgo hrc => ?_, fun content hop hopen hrc => ?_,
    fun ev => ⟨cl_getfile_rxData_txKept env g c ev, cl_putfile_txData_txKept env g c ev,
      cl_fsm_event_txKept env g c ev, svr_wait_first_request_txKept env g s ev,
      svr_getfile_txData_txKept env g s ev, svr_putfile_rxData_txKept env g s ev,
      svr_fsm_event_txKept env g s ev⟩⟩
  · have h := send_first_request_stores env g c operationStr filename hf
    refine ⟨requestStores_bound _ filename hf, h.1, ?_, ?_⟩
    · rw [h.1, h.2]
      exact TxKept_request c.txBuf c.txLen _ filename hf
    · rw [h.2]
      unfold PROT_MAX_DATA at hf
      unfold MAX_TX_BUFF
      omega
  · have hl := errTxLen_bound errMsg hm
    rw [cl_send_error_pkt_form env c errCode errMsg hm,
      svr_send_error_pkt_form env s errCode errMsg hm]
    exact ⟨errorStores_bound errCode errMsg hm,
      ⟨errTxBuf_stores _ _ _, TxKept_err _ _ _ _ hm, hl.2⟩,
      ⟨errTxBuf_stores _ _ _, TxKept_err _ _ _ _ hm, hl.2⟩⟩
  · rw [cl_send_ack_form, svr_send_ack_form]
    exact ⟨⟨ackStores_bound _, rfl, TxKept_ack _ _ _, rfl⟩,
      ⟨ackStores_bound _, rfl, TxKept_ack _ _ _, rfl⟩⟩
  · exact ⟨dataStores_bound b chunk hl, firstDataStores_bound b chunk hl, hdl chunk hl⟩
  · have h := cl_putfile_txData_buf env g c hop hb hgo hrc
    refine ⟨dataStores_bound _ _ hfr, h.1.trans (dataTxBuf_stores _ _ _), ?_⟩
    rw [h.2]
    exact hdl _ hfr
  · have h := svr_getfile_txData_buf env g s hop hb hgo hrc
    refine ⟨dataStores_bound _ _ hfs, h.1.trans (dataTxBuf_stores _ _ _), ?_⟩
    rw [h.2]
    exact hdl _ hfs
  · have hbl : (blockOf content 0).length ≤ PROT_MAX_DATA := by
      rw [blockOf_length]; exact Nat.min_le_left _ _
    have h := svr_wait_first_request_buf env g s content hop hopen hrc
    refine ⟨firstDataStores_bound _ _ hbl, h.1.trans (firstDataTxBuf_stores _ _ _), ?_⟩
    rw [h.2]
    exact hdl _ hbl

/-- Witness of C34, on sessions whose list `txBuf` holds 100 bytes of the memory
behind the array: the request for the file `a`, the ERROR `file not found`, the
DATA block of 512 bytes of an upload and of a download leave the byte at index
650 as it was and `txLen` at most 600; a file name of 513 bytes is refused. -/
theorem encoders_stay_in_txBuf_witness :
    ((send_first_request Env.sample Globals.init longBufClient (ascii "getfile")
          (ascii "a")).2.txBuf[650]? = longBufClient.txBuf[650]? ∧
      (send_first_request Env.sample Globals.init longBufClient (ascii "getfile")
          (ascii "a")).2.txLen ≤ MAX_TX_BUFF) ∧
    ((cl_send_error_pkt Env.sample longBufClient 1 (ascii "file not found")).2.txBuf[650]? =
        longBufClient.txBuf[650]? ∧
      (cl_send_error_pkt Env.sample longBufClient 1 (ascii "file not found")).2.txLen ≤
        MAX_TX_BUFF) ∧
    ((cl_putfile_txData Env.sample Globals.init longBufClient EV_CL_PDU_RX).2.1.txBuf[650]? =
        longBufClient.txBuf[650]? ∧
      (cl_putfile_txData Env.sample Globals.init longBufClient EV_CL_PDU_RX).2.1.txLen ≤
        MAX_TX_BUFF) ∧
    (svr_getfile_txData Env.sample Globals.init longBufServer EV_SVR_PDU_RX).txBuf[650]? =
      longBufServer.txBuf[650]? ∧
    send_first_request Env.sample Globals.init longBufClient (ascii "getfile")
      (List.replicate 513 97) = (0, longBufClient) :=
  have h := encoders_stay_in_txBuf Env.sample Globals.init longBufClient longBufServer
    (ascii "getfile") (ascii "a") (ascii "file not found") 1
  have h2 := encoders_stay_in_txBuf Env.sample Globals.init longBufClient longBufServer
    (ascii "getfile") (List.replicate 513 97) (ascii "file not found") 1
  ⟨⟨(h.1 (by decide)).2.2.1.2.1 650 (by decide), (h.1 (by decide)).2.2.2⟩,
    ⟨(h.2.2.1 (by decide)).2.1.2.1.2.1 650 (by decide), (h.2.2.1 (by decide)).2.1.2.2⟩,
    ⟨(h.2.2.2.2.2.2.2.2.2 EV_CL_PDU_RX).2.1.2.1 650 (by decide),
      (h.2.2.2.2.2.2.1 (by decide) (by decide) (by decide) (by decide)).2.2⟩,
    (h.2.2.2.2.2.2.2.2.2 EV_SVR_PDU_RX).2.2.2.2.1.2.1 650 (by decide),
    h2.2.1 (by decide)⟩

end TFTP
